import Mathlib

/-!
# RV32I simulator: a shallow embedding of the C++ sources

The definitions below follow `memory.cpp`, `registerfile.cpp`, `rv32i_decode.cpp`,
`rv32i_hart.cpp`, `hex.cpp` and `cpu_single_hart.cpp` function by function and keep their
names.

Conventions of the embedding:

* `uint8_t`, `uint16_t`, `uint32_t`, `uint64_t` values are natural numbers; every C++
  conversion to one of these types is an explicit `% 2^w` (`u8`, `u16`, `u32`, `u64`).
* `int8_t`, `int16_t`, `int32_t` values are integers; every C++ conversion to one of
  these types is an explicit two's-complement wrap (`i8`, `i16`, `i32`).  Signed
  arithmetic is taken to wrap the same way.
* A function parameter of a fixed-width type is assumed to be in range: the conversion
  is written where the C++ performs it (at the initialisation or at the call).
* Text written to `std::cout` is a list of `Out` events.
* An access the C++ leaves undefined (`v[i]` past the end of a `std::vector`) and an
  uncaught `std::out_of_range` (`v.at(i)` past the end) are `Fault`s: the computation
  has no result.
-/

namespace RV32I

/-! ## Simulation results: faults and console output -/

/-- The two ways a vector access can go wrong. -/
inductive Fault where
  /-- Subscript `v[i]` with `i ≥ v.size()`: undefined behaviour. -/
  | undefined_subscript
  /-- Call `v.at(i)` with `i ≥ v.size()`: `std::out_of_range` is thrown and not caught. -/
  | out_of_range
  deriving DecidableEq, Repr

/-- Pieces of text written to standard output.  The wording of a trace line is not part
of the embedding: a trace is recorded as one event. -/
inductive Out where
  /-- The line `WARNING: Address out of range: 0x........` for the given address. -/
  | warning (addr : Nat)
  /-- The text an executor writes to its sink for the instruction it executes. -/
  | trace
  /-- The `std::endl` that `tick` writes after a trace. -/
  | endl
  /-- The register dump of `registerfile::dump`: the 32 values printed. -/
  | register_dump (values : List Int)
  /-- The line with the program counter that follows a register dump. -/
  | pc_line (pc : Nat)
  /-- The line `Execution terminated. Reason: ` followed by the halt reason. -/
  | terminated (reason : String)
  /-- The line with the instruction count, followed by ` instructions executed`. -/
  | executed (count : Nat)
  deriving DecidableEq, Repr

/-- A computation that either faults or returns a value with the output it wrote. -/
def Sim (α : Type) : Type := Except Fault (α × List Out)

/-- A computation that returns without writing anything. -/
def Sim.ret {α : Type} (a : α) : Sim α := Except.ok (a, [])

/-- Sequencing: outputs are appended in program order, a fault aborts. -/
def Sim.andThen {α β : Type} (x : Sim α) (f : α → Sim β) : Sim β :=
  match x with
  | Except.error e => Except.error e
  | Except.ok (a, o₁) =>
    match f a with
    | Except.error e => Except.error e
    | Except.ok (b, o₂) => Except.ok (b, o₁ ++ o₂)

/-- Write one line to standard output. -/
def Sim.emit (o : Out) : Sim Unit := Except.ok ((), [o])

/-- Abort with a fault. -/
def Sim.fault {α : Type} (e : Fault) : Sim α := Except.error e

instance : Monad Sim where
  pure := Sim.ret
  bind := Sim.andThen

/-! ## Fixed-width conversions -/

/-- Conversion to `uint8_t`. -/
def u8 (x : Int) : Nat := (x % 256).toNat

/-- Conversion to `uint16_t`. -/
def u16 (x : Int) : Nat := (x % 65536).toNat

/-- Conversion to `uint32_t`. -/
def u32 (x : Int) : Nat := (x % 4294967296).toNat

/-- Conversion to `uint64_t`. -/
def u64 (x : Int) : Nat := (x % 18446744073709551616).toNat

/-- Conversion to `int8_t` (two's complement). -/
def i8 (x : Int) : Int := if x % 256 < 128 then x % 256 else x % 256 - 256

/-- Conversion to `int16_t` (two's complement). -/
def i16 (x : Int) : Int := if x % 65536 < 32768 then x % 65536 else x % 65536 - 65536

/-- Conversion to `int32_t` (two's complement). -/
def i32 (x : Int) : Int :=
  if x % 4294967296 < 2147483648 then x % 4294967296 else x % 4294967296 - 4294967296

/-! ## memory.cpp -/

/-- The class `memory`: its only data member is `std::vector<uint8_t> mem`. -/
structure memory where
  mem : List Nat
  deriving DecidableEq, Repr

namespace memory

/-- The constructor `memory::memory(uint32_t siz)`:
`siz = (siz+15)&0xfffffff0; mem.resize(siz, 0xa5);` with `uint32_t` arithmetic. -/
def new (siz : Nat) : memory :=
  let siz := ((siz + 15) % 4294967296) &&& 0xfffffff0
  { mem := List.replicate siz 0xa5 }

/-- The method `memory::check_illegal`: `if (i > mem.size())` warn and return true. -/
def check_illegal (m : memory) (i : Nat) : Sim Bool :=
  if i > m.mem.length then do
    Sim.emit (Out.warning i)
    pure true
  else
    pure false

/-- The method `memory::get_size`: `return mem.size();` as `uint32_t`. -/
def get_size (m : memory) : Nat := m.mem.length % 4294967296

/-- The method `memory::get8`: 0 if `check_illegal(addr)`, else `mem[addr]`. -/
def get8 (m : memory) (addr : Nat) : Sim Nat := do
  if (← m.check_illegal addr) then
    pure 0
  else
    match m.mem[addr]? with
    | some b => pure b
    | none => Sim.fault Fault.undefined_subscript

/-- The method `memory::get16`: two `get8` calls, `(second << 8) | first`. -/
def get16 (m : memory) (addr : Nat) : Sim Nat := do
  let first ← m.get8 addr
  let addr := (addr + 1) % 4294967296
  let second ← m.get8 addr
  let combined := ((second <<< 8) ||| first) % 65536
  pure combined

/-- The method `memory::get32`: two `get16` calls, `(second << 16) | first`. -/
def get32 (m : memory) (addr : Nat) : Sim Nat := do
  let first ← m.get16 addr
  let addr := (addr + 2) % 4294967296
  let second ← m.get16 addr
  let combined := ((second <<< 16) ||| first) % 4294967296
  pure combined

/-- The method `memory::get8_sx`: `get8` shifted left then right by 24 as `int32_t`. -/
def get8_sx (m : memory) (addr : Nat) : Sim Int := do
  let extendEight : Int := ↑(← m.get8 addr)
  let extendEight := i32 (extendEight * 2 ^ 24)
  let extendEight := extendEight >>> 24
  pure extendEight

/-- The method `memory::get16_sx`: `get16` shifted left then right by 16 as `int32_t`. -/
def get16_sx (m : memory) (addr : Nat) : Sim Int := do
  let extendSixteen : Int := ↑(← m.get16 addr)
  let extendSixteen := i32 (extendSixteen * 2 ^ 16)
  let extendSixteen := extendSixteen >>> 16
  pure extendSixteen

/-- The method `memory::get32_sx`: `return get32(addr);` converted to `int32_t`. -/
def get32_sx (m : memory) (addr : Nat) : Sim Int := do
  pure (i32 ↑(← m.get32 addr))

/-- The method `memory::set8`: nothing if `check_illegal(addr)`, else `mem.at(addr) = val`. -/
def set8 (m : memory) (addr : Nat) (val : Nat) : Sim memory := do
  if (← m.check_illegal addr) then
    pure m
  else if addr < m.mem.length then
    pure { mem := m.mem.set addr val }
  else
    Sim.fault Fault.out_of_range

/-- The method `memory::set16`: `set8(addr, (uint8_t) val); set8(addr+1, (uint8_t)(val >> 8));`. -/
def set16 (m : memory) (addr : Nat) (val : Nat) : Sim memory := do
  let first := val % 256
  let m ← m.set8 addr first
  let second := (val >>> 8) % 256
  m.set8 ((addr + 1) % 4294967296) second

/-- The method `memory::set32`:
`set16(addr, (uint16_t) val); set16(addr+2, (uint16_t)(val >> 16));`. -/
def set32 (m : memory) (addr : Nat) (val : Nat) : Sim memory := do
  let first := val % 65536
  let m ← m.set16 addr first
  let second := (val >>> 16) % 65536
  m.set16 ((addr + 2) % 4294967296) second

end memory

/-! ## registerfile.cpp -/

/-- The class `registerfile`: its only data member is `std::vector<int32_t> regVec`. -/
structure registerfile where
  regVec : List Int
  deriving DecidableEq, Repr

namespace registerfile

/-- The constructor `registerfile::registerfile()`:
`regVec.clear(); regVec.resize(32, 0xf0f0f0f0); regVec.at(0)=0x00000000;`. -/
def new : registerfile :=
  { regVec := (List.replicate 32 (i32 0xf0f0f0f0)).set 0 0 }

/-- The method `registerfile::reset`: its body is the expression statement `registerfile();`,
which constructs a temporary register file and discards it; the object itself is not
touched. -/
def reset (rf : registerfile) : registerfile :=
  let _temporary := registerfile.new
  rf

/-- The method `registerfile::set`: `if (r != 0) regVec.at(r) = val;`. -/
def set (rf : registerfile) (r : Nat) (val : Int) : Sim registerfile :=
  if r != 0 then
    if r < rf.regVec.length then
      pure { regVec := rf.regVec.set r val }
    else
      Sim.fault Fault.out_of_range
  else
    pure rf

/-- The method `registerfile::get`: `if (r == 0) return 0; else return regVec[r];`. -/
def get (rf : registerfile) (r : Nat) : Sim Int :=
  if r == 0 then
    pure 0
  else
    match rf.regVec[r]? with
    | some v => pure v
    | none => Sim.fault Fault.undefined_subscript

end registerfile

/-! ## rv32i_decode.cpp: field extraction -/

namespace rv32i_decode

/-- Modelled from the spec: the value of the constant `XLEN` of the header
`rv32i_decode.h`, which is not among the sources; the register width of RV32I. -/
def XLEN : Nat := 32

/-- Modelled from the spec: whether `XLEN` is declared in `rv32i_decode.h` with a signed
type (`int`) rather than `uint32_t`.  The header is not among the sources; the spec notes
that the shift amount shown, `imm_i % 32`, and the amount executed, `imm_i & 0x1F`, differ
in sign representation, which is so for a signed `XLEN` only. -/
def XLEN_signed : Bool := true

/-- The expression `imm_i % XLEN` for the `int32_t` value `imm_i`, passed on as an
`int32_t`.  With a signed `XLEN` it is the remainder of the signed division (truncated
towards zero, the sign of `imm_i`); with a `uint32_t` `XLEN` the left operand is converted
to `uint32_t` and the remainder is unsigned. -/
def shown_shamt (xlen_signed : Bool) (imm_i : Int) : Int :=
  if xlen_signed then Int.tmod imm_i ↑XLEN else i32 ↑(u32 imm_i % XLEN)

/-- Modelled from the spec: opcode constant of `rv32i_decode.h` (LUI is opcode 0x37). -/
def opcode_lui : Nat := 0x37
/-- Modelled from the spec: opcode constant of `rv32i_decode.h` (AUIPC is opcode 0x17). -/
def opcode_auipc : Nat := 0x17
/-- Modelled from the spec: opcode constant of `rv32i_decode.h` (JAL is opcode 0x6F). -/
def opcode_jal : Nat := 0x6f
/-- Modelled from the spec: opcode constant of `rv32i_decode.h` (JALR is opcode 0x67). -/
def opcode_jalr : Nat := 0x67
/-- Modelled from the spec: opcode constant of `rv32i_decode.h` (B-type is opcode 0x63). -/
def opcode_btype : Nat := 0x63
/-- Modelled from the spec: opcode constant of `rv32i_decode.h` (loads are opcode 0x03). -/
def opcode_load_imm : Nat := 0x03
/-- Modelled from the spec: opcode constant of `rv32i_decode.h` (stores are opcode 0x23). -/
def opcode_stype : Nat := 0x23
/-- Modelled from the spec: opcode constant of `rv32i_decode.h` (ALU-imm is opcode 0x13). -/
def opcode_alu_imm : Nat := 0x13
/-- Modelled from the spec: opcode constant of `rv32i_decode.h` (R-type is opcode 0x33). -/
def opcode_rtype : Nat := 0x33
/-- Modelled from the spec: opcode constant of `rv32i_decode.h` (SYSTEM is opcode 0x73). -/
def opcode_system : Nat := 0x73

/-- Modelled from the spec: funct3 constants of `rv32i_decode.h`; BEQ, BNE, BLT, BGE, BLTU,
BGEU are funct3 0, 1, 4, 5, 6, 7. -/
def funct3_beq : Nat := 0
def funct3_bne : Nat := 1
def funct3_blt : Nat := 4
def funct3_bge : Nat := 5
def funct3_bltu : Nat := 6
def funct3_bgeu : Nat := 7

/-- Modelled from the spec: funct3 constants of `rv32i_decode.h`; LB, LH, LW, LBU, LHU are
funct3 0, 1, 2, 4, 5. -/
def funct3_lb : Nat := 0
def funct3_lh : Nat := 1
def funct3_lw : Nat := 2
def funct3_lbu : Nat := 4
def funct3_lhu : Nat := 5

/-- Modelled from the spec: funct3 constants of `rv32i_decode.h`; SB, SH, SW are funct3
0, 1, 2. -/
def funct3_sb : Nat := 0
def funct3_sh : Nat := 1
def funct3_sw : Nat := 2

/-- Modelled from the spec: funct3 constants of `rv32i_decode.h`, shared by ALU-imm and
R-type; ADD/SUB, SLL, SLT, SLTU, XOR, SRL/SRA, OR, AND are funct3 0 to 7. -/
def funct3_add : Nat := 0
def funct3_sll : Nat := 1
def funct3_slt : Nat := 2
def funct3_sltu : Nat := 3
def funct3_xor : Nat := 4
def funct3_srx : Nat := 5
def funct3_or : Nat := 6
def funct3_and : Nat := 7

/-- Modelled from the spec: funct7 constants of `rv32i_decode.h`; ADD and SRL are funct7
0x00, SUB and SRA are funct7 0x20. -/
def funct7_add : Nat := 0x00
def funct7_sub : Nat := 0x20
def funct7_srl : Nat := 0x00
def funct7_sra : Nat := 0x20

/-- Modelled from the spec: funct3 constants of `rv32i_decode.h` for SYSTEM; ECALL/EBREAK
are funct3 0 and CSRRW, CSRRS, CSRRC, CSRRWI, CSRRSI, CSRRCI are funct3 1, 2, 3, 5, 6, 7. -/
def funct3_e : Nat := 0
def funct3_csrrw : Nat := 1
def funct3_csrrs : Nat := 2
def funct3_csrrc : Nat := 3
def funct3_csrrwi : Nat := 5
def funct3_csrrsi : Nat := 6
def funct3_csrrci : Nat := 7

/-- The function `get_opcode`: `insn & 0x0000007f`. -/
def get_opcode (insn : Nat) : Nat := insn &&& 0x0000007f

/-- The function `get_rd`: `(insn & 0x00000f80) >> 7`. -/
def get_rd (insn : Nat) : Nat :=
  let rd : Int := i32 ↑((insn &&& 0x00000f80) >>> 7)
  u32 rd

/-- The function `get_funct3`: `(insn & 0x00007000) >> 12`. -/
def get_funct3 (insn : Nat) : Nat :=
  let funct3 : Int := i32 ↑((insn &&& 0x00007000) >>> 12)
  u32 funct3

/-- The function `get_rs1`: `(insn & 0x000f8000) >> 15`. -/
def get_rs1 (insn : Nat) : Nat :=
  let rs1 : Int := i32 ↑((insn &&& 0x000f8000) >>> 15)
  u32 rs1

/-- The function `get_rs2`: `(insn & 0x01f00000) >> 20`. -/
def get_rs2 (insn : Nat) : Nat :=
  let rs2 : Int := i32 ↑((insn &&& 0x01f00000) >>> 20)
  u32 rs2

/-- The function `get_funct7`: `(insn & 0xfe000000) >> 25`. -/
def get_funct7 (insn : Nat) : Nat :=
  let funct7 : Int := i32 ↑((insn &&& 0xfe000000) >>> 25)
  u32 funct7

/-- The function `get_imm_i`: `(insn & 0xfff00000) >> 20`, then `|= 0xfffff000` when
bit 31 of `insn` is set. -/
def get_imm_i (insn : Nat) : Int :=
  let imm_i : Int := i32 ↑((insn &&& 0xfff00000) >>> 20)
  let imm_i : Int :=
    if insn &&& 0x80000000 != 0 then i32 ↑(u32 imm_i ||| 0xfffff000) else imm_i
  imm_i

/-- The function `get_imm_u`: `insn & 0xfffff000` as `int32_t`. -/
def get_imm_u (insn : Nat) : Int :=
  let imm_u : Int := i32 ↑(insn &&& 0xfffff000)
  imm_u

/-- The function `get_imm_b`: the four shifted fields or-ed together, then
`|= 0xffffe000` when bit 31 of `insn` is set. -/
def get_imm_b (insn : Nat) : Int :=
  let imm_b : Int := i32 ↑((insn &&& 0x7e000000) >>> (25 - 5))
  let imm_b : Int := i32 ↑(u32 imm_b ||| ((insn &&& 0x00000f00) >>> (8 - 1)))
  let imm_b : Int := i32 ↑(u32 imm_b ||| ((insn &&& 0x80000000) >>> (31 - 12)))
  let imm_b : Int := i32 ↑(u32 imm_b ||| (((insn &&& 0x00000080) <<< (11 - 7)) % 4294967296))
  let imm_b : Int :=
    if insn &&& 0x80000000 != 0 then i32 ↑(u32 imm_b ||| 0xffffe000) else imm_b
  imm_b

/-- The function `get_imm_s`: the two shifted fields or-ed together, then
`|= 0xfffff000` when bit 31 of `insn` is set. -/
def get_imm_s (insn : Nat) : Int :=
  let imm_s : Int := i32 ↑((insn &&& 0xfe000000) >>> (25 - 5))
  let imm_s : Int := i32 ↑(u32 imm_s ||| ((insn &&& 0x00000f80) >>> (7 - 0)))
  let imm_s : Int :=
    if insn &&& 0x80000000 != 0 then i32 ↑(u32 imm_s ||| 0xfffff000) else imm_s
  imm_s

/-- The function `get_imm_j`: the four fields or-ed together, then `|= 0xffe00000` when
bit 31 of `insn` is set. -/
def get_imm_j (insn : Nat) : Int :=
  let imm_j : Int := i32 ↑(insn &&& 0x000ff000)
  let imm_j : Int := i32 ↑(u32 imm_j ||| ((insn &&& 0x7fe00000) >>> (21 - 1)))
  let imm_j : Int := i32 ↑(u32 imm_j ||| ((insn &&& 0x80000000) >>> (31 - 20)))
  let imm_j : Int := i32 ↑(u32 imm_j ||| ((insn &&& 0x00100000) >>> (20 - 11)))
  let imm_j : Int :=
    if insn &&& 0x80000000 != 0 then i32 ↑(u32 imm_j ||| 0xffe00000) else imm_j
  imm_j

end rv32i_decode

namespace registerfile

/-- The method `registerfile::dump`: prints `regVec[i]` for `i` from 0 to 31. -/
def dump (rf : registerfile) : Sim Unit :=
  if 32 ≤ rf.regVec.length then
    Sim.emit (Out.register_dump (rf.regVec.take 32))
  else
    Sim.fault Fault.undefined_subscript

end registerfile

/-! ## rv32i_hart.cpp -/

/-- The class `rv32i_hart`: the data members the methods of `rv32i_hart.cpp` use.  The
member `mem` is a reference in the C++; here the hart state carries the memory. -/
structure rv32i_hart where
  mem : memory
  regs : registerfile
  pc : Nat
  insn_counter : Nat
  halt : Bool
  halt_reason : String
  show_instructions : Bool
  show_registers : Bool
  deriving DecidableEq, Repr

namespace rv32i_hart

open rv32i_decode

/-- Modelled from the spec: the member `mhartid` of the header `rv32i_hart.h`, which is
not among the sources; the spec gives the value 0 (mhartid for hart 0). -/
def mhartid : Nat := 0

/-- The trace an executor writes when it is given a sink (`if (pos) ...`). -/
def trace (pos : Bool) : Sim Unit :=
  if pos then Sim.emit Out.trace else pure ()

/-- The method `rv32i_hart::dump`: the register dump, then the line with the pc. -/
def dump (h : rv32i_hart) : Sim Unit := do
  h.regs.dump
  Sim.emit (Out.pc_line h.pc)

/-- The method `rv32i_hart::reset`. -/
def reset (h : rv32i_hart) : Sim rv32i_hart := do
  let h := { h with pc := 0 }
  let h := { h with regs := h.regs.reset }
  let regs ← h.regs.set 2 (i32 ↑h.mem.get_size)
  let h := { h with regs := regs }
  let h := { h with insn_counter := 0 }
  let h := { h with halt := false }
  pure { h with halt_reason := "none" }

/-- The method `rv32i_hart::exec_illegal_insn`. -/
def exec_illegal_insn (h : rv32i_hart) (pos : Bool) : Sim rv32i_hart := do
  trace pos
  let h := { h with halt := true }
  pure { h with halt_reason := "Illegal instruction" }

/-- The method `rv32i_hart::exec_ebreak`. -/
def exec_ebreak (h : rv32i_hart) (_insn : Int) (pos : Bool) : Sim rv32i_hart := do
  trace pos
  let h := { h with halt := true }
  pure { h with halt_reason := "EBREAK instruction" }

/-- The method `rv32i_hart::exec_ecall`. -/
def exec_ecall (h : rv32i_hart) (pos : Bool) : Sim rv32i_hart := do
  trace pos
  let h := { h with halt := true }
  pure { h with halt_reason := "ECALL instruction" }

/-- The method `rv32i_hart::exec_lui`. -/
def exec_lui (h : rv32i_hart) (insn : Nat) (pos : Bool) : Sim rv32i_hart := do
  let rd := get_rd insn
  trace pos
  let regs ← h.regs.set rd (get_imm_u insn)
  pure { h with regs := regs, pc := (h.pc + 4) % 4294967296 }

/-- The method `rv32i_hart::exec_auipc`. -/
def exec_auipc (h : rv32i_hart) (insn : Nat) (pos : Bool) : Sim rv32i_hart := do
  let rd := get_rd insn
  let immu := get_imm_u insn
  let val : Int := i32 ↑((h.pc + u32 immu) % 4294967296)
  trace pos
  let regs ← h.regs.set rd val
  pure { h with regs := regs, pc := (h.pc + 4) % 4294967296 }

/-- The method `rv32i_hart::exec_jal`. -/
def exec_jal (h : rv32i_hart) (insn : Nat) (pos : Bool) : Sim rv32i_hart := do
  let rd := get_rd insn
  let immj := get_imm_j insn
  let val : Int := i32 ↑((h.pc + u32 immj) % 4294967296)
  trace pos
  let regs ← h.regs.set rd (i32 ↑((h.pc + 4) % 4294967296))
  pure { h with regs := regs, pc := u32 val }

/-- The method `rv32i_hart::exec_jalr`. -/
def exec_jalr (h : rv32i_hart) (insn : Nat) (pos : Bool) : Sim rv32i_hart := do
  let rd := get_rd insn
  let rs1 := get_rs1 insn
  let immi := get_imm_i insn
  let val : Nat := u32 (i32 ((← h.regs.get rs1) + immi)) &&& 0xfffffffe
  trace pos
  let regs ← h.regs.set rd (i32 ↑((h.pc + 4) % 4294967296))
  pure { h with regs := regs, pc := val }

/-- The method `rv32i_hart::exec_beq`. -/
def exec_beq (h : rv32i_hart) (insn : Nat) (pos : Bool) : Sim rv32i_hart := do
  let rs1 := get_rs1 insn
  let rs2 := get_rs2 insn
  let immb := get_imm_b insn
  let val : Int := if (← h.regs.get rs1) == (← h.regs.get rs2) then immb else 4
  trace pos
  pure { h with pc := (h.pc + u32 val) % 4294967296 }

/-- The method `rv32i_hart::exec_bne`. -/
def exec_bne (h : rv32i_hart) (insn : Nat) (pos : Bool) : Sim rv32i_hart := do
  let rs1 := get_rs1 insn
  let rs2 := get_rs2 insn
  let immb := get_imm_b insn
  let val : Int := if (← h.regs.get rs1) != (← h.regs.get rs2) then immb else 4
  trace pos
  pure { h with pc := (h.pc + u32 val) % 4294967296 }

/-- The method `rv32i_hart::exec_blt`. -/
def exec_blt (h : rv32i_hart) (insn : Nat) (pos : Bool) : Sim rv32i_hart := do
  let rs1 : Int := i32 ↑(get_rs1 insn)
  let rs2 : Int := i32 ↑(get_rs2 insn)
  let immb := get_imm_b insn
  let val : Int := if (← h.regs.get (u32 rs1)) < (← h.regs.get (u32 rs2)) then immb else 4
  trace pos
  pure { h with pc := (h.pc + u32 val) % 4294967296 }

/-- The method `rv32i_hart::exec_bge`. -/
def exec_bge (h : rv32i_hart) (insn : Nat) (pos : Bool) : Sim rv32i_hart := do
  let rs1 : Int := i32 ↑(get_rs1 insn)
  let rs2 : Int := i32 ↑(get_rs2 insn)
  let immb := get_imm_b insn
  let val : Int := if (← h.regs.get (u32 rs1)) ≥ (← h.regs.get (u32 rs2)) then immb else 4
  trace pos
  pure { h with pc := (h.pc + u32 val) % 4294967296 }

/-- The method `rv32i_hart::exec_bltu`. -/
def exec_bltu (h : rv32i_hart) (insn : Nat) (pos : Bool) : Sim rv32i_hart := do
  let rs1 := get_rs1 insn
  let rs2 := get_rs2 insn
  let immb := get_imm_b insn
  let first : Nat := u32 (← h.regs.get rs1)
  let second : Nat := u32 (← h.regs.get rs2)
  let val : Nat := if first < second then u32 immb else 4
  trace pos
  pure { h with pc := (h.pc + val) % 4294967296 }

/-- The method `rv32i_hart::exec_bgeu`. -/
def exec_bgeu (h : rv32i_hart) (insn : Nat) (pos : Bool) : Sim rv32i_hart := do
  let rs1 := get_rs1 insn
  let rs2 := get_rs2 insn
  let immb := get_imm_b insn
  let first : Nat := u32 (← h.regs.get rs1)
  let second : Nat := u32 (← h.regs.get rs2)
  let val : Nat := if first ≥ second then u32 immb else 4
  trace pos
  pure { h with pc := (h.pc + val) % 4294967296 }

/-- The method `rv32i_hart::exec_addi`. -/
def exec_addi (h : rv32i_hart) (insn : Nat) (pos : Bool) : Sim rv32i_hart := do
  let rd := get_rd insn
  let rs1 := get_rs1 insn
  let immi := get_imm_i insn
  let val : Int := i32 ((← h.regs.get rs1) + immi)
  trace pos
  let regs ← h.regs.set rd val
  pure { h with regs := regs, pc := (h.pc + 4) % 4294967296 }

/-- The method `rv32i_hart::exec_lbu`. -/
def exec_lbu (h : rv32i_hart) (insn : Nat) (pos : Bool) : Sim rv32i_hart := do
  let rd := get_rd insn
  let rs1 := get_rs1 insn
  let immi : Nat := u32 (get_imm_i insn)
  let val : Nat :=
    ((← h.mem.get8 ((u32 (← h.regs.get rs1) + immi) % 4294967296)) &&& 0x000000ff) % 256
  trace pos
  let regs ← h.regs.set rd ↑val
  pure { h with regs := regs, pc := (h.pc + 4) % 4294967296 }

/-- The method `rv32i_hart::exec_lhu`. -/
def exec_lhu (h : rv32i_hart) (insn : Nat) (pos : Bool) : Sim rv32i_hart := do
  let rd := get_rd insn
  let rs1 := get_rs1 insn
  let immi : Nat := u32 (get_imm_i insn)
  let val : Nat :=
    ((← h.mem.get16 ((u32 (← h.regs.get rs1) + immi) % 4294967296)) &&& 0x0000ffff) % 65536
  trace pos
  let regs ← h.regs.set rd ↑val
  pure { h with regs := regs, pc := (h.pc + 4) % 4294967296 }

/-- The method `rv32i_hart::exec_lb`. -/
def exec_lb (h : rv32i_hart) (insn : Nat) (pos : Bool) : Sim rv32i_hart := do
  let rd := get_rd insn
  let rs1 := get_rs1 insn
  let immi := get_imm_i insn
  let val : Int := i8 ↑(← h.mem.get8 (u32 (i32 ((← h.regs.get rs1) + immi))))
  trace pos
  let regs ← h.regs.set rd val
  pure { h with regs := regs, pc := (h.pc + 4) % 4294967296 }

/-- The method `rv32i_hart::exec_lh`. -/
def exec_lh (h : rv32i_hart) (insn : Nat) (pos : Bool) : Sim rv32i_hart := do
  let rd := get_rd insn
  let rs1 := get_rs1 insn
  let immi := get_imm_i insn
  let val : Int := i16 ↑(← h.mem.get16 (u32 (i32 ((← h.regs.get rs1) + immi))))
  trace pos
  let regs ← h.regs.set rd val
  pure { h with regs := regs, pc := (h.pc + 4) % 4294967296 }

/-- The method `rv32i_hart::exec_lw`. -/
def exec_lw (h : rv32i_hart) (insn : Nat) (pos : Bool) : Sim rv32i_hart := do
  let rd := get_rd insn
  let rs1 := get_rs1 insn
  let immi := get_imm_i insn
  let val : Nat ← h.mem.get32 (u32 (i32 ((← h.regs.get rs1) + immi)))
  trace pos
  let regs ← h.regs.set rd (i32 ↑val)
  pure { h with regs := regs, pc := (h.pc + 4) % 4294967296 }

/-- The method `rv32i_hart::exec_sb`; its trace reads the stored byte back with `get8`. -/
def exec_sb (h : rv32i_hart) (insn : Nat) (pos : Bool) : Sim rv32i_hart := do
  let rs1 := get_rs1 insn
  let rs2 := get_rs2 insn
  let imms := get_imm_s insn
  let val : Nat := u32 (i32 ((← h.regs.get rs1) + imms))
  let mem ← h.mem.set8 val ((u32 (← h.regs.get rs2) &&& 0x000000ff) % 256)
  let h := { h with mem := mem }
  trace pos
  if pos then
    let _ ← h.mem.get8 val
  pure { h with pc := (h.pc + 4) % 4294967296 }

/-- The method `rv32i_hart::exec_sh`; its trace reads the stored halfword back with `get16`. -/
def exec_sh (h : rv32i_hart) (insn : Nat) (pos : Bool) : Sim rv32i_hart := do
  let rs1 := get_rs1 insn
  let rs2 := get_rs2 insn
  let imms := get_imm_s insn
  let val : Nat := u32 (i32 ((← h.regs.get rs1) + imms))
  let mem ← h.mem.set16 val ((u32 (← h.regs.get rs2) &&& 0x0000ffff) % 65536)
  let h := { h with mem := mem }
  trace pos
  if pos then
    let _ ← h.mem.get16 val
  pure { h with pc := (h.pc + 4) % 4294967296 }

/-- The method `rv32i_hart::exec_sw`; its trace reads the stored word back with `get32`. -/
def exec_sw (h : rv32i_hart) (insn : Nat) (pos : Bool) : Sim rv32i_hart := do
  let rs1 := get_rs1 insn
  let rs2 := get_rs2 insn
  let imms := get_imm_s insn
  let val : Nat := u32 (i32 ((← h.regs.get rs1) + imms))
  let mem ← h.mem.set32 val (u32 (← h.regs.get rs2))
  let h := { h with mem := mem }
  trace pos
  if pos then
    let _ ← h.mem.get32 val
  pure { h with pc := (h.pc + 4) % 4294967296 }

/-- The method `rv32i_hart::exec_slti`. -/
def exec_slti (h : rv32i_hart) (insn : Nat) (pos : Bool) : Sim rv32i_hart := do
  let rd := get_rd insn
  let rs1 := get_rs1 insn
  let immi := get_imm_i insn
  let val : Int := if (← h.regs.get rs1) < immi then 1 else 0
  trace pos
  let regs ← h.regs.set rd val
  pure { h with regs := regs, pc := (h.pc + 4) % 4294967296 }

/-- The method `rv32i_hart::exec_sltiu`. -/
def exec_sltiu (h : rv32i_hart) (insn : Nat) (pos : Bool) : Sim rv32i_hart := do
  let rd := get_rd insn
  let rs1 : Int := i32 ↑(get_rs1 insn)
  let immi : Nat := u32 (get_imm_i insn)
  let rs1u : Nat := u32 (← h.regs.get (u32 rs1))
  let val : Int := if rs1u < immi then 1 else 0
  trace pos
  let regs ← h.regs.set rd val
  pure { h with regs := regs, pc := (h.pc + 4) % 4294967296 }

/-- The method `rv32i_hart::exec_xori`. -/
def exec_xori (h : rv32i_hart) (insn : Nat) (pos : Bool) : Sim rv32i_hart := do
  let rd := get_rd insn
  let rs1 : Int := i32 ↑(get_rs1 insn)
  let immi : Nat := u32 (get_imm_i insn)
  let val : Nat := u32 (← h.regs.get (u32 rs1)) ^^^ immi
  trace pos
  let regs ← h.regs.set rd (i32 ↑val)
  pure { h with regs := regs, pc := (h.pc + 4) % 4294967296 }

/-- The method `rv32i_hart::exec_ori`. -/
def exec_ori (h : rv32i_hart) (insn : Nat) (pos : Bool) : Sim rv32i_hart := do
  let rd := get_rd insn
  let rs1 : Int := i32 ↑(get_rs1 insn)
  let immi : Nat := u32 (get_imm_i insn)
  let val : Nat := u32 (← h.regs.get (u32 rs1)) ||| immi
  trace pos
  let regs ← h.regs.set rd (i32 ↑val)
  pure { h with regs := regs, pc := (h.pc + 4) % 4294967296 }

/-- The method `rv32i_hart::exec_andi`. -/
def exec_andi (h : rv32i_hart) (insn : Nat) (pos : Bool) : Sim rv32i_hart := do
  let rd := get_rd insn
  let rs1 : Int := i32 ↑(get_rs1 insn)
  let immi : Nat := u32 (get_imm_i insn)
  let val : Nat := u32 (← h.regs.get (u32 rs1)) &&& immi
  trace pos
  let regs ← h.regs.set rd (i32 ↑val)
  pure { h with regs := regs, pc := (h.pc + 4) % 4294967296 }

/-- The method `rv32i_hart::exec_slli`: the `int32_t` register value is shifted left. -/
def exec_slli (h : rv32i_hart) (insn : Nat) (pos : Bool) : Sim rv32i_hart := do
  let rd := get_rd insn
  let rs1 : Int := i32 ↑(get_rs1 insn)
  let immi : Nat := u32 (get_imm_i insn)
  let shamt_i : Nat := immi &&& 0x0000001f
  let immiShift : Nat := u32 (i32 ((← h.regs.get (u32 rs1)) * 2 ^ shamt_i))
  trace pos
  let regs ← h.regs.set rd (i32 ↑immiShift)
  pure { h with regs := regs, pc := (h.pc + 4) % 4294967296 }

/-- The method `rv32i_hart::exec_srli`: the register value is shifted as `uint32_t`. -/
def exec_srli (h : rv32i_hart) (insn : Nat) (pos : Bool) : Sim rv32i_hart := do
  let rd := get_rd insn
  let rs1 : Int := i32 ↑(get_rs1 insn)
  let immi : Nat := u32 (get_imm_i insn)
  let shamt_i : Nat := immi &&& 0x0000001f
  let rs1u : Nat := u32 (← h.regs.get (u32 rs1))
  let immiShift : Nat := rs1u >>> shamt_i
  trace pos
  let regs ← h.regs.set rd (i32 ↑immiShift)
  pure { h with regs := regs, pc := (h.pc + 4) % 4294967296 }

/-- The method `rv32i_hart::exec_srai`: the register value is shifted as `int32_t`. -/
def exec_srai (h : rv32i_hart) (insn : Nat) (pos : Bool) : Sim rv32i_hart := do
  let rd := get_rd insn
  let rs1 : Int := i32 ↑(get_rs1 insn)
  let immi : Nat := u32 (get_imm_i insn)
  let shamt_i : Nat := immi &&& 0x0000001f
  let immiShift : Nat := u32 ((← h.regs.get (u32 rs1)) >>> shamt_i)
  trace pos
  let regs ← h.regs.set rd (i32 ↑immiShift)
  pure { h with regs := regs, pc := (h.pc + 4) % 4294967296 }

/-- The method `rv32i_hart::exec_add`. -/
def exec_add (h : rv32i_hart) (insn : Nat) (pos : Bool) : Sim rv32i_hart := do
  let rd := get_rd insn
  let rs1 : Int := i32 ↑(get_rs1 insn)
  let rs2 : Int := i32 ↑(get_rs2 insn)
  let val : Int := i32 ((← h.regs.get (u32 rs1)) + (← h.regs.get (u32 rs2)))
  trace pos
  let regs ← h.regs.set rd val
  pure { h with regs := regs, pc := (h.pc + 4) % 4294967296 }

/-- The method `rv32i_hart::exec_sub`. -/
def exec_sub (h : rv32i_hart) (insn : Nat) (pos : Bool) : Sim rv32i_hart := do
  let rd := get_rd insn
  let rs1 : Int := i32 ↑(get_rs1 insn)
  let rs2 : Int := i32 ↑(get_rs2 insn)
  let val : Int := i32 ((← h.regs.get (u32 rs1)) - (← h.regs.get (u32 rs2)))
  trace pos
  let regs ← h.regs.set rd val
  pure { h with regs := regs, pc := (h.pc + 4) % 4294967296 }

/-- The method `rv32i_hart::exec_sll`: the `int32_t` register value is shifted left. -/
def exec_sll (h : rv32i_hart) (insn : Nat) (pos : Bool) : Sim rv32i_hart := do
  let rd := get_rd insn
  let rs1 : Int := i32 ↑(get_rs1 insn)
  let rs2 : Int := i32 ↑(get_rs2 insn)
  let rs2Shifted : Nat := u32 (← h.regs.get (u32 rs2)) &&& 0x0000001f
  let sllShift : Nat := u32 (i32 ((← h.regs.get (u32 rs1)) * 2 ^ rs2Shifted))
  trace pos
  let regs ← h.regs.set rd (i32 ↑sllShift)
  pure { h with regs := regs, pc := (h.pc + 4) % 4294967296 }

/-- The method `rv32i_hart::exec_slt`. -/
def exec_slt (h : rv32i_hart) (insn : Nat) (pos : Bool) : Sim rv32i_hart := do
  let rd := get_rd insn
  let rs1 := get_rs1 insn
  let rs2 := get_rs2 insn
  let val : Int := if (← h.regs.get rs1) < (← h.regs.get rs2) then 1 else 0
  trace pos
  let regs ← h.regs.set rd val
  pure { h with regs := regs, pc := (h.pc + 4) % 4294967296 }

/-- The method `rv32i_hart::exec_sltu`. -/
def exec_sltu (h : rv32i_hart) (insn : Nat) (pos : Bool) : Sim rv32i_hart := do
  let rd := get_rd insn
  let rs1 := get_rs1 insn
  let rs2 := get_rs2 insn
  let rs1U : Nat := u32 (← h.regs.get rs1)
  let rs2U : Nat := u32 (← h.regs.get rs2)
  let val : Int := if rs1U < rs2U then 1 else 0
  trace pos
  let regs ← h.regs.set rd val
  pure { h with regs := regs, pc := (h.pc + 4) % 4294967296 }

/-- The method `rv32i_hart::exec_xor`. -/
def exec_xor (h : rv32i_hart) (insn : Nat) (pos : Bool) : Sim rv32i_hart := do
  let rd := get_rd insn
  let rs1 := get_rs1 insn
  let rs2 := get_rs2 insn
  let rs1U : Nat := u32 (← h.regs.get rs1)
  let rs2U : Nat := u32 (← h.regs.get rs2)
  let val : Nat := rs1U ^^^ rs2U
  trace pos
  let regs ← h.regs.set rd (i32 ↑val)
  pure { h with regs := regs, pc := (h.pc + 4) % 4294967296 }

/-- The method `rv32i_hart::exec_srl`. -/
def exec_srl (h : rv32i_hart) (insn : Nat) (pos : Bool) : Sim rv32i_hart := do
  let rd := get_rd insn
  let rs1 := get_rs1 insn
  let rs2 := get_rs2 insn
  let rs1U : Nat := u32 (← h.regs.get rs1)
  let rs2U : Nat := u32 (← h.regs.get rs2)
  let rs2Shifted : Nat := rs2U &&& 0x0000001f
  let rs1Shift : Nat := rs1U >>> rs2Shifted
  trace pos
  let regs ← h.regs.set rd (i32 ↑rs1Shift)
  pure { h with regs := regs, pc := (h.pc + 4) % 4294967296 }

/-- The method `rv32i_hart::exec_sra`: the local `rs1U` is an `int32_t`. -/
def exec_sra (h : rv32i_hart) (insn : Nat) (pos : Bool) : Sim rv32i_hart := do
  let rd := get_rd insn
  let rs1 := get_rs1 insn
  let rs2 := get_rs2 insn
  let rs1U : Int ← h.regs.get rs1
  let rs2U : Nat := u32 (← h.regs.get rs2)
  let rs2Shifted : Nat := rs2U &&& 0x0000001f
  let rs1Shift : Nat := u32 (rs1U >>> rs2Shifted)
  trace pos
  let regs ← h.regs.set rd (i32 ↑rs1Shift)
  pure { h with regs := regs, pc := (h.pc + 4) % 4294967296 }

/-- The method `rv32i_hart::exec_or`. -/
def exec_or (h : rv32i_hart) (insn : Nat) (pos : Bool) : Sim rv32i_hart := do
  let rd := get_rd insn
  let rs1 := get_rs1 insn
  let rs2 := get_rs2 insn
  let rs1U : Nat := u32 (← h.regs.get rs1)
  let rs2U : Nat := u32 (← h.regs.get rs2)
  let val : Nat := rs1U ||| rs2U
  trace pos
  let regs ← h.regs.set rd (i32 ↑val)
  pure { h with regs := regs, pc := (h.pc + 4) % 4294967296 }

/-- The method `rv32i_hart::exec_and`. -/
def exec_and (h : rv32i_hart) (insn : Nat) (pos : Bool) : Sim rv32i_hart := do
  let rd := get_rd insn
  let rs1 := get_rs1 insn
  let rs2 := get_rs2 insn
  let rs1U : Nat := u32 (← h.regs.get rs1)
  let rs2U : Nat := u32 (← h.regs.get rs2)
  let val : Nat := rs1U &&& rs2U
  trace pos
  let regs ← h.regs.set rd (i32 ↑val)
  pure { h with regs := regs, pc := (h.pc + 4) % 4294967296 }

/-- The method `rv32i_hart::exec_csrrs`: the halt is recorded, then `rd` is written and
the pc advanced whether or not the CSR was legal. -/
def exec_csrrs (h : rv32i_hart) (insn : Nat) (pos : Bool) : Sim rv32i_hart := do
  let rd := get_rd insn
  let rs1 := get_rs1 insn
  let csrrs : Int := i32 ↑(u32 (get_imm_i insn) &&& 0x00000fff)
  let h :=
    if rs1 != 0 || csrrs != 0x00000f14 then
      { h with halt := true, halt_reason := "Illegal CSR in CSRRS instruction" }
    else h
  trace pos
  let regs ← h.regs.set rd (i32 ↑mhartid)
  pure { h with regs := regs, pc := (h.pc + 4) % 4294967296 }

/-- The method `rv32i_hart::exec`: the switch on opcode, funct3 and funct7 (or `imm_i`). -/
def exec (h : rv32i_hart) (insn : Nat) (pos : Bool) : Sim rv32i_hart :=
  let opcode := get_opcode insn
  if opcode == opcode_lui then h.exec_lui insn pos
  else if opcode == opcode_auipc then h.exec_auipc insn pos
  else if opcode == opcode_jal then h.exec_jal insn pos
  else if opcode == opcode_jalr then h.exec_jalr insn pos
  else if opcode == opcode_rtype then
    let funct3 := get_funct3 insn
    if funct3 == funct3_add then
      let funct7 := get_funct7 insn
      if funct7 == funct7_add then h.exec_add insn pos
      else if funct7 == funct7_sub then h.exec_sub insn pos
      else h.exec_illegal_insn pos
    else if funct3 == funct3_sll then h.exec_sll insn pos
    else if funct3 == funct3_slt then h.exec_slt insn pos
    else if funct3 == funct3_sltu then h.exec_sltu insn pos
    else if funct3 == funct3_xor then h.exec_xor insn pos
    else if funct3 == funct3_srx then
      let funct7 := get_funct7 insn
      if funct7 == funct7_srl then h.exec_srl insn pos
      else if funct7 == funct7_sra then h.exec_sra insn pos
      else h.exec_illegal_insn pos
    else if funct3 == funct3_or then h.exec_or insn pos
    else if funct3 == funct3_and then h.exec_and insn pos
    else h.exec_illegal_insn pos
  else if opcode == opcode_btype then
    let funct3 := get_funct3 insn
    if funct3 == funct3_beq then h.exec_beq insn pos
    else if funct3 == funct3_bne then h.exec_bne insn pos
    else if funct3 == funct3_blt then h.exec_blt insn pos
    else if funct3 == funct3_bge then h.exec_bge insn pos
    else if funct3 == funct3_bltu then h.exec_bltu insn pos
    else if funct3 == funct3_bgeu then h.exec_bgeu insn pos
    else h.exec_illegal_insn pos
  else if opcode == opcode_system then
    let funct3 := get_funct3 insn
    if funct3 == funct3_csrrs then h.exec_csrrs insn pos
    else if funct3 == funct3_e then
      let imm_i := get_imm_i insn
      if imm_i == 1 then h.exec_ebreak (i32 ↑insn) pos
      else if imm_i == 0 then h.exec_ecall pos
      else h.exec_illegal_insn pos
    else h.exec_illegal_insn pos
  else if opcode == opcode_stype then
    let funct3 := get_funct3 insn
    if funct3 == funct3_sb then h.exec_sb insn pos
    else if funct3 == funct3_sh then h.exec_sh insn pos
    else if funct3 == funct3_sw then h.exec_sw insn pos
    else h.exec_illegal_insn pos
  else if opcode == opcode_alu_imm then
    let funct3 := get_funct3 insn
    if funct3 == funct3_add then h.exec_addi insn pos
    else if funct3 == funct3_sll then h.exec_slli insn pos
    else if funct3 == funct3_slt then h.exec_slti insn pos
    else if funct3 == funct3_sltu then h.exec_sltiu insn pos
    else if funct3 == funct3_xor then h.exec_xori insn pos
    else if funct3 == funct3_or then h.exec_ori insn pos
    else if funct3 == funct3_and then h.exec_andi insn pos
    else if funct3 == funct3_srx then
      let funct7 := get_funct7 insn
      if funct7 == funct7_sra then h.exec_srai insn pos
      else if funct7 == funct7_srl then h.exec_srli insn pos
      else h.exec_illegal_insn pos
    else h.exec_illegal_insn pos
  else if opcode == opcode_load_imm then
    let funct3 := get_funct3 insn
    if funct3 == funct3_lbu then h.exec_lbu insn pos
    else if funct3 == funct3_lhu then h.exec_lhu insn pos
    else if funct3 == funct3_lb then h.exec_lb insn pos
    else if funct3 == funct3_lh then h.exec_lh insn pos
    else if funct3 == funct3_lw then h.exec_lw insn pos
    else h.exec_illegal_insn pos
  else h.exec_illegal_insn pos

/-- The method `rv32i_hart::tick`. -/
def tick (h : rv32i_hart) : Sim rv32i_hart := do
  if h.pc % 4 != 0 then
    let h := { h with halt := true }
    pure { h with halt_reason := "PC alignment error" }
  else
    let h := { h with insn_counter := (h.insn_counter + 1) % 18446744073709551616 }
    let getinsn ← h.mem.get32 h.pc
    if h.show_instructions == true && h.show_registers == true then
      let h ← h.exec getinsn true
      Sim.emit Out.endl
      if !h.halt then
        h.regs.dump
        Sim.emit (Out.pc_line h.pc)
      pure h
    else if h.show_instructions == true then
      let h ← h.exec getinsn true
      Sim.emit Out.endl
      pure h
    else
      h.exec getinsn false

end rv32i_hart

/-! ## The vocabulary of the field table

The table of decoded fields is written with bit ranges `[hi:lo]`, concatenation
`{a, b, ...}` and sign extension `sx`.  The two functions below give these their usual
meaning, so that the extractors above can be compared with the table. -/

/-- The bit range `x[hi:lo]` as a number: bits `lo` to `hi` of `x`, bit `lo` lowest. -/
def spec_bits (x hi lo : Nat) : Nat := x / 2 ^ lo % 2 ^ (hi + 1 - lo)

/-- Sign extension `sx` of the `n`-bit value `v`: its value as a two's-complement number. -/
def spec_sx (n v : Nat) : Int := if v < 2 ^ (n - 1) then (v : Int) else (v : Int) - 2 ^ n

/-! ## Iterated ticks and predicates on results -/

/-- The effect of `n` consecutive calls of `tick`. -/
def rv32i_hart.ticks : Nat → rv32i_hart → Sim rv32i_hart
  | 0, h => pure h
  | n + 1, h => do
    let h ← h.tick
    rv32i_hart.ticks n h

/-- Every result the computation `x` can return satisfies `Q`. -/
def Sim.sat {α : Type} (x : Sim α) (Q : α → Prop) : Prop :=
  ∀ a o, x = Except.ok (a, o) → Q a

/-! ## A concrete hart

The first scenario of the test list: a memory of size `0x100` holding the word
`0x00500093` (`addi x1, x0, 5`) at address 0, a freshly constructed register file with the
stack pointer set by `reset`, and `pc = 0`. -/

/-- The hart before the tick. -/
def scenario_addi : rv32i_hart :=
  { mem := { mem := [0x93, 0x00, 0x50, 0x00] ++ List.replicate 252 0xa5 }
    regs := { regVec := (registerfile.new.regVec).set 2 0x100 }
    pc := 0
    insn_counter := 0
    halt := false
    halt_reason := "none"
    show_instructions := false
    show_registers := false }

/-- The hart after the tick: `x1 = 5`, `pc = 4`, one instruction counted. -/
def scenario_addi_after : rv32i_hart :=
  { scenario_addi with
    regs := { regVec := (scenario_addi.regs.regVec).set 1 5 }
    pc := 4
    insn_counter := 1 }

/-! ## Register writes as a function

`registerfile::set` returns when the index is inside the vector; the register file it
returns is `write`. -/

/-- The register file after `set(r, val)` has returned. -/
def registerfile.write (rf : registerfile) (r : Nat) (val : Int) : registerfile :=
  if r = 0 then rf else { regVec := rf.regVec.set r val }

/-- The output of `rv32i_hart.trace`. -/
def rv32i_hart.trace_out (pos : Bool) : List Out := if pos then [Out.trace] else []

/-! ## The words `exec` rejects

The same switch as `exec`, with `true` where `exec` calls `exec_illegal_insn` (the
`default:` arms) and `false` where it calls any other executor. -/

namespace rv32i_hart

open rv32i_decode

/-- Whether the switch of `exec` ends in `exec_illegal_insn` for the word `insn`. -/
def exec_rejects (insn : Nat) : Bool :=
  let opcode := get_opcode insn
  if opcode == opcode_lui then false
  else if opcode == opcode_auipc then false
  else if opcode == opcode_jal then false
  else if opcode == opcode_jalr then false
  else if opcode == opcode_rtype then
    let funct3 := get_funct3 insn
    if funct3 == funct3_add then
      let funct7 := get_funct7 insn
      if funct7 == funct7_add then false
      else if funct7 == funct7_sub then false
      else true
    else if funct3 == funct3_sll then false
    else if funct3 == funct3_slt then false
    else if funct3 == funct3_sltu then false
    else if funct3 == funct3_xor then false
    else if funct3 == funct3_srx then
      let funct7 := get_funct7 insn
      if funct7 == funct7_srl then false
      else if funct7 == funct7_sra then false
      else true
    else if funct3 == funct3_or then false
    else if funct3 == funct3_and then false
    else true
  else if opcode == opcode_btype then
    let funct3 := get_funct3 insn
    if funct3 == funct3_beq then false
    else if funct3 == funct3_bne then false
    else if funct3 == funct3_blt then false
    else if funct3 == funct3_bge then false
    else if funct3 == funct3_bltu then false
    else if funct3 == funct3_bgeu then false
    else true
  else if opcode == opcode_system then
    let funct3 := get_funct3 insn
    if funct3 == funct3_csrrs then false
    else if funct3 == funct3_e then
      let imm_i := get_imm_i insn
      if imm_i == 1 then false
      else if imm_i == 0 then false
      else true
    else true
  else if opcode == opcode_stype then
    let funct3 := get_funct3 insn
    if funct3 == funct3_sb then false
    else if funct3 == funct3_sh then false
    else if funct3 == funct3_sw then false
    else true
  else if opcode == opcode_alu_imm then
    let funct3 := get_funct3 insn
    if funct3 == funct3_add then false
    else if funct3 == funct3_sll then false
    else if funct3 == funct3_slt then false
    else if funct3 == funct3_sltu then false
    else if funct3 == funct3_xor then false
    else if funct3 == funct3_or then false
    else if funct3 == funct3_and then false
    else if funct3 == funct3_srx then
      let funct7 := get_funct7 insn
      if funct7 == funct7_sra then false
      else if funct7 == funct7_srl then false
      else true
    else true
  else if opcode == opcode_load_imm then
    let funct3 := get_funct3 insn
    if funct3 == funct3_lbu then false
    else if funct3 == funct3_lhu then false
    else if funct3 == funct3_lb then false
    else if funct3 == funct3_lh then false
    else if funct3 == funct3_lw then false
    else true
  else true

end rv32i_hart

/-! ## More concrete harts -/

/-- A hart whose memory is all `0xA5`: the word at `pc = 0` is `0xA5A5A5A5`, opcode `0x25`. -/
def scenario_illegal : rv32i_hart :=
  { scenario_addi with mem := memory.new 0x100 }

/-- The hart of the first scenario with `pc = 1`. -/
def scenario_misaligned : rv32i_hart :=
  { scenario_addi with pc := 1 }

/-- The hart of the first scenario, already halted by an `ecall`. -/
def scenario_halted : rv32i_hart :=
  { scenario_addi with halt := true, halt_reason := "ECALL instruction" }

/-- The halted hart after one more `tick`: the `addi` has been executed all the same. -/
def scenario_halted_after : rv32i_hart :=
  { scenario_addi_after with halt := true, halt_reason := "ECALL instruction" }

/-! ## Encodings and conditions named in the properties -/

/-- The encoding of `ADDI r, x0, k`: `((k & 0xFFF) << 20) | (r << 7) | 0x13`. -/
def addi_x0_word (r : Nat) (k : Int) : Nat :=
  ((u32 k &&& 0xFFF) <<< 20) ||| (r <<< 7) ||| 0x13

/-- A hart in which `x1 = -1`, as after `addi x1, x0, -1`. -/
def scenario_shift : rv32i_hart :=
  { scenario_addi with regs := { regVec := (scenario_addi.regs.regVec).set 1 (-1) } }

/-- The branch condition of the B-type instruction with the given `funct3`, on the values
`x` of `rs1` and `y` of `rs2` (as signed numbers; `u32` reads them as unsigned): `BEQ` 0,
`BNE` 1, `BLT` 4, `BGE` 5, `BLTU` 6, `BGEU` 7. -/
def branch_condition (funct3 : Nat) (x y : Int) : Bool :=
  if funct3 = 0 then decide (x = y)
  else if funct3 = 1 then decide (x ≠ y)
  else if funct3 = 4 then decide (x < y)
  else if funct3 = 5 then decide (x ≥ y)
  else if funct3 = 6 then decide (u32 x < u32 y)
  else decide (u32 x ≥ u32 y)

/-- The value a load with the given `funct3` reads at address `a`, as the `int32_t` that is
written to `rd`: `LB` 0 `get8_sx`, `LH` 1 `get16_sx`, `LW` 2 the word `get32`, `LBU` 4 the
byte `get8` zero-extended, `LHU` 5 the halfword `get16` zero-extended. -/
def load_value (funct3 : Nat) (m : memory) (a : Nat) : Sim Int :=
  if funct3 = 0 then m.get8_sx a
  else if funct3 = 1 then m.get16_sx a
  else if funct3 = 2 then do pure (i32 ↑(← m.get32 a))
  else if funct3 = 4 then do pure ↑(← m.get8 a)
  else do pure ↑(← m.get16 a)

/-- A hart with `x1 = 1`, `x2 = 2` and `pc = 8`, as after `addi x1,x0,1; addi x2,x0,2`. -/
def scenario_branch : rv32i_hart :=
  { scenario_addi with
    regs := { regVec := ((scenario_addi.regs.regVec).set 1 1).set 2 2 }
    pc := 8 }

/-- A hart with `x1 = 4` whose memory holds the bytes `0x80 0xFF` at addresses 8 and 9. -/
def scenario_load : rv32i_hart :=
  { scenario_addi with
    mem := { mem := List.replicate 8 0xa5 ++ [0x80, 0xff] ++ List.replicate 246 0xa5 }
    regs := { regVec := (scenario_addi.regs.regVec).set 1 4 } }

/-! ## hex.cpp -/

namespace hex

/-- The stream insertion `os << std::hex << std::setfill('0') << std::setw(width) << i` into
an empty stream: the hexadecimal digits of `i` in lower case, preceded by as many `'0'` as
it takes to fill `width` characters (a longer number is not cut). -/
def hex_fill (width i : Nat) : String :=
  let digits := Nat.toDigits 16 i
  String.mk (List.replicate (width - digits.length) '0' ++ digits)

/-- The function `to_hex8`: the `uint8_t` argument, cast to `uint16_t`, in 2 digits. -/
def to_hex8 (i : Nat) : String := hex_fill 2 (i % 256 % 65536)

/-- The function `to_hex32`: the `uint32_t` argument in 8 digits. -/
def to_hex32 (i : Nat) : String := hex_fill 8 (i % 4294967296)

/-- The function `to_hex0x32`: `"0x"` followed by `to_hex32(i)`. -/
def to_hex0x32 (i : Nat) : String := "0x" ++ to_hex32 i

/-- The function `to_hex0x20`: `"0x"` followed by the argument in 5 digits. -/
def to_hex0x20 (i : Nat) : String := "0x" ++ hex_fill 5 (i % 4294967296)

/-- The function `to_hex0x12`: `"0x"` followed by the argument in 3 digits. -/
def to_hex0x12 (i : Nat) : String := "0x" ++ hex_fill 3 (i % 4294967296)

end hex

/-! ## rv32i_decode.cpp: disassembly -/

namespace rv32i_decode

open hex

/-- Modelled from the spec: the constant `mnemonic_width` of `rv32i_decode.h`, the width of
the field the mnemonic is left-justified in (8 characters). -/
def mnemonic_width : Nat := 8

/-- The function `render_illegal_insn`. -/
def render_illegal_insn : String := "ERROR: UNIMPLEMENTED INSTRUCTION"

/-- The function `render_mnemonic`: `ss << std::setw(mnemonic_width) << std::left << m`,
the mnemonic followed by spaces up to the field width. -/
def render_mnemonic (m : String) : String :=
  m ++ String.mk (List.replicate (mnemonic_width - m.length) ' ')

/-- The function `render_reg`: `ss << 'x' << r` for the `int` `r`. -/
def render_reg (r : Int) : String := "x" ++ toString r

/-- The function `render_base_disp(uint32_t base, int32_t disp)`: the first argument as a
signed decimal, then the register named by the second in parentheses. -/
def render_base_disp (base : Nat) (disp : Int) : String :=
  let signedBase : Int := i32 ↑base
  toString signedBase ++ "(" ++ render_reg disp ++ ")"

/-- The function `render_lui`. -/
def render_lui (insn : Nat) : String :=
  let rd := get_rd insn
  let imm_u := get_imm_u insn
  render_mnemonic "lui" ++ render_reg (i32 ↑rd) ++ "," ++
    to_hex0x20 (u32 (Int.land (imm_u >>> (12 : Nat)) 0x0fffff))

/-- The function `render_auipc`. -/
def render_auipc (insn : Nat) : String :=
  let rd := get_rd insn
  let imm_u := get_imm_u insn
  render_mnemonic "auipc" ++ render_reg (i32 ↑rd) ++ "," ++
    to_hex0x20 (u32 (Int.land (imm_u >>> (12 : Nat)) 0x0fffff))

/-- The function `render_jal`: `imm_j += addr` is computed in `uint32_t` and stored back
into the `int32_t`. -/
def render_jal (addr insn : Nat) : String :=
  let rd := get_rd insn
  let imm_j := get_imm_j insn
  let imm_j : Int := i32 ↑((u32 imm_j + addr) % 4294967296)
  render_mnemonic "jal" ++ render_reg (i32 ↑rd) ++ "," ++ to_hex0x32 (u32 imm_j)

/-- The function `render_jalr`. -/
def render_jalr (insn : Nat) : String :=
  let rd := get_rd insn
  let imm_i := u32 (get_imm_i insn)
  let rs1 := get_rs1 insn
  render_mnemonic "jalr" ++ render_reg (i32 ↑rd) ++ "," ++ render_base_disp imm_i (i32 ↑rs1)

/-- The function `render_itype_alu`: the immediate is printed as a signed decimal. -/
def render_itype_alu (insn : Nat) (mnemonic : String) (imm_i : Int) : String :=
  let rd := get_rd insn
  let rs1 := get_rs1 insn
  render_mnemonic mnemonic ++ render_reg (i32 ↑rd) ++ "," ++ render_reg (i32 ↑rs1) ++ "," ++
    toString imm_i

/-- The function `render_itype_load`. -/
def render_itype_load (insn : Nat) (mnemonic : String) : String :=
  let rd := get_rd insn
  let imm_i := u32 (get_imm_i insn)
  let rs1 := get_rs1 insn
  render_mnemonic mnemonic ++ render_reg (i32 ↑rd) ++ "," ++
    render_base_disp imm_i (i32 ↑rs1)

/-- The function `render_stype`. -/
def render_stype (insn : Nat) (mnemonic : String) : String :=
  let imm_s := u32 (get_imm_s insn)
  let rs1 := get_rs1 insn
  let rs2 := get_rs2 insn
  render_mnemonic mnemonic ++ render_reg (i32 ↑rs2) ++ "," ++
    render_base_disp imm_s (i32 ↑rs1)

/-- The function `render_btype`: the target `addr + pcrel_signed` is computed in
`uint32_t`. -/
def render_btype (addr insn : Nat) (mnemonic : String) : String :=
  let pcrel_13 := u32 (get_imm_b insn)
  let rs1 := get_rs1 insn
  let rs2 := get_rs2 insn
  let pcrel_signed : Int := i32 ↑pcrel_13
  render_mnemonic mnemonic ++ render_reg (i32 ↑rs1) ++ "," ++ render_reg (i32 ↑rs2) ++ "," ++
    to_hex0x32 ((addr + u32 pcrel_signed) % 4294967296)

/-- The function `render_rtype`. -/
def render_rtype (insn : Nat) (mnemonic : String) : String :=
  let rd := get_rd insn
  let rs1 := get_rs1 insn
  let rs2 := get_rs2 insn
  render_mnemonic mnemonic ++ render_reg (i32 ↑rd) ++ "," ++ render_reg (i32 ↑rs1) ++ "," ++
    render_reg (i32 ↑rs2)

/-- The function `render_csrrx`. -/
def render_csrrx (insn : Nat) (mnemonic : String) : String :=
  let imm_i := u32 (get_imm_i insn)
  let rd := get_rd insn
  let rs1 := get_rs1 insn
  render_mnemonic mnemonic ++ render_reg (i32 ↑rd) ++ "," ++ to_hex0x12 (imm_i &&& 0xfff) ++
    "," ++ render_reg (i32 ↑rs1)

/-- The function `render_csrrxi`: `zimm` is printed as an unsigned decimal. -/
def render_csrrxi (insn : Nat) (mnemonic : String) : String :=
  let imm_i := u32 (get_imm_i insn)
  let rd := get_rd insn
  let zimm := get_rs1 insn
  render_mnemonic mnemonic ++ render_reg (i32 ↑rd) ++ "," ++ to_hex0x12 (imm_i &&& 0xfff) ++
    "," ++ toString zimm

/-- The function `render_ebreak`. -/
def render_ebreak : String := "ebreak"

/-- The function `render_ecall`. -/
def render_ecall : String := "ecall"

/-- The function `decode`: the switch on opcode, funct3 and funct7 (or `imm_i`). The
shift amount shown for `slli`, `srli` and `srai` is `get_imm_i(insn) % XLEN`
(`shown_shamt`), whose value for a negative `imm_i` depends on the declaration of `XLEN`
(`XLEN_signed`). -/
def decode (addr insn : Nat) : String :=
  let opcode := get_opcode insn
  if opcode == opcode_lui then render_lui insn
  else if opcode == opcode_auipc then render_auipc insn
  else if opcode == opcode_jal then render_jal addr insn
  else if opcode == opcode_jalr then render_jalr insn
  else if opcode == opcode_rtype then
    let funct3 := get_funct3 insn
    if funct3 == funct3_add then
      let funct7 := get_funct7 insn
      if funct7 == funct7_add then render_rtype insn "add"
      else if funct7 == funct7_sub then render_rtype insn "sub"
      else render_illegal_insn
    else if funct3 == funct3_sll then render_rtype insn "sll"
    else if funct3 == funct3_slt then render_rtype insn "slt"
    else if funct3 == funct3_sltu then render_rtype insn "sltu"
    else if funct3 == funct3_xor then render_rtype insn "xor"
    else if funct3 == funct3_srx then
      let funct7 := get_funct7 insn
      if funct7 == funct7_srl then render_rtype insn "srl"
      else if funct7 == funct7_sra then render_rtype insn "sra"
      else render_illegal_insn
    else if funct3 == funct3_or then render_rtype insn "or"
    else if funct3 == funct3_and then render_rtype insn "and"
    else render_illegal_insn
  else if opcode == opcode_btype then
    let funct3 := get_funct3 insn
    if funct3 == funct3_beq then render_btype addr insn "beq"
    else if funct3 == funct3_bne then render_btype addr insn "bne"
    else if funct3 == funct3_blt then render_btype addr insn "blt"
    else if funct3 == funct3_bge then render_btype addr insn "bge"
    else if funct3 == funct3_bltu then render_btype addr insn "bltu"
    else if funct3 == funct3_bgeu then render_btype addr insn "bgeu"
    else render_illegal_insn
  else if opcode == opcode_system then
    let funct3 := get_funct3 insn
    if funct3 == funct3_csrrw then render_csrrx insn "csrrw"
    else if funct3 == funct3_csrrs then render_csrrx insn "csrrs"
    else if funct3 == funct3_csrrc then render_csrrx insn "csrrc"
    else if funct3 == funct3_csrrwi then render_csrrxi insn "csrrwi"
    else if funct3 == funct3_csrrsi then render_csrrxi insn "csrrsi"
    else if funct3 == funct3_csrrci then render_csrrxi insn "csrrci"
    else if funct3 == funct3_e then
      let imm_i := get_imm_i insn
      if imm_i == 0 then render_ecall
      else if imm_i == 1 then render_ebreak
      else render_illegal_insn
    else render_illegal_insn
  else if opcode == opcode_stype then
    let funct3 := get_funct3 insn
    if funct3 == funct3_sb then render_stype insn "sb"
    else if funct3 == funct3_sh then render_stype insn "sh"
    else if funct3 == funct3_sw then render_stype insn "sw"
    else render_illegal_insn
  else if opcode == opcode_load_imm then
    let funct3 := get_funct3 insn
    if funct3 == funct3_lb then render_itype_load insn "lb"
    else if funct3 == funct3_lh then render_itype_load insn "lh"
    else if funct3 == funct3_lw then render_itype_load insn "lw"
    else if funct3 == funct3_lbu then render_itype_load insn "lbu"
    else if funct3 == funct3_lhu then render_itype_load insn "lhu"
    else render_illegal_insn
  else if opcode == opcode_alu_imm then
    let funct3 := get_funct3 insn
    if funct3 == funct3_add then render_itype_alu insn "addi" (get_imm_i insn)
    else if funct3 == funct3_sll then
      render_itype_alu insn "slli" (shown_shamt XLEN_signed (get_imm_i insn))
    else if funct3 == funct3_slt then render_itype_alu insn "slti" (get_imm_i insn)
    else if funct3 == funct3_sltu then render_itype_alu insn "sltiu" (get_imm_i insn)
    else if funct3 == funct3_xor then render_itype_alu insn "xori" (get_imm_i insn)
    else if funct3 == funct3_or then render_itype_alu insn "ori" (get_imm_i insn)
    else if funct3 == funct3_and then render_itype_alu insn "andi" (get_imm_i insn)
    else if funct3 == funct3_srx then
      let funct7 := get_funct7 insn
      if funct7 == funct7_sra then
        render_itype_alu insn "srai" (shown_shamt XLEN_signed (get_imm_i insn))
      else if funct7 == funct7_srl then
        render_itype_alu insn "srli" (shown_shamt XLEN_signed (get_imm_i insn))
      else render_illegal_insn
    else render_illegal_insn
  else render_illegal_insn

/-- Whether the switch of `decode` ends in `render_illegal_insn` for the word `insn`: the
same switch, with `true` at the `default:` arms and `false` at every other arm. -/
def decode_rejects (insn : Nat) : Bool :=
  let opcode := get_opcode insn
  if opcode == opcode_lui then false
  else if opcode == opcode_auipc then false
  else if opcode == opcode_jal then false
  else if opcode == opcode_jalr then false
  else if opcode == opcode_rtype then
    let funct3 := get_funct3 insn
    if funct3 == funct3_add then
      let funct7 := get_funct7 insn
      if funct7 == funct7_add then false
      else if funct7 == funct7_sub then false
      else true
    else if funct3 == funct3_sll then false
    else if funct3 == funct3_slt then false
    else if funct3 == funct3_sltu then false
    else if funct3 == funct3_xor then false
    else if funct3 == funct3_srx then
      let funct7 := get_funct7 insn
      if funct7 == funct7_srl then false
      else if funct7 == funct7_sra then false
      else true
    else if funct3 == funct3_or then false
    else if funct3 == funct3_and then false
    else true
  else if opcode == opcode_btype then
    let funct3 := get_funct3 insn
    if funct3 == funct3_beq then false
    else if funct3 == funct3_bne then false
    else if funct3 == funct3_blt then false
    else if funct3 == funct3_bge then false
    else if funct3 == funct3_bltu then false
    else if funct3 == funct3_bgeu then false
    else true
  else if opcode == opcode_system then
    let funct3 := get_funct3 insn
    if funct3 == funct3_csrrw then false
    else if funct3 == funct3_csrrs then false
    else if funct3 == funct3_csrrc then false
    else if funct3 == funct3_csrrwi then false
    else if funct3 == funct3_csrrsi then false
    else if funct3 == funct3_csrrci then false
    else if funct3 == funct3_e then
      let imm_i := get_imm_i insn
      if imm_i == 0 then false
      else if imm_i == 1 then false
      else true
    else true
  else if opcode == opcode_stype then
    let funct3 := get_funct3 insn
    if funct3 == funct3_sb then false
    else if funct3 == funct3_sh then false
    else if funct3 == funct3_sw then false
    else true
  else if opcode == opcode_load_imm then
    let funct3 := get_funct3 insn
    if funct3 == funct3_lb then false
    else if funct3 == funct3_lh then false
    else if funct3 == funct3_lw then false
    else if funct3 == funct3_lbu then false
    else if funct3 == funct3_lhu then false
    else true
  else if opcode == opcode_alu_imm then
    let funct3 := get_funct3 insn
    if funct3 == funct3_add then false
    else if funct3 == funct3_sll then false
    else if funct3 == funct3_slt then false
    else if funct3 == funct3_sltu then false
    else if funct3 == funct3_xor then false
    else if funct3 == funct3_or then false
    else if funct3 == funct3_and then false
    else if funct3 == funct3_srx then
      let funct7 := get_funct7 insn
      if funct7 == funct7_sra then false
      else if funct7 == funct7_srl then false
      else true
    else true
  else true

/-- Whether a string begins with a character other than `'E'`, the first character of
the text of `render_illegal_insn`. -/
def starts_other (s : String) : Bool :=
  match s.data with
  | [] => false
  | c :: _ => c != 'E'

/-- The classification table in the words of the specification: whether the word `w`
matches one of its rows. LUI 0x37; AUIPC 0x17; JAL 0x6F; JALR 0x67 with funct3 = 0; B-type
0x63 with funct3 in 0, 1, 4, 5, 6, 7; loads 0x03 with funct3 in 0, 1, 2, 4, 5; stores 0x23
with funct3 in 0, 1, 2; ALU-imm 0x13, funct3 = 5 requiring funct7 in 0x00, 0x20; R-type
0x33, funct3 = 0 and funct3 = 5 requiring funct7 in 0x00, 0x20; SYSTEM 0x73 with funct3 in
1, 2, 3, 5, 6, 7, or funct3 = 0 with `imm_i` in 0, 1. -/
def spec_classified (w : Nat) : Bool :=
  let opcode := get_opcode w
  let funct3 := get_funct3 w
  let funct7 := get_funct7 w
  let imm_i := get_imm_i w
  opcode == 0x37 || opcode == 0x17 || opcode == 0x6f ||
  (opcode == 0x67 && funct3 == 0) ||
  (opcode == 0x63 && [0, 1, 4, 5, 6, 7].contains funct3) ||
  (opcode == 0x03 && [0, 1, 2, 4, 5].contains funct3) ||
  (opcode == 0x23 && [0, 1, 2].contains funct3) ||
  (opcode == 0x13 && (funct3 != 5 || [0x00, 0x20].contains funct7)) ||
  (opcode == 0x33 && ((funct3 != 0 && funct3 != 5) || [0x00, 0x20].contains funct7)) ||
  (opcode == 0x73 && ([1, 2, 3, 5, 6, 7].contains funct3 ||
    (funct3 == 0 && (imm_i == 0 || imm_i == 1))))

/-- The table of `spec_classified` with the JALR row widened to opcode 0x67 with any
funct3, which is what the switch of `decode` tests. -/
def spec_classified_any_jalr (w : Nat) : Bool :=
  spec_classified w || get_opcode w == 0x67

end rv32i_decode

/-! ## Harts for the SYSTEM instructions -/

/-- The hart of the first scenario with the word `0x00000073` (`ecall`) at address 0. -/
def scenario_ecall : rv32i_hart :=
  { scenario_addi with mem := { mem := [0x73, 0x00, 0x00, 0x00] ++ List.replicate 252 0xa5 } }

/-- The hart of the first scenario with the word `0x00100073` (`ebreak`) at address 0. -/
def scenario_ebreak : rv32i_hart :=
  { scenario_addi with mem := { mem := [0x73, 0x00, 0x10, 0x00] ++ List.replicate 252 0xa5 } }

/-! ## The R-type results in the words of the specification -/

/-- The 32-bit value the R-type instruction with the given `funct3` and `funct7` writes,
for `x = regs[rs1]` and `y = regs[rs2]`: `ADD` `(x + y) mod 2^32` and `SUB`
`(x - y) mod 2^32` (funct3 0, funct7 0x00 and 0x20), `SLL` `x << (y & 0x1F)` truncated to
32 bits (1), `SLT` 1 or 0 by signed `x < y` (2), `SLTU` 1 or 0 by unsigned `x < y` (3), `XOR`
(4), `SRL` the logical shift `x >> (y & 0x1F)` and `SRA` the arithmetic shift, the floor of
the signed `x` divided by `2^(y & 0x1F)` (5, funct7 0x00 and 0x20), `OR` (6), `AND` (7). -/
def rtype_value (funct3 funct7 : Nat) (x y : Int) : Nat :=
  let shamt := u32 y &&& 0x1F
  if funct3 = 0 then (if funct7 = 0x20 then u32 (x - y) else u32 (x + y))
  else if funct3 = 1 then (u32 x <<< shamt) % 4294967296
  else if funct3 = 2 then (if x < y then 1 else 0)
  else if funct3 = 3 then (if u32 x < u32 y then 1 else 0)
  else if funct3 = 4 then u32 x ^^^ u32 y
  else if funct3 = 5 then
    (if funct7 = 0x20 then u32 (Int.fdiv x (2 ^ shamt)) else u32 x >>> shamt)
  else if funct3 = 6 then u32 x ||| u32 y
  else u32 x &&& u32 y

/-- A hart with `x1 = -8` and `x2 = 33`. -/
def scenario_rtype : rv32i_hart :=
  { scenario_addi with
    regs := { regVec := ((scenario_addi.regs.regVec).set 1 (-8)).set 2 33 } }

/-! ## Stores in the words of the specification -/

/-- The number of bytes the store with the given `funct3` writes: `SB` (0) one, `SH` (1)
two, `SW` (2) four. -/
def store_bytes (funct3 : Nat) : Nat :=
  if funct3 = 0 then 1 else if funct3 = 1 then 2 else 4

/-- A hart with `x1 = 8` and `x2 = 0x12345678`. -/
def scenario_store : rv32i_hart :=
  { scenario_addi with
    regs := { regVec := ((scenario_addi.regs.regVec).set 1 8).set 2 0x12345678 } }

/-! ## cpu_single_hart.cpp -/

namespace rv32i_hart

/-- Modelled from the spec: the accessor `is_halted` of the header `rv32i_hart.h`, which
is not among the sources; the hart state's `halted` flag. -/
def is_halted (h : rv32i_hart) : Bool := h.halt

/-- Modelled from the spec: the accessor `get_halt_reason` of `rv32i_hart.h`; the hart
state's `halt_reason`. -/
def get_halt_reason (h : rv32i_hart) : String := h.halt_reason

/-- Modelled from the spec: the accessor `get_insn_counter` of `rv32i_hart.h`; the hart
state's `insn_counter`. -/
def get_insn_counter (h : rv32i_hart) : Nat := h.insn_counter

/-- Modelled from the spec: the mutator `set_halt` of `rv32i_hart.h`; it forces the
`halted` flag and leaves `halt_reason` as it is currently set. -/
def set_halt (h : rv32i_hart) (b : Bool) : rv32i_hart := { h with halt := b }

/-- Modelled from the spec: the mutator `set_show_registers` of `rv32i_hart.h`; it sets
the `show_registers` flag. -/
def set_show_registers (h : rv32i_hart) (b : Bool) : rv32i_hart :=
  { h with show_registers := b }

end rv32i_hart

namespace cpu_single_hart

/-- The loop `while(!is_halted()) { tick(""); }` of `run` for `exec_limit == 0`, cut after
`fuel` iterations: the result is `none` when the hart is still running at that point. -/
def run_unlimited_loop : Nat → rv32i_hart → Sim (Option rv32i_hart)
  | 0, h => if !h.is_halted then pure none else pure (some h)
  | fuel + 1, h =>
    if !h.is_halted then do
      let h ← h.tick
      run_unlimited_loop fuel h
    else
      pure (some h)

/-- The loop of `run` for `exec_limit != 0`, entered with the local counter `lmt` and cut
after `fuel` iterations: each iteration is one `tick`, `lmt++`, the switch of
`show_registers` when `lmt == exec_limit-1`, and the forced halt with its output and the
`break` when `lmt == exec_limit`.  The result is `none` when the hart is still running
after `fuel` iterations. -/
def run_limited_loop (exec_limit : Nat) : Nat → Nat → rv32i_hart → Sim (Option rv32i_hart)
  | 0, _, h => if !h.is_halted then pure none else pure (some h)
  | fuel + 1, lmt, h =>
    if !h.is_halted then do
      let h ← h.tick
      let lmt := (lmt + 1) % 18446744073709551616
      let h := if lmt == exec_limit - 1 then h.set_show_registers false else h
      if lmt == exec_limit then
        let h := h.set_halt true
        if h.is_halted == true then
          if h.get_halt_reason != "none" then
            Sim.emit (Out.terminated h.get_halt_reason)
          Sim.emit (Out.executed h.get_insn_counter)
        pure (some h)
      else
        run_limited_loop exec_limit fuel lmt h
    else
      pure (some h)

/-- The method `cpu_single_hart::run`, with its loops cut after `fuel` iterations (one
`tick` each): `none` when the loop has not ended by then. -/
def run (h : rv32i_hart) (exec_limit : Nat) (fuel : Nat) : Sim (Option rv32i_hart) :=
  let lmt := 0
  if exec_limit == 0 then do
    match ← run_unlimited_loop fuel h with
    | none => pure none
    | some h =>
      if h.is_halted == true then
        Sim.emit (Out.terminated h.get_halt_reason)
        Sim.emit (Out.executed h.get_insn_counter)
      pure (some h)
  else
    run_limited_loop exec_limit fuel lmt h

/-- The harts the loop of `run(exec_limit)` passes through, without the forced halt: the
hart after up to `k` further iterations entered with the counter `lmt`, each a `tick`
followed by the switch of `show_registers` when the counter reaches `exec_limit-1`, and
none once the hart is halted. -/
def run_ticks (exec_limit : Nat) : Nat → Nat → rv32i_hart → Sim rv32i_hart
  | 0, _, h => pure h
  | k + 1, lmt, h =>
    if h.halt then
      pure h
    else do
      let h ← h.tick
      let h := if lmt + 1 = exec_limit - 1 then h.set_show_registers false else h
      run_ticks exec_limit k (lmt + 1) h

end cpu_single_hart

/-! ## What the executors leave alone -/

/-- The relation between a hart `h` and the hart `h2` an executor returns: the instruction
counter and the two display flags are the same, and either the halt flag and reason are
the same, or the hart is halted with a reason other than `"none"`. -/
@[reducible] def rv32i_hart.kept (h h2 : rv32i_hart) : Prop :=
  h2.insn_counter = h.insn_counter ∧ h2.show_instructions = h.show_instructions ∧
  h2.show_registers = h.show_registers ∧
  ((h2.halt = h.halt ∧ h2.halt_reason = h.halt_reason) ∨
    (h2.halt = true ∧ h2.halt_reason ≠ "none"))

/-! ## What the executors other than the illegal-instruction one leave alone -/

/-- The relation between a hart `h` and the hart `h2` an executor other than
`exec_illegal_insn` returns: either the halt flag and reason are the same, or the reason is
not `"Illegal instruction"`. -/
@[reducible] def rv32i_hart.legal_kept (h h2 : rv32i_hart) : Prop :=
  (h2.halt = h.halt ∧ h2.halt_reason = h.halt_reason) ∨
    h2.halt_reason ≠ "Illegal instruction"

/-! ## The words `exec` sends to a load or store

The same switch as `exec`, with `true` where `exec` calls one of the five load and three
store executors and `false` where it calls any other executor. -/

namespace rv32i_hart

open rv32i_decode

/-- Whether the switch of `exec` ends in a load or store executor for the word `insn`. -/
def exec_memory (insn : Nat) : Bool :=
  let opcode := get_opcode insn
  if opcode == opcode_lui then false
  else if opcode == opcode_auipc then false
  else if opcode == opcode_jal then false
  else if opcode == opcode_jalr then false
  else if opcode == opcode_rtype then
    let funct3 := get_funct3 insn
    if funct3 == funct3_add then
      let funct7 := get_funct7 insn
      if funct7 == funct7_add then false
      else if funct7 == funct7_sub then false
      else false
    else if funct3 == funct3_sll then false
    else if funct3 == funct3_slt then false
    else if funct3 == funct3_sltu then false
    else if funct3 == funct3_xor then false
    else if funct3 == funct3_srx then
      let funct7 := get_funct7 insn
      if funct7 == funct7_srl then false
      else if funct7 == funct7_sra then false
      else false
    else if funct3 == funct3_or then false
    else if funct3 == funct3_and then false
    else false
  else if opcode == opcode_btype then
    let funct3 := get_funct3 insn
    if funct3 == funct3_beq then false
    else if funct3 == funct3_bne then false
    else if funct3 == funct3_blt then false
    else if funct3 == funct3_bge then false
    else if funct3 == funct3_bltu then false
    else if funct3 == funct3_bgeu then false
    else false
  else if opcode == opcode_system then
    let funct3 := get_funct3 insn
    if funct3 == funct3_csrrs then false
    else if funct3 == funct3_e then
      let imm_i := get_imm_i insn
      if imm_i == 1 then false
      else if imm_i == 0 then false
      else false
    else false
  else if opcode == opcode_stype then
    let funct3 := get_funct3 insn
    if funct3 == funct3_sb then true
    else if funct3 == funct3_sh then true
    else if funct3 == funct3_sw then true
    else false
  else if opcode == opcode_alu_imm then
    let funct3 := get_funct3 insn
    if funct3 == funct3_add then false
    else if funct3 == funct3_sll then false
    else if funct3 == funct3_slt then false
    else if funct3 == funct3_sltu then false
    else if funct3 == funct3_xor then false
    else if funct3 == funct3_or then false
    else if funct3 == funct3_and then false
    else if funct3 == funct3_srx then
      let funct7 := get_funct7 insn
      if funct7 == funct7_sra then false
      else if funct7 == funct7_srl then false
      else false
    else false
  else if opcode == opcode_load_imm then
    let funct3 := get_funct3 insn
    if funct3 == funct3_lbu then true
    else if funct3 == funct3_lhu then true
    else if funct3 == funct3_lb then true
    else if funct3 == funct3_lh then true
    else if funct3 == funct3_lw then true
    else false
  else false

end rv32i_hart

/-! ## Outcomes of a computation

`Sim.wp x F Q` reads: `x` returns a value that satisfies `Q`, or `x` faults and `F` holds.
With `F := False` it says that `x` returns. -/

/-- The computation `x` returns a value satisfying `Q`, or it faults and `F` holds. -/
def Sim.wp {α : Type} (x : Sim α) (F : Prop) (Q : α → Prop) : Prop :=
  match x with
  | Except.error _ => F
  | Except.ok (a, _) => Q a

/-! ## Architectural state and agreement of two computations

The architectural state of a hart is everything but the two display switches.
`Sim.value x` forgets the output of `x`; `Sim.rel R x y` reads: `x` and `y` both fault, or
both return and the values are related by `R`. -/

/-- The value a computation returns, `none` when it faults. -/
def Sim.value {α : Type} (x : Sim α) : Option α :=
  match x with
  | Except.error _ => none
  | Except.ok (a, _) => some a

/-- The computations `x` and `y` both fault, or both return, with values related by `R`. -/
def Sim.rel {α β : Type} (R : α → β → Prop) (x : Sim α) (y : Sim β) : Prop :=
  match x, y with
  | Except.ok (a, _), Except.ok (b, _) => R a b
  | Except.error _, Except.error _ => True
  | _, _ => False

/-- The architectural state: pc, registers, memory, instruction counter, halted flag and
halt reason. -/
@[reducible] def rv32i_hart.arch (h : rv32i_hart) :
    Nat × registerfile × memory × Nat × Bool × String :=
  (h.pc, h.regs, h.mem, h.insn_counter, h.halt, h.halt_reason)

/-! ## Harts for the run loop -/

/-- A hart with `addi x1, x0, 5` at addresses 0 and 4 and both display switches on. -/
def scenario_show : rv32i_hart :=
  { scenario_addi with
    mem := { mem := [0x93, 0x00, 0x50, 0x00, 0x93, 0x00, 0x50, 0x00] ++ List.replicate 248 0xa5 }
    show_instructions := true
    show_registers := true }

/-- The hart of the first scenario with the word `0x2000006f` (`jal x0, 0x200`) at address
0: the target `0x200` lies outside its memory of `0x100` bytes. -/
def scenario_jal : rv32i_hart :=
  { scenario_addi with mem := { mem := [0x6f, 0x00, 0x00, 0x20] ++ List.replicate 252 0xa5 } }

/-- The hart of the first scenario with the word `0x00012023` (`sw x0, 0(x2)`) at address
0.  It is the hart `reset` returns: `x2` holds the size `0x100` of the memory, so the store
is at the address `size`. -/
def scenario_sw : rv32i_hart :=
  { scenario_addi with mem := { mem := [0x23, 0x20, 0x01, 0x00] ++ List.replicate 252 0xa5 } }

/-! ## A hart for the shift amount of `slli` -/

/-- The hart of the first scenario with the word `0xfff11093` at address 0 (opcode `0x13`,
funct3 1, `rd = 1`, `rs1 = 2`, `imm_i = -1`) and `x2 = 1`. -/
def scenario_slli : rv32i_hart :=
  { scenario_addi with
    mem := { mem := [0x93, 0x10, 0xf1, 0xff] ++ List.replicate 252 0xa5 }
    regs := { regVec := (registerfile.new.regVec).set 2 1 } }

/-! # Properties

## Auxiliary lemmas: sequencing -/

theorem Sim.pure_eq {α : Type} (a : α) : (pure a : Sim α) = Except.ok (a, []) := rfl

theorem Sim.bind_eq {α β : Type} (x : Sim α) (f : α → Sim β) :
    (x >>= f) = Sim.andThen x f := rfl

theorem Sim.ok_andThen {α β : Type} (a : α) (f : α → Sim β) :
    Sim.andThen (Except.ok (a, [])) f = f a := by
  rcases h : f a with e | ⟨b, o⟩ <;> simp [Sim.andThen, h]

/-! ## Auxiliary lemmas: bit operations as arithmetic -/

theorem or_add (a b k : Nat) (ha : a % 2 ^ k = 0) (hb : b < 2 ^ k) : a ||| b = a + b := by
  have h := Nat.mul_add_lt_is_or hb (a / 2 ^ k)
  have e : 2 ^ k * (a / 2 ^ k) = a := by
    have := Nat.div_add_mod a (2 ^ k)
    omega
  rw [e] at h
  exact h.symm

theorem or_shl_eq (x y n : Nat) (hy : y < 2 ^ n) : (x <<< n) ||| y = x * 2 ^ n + y := by
  rw [Nat.shiftLeft_eq]
  exact or_add _ _ n (Nat.mul_mod_left _ _) hy

theorem and_mask (x w k : Nat) : x &&& ((2 ^ w - 1) * 2 ^ k) = x / 2 ^ k % 2 ^ w * 2 ^ k := by
  apply Nat.eq_of_testBit_eq
  intro i
  rw [Nat.mul_comm _ (2 ^ k), Nat.mul_comm _ (2 ^ k), ← Nat.shiftRight_eq_div_pow,
    Nat.testBit_and, Nat.testBit_mul_pow_two, Nat.testBit_mul_pow_two,
    Nat.testBit_two_pow_sub_one, Nat.testBit_mod_two_pow, Nat.testBit_shiftRight]
  by_cases hk : k ≤ i
  · simp [hk, Nat.add_sub_cancel' hk, Bool.and_comm]
  · simp [hk]

/-! ## Auxiliary lemmas: memory accesses inside the vector -/

namespace memory

theorem check_illegal_le (m : memory) (a : Nat) (h : a ≤ m.mem.length) :
    m.check_illegal a = Except.ok (false, []) := by
  have : ¬ a > m.mem.length := by omega
  simp [check_illegal, this, Sim.pure_eq]

theorem check_illegal_gt (m : memory) (a : Nat) (h : m.mem.length < a) :
    m.check_illegal a = Except.ok (true, [Out.warning a]) := by
  simp [check_illegal, h, Sim.pure_eq, Sim.bind_eq, Sim.andThen, Sim.emit]

theorem get8_in (m : memory) (a b : Nat) (h : m.mem[a]? = some b) :
    m.get8 a = Except.ok (b, []) := by
  have hl : a < m.mem.length := by
    rcases List.getElem?_eq_some_iff.mp h with ⟨hl, _⟩
    exact hl
  simp [get8, Sim.bind_eq, check_illegal_le m a (Nat.le_of_lt hl), Sim.ok_andThen, h, Sim.pure_eq]

theorem set8_in (m : memory) (a v : Nat) (h : a < m.mem.length) :
    m.set8 a v = Except.ok ({ mem := m.mem.set a v }, []) := by
  simp [set8, Sim.bind_eq, check_illegal_le m a (Nat.le_of_lt h), Sim.ok_andThen, h, Sim.pure_eq]

theorem get16_in (m : memory) (a b₀ b₁ : Nat) (h₀ : m.mem[a]? = some b₀)
    (h₁ : m.mem[a + 1]? = some b₁) (ha : a + 1 < 4294967296) :
    m.get16 a = Except.ok (((b₁ <<< 8) ||| b₀) % 65536, []) := by
  have e : (a + 1) % 4294967296 = a + 1 := Nat.mod_eq_of_lt ha
  simp [get16, Sim.bind_eq, e, get8_in m a b₀ h₀, get8_in m (a + 1) b₁ h₁, Sim.ok_andThen,
    Sim.pure_eq]

theorem set16_in (m : memory) (a v : Nat) (h : a + 1 < m.mem.length) (ha : a + 1 < 4294967296) :
    m.set16 a v =
      Except.ok ({ mem := (m.mem.set a (v % 256)).set (a + 1) ((v >>> 8) % 256) }, []) := by
  have e : (a + 1) % 4294967296 = a + 1 := Nat.mod_eq_of_lt ha
  have h0 : a < m.mem.length := by omega
  rw [set16, Sim.bind_eq, set8_in m a _ h0, Sim.ok_andThen, e, set8_in]
  simpa using h
theorem get32_in (m : memory) (a b₀ b₁ b₂ b₃ : Nat) (h₀ : m.mem[a]? = some b₀)
    (h₁ : m.mem[a + 1]? = some b₁) (h₂ : m.mem[a + 2]? = some b₂)
    (h₃ : m.mem[a + 3]? = some b₃) (ha : a + 3 < 4294967296) :
    m.get32 a = Except.ok
      ((((((b₃ <<< 8) ||| b₂) % 65536) <<< 16) ||| (((b₁ <<< 8) ||| b₀) % 65536)) % 4294967296,
        []) := by
  have e : (a + 2) % 4294967296 = a + 2 := Nat.mod_eq_of_lt (by omega)
  rw [get32, Sim.bind_eq, get16_in m a b₀ b₁ h₀ h₁ (by omega), Sim.ok_andThen, e, Sim.bind_eq,
    get16_in m (a + 2) b₂ b₃ h₂ h₃ (by omega), Sim.ok_andThen]
  rfl

theorem set32_in (m : memory) (a v : Nat) (h : a + 3 < m.mem.length) (ha : a + 3 < 4294967296) :
    m.set32 a v = Except.ok
      ({ mem := (((m.mem.set a (v % 65536 % 256)).set (a + 1) ((v % 65536) >>> 8 % 256)).set
          (a + 2) ((v >>> 16) % 65536 % 256)).set (a + 3) (((v >>> 16) % 65536) >>> 8 % 256) },
        []) := by
  have e : (a + 2) % 4294967296 = a + 2 := Nat.mod_eq_of_lt (by omega)
  rw [set32, Sim.bind_eq, set16_in m a _ (by omega) (by omega), Sim.ok_andThen, e, set16_in]
  · simp only [List.length_set]
    omega
  · omega

/-- Four bytes of a 32-bit word, recombined little-endian, give the word back. -/
theorem bytes_recombine (w : Nat) (hw : w < 4294967296) :
    ((((((w >>> 16) % 65536) >>> 8 % 256) <<< 8 ||| ((w >>> 16) % 65536 % 256)) % 65536) <<< 16 |||
      ((((w % 65536) >>> 8 % 256) <<< 8 ||| (w % 65536 % 256)) % 65536)) % 4294967296 = w := by
  rw [or_shl_eq _ _ 8 (by omega), or_shl_eq _ _ 8 (by omega), or_shl_eq _ _ 16 (by omega)]
  simp only [Nat.shiftRight_eq_div_pow]
  omega

end memory

theorem and_255 (x : Nat) : x &&& 0xff = x % 256 := Nat.and_pow_two_sub_one_eq_mod x 8

theorem memory.mem_some (m : memory) (a : Nat) (h : a < m.mem.length) :
    ∃ b, m.mem[a]? = some b :=
  ⟨m.mem[a], by simp [List.getElem?_eq_getElem, h]⟩

/-! ## Memory: word round trip and byte order -/

/-- C2: for every memory, 32-bit word `w` and address `a` with `a + 3 < size`, `set32(a, w)`
returns and `get32(a)` then reads `w`; in particular `get32(a)` returns a word which,
written back with `set32`, is read again unchanged.  Neither call writes a warning. -/
theorem memory.set32_get32 (m : memory) (a w : Nat) (ha : a + 3 < m.get_size)
    (hw : w < 4294967296) :
    (∃ m', m.set32 a w = Except.ok (m', []) ∧ m'.get32 a = Except.ok (w, [])) ∧
    (∃ v m', m.get32 a = Except.ok (v, []) ∧ m.set32 a v = Except.ok (m', []) ∧
      m'.get32 a = Except.ok (v, [])) := by
  have hlen : a + 3 < m.mem.length := by
    unfold memory.get_size at ha
    omega
  have h32 : a + 3 < 4294967296 := by
    unfold memory.get_size at ha
    omega
  have key : ∀ v, v < 4294967296 →
      ∃ m', m.set32 a v = Except.ok (m', []) ∧ m'.get32 a = Except.ok (v, []) := by
    intro v hv
    refine ⟨_, memory.set32_in m a v hlen h32, ?_⟩
    rw [memory.get32_in _ a (v % 65536 % 256) ((v % 65536) >>> 8 % 256)
      ((v >>> 16) % 65536 % 256) (((v >>> 16) % 65536) >>> 8 % 256)]
    · rw [memory.bytes_recombine v hv]
    · simp [List.getElem?_set]
      omega
    · simp [List.getElem?_set]
      omega
    · simp [List.getElem?_set]
      omega
    · simp [List.getElem?_set]
      omega
    · exact h32
  refine ⟨key w hw, ?_⟩
  obtain ⟨b₀, h₀⟩ := m.mem_some a (by omega)
  obtain ⟨b₁, h₁⟩ := m.mem_some (a + 1) (by omega)
  obtain ⟨b₂, h₂⟩ := m.mem_some (a + 2) (by omega)
  obtain ⟨b₃, h₃⟩ := m.mem_some (a + 3) hlen
  have hg := memory.get32_in m a b₀ b₁ b₂ b₃ h₀ h₁ h₂ h₃ h32
  obtain ⟨m', hs, hr⟩ := key _ (Nat.mod_lt _ (by norm_num))
  exact ⟨_, m', hg, hs, hr⟩


theorem memory.set32_get32_witness :
    3 + 3 < (memory.new 16).get_size ∧ 0x12345678 < 4294967296 ∧
    ((∃ m', (memory.new 16).set32 3 0x12345678 = Except.ok (m', []) ∧
        m'.get32 3 = Except.ok (0x12345678, [])) ∧
     (∃ v m', (memory.new 16).get32 3 = Except.ok (v, []) ∧
        (memory.new 16).set32 3 v = Except.ok (m', []) ∧ m'.get32 3 = Except.ok (v, []))) :=
  ⟨by decide, by decide, memory.set32_get32 (memory.new 16) 3 0x12345678 (by decide) (by decide)⟩

/-- C3: multi-byte accesses are little-endian and need no alignment.  For every memory,
32-bit word `w` and address `a` with `a + 3 < size`: `set32(a, w)` returns a memory in which
`get8(a+i)` reads `(w >> 8*i) & 0xFF` for `i = 0,1,2,3`, every other address reads as
before and the size is the same; and `get32(a)` is `get16(a) | (get16(a+2) << 16)`. -/
theorem memory.set32_little_endian (m : memory) (a w : Nat) (ha : a + 3 < m.get_size)
    (hw : w < 4294967296) :
    (∃ m', m.set32 a w = Except.ok (m', []) ∧
      (∀ i, i < 4 → m'.get8 (a + i) = Except.ok ((w >>> (8 * i)) &&& 0xff, [])) ∧
      (∀ b, b < a ∨ a + 3 < b → m'.get8 b = m.get8 b) ∧
      m'.get_size = m.get_size) ∧
    (∃ lo hi, m.get16 a = Except.ok (lo, []) ∧ m.get16 (a + 2) = Except.ok (hi, []) ∧
      m.get32 a = Except.ok (lo ||| (hi <<< 16), [])) := by
  have hlen : a + 3 < m.mem.length := by
    unfold memory.get_size at ha
    omega
  have h32 : a + 3 < 4294967296 := by
    unfold memory.get_size at ha
    omega
  constructor
  · refine ⟨_, memory.set32_in m a w hlen h32, ?_, ?_, ?_⟩
    · intro i hi
      apply memory.get8_in
      rw [and_255]
      simp only [Nat.shiftRight_eq_div_pow]
      interval_cases i
      · simp [List.getElem?_set]
        omega
      · simp [List.getElem?_set]
        omega
      · simp [List.getElem?_set]
        omega
      · simp [List.getElem?_set]
        omega
    · intro b hb
      have e : ((((m.mem.set a (w % 65536 % 256)).set (a + 1) ((w % 65536) >>> 8 % 256)).set
          (a + 2) ((w >>> 16) % 65536 % 256)).set (a + 3)
          (((w >>> 16) % 65536) >>> 8 % 256))[b]? = m.mem[b]? := by
        rw [List.getElem?_set_ne (by omega), List.getElem?_set_ne (by omega),
          List.getElem?_set_ne (by omega), List.getElem?_set_ne (by omega)]
      simp only [memory.get8, memory.check_illegal, List.length_set, e]
    · simp [memory.get_size]
  · obtain ⟨b₀, h₀⟩ := m.mem_some a (by omega)
    obtain ⟨b₁, h₁⟩ := m.mem_some (a + 1) (by omega)
    obtain ⟨b₂, h₂⟩ := m.mem_some (a + 2) (by omega)
    obtain ⟨b₃, h₃⟩ := m.mem_some (a + 3) hlen
    refine ⟨_, _, memory.get16_in m a b₀ b₁ h₀ h₁ (by omega),
      memory.get16_in m (a + 2) b₂ b₃ h₂ h₃ (by omega), ?_⟩
    rw [memory.get32_in m a b₀ b₁ b₂ b₃ h₀ h₁ h₂ h₃ h32]
    have hlo : ((b₁ <<< 8) ||| b₀) % 65536 < 2 ^ 16 := Nat.mod_lt _ (by norm_num)
    have hhi : ((b₃ <<< 8) ||| b₂) % 65536 < 65536 := Nat.mod_lt _ (by norm_num)
    rw [Nat.or_comm (((b₁ <<< 8) ||| b₀) % 65536)]
    rw [or_shl_eq _ _ 16 hlo]
    have : ((b₃ <<< 8 ||| b₂) % 65536 * 2 ^ 16 + (b₁ <<< 8 ||| b₀) % 65536) % 4294967296 =
        (b₃ <<< 8 ||| b₂) % 65536 * 2 ^ 16 + (b₁ <<< 8 ||| b₀) % 65536 := by
      apply Nat.mod_eq_of_lt
      omega
    rw [this]

theorem memory.set32_little_endian_witness :
    5 + 3 < (memory.new 16).get_size ∧ 0xdeadbeef < 4294967296 ∧
    ((∃ m', (memory.new 16).set32 5 0xdeadbeef = Except.ok (m', []) ∧
      (∀ i, i < 4 → m'.get8 (5 + i) = Except.ok ((0xdeadbeef >>> (8 * i)) &&& 0xff, [])) ∧
      (∀ b, b < 5 ∨ 5 + 3 < b → m'.get8 b = (memory.new 16).get8 b) ∧
      m'.get_size = (memory.new 16).get_size) ∧
    (∃ lo hi, (memory.new 16).get16 5 = Except.ok (lo, []) ∧
      (memory.new 16).get16 (5 + 2) = Except.ok (hi, []) ∧
      (memory.new 16).get32 5 = Except.ok (lo ||| (hi <<< 16), []))) :=
  ⟨by decide, by decide,
    memory.set32_little_endian (memory.new 16) 5 0xdeadbeef (by decide) (by decide)⟩

/-! ## Memory: the boundary address `size` -/

/-- An address strictly above the size is reported and reads as 0. -/
theorem memory.get8_above (m : memory) (a : Nat) (h : m.mem.length < a) :
    m.get8 a = Except.ok (0, [Out.warning a]) := by
  simp [memory.get8, Sim.bind_eq, memory.check_illegal_gt m a h, Sim.andThen, Sim.pure_eq]

/-- An address strictly above the size is reported and the write is dropped. -/
theorem memory.set8_above (m : memory) (a v : Nat) (h : m.mem.length < a) :
    m.set8 a v = Except.ok (m, [Out.warning a]) := by
  simp [memory.set8, Sim.bind_eq, memory.check_illegal_gt m a h, Sim.andThen, Sim.pure_eq]

/-- The address `size` itself passes `check_illegal` and the subscript is past the end. -/
theorem memory.get8_at_size (m : memory) :
    m.get8 m.mem.length = Except.error Fault.undefined_subscript := by
  simp [memory.get8, Sim.bind_eq, memory.check_illegal_le m _ (Nat.le_refl _), Sim.ok_andThen,
    Sim.fault]

/-- The address `size` itself passes `check_illegal` and `at` throws. -/
theorem memory.set8_at_size (m : memory) (v : Nat) :
    m.set8 m.mem.length v = Except.error Fault.out_of_range := by
  simp [memory.set8, Sim.bind_eq, memory.check_illegal_le m _ (Nat.le_refl _), Sim.ok_andThen,
    Sim.fault]

/-- C4, at the boundary: in `memory(0x10)` the call `get8(0x10)` writes no warning and does
not return 0; it subscripts the vector past its end.  One address further, `get8(0x11)`
does warn and return 0. -/
theorem memory.get8_boundary :
    (memory.new 0x10).get_size = 0x10 ∧
    (memory.new 0x10).get8 0x10 = Except.error Fault.undefined_subscript ∧
    (memory.new 0x10).get8 0x10 ≠ Except.ok (0, [Out.warning 0x10]) ∧
    (memory.new 0x10).get8 0x11 = Except.ok (0, [Out.warning 0x11]) := by
  have h : (memory.new 0x10).get8 0x10 = Except.error Fault.undefined_subscript := rfl
  refine ⟨by decide, h, ?_, rfl⟩
  rw [h]
  exact fun e => nomatch e

/-- C5, at the boundary: in `memory(0x10)` the call `set8(0x10, 0)` is not dropped
silently; `mem.at(0x10)` throws `std::out_of_range`.  One address further, `set8(0x11, 0)`
is dropped (with a warning) and the memory is unchanged. -/
theorem memory.set8_boundary :
    (memory.new 0x10).get_size = 0x10 ∧
    (memory.new 0x10).set8 0x10 0 = Except.error Fault.out_of_range ∧
    (memory.new 0x10).set8 0x11 0 = Except.ok (memory.new 0x10, [Out.warning 0x11]) :=
  ⟨by decide, rfl, rfl⟩

/-! ## Memory: the constructor -/

theorem and_fffffff0 (x : Nat) : x &&& 0xfffffff0 = x / 16 % 268435456 * 16 := by
  have h := and_mask x 28 4
  norm_num at h
  exact h

theorem memory.new_mem (siz : Nat) :
    (memory.new siz).mem = List.replicate ((siz + 15) % 4294967296 / 16 % 268435456 * 16) 0xa5 := by
  simp only [memory.new, and_fffffff0]

/-- C6, the requested sizes above `0xFFFFFFF0`: `siz + 15` wraps around in `uint32_t`, so
`memory(0xFFFFFFF1)` has size 0, which is not a multiple of 16 that is `≥ siz`. -/
theorem memory.new_size_wraps :
    (memory.new 0xfffffff1).get_size = 0 ∧
    ¬ (16 ∣ (memory.new 0xfffffff1).get_size ∧ 0xfffffff1 ≤ (memory.new 0xfffffff1).get_size ∧
        ∀ k, 16 ∣ k → 0xfffffff1 ≤ k → (memory.new 0xfffffff1).get_size ≤ k) := by
  have h : (memory.new 0xfffffff1).get_size = 0 := by decide
  refine ⟨h, ?_⟩
  rw [h]
  intro hc
  exact absurd hc.2.1 (by decide)

/-- C6, amended: for every requested size `siz ≤ 0xFFFFFFF0`, `memory(siz)` has `get_size()`
equal to the least multiple of 16 that is `≥ siz`, and every byte is `0xA5`; `memory(0x01)`
has size `0x10`. -/
theorem memory.new_size (siz : Nat) (h : siz ≤ 0xfffffff0) :
    (16 ∣ (memory.new siz).get_size ∧ siz ≤ (memory.new siz).get_size ∧
      ∀ k, 16 ∣ k → siz ≤ k → (memory.new siz).get_size ≤ k) ∧
    (memory.new siz).mem = List.replicate (memory.new siz).get_size 0xa5 ∧
    (memory.new 0x01).get_size = 0x10 := by
  have hs : (memory.new siz).get_size = (siz + 15) / 16 * 16 := by
    simp only [memory.get_size, memory.new_mem, List.length_replicate]
    omega
  refine ⟨?_, ?_, by decide⟩
  · rw [hs]
    refine ⟨?_, ?_, ?_⟩
    · omega
    · omega
    · intro k hk hle
      omega
  · rw [hs, memory.new_mem]
    congr 1
    omega

theorem memory.new_size_witness :
    1 ≤ 0xfffffff0 ∧
    ((16 ∣ (memory.new 1).get_size ∧ 1 ≤ (memory.new 1).get_size ∧
      ∀ k, 16 ∣ k → 1 ≤ k → (memory.new 1).get_size ≤ k) ∧
    (memory.new 1).mem = List.replicate (memory.new 1).get_size 0xa5 ∧
    (memory.new 0x01).get_size = 0x10) :=
  ⟨by decide, memory.new_size 1 (by decide)⟩


/-! ## Register file -/

theorem registerfile.get_zero (rf : registerfile) : rf.get 0 = Except.ok (0, []) := rfl

theorem registerfile.set_zero (rf : registerfile) (v : Int) : rf.set 0 v = Except.ok (rf, []) :=
  rfl

theorem registerfile.set_in (rf : registerfile) (r : Nat) (v : Int) (h0 : r ≠ 0)
    (h : r < rf.regVec.length) :
    rf.set r v = Except.ok ({ regVec := rf.regVec.set r v }, []) := by
  simp [registerfile.set, h0, h, Sim.pure_eq]

/-- C7: for every register file (of 32 entries), index `r` in 0..31 and value `v`, `set(r, v)`
returns a register file in which `get(r')` is as before for every `r' ≠ r`, `get(r)` is `v`
when `r ≠ 0`, and when `r = 0` the register file is
unchanged and `get(0)` is 0. -/
theorem registerfile.set_get (rf : registerfile) (r : Nat) (v : Int)
    (hlen : rf.regVec.length = 32) (hr : r < 32) :
    ∃ rf', rf.set r v = Except.ok (rf', []) ∧
      (∀ r', r' ≠ r → rf'.get r' = rf.get r') ∧
      (r ≠ 0 → rf'.get r = Except.ok (v, [])) ∧
      (r = 0 → rf' = rf ∧ rf'.get 0 = Except.ok (0, [])) := by
  by_cases h0 : r = 0
  · subst h0
    exact ⟨rf, rfl, fun _ _ => rfl, fun h => absurd rfl h, fun _ => ⟨rfl, rfl⟩⟩
  · refine ⟨_, registerfile.set_in rf r v h0 (by omega), ?_, ?_, fun h => absurd h h0⟩
    · intro r' hne
      simp only [registerfile.get]
      rw [List.getElem?_set_ne (fun e => hne e.symm)]
    · intro _
      simp [registerfile.get, h0, List.getElem?_set, hlen, hr, Sim.pure_eq]

theorem registerfile.set_get_witness :
    registerfile.new.regVec.length = 32 ∧ 5 < 32 ∧
    ∃ rf', registerfile.new.set 5 (-7) = Except.ok (rf', []) ∧
      (∀ r', r' ≠ 5 → rf'.get r' = registerfile.new.get r') ∧
      (5 ≠ 0 → rf'.get 5 = Except.ok (-7, [])) ∧
      (5 = 0 → rf' = registerfile.new ∧ rf'.get 0 = Except.ok (0, [])) :=
  ⟨by decide, by decide, registerfile.set_get registerfile.new 5 (-7) (by decide) (by decide)⟩


/-! ## Decoder: the immediates -/

theorem u32_i32 (x : Nat) (h : x < 4294967296) : u32 (i32 (x : Int)) = x := by
  unfold u32 i32
  split <;> omega

theorem i32_small (x : Nat) (h : x < 2147483648) : i32 (x : Int) = x := by
  unfold i32
  split <;> omega

open rv32i_decode

theorem get_imm_b_arith (insn : Nat) :
    get_imm_b insn =
      spec_sx 13 (insn / 2147483648 % 2 * 4096 + insn / 128 % 2 * 2048 +
        insn / 33554432 % 64 * 32 + insn / 256 % 16 * 2) := by
  have m1 : insn &&& 0x7e000000 = insn / 33554432 % 64 * 33554432 := by
    have h := and_mask insn 6 25
    norm_num at h
    exact h
  have m2 : insn &&& 0x00000f00 = insn / 256 % 16 * 256 := by
    have h := and_mask insn 4 8
    norm_num at h
    exact h
  have m3 : insn &&& 0x80000000 = insn / 2147483648 % 2 * 2147483648 := by
    have h := and_mask insn 1 31
    norm_num at h
    exact h
  have m4 : insn &&& 0x00000080 = insn / 128 % 2 * 128 := by
    have h := and_mask insn 1 7
    norm_num at h
    exact h
  have hf : insn / 33554432 % 64 < 64 := Nat.mod_lt _ (by norm_num)
  have hg : insn / 256 % 16 < 16 := Nat.mod_lt _ (by norm_num)
  have ha : insn / 2147483648 % 2 < 2 := Nat.mod_lt _ (by norm_num)
  have hy : insn / 128 % 2 < 2 := Nat.mod_lt _ (by norm_num)
  generalize insn / 33554432 % 64 = f at *
  generalize insn / 256 % 16 = g at *
  generalize insn / 2147483648 % 2 = a at *
  generalize insn / 128 % 2 = y at *
  have s1 : (f * 33554432) >>> (25 - 5) = f * 32 := by
    rw [Nat.shiftRight_eq_div_pow]; omega
  have s2 : (g * 256) >>> (8 - 1) = g * 2 := by
    rw [Nat.shiftRight_eq_div_pow]; omega
  have s3 : (a * 2147483648) >>> (31 - 12) = a * 4096 := by
    rw [Nat.shiftRight_eq_div_pow]; omega
  have s4 : ((y * 128) <<< (11 - 7)) % 4294967296 = y * 2048 := by
    rw [Nat.shiftLeft_eq]; omega
  have o1 : f * 32 ||| g * 2 = f * 32 + g * 2 := or_add _ _ 5 (by omega) (by omega)
  have o2 : (f * 32 + g * 2) ||| a * 4096 = a * 4096 + (f * 32 + g * 2) := by
    rw [Nat.or_comm]
    exact or_add _ _ 12 (by omega) (by omega)
  have o3 : (a * 4096 + (f * 32 + g * 2)) ||| y * 2048 = a * 4096 + y * 2048 + f * 32 + g * 2 := by
    rw [← or_add (a * 4096) (f * 32 + g * 2) 12 (by omega) (by omega), Nat.or_assoc,
      Nat.or_comm (f * 32 + g * 2), or_add (y * 2048) _ 11 (by omega) (by omega),
      or_add _ _ 12 (by omega) (by omega)]
    omega
  have o4 : (a * 4096 + y * 2048 + f * 32 + g * 2) ||| 0xffffe000 =
      4294959104 + (a * 4096 + y * 2048 + f * 32 + g * 2) := by
    rw [Nat.or_comm]
    exact or_add _ _ 13 (by norm_num) (by omega)
  simp only [get_imm_b, m1, m2, m3, m4, s1, s2, s3, s4]
  rw [u32_i32 (f * 32) (by omega), o1, u32_i32 (f * 32 + g * 2) (by omega), o2,
    u32_i32 (a * 4096 + (f * 32 + g * 2)) (by omega), o3]
  rw [u32_i32 (a * 4096 + y * 2048 + f * 32 + g * 2) (by omega), o4]
  unfold spec_sx i32
  rcases (by omega : a = 0 ∨ a = 1) with h | h
  · subst h
    simp only [Nat.zero_mul, bne_self_eq_false, Bool.false_eq_true, if_false]
    push_cast
    split_ifs <;> omega
  · subst h
    simp only [Nat.one_mul, bne_iff_ne, ne_eq, OfNat.ofNat_ne_zero, not_false_eq_true, if_true]
    push_cast
    split_ifs <;> omega


/-- C8: for every word `insn`, `get_imm_b(insn)` is the 13-bit value
`{insn[31], insn[7], insn[30:25], insn[11:8], 0}` sign-extended; it is even and lies in
`-4096 .. 4094`. -/
theorem get_imm_b_spec (insn : Nat) :
    get_imm_b insn =
      spec_sx 13 (spec_bits insn 31 31 * 2 ^ 12 + spec_bits insn 7 7 * 2 ^ 11 +
        spec_bits insn 30 25 * 2 ^ 5 + spec_bits insn 11 8 * 2 ^ 1 + 0) ∧
    get_imm_b insn % 2 = 0 ∧ -4096 ≤ get_imm_b insn ∧ get_imm_b insn ≤ 4094 := by
  have e : spec_bits insn 31 31 * 2 ^ 12 + spec_bits insn 7 7 * 2 ^ 11 +
        spec_bits insn 30 25 * 2 ^ 5 + spec_bits insn 11 8 * 2 ^ 1 + 0 =
      insn / 2147483648 % 2 * 4096 + insn / 128 % 2 * 2048 +
        insn / 33554432 % 64 * 32 + insn / 256 % 16 * 2 := by
    simp only [spec_bits]
    norm_num
  rw [e, get_imm_b_arith]
  refine ⟨rfl, ?_⟩
  have hf : insn / 33554432 % 64 < 64 := Nat.mod_lt _ (by norm_num)
  have hg : insn / 256 % 16 < 16 := Nat.mod_lt _ (by norm_num)
  have ha : insn / 2147483648 % 2 < 2 := Nat.mod_lt _ (by norm_num)
  have hy : insn / 128 % 2 < 2 := Nat.mod_lt _ (by norm_num)
  generalize insn / 33554432 % 64 = f at *
  generalize insn / 256 % 16 = g at *
  generalize insn / 2147483648 % 2 = a at *
  generalize insn / 128 % 2 = y at *
  unfold spec_sx
  push_cast
  split_ifs <;> omega


theorem get_imm_j_arith (insn : Nat) :
    get_imm_j insn =
      spec_sx 21 (insn / 2147483648 % 2 * 1048576 + insn / 4096 % 256 * 4096 +
        insn / 1048576 % 2 * 2048 + insn / 2097152 % 1024 * 2) := by
  have m1 : insn &&& 0x000ff000 = insn / 4096 % 256 * 4096 := by
    have h := and_mask insn 8 12
    norm_num at h
    exact h
  have m2 : insn &&& 0x7fe00000 = insn / 2097152 % 1024 * 2097152 := by
    have h := and_mask insn 10 21
    norm_num at h
    exact h
  have m3 : insn &&& 0x80000000 = insn / 2147483648 % 2 * 2147483648 := by
    have h := and_mask insn 1 31
    norm_num at h
    exact h
  have m4 : insn &&& 0x00100000 = insn / 1048576 % 2 * 1048576 := by
    have h := and_mask insn 1 20
    norm_num at h
    exact h
  have hm : insn / 4096 % 256 < 256 := Nat.mod_lt _ (by norm_num)
  have hb : insn / 2097152 % 1024 < 1024 := Nat.mod_lt _ (by norm_num)
  have ha : insn / 2147483648 % 2 < 2 := Nat.mod_lt _ (by norm_num)
  have hl : insn / 1048576 % 2 < 2 := Nat.mod_lt _ (by norm_num)
  generalize insn / 4096 % 256 = m at *
  generalize insn / 2097152 % 1024 = b at *
  generalize insn / 2147483648 % 2 = a at *
  generalize insn / 1048576 % 2 = l at *
  have s2 : (b * 2097152) >>> (21 - 1) = b * 2 := by
    rw [Nat.shiftRight_eq_div_pow]; omega
  have s3 : (a * 2147483648) >>> (31 - 20) = a * 1048576 := by
    rw [Nat.shiftRight_eq_div_pow]; omega
  have s4 : (l * 1048576) >>> (20 - 11) = l * 2048 := by
    rw [Nat.shiftRight_eq_div_pow]; omega
  have o1 : m * 4096 ||| b * 2 = m * 4096 + b * 2 := or_add _ _ 12 (by omega) (by omega)
  have o2 : (m * 4096 + b * 2) ||| a * 1048576 = a * 1048576 + (m * 4096 + b * 2) := by
    rw [Nat.or_comm]
    exact or_add _ _ 20 (by omega) (by omega)
  have o3 : (a * 1048576 + (m * 4096 + b * 2)) ||| l * 2048 =
      a * 1048576 + m * 4096 + l * 2048 + b * 2 := by
    have e : a * 1048576 + (m * 4096 + b * 2) = (a * 1048576 + m * 4096) + b * 2 := by omega
    rw [e, ← or_add (a * 1048576 + m * 4096) (b * 2) 12 (by omega) (by omega), Nat.or_assoc,
      Nat.or_comm (b * 2), or_add (l * 2048) _ 11 (by omega) (by omega),
      or_add _ _ 12 (by omega) (by omega)]
    omega
  have o4 : (a * 1048576 + m * 4096 + l * 2048 + b * 2) ||| 0xffe00000 =
      4292870144 + (a * 1048576 + m * 4096 + l * 2048 + b * 2) := by
    rw [Nat.or_comm]
    exact or_add _ _ 21 (by norm_num) (by omega)
  simp only [get_imm_j, m1, m2, m3, m4, s2, s3, s4]
  rw [u32_i32 (m * 4096) (by omega), o1, u32_i32 (m * 4096 + b * 2) (by omega), o2,
    u32_i32 (a * 1048576 + (m * 4096 + b * 2)) (by omega), o3,
    u32_i32 (a * 1048576 + m * 4096 + l * 2048 + b * 2) (by omega), o4]
  unfold spec_sx i32
  rcases (by omega : a = 0 ∨ a = 1) with h | h
  · subst h
    simp only [Nat.zero_mul, bne_self_eq_false, Bool.false_eq_true, if_false]
    push_cast
    split_ifs <;> omega
  · subst h
    simp only [Nat.one_mul, bne_iff_ne, ne_eq, OfNat.ofNat_ne_zero, not_false_eq_true, if_true]
    push_cast
    split_ifs <;> omega

/-- C9: for every word `insn`, `get_imm_j(insn)` is the 21-bit value
`{insn[31], insn[19:12], insn[20], insn[30:21], 0}` sign-extended; it is even and lies in
`-1048576 .. 1048574`. -/
theorem get_imm_j_spec (insn : Nat) :
    get_imm_j insn =
      spec_sx 21 (spec_bits insn 31 31 * 2 ^ 20 + spec_bits insn 19 12 * 2 ^ 12 +
        spec_bits insn 20 20 * 2 ^ 11 + spec_bits insn 30 21 * 2 ^ 1 + 0) ∧
    get_imm_j insn % 2 = 0 ∧ -1048576 ≤ get_imm_j insn ∧ get_imm_j insn ≤ 1048574 := by
  have e : spec_bits insn 31 31 * 2 ^ 20 + spec_bits insn 19 12 * 2 ^ 12 +
        spec_bits insn 20 20 * 2 ^ 11 + spec_bits insn 30 21 * 2 ^ 1 + 0 =
      insn / 2147483648 % 2 * 1048576 + insn / 4096 % 256 * 4096 +
        insn / 1048576 % 2 * 2048 + insn / 2097152 % 1024 * 2 := by
    simp only [spec_bits]
    norm_num
  rw [e, get_imm_j_arith]
  refine ⟨rfl, ?_⟩
  have hm : insn / 4096 % 256 < 256 := Nat.mod_lt _ (by norm_num)
  have hb : insn / 2097152 % 1024 < 1024 := Nat.mod_lt _ (by norm_num)
  have ha : insn / 2147483648 % 2 < 2 := Nat.mod_lt _ (by norm_num)
  have hl : insn / 1048576 % 2 < 2 := Nat.mod_lt _ (by norm_num)
  generalize insn / 4096 % 256 = m at *
  generalize insn / 2097152 % 1024 = b at *
  generalize insn / 2147483648 % 2 = a at *
  generalize insn / 1048576 % 2 = l at *
  unfold spec_sx
  push_cast
  split_ifs <;> omega


theorem get_imm_i_arith (insn : Nat) :
    get_imm_i insn = spec_sx 12 (insn / 1048576 % 4096) := by
  have m1 : insn &&& 0xfff00000 = insn / 1048576 % 4096 * 1048576 := by
    have h := and_mask insn 12 20
    norm_num at h
    exact h
  have m3 : insn &&& 0x80000000 = insn / 2147483648 % 2 * 2147483648 := by
    have h := and_mask insn 1 31
    norm_num at h
    exact h
  have hv : insn / 1048576 % 4096 < 4096 := Nat.mod_lt _ (by norm_num)
  have ha : insn / 2147483648 % 2 < 2 := Nat.mod_lt _ (by norm_num)
  have hs : insn / 2147483648 % 2 = insn / 1048576 % 4096 / 2048 := by omega
  generalize insn / 1048576 % 4096 = v at *
  generalize insn / 2147483648 % 2 = a at *
  have s1 : (v * 1048576) >>> 20 = v := by
    rw [Nat.shiftRight_eq_div_pow]; omega
  have o4 : v ||| 0xfffff000 = 4294963200 + v := by
    rw [Nat.or_comm]
    exact or_add _ _ 12 (by norm_num) (by omega)
  simp only [get_imm_i, m1, m3, s1]
  rw [u32_i32 v (by omega), o4]
  unfold spec_sx i32
  rcases (by omega : a = 0 ∨ a = 1) with h | h
  · subst h
    simp only [Nat.zero_mul, bne_self_eq_false, Bool.false_eq_true, if_false]
    push_cast
    split_ifs <;> omega
  · subst h
    simp only [Nat.one_mul, bne_iff_ne, ne_eq, OfNat.ofNat_ne_zero, not_false_eq_true, if_true]
    push_cast
    split_ifs <;> omega

theorem get_imm_s_arith (insn : Nat) :
    get_imm_s insn = spec_sx 12 (insn / 33554432 % 128 * 32 + insn / 128 % 32) := by
  have m1 : insn &&& 0xfe000000 = insn / 33554432 % 128 * 33554432 := by
    have h := and_mask insn 7 25
    norm_num at h
    exact h
  have m2 : insn &&& 0x00000f80 = insn / 128 % 32 * 128 := by
    have h := and_mask insn 5 7
    norm_num at h
    exact h
  have m3 : insn &&& 0x80000000 = insn / 2147483648 % 2 * 2147483648 := by
    have h := and_mask insn 1 31
    norm_num at h
    exact h
  have hf : insn / 33554432 % 128 < 128 := Nat.mod_lt _ (by norm_num)
  have hg : insn / 128 % 32 < 32 := Nat.mod_lt _ (by norm_num)
  have ha : insn / 2147483648 % 2 < 2 := Nat.mod_lt _ (by norm_num)
  have hs : insn / 2147483648 % 2 = insn / 33554432 % 128 / 64 := by omega
  generalize insn / 33554432 % 128 = f at *
  generalize insn / 128 % 32 = g at *
  generalize insn / 2147483648 % 2 = a at *
  have s1 : (f * 33554432) >>> (25 - 5) = f * 32 := by
    rw [Nat.shiftRight_eq_div_pow]; omega
  have s2 : (g * 128) >>> (7 - 0) = g := by
    rw [Nat.shiftRight_eq_div_pow]; omega
  have o1 : f * 32 ||| g = f * 32 + g := or_add _ _ 5 (by omega) (by omega)
  have o4 : (f * 32 + g) ||| 0xfffff000 = 4294963200 + (f * 32 + g) := by
    rw [Nat.or_comm]
    exact or_add _ _ 12 (by norm_num) (by omega)
  simp only [get_imm_s, m1, m2, m3, s1, s2]
  rw [u32_i32 (f * 32) (by omega), o1, u32_i32 (f * 32 + g) (by omega), o4]
  unfold spec_sx i32
  rcases (by omega : a = 0 ∨ a = 1) with h | h
  · subst h
    simp only [Nat.zero_mul, bne_self_eq_false, Bool.false_eq_true, if_false]
    push_cast
    split_ifs <;> omega
  · subst h
    simp only [Nat.one_mul, bne_iff_ne, ne_eq, OfNat.ofNat_ne_zero, not_false_eq_true, if_true]
    push_cast
    split_ifs <;> omega

/-- C10: for every word `insn`, `get_imm_s(insn)` is the 12-bit value
`{insn[31:25], insn[11:7]}` sign-extended and `get_imm_i(insn)` is `insn[31:20]`
sign-extended; both lie in `-2048 .. 2047`. -/
theorem get_imm_s_i_spec (insn : Nat) :
    get_imm_s insn = spec_sx 12 (spec_bits insn 31 25 * 2 ^ 5 + spec_bits insn 11 7) ∧
    get_imm_i insn = spec_sx 12 (spec_bits insn 31 20) ∧
    (-2048 ≤ get_imm_s insn ∧ get_imm_s insn ≤ 2047) ∧
    (-2048 ≤ get_imm_i insn ∧ get_imm_i insn ≤ 2047) := by
  have e₁ : spec_bits insn 31 25 * 2 ^ 5 + spec_bits insn 11 7 =
      insn / 33554432 % 128 * 32 + insn / 128 % 32 := by
    simp only [spec_bits]
    norm_num
  have e₂ : spec_bits insn 31 20 = insn / 1048576 % 4096 := by
    simp only [spec_bits]
    norm_num
  rw [e₁, e₂, get_imm_s_arith, get_imm_i_arith]
  refine ⟨rfl, rfl, ?_, ?_⟩
  · have hf : insn / 33554432 % 128 < 128 := Nat.mod_lt _ (by norm_num)
    have hg : insn / 128 % 32 < 32 := Nat.mod_lt _ (by norm_num)
    generalize insn / 33554432 % 128 = f at *
    generalize insn / 128 % 32 = g at *
    unfold spec_sx
    push_cast
    split_ifs <;> omega
  · have hv : insn / 1048576 % 4096 < 4096 := Nat.mod_lt _ (by norm_num)
    generalize insn / 1048576 % 4096 = v at *
    unfold spec_sx
    push_cast
    split_ifs <;> omega


/-! ## Hart: register 0

Every executor writes registers only through `registerfile::set`, which leaves entry 0 of
the vector alone; the lemmas below follow that through `exec`, `tick` and `ticks`. -/

theorem Sim.sat_pure {α : Type} (a : α) (Q : α → Prop) (h : Q a) : Sim.sat (pure a) Q := by
  intro b o e
  rw [Sim.pure_eq] at e
  cases e
  exact h

theorem Sim.sat_bind {α β : Type} (x : Sim α) (f : α → Sim β) (R : α → Prop) (Q : β → Prop)
    (hx : Sim.sat x R) (hf : ∀ a, R a → Sim.sat (f a) Q) : Sim.sat (x >>= f) Q := by
  intro b o e
  rw [Sim.bind_eq] at e
  rcases hxa : x with er | ⟨a, o₁⟩
  · simp only [hxa, Sim.andThen] at e
    cases e
  · rcases hfa : f a with er | ⟨b', o₂⟩
    · simp only [hxa, hfa, Sim.andThen] at e
      cases e
    · simp only [hxa, hfa, Sim.andThen] at e
      cases e
      exact hf a (hx a o₁ hxa) b o₂ hfa

theorem Sim.sat_true {α : Type} (x : Sim α) : Sim.sat x (fun _ => True) :=
  fun _ _ _ => trivial

theorem Sim.sat_ite {α : Type} (c : Prop) [Decidable c] (a b : Sim α) (Q : α → Prop)
    (ha : Sim.sat a Q) (hb : Sim.sat b Q) : Sim.sat (if c then a else b) Q := by
  split
  · exact ha
  · exact hb

theorem registerfile.set_sat (rf : registerfile) (r : Nat) (v : Int) (c : Option Int)
    (h : rf.regVec[0]? = c) : Sim.sat (rf.set r v) (fun rf' => rf'.regVec[0]? = c) := by
  intro rf' o e
  unfold registerfile.set at e
  split at e
  · split at e
    · rw [Sim.pure_eq] at e
      cases e
      rename_i h0 _
      have : r ≠ 0 := by simpa using h0
      simp only []
      rw [List.getElem?_set_ne this]
      exact h
    · cases e
  · rw [Sim.pure_eq] at e
    cases e
    exact h

namespace rv32i_hart

set_option linter.unusedTactic false
set_option linter.unreachableTactic false

theorem exec_illegal_insn_x0 (h : rv32i_hart) (pos : Bool) :
    Sim.sat (h.exec_illegal_insn pos) (fun h' => h'.regs.regVec[0]? = h.regs.regVec[0]?) := by
  unfold exec_illegal_insn
  with_reducible repeat first
    | (refine Sim.sat_bind _ _ _ _ (registerfile.set_sat _ _ _ _ rfl) ?_; intro regs hregs)
    | (refine Sim.sat_bind _ _ _ _ (Sim.sat_true _) ?_; intro _ _)
    | exact Sim.sat_pure _ _ (by assumption)
    | exact Sim.sat_pure _ _ rfl
    | (dsimp only; split)

theorem exec_ebreak_x0 (h : rv32i_hart) (insn : Int) (pos : Bool) :
    Sim.sat (h.exec_ebreak insn pos) (fun h' => h'.regs.regVec[0]? = h.regs.regVec[0]?) := by
  unfold exec_ebreak
  with_reducible repeat first
    | (refine Sim.sat_bind _ _ _ _ (registerfile.set_sat _ _ _ _ rfl) ?_; intro regs hregs)
    | (refine Sim.sat_bind _ _ _ _ (Sim.sat_true _) ?_; intro _ _)
    | exact Sim.sat_pure _ _ (by assumption)
    | exact Sim.sat_pure _ _ rfl
    | (dsimp only; split)

theorem exec_ecall_x0 (h : rv32i_hart) (pos : Bool) :
    Sim.sat (h.exec_ecall pos) (fun h' => h'.regs.regVec[0]? = h.regs.regVec[0]?) := by
  unfold exec_ecall
  with_reducible repeat first
    | (refine Sim.sat_bind _ _ _ _ (registerfile.set_sat _ _ _ _ rfl) ?_; intro regs hregs)
    | (refine Sim.sat_bind _ _ _ _ (Sim.sat_true _) ?_; intro _ _)
    | exact Sim.sat_pure _ _ (by assumption)
    | exact Sim.sat_pure _ _ rfl
    | (dsimp only; split)

theorem exec_lui_x0 (h : rv32i_hart) (insn : Nat) (pos : Bool) :
    Sim.sat (h.exec_lui insn pos) (fun h' => h'.regs.regVec[0]? = h.regs.regVec[0]?) := by
  unfold exec_lui
  with_reducible repeat first
    | (refine Sim.sat_bind _ _ _ _ (registerfile.set_sat _ _ _ _ rfl) ?_; intro regs hregs)
    | (refine Sim.sat_bind _ _ _ _ (Sim.sat_true _) ?_; intro _ _)
    | exact Sim.sat_pure _ _ (by assumption)
    | exact Sim.sat_pure _ _ rfl
    | (dsimp only; split)

theorem exec_auipc_x0 (h : rv32i_hart) (insn : Nat) (pos : Bool) :
    Sim.sat (h.exec_auipc insn pos) (fun h' => h'.regs.regVec[0]? = h.regs.regVec[0]?) := by
  unfold exec_auipc
  with_reducible repeat first
    | (refine Sim.sat_bind _ _ _ _ (registerfile.set_sat _ _ _ _ rfl) ?_; intro regs hregs)
    | (refine Sim.sat_bind _ _ _ _ (Sim.sat_true _) ?_; intro _ _)
    | exact Sim.sat_pure _ _ (by assumption)
    | exact Sim.sat_pure _ _ rfl
    | (dsimp only; split)

theorem exec_jal_x0 (h : rv32i_hart) (insn : Nat) (pos : Bool) :
    Sim.sat (h.exec_jal insn pos) (fun h' => h'.regs.regVec[0]? = h.regs.regVec[0]?) := by
  unfold exec_jal
  with_reducible repeat first
    | (refine Sim.sat_bind _ _ _ _ (registerfile.set_sat _ _ _ _ rfl) ?_; intro regs hregs)
    | (refine Sim.sat_bind _ _ _ _ (Sim.sat_true _) ?_; intro _ _)
    | exact Sim.sat_pure _ _ (by assumption)
    | exact Sim.sat_pure _ _ rfl
    | (dsimp only; split)

theorem exec_jalr_x0 (h : rv32i_hart) (insn : Nat) (pos : Bool) :
    Sim.sat (h.exec_jalr insn pos) (fun h' => h'.regs.regVec[0]? = h.regs.regVec[0]?) := by
  unfold exec_jalr
  with_reducible repeat first
    | (refine Sim.sat_bind _ _ _ _ (registerfile.set_sat _ _ _ _ rfl) ?_; intro regs hregs)
    | (refine Sim.sat_bind _ _ _ _ (Sim.sat_true _) ?_; intro _ _)
    | exact Sim.sat_pure _ _ (by assumption)
    | exact Sim.sat_pure _ _ rfl
    | (dsimp only; split)

theorem exec_beq_x0 (h : rv32i_hart) (insn : Nat) (pos : Bool) :
    Sim.sat (h.exec_beq insn pos) (fun h' => h'.regs.regVec[0]? = h.regs.regVec[0]?) := by
  unfold exec_beq
  with_reducible repeat first
    | (refine Sim.sat_bind _ _ _ _ (registerfile.set_sat _ _ _ _ rfl) ?_; intro regs hregs)
    | (refine Sim.sat_bind _ _ _ _ (Sim.sat_true _) ?_; intro _ _)
    | exact Sim.sat_pure _ _ (by assumption)
    | exact Sim.sat_pure _ _ rfl
    | (dsimp only; split)

theorem exec_bne_x0 (h : rv32i_hart) (insn : Nat) (pos : Bool) :
    Sim.sat (h.exec_bne insn pos) (fun h' => h'.regs.regVec[0]? = h.regs.regVec[0]?) := by
  unfold exec_bne
  with_reducible repeat first
    | (refine Sim.sat_bind _ _ _ _ (registerfile.set_sat _ _ _ _ rfl) ?_; intro regs hregs)
    | (refine Sim.sat_bind _ _ _ _ (Sim.sat_true _) ?_; intro _ _)
    | exact Sim.sat_pure _ _ (by assumption)
    | exact Sim.sat_pure _ _ rfl
    | (dsimp only; split)

theorem exec_blt_x0 (h : rv32i_hart) (insn : Nat) (pos : Bool) :
    Sim.sat (h.exec_blt insn pos) (fun h' => h'.regs.regVec[0]? = h.regs.regVec[0]?) := by
  unfold exec_blt
  with_reducible repeat first
    | (refine Sim.sat_bind _ _ _ _ (registerfile.set_sat _ _ _ _ rfl) ?_; intro regs hregs)
    | (refine Sim.sat_bind _ _ _ _ (Sim.sat_true _) ?_; intro _ _)
    | exact Sim.sat_pure _ _ (by assumption)
    | exact Sim.sat_pure _ _ rfl
    | (dsimp only; split)

theorem exec_bge_x0 (h : rv32i_hart) (insn : Nat) (pos : Bool) :
    Sim.sat (h.exec_bge insn pos) (fun h' => h'.regs.regVec[0]? = h.regs.regVec[0]?) := by
  unfold exec_bge
  with_reducible repeat first
    | (refine Sim.sat_bind _ _ _ _ (registerfile.set_sat _ _ _ _ rfl) ?_; intro regs hregs)
    | (refine Sim.sat_bind _ _ _ _ (Sim.sat_true _) ?_; intro _ _)
    | exact Sim.sat_pure _ _ (by assumption)
    | exact Sim.sat_pure _ _ rfl
    | (dsimp only; split)

theorem exec_bltu_x0 (h : rv32i_hart) (insn : Nat) (pos : Bool) :
    Sim.sat (h.exec_bltu insn pos) (fun h' => h'.regs.regVec[0]? = h.regs.regVec[0]?) := by
  unfold exec_bltu
  with_reducible repeat first
    | (refine Sim.sat_bind _ _ _ _ (registerfile.set_sat _ _ _ _ rfl) ?_; intro regs hregs)
    | (refine Sim.sat_bind _ _ _ _ (Sim.sat_true _) ?_; intro _ _)
    | exact Sim.sat_pure _ _ (by assumption)
    | exact Sim.sat_pure _ _ rfl
    | (dsimp only; split)

theorem exec_bgeu_x0 (h : rv32i_hart) (insn : Nat) (pos : Bool) :
    Sim.sat (h.exec_bgeu insn pos) (fun h' => h'.regs.regVec[0]? = h.regs.regVec[0]?) := by
  unfold exec_bgeu
  with_reducible repeat first
    | (refine Sim.sat_bind _ _ _ _ (registerfile.set_sat _ _ _ _ rfl) ?_; intro regs hregs)
    | (refine Sim.sat_bind _ _ _ _ (Sim.sat_true _) ?_; intro _ _)
    | exact Sim.sat_pure _ _ (by assumption)
    | exact Sim.sat_pure _ _ rfl
    | (dsimp only; split)

theorem exec_addi_x0 (h : rv32i_hart) (insn : Nat) (pos : Bool) :
    Sim.sat (h.exec_addi insn pos) (fun h' => h'.regs.regVec[0]? = h.regs.regVec[0]?) := by
  unfold exec_addi
  with_reducible repeat first
    | (refine Sim.sat_bind _ _ _ _ (registerfile.set_sat _ _ _ _ rfl) ?_; intro regs hregs)
    | (refine Sim.sat_bind _ _ _ _ (Sim.sat_true _) ?_; intro _ _)
    | exact Sim.sat_pure _ _ (by assumption)
    | exact Sim.sat_pure _ _ rfl
    | (dsimp only; split)

theorem exec_lbu_x0 (h : rv32i_hart) (insn : Nat) (pos : Bool) :
    Sim.sat (h.exec_lbu insn pos) (fun h' => h'.regs.regVec[0]? = h.regs.regVec[0]?) := by
  unfold exec_lbu
  with_reducible repeat first
    | (refine Sim.sat_bind _ _ _ _ (registerfile.set_sat _ _ _ _ rfl) ?_; intro regs hregs)
    | (refine Sim.sat_bind _ _ _ _ (Sim.sat_true _) ?_; intro _ _)
    | exact Sim.sat_pure _ _ (by assumption)
    | exact Sim.sat_pure _ _ rfl
    | (dsimp only; split)

theorem exec_lhu_x0 (h : rv32i_hart) (insn : Nat) (pos : Bool) :
    Sim.sat (h.exec_lhu insn pos) (fun h' => h'.regs.regVec[0]? = h.regs.regVec[0]?) := by
  unfold exec_lhu
  with_reducible repeat first
    | (refine Sim.sat_bind _ _ _ _ (registerfile.set_sat _ _ _ _ rfl) ?_; intro regs hregs)
    | (refine Sim.sat_bind _ _ _ _ (Sim.sat_true _) ?_; intro _ _)
    | exact Sim.sat_pure _ _ (by assumption)
    | exact Sim.sat_pure _ _ rfl
    | (dsimp only; split)

theorem exec_lb_x0 (h : rv32i_hart) (insn : Nat) (pos : Bool) :
    Sim.sat (h.exec_lb insn pos) (fun h' => h'.regs.regVec[0]? = h.regs.regVec[0]?) := by
  unfold exec_lb
  with_reducible repeat first
    | (refine Sim.sat_bind _ _ _ _ (registerfile.set_sat _ _ _ _ rfl) ?_; intro regs hregs)
    | (refine Sim.sat_bind _ _ _ _ (Sim.sat_true _) ?_; intro _ _)
    | exact Sim.sat_pure _ _ (by assumption)
    | exact Sim.sat_pure _ _ rfl
    | (dsimp only; split)

theorem exec_lh_x0 (h : rv32i_hart) (insn : Nat) (pos : Bool) :
    Sim.sat (h.exec_lh insn pos) (fun h' => h'.regs.regVec[0]? = h.regs.regVec[0]?) := by
  unfold exec_lh
  with_reducible repeat first
    | (refine Sim.sat_bind _ _ _ _ (registerfile.set_sat _ _ _ _ rfl) ?_; intro regs hregs)
    | (refine Sim.sat_bind _ _ _ _ (Sim.sat_true _) ?_; intro _ _)
    | exact Sim.sat_pure _ _ (by assumption)
    | exact Sim.sat_pure _ _ rfl
    | (dsimp only; split)

theorem exec_lw_x0 (h : rv32i_hart) (insn : Nat) (pos : Bool) :
    Sim.sat (h.exec_lw insn pos) (fun h' => h'.regs.regVec[0]? = h.regs.regVec[0]?) := by
  unfold exec_lw
  with_reducible repeat first
    | (refine Sim.sat_bind _ _ _ _ (registerfile.set_sat _ _ _ _ rfl) ?_; intro regs hregs)
    | (refine Sim.sat_bind _ _ _ _ (Sim.sat_true _) ?_; intro _ _)
    | exact Sim.sat_pure _ _ (by assumption)
    | exact Sim.sat_pure _ _ rfl
    | (dsimp only; split)

theorem exec_sb_x0 (h : rv32i_hart) (insn : Nat) (pos : Bool) :
    Sim.sat (h.exec_sb insn pos) (fun h' => h'.regs.regVec[0]? = h.regs.regVec[0]?) := by
  unfold exec_sb
  with_reducible repeat first
    | (refine Sim.sat_bind _ _ _ _ (registerfile.set_sat _ _ _ _ rfl) ?_; intro regs hregs)
    | (refine Sim.sat_bind _ _ _ _ (Sim.sat_true _) ?_; intro _ _)
    | exact Sim.sat_pure _ _ (by assumption)
    | exact Sim.sat_pure _ _ rfl
    | (dsimp only; split)

theorem exec_sh_x0 (h : rv32i_hart) (insn : Nat) (pos : Bool) :
    Sim.sat (h.exec_sh insn pos) (fun h' => h'.regs.regVec[0]? = h.regs.regVec[0]?) := by
  unfold exec_sh
  with_reducible repeat first
    | (refine Sim.sat_bind _ _ _ _ (registerfile.set_sat _ _ _ _ rfl) ?_; intro regs hregs)
    | (refine Sim.sat_bind _ _ _ _ (Sim.sat_true _) ?_; intro _ _)
    | exact Sim.sat_pure _ _ (by assumption)
    | exact Sim.sat_pure _ _ rfl
    | (dsimp only; split)

theorem exec_sw_x0 (h : rv32i_hart) (insn : Nat) (pos : Bool) :
    Sim.sat (h.exec_sw insn pos) (fun h' => h'.regs.regVec[0]? = h.regs.regVec[0]?) := by
  unfold exec_sw
  with_reducible repeat first
    | (refine Sim.sat_bind _ _ _ _ (registerfile.set_sat _ _ _ _ rfl) ?_; intro regs hregs)
    | (refine Sim.sat_bind _ _ _ _ (Sim.sat_true _) ?_; intro _ _)
    | exact Sim.sat_pure _ _ (by assumption)
    | exact Sim.sat_pure _ _ rfl
    | (dsimp only; split)

theorem exec_slti_x0 (h : rv32i_hart) (insn : Nat) (pos : Bool) :
    Sim.sat (h.exec_slti insn pos) (fun h' => h'.regs.regVec[0]? = h.regs.regVec[0]?) := by
  unfold exec_slti
  with_reducible repeat first
    | (refine Sim.sat_bind _ _ _ _ (registerfile.set_sat _ _ _ _ rfl) ?_; intro regs hregs)
    | (refine Sim.sat_bind _ _ _ _ (Sim.sat_true _) ?_; intro _ _)
    | exact Sim.sat_pure _ _ (by assumption)
    | exact Sim.sat_pure _ _ rfl
    | (dsimp only; split)

theorem exec_sltiu_x0 (h : rv32i_hart) (insn : Nat) (pos : Bool) :
    Sim.sat (h.exec_sltiu insn pos) (fun h' => h'.regs.regVec[0]? = h.regs.regVec[0]?) := by
  unfold exec_sltiu
  with_reducible repeat first
    | (refine Sim.sat_bind _ _ _ _ (registerfile.set_sat _ _ _ _ rfl) ?_; intro regs hregs)
    | (refine Sim.sat_bind _ _ _ _ (Sim.sat_true _) ?_; intro _ _)
    | exact Sim.sat_pure _ _ (by assumption)
    | exact Sim.sat_pure _ _ rfl
    | (dsimp only; split)

theorem exec_xori_x0 (h : rv32i_hart) (insn : Nat) (pos : Bool) :
    Sim.sat (h.exec_xori insn pos) (fun h' => h'.regs.regVec[0]? = h.regs.regVec[0]?) := by
  unfold exec_xori
  with_reducible repeat first
    | (refine Sim.sat_bind _ _ _ _ (registerfile.set_sat _ _ _ _ rfl) ?_; intro regs hregs)
    | (refine Sim.sat_bind _ _ _ _ (Sim.sat_true _) ?_; intro _ _)
    | exact Sim.sat_pure _ _ (by assumption)
    | exact Sim.sat_pure _ _ rfl
    | (dsimp only; split)

theorem exec_ori_x0 (h : rv32i_hart) (insn : Nat) (pos : Bool) :
    Sim.sat (h.exec_ori insn pos) (fun h' => h'.regs.regVec[0]? = h.regs.regVec[0]?) := by
  unfold exec_ori
  with_reducible repeat first
    | (refine Sim.sat_bind _ _ _ _ (registerfile.set_sat _ _ _ _ rfl) ?_; intro regs hregs)
    | (refine Sim.sat_bind _ _ _ _ (Sim.sat_true _) ?_; intro _ _)
    | exact Sim.sat_pure _ _ (by assumption)
    | exact Sim.sat_pure _ _ rfl
    | (dsimp only; split)

theorem exec_andi_x0 (h : rv32i_hart) (insn : Nat) (pos : Bool) :
    Sim.sat (h.exec_andi insn pos) (fun h' => h'.regs.regVec[0]? = h.regs.regVec[0]?) := by
  unfold exec_andi
  with_reducible repeat first
    | (refine Sim.sat_bind _ _ _ _ (registerfile.set_sat _ _ _ _ rfl) ?_; intro regs hregs)
    | (refine Sim.sat_bind _ _ _ _ (Sim.sat_true _) ?_; intro _ _)
    | exact Sim.sat_pure _ _ (by assumption)
    | exact Sim.sat_pure _ _ rfl
    | (dsimp only; split)

theorem exec_slli_x0 (h : rv32i_hart) (insn : Nat) (pos : Bool) :
    Sim.sat (h.exec_slli insn pos) (fun h' => h'.regs.regVec[0]? = h.regs.regVec[0]?) := by
  unfold exec_slli
  with_reducible repeat first
    | (refine Sim.sat_bind _ _ _ _ (registerfile.set_sat _ _ _ _ rfl) ?_; intro regs hregs)
    | (refine Sim.sat_bind _ _ _ _ (Sim.sat_true _) ?_; intro _ _)
    | exact Sim.sat_pure _ _ (by assumption)
    | exact Sim.sat_pure _ _ rfl
    | (dsimp only; split)

theorem exec_srli_x0 (h : rv32i_hart) (insn : Nat) (pos : Bool) :
    Sim.sat (h.exec_srli insn pos) (fun h' => h'.regs.regVec[0]? = h.regs.regVec[0]?) := by
  unfold exec_srli
  with_reducible repeat first
    | (refine Sim.sat_bind _ _ _ _ (registerfile.set_sat _ _ _ _ rfl) ?_; intro regs hregs)
    | (refine Sim.sat_bind _ _ _ _ (Sim.sat_true _) ?_; intro _ _)
    | exact Sim.sat_pure _ _ (by assumption)
    | exact Sim.sat_pure _ _ rfl
    | (dsimp only; split)

theorem exec_srai_x0 (h : rv32i_hart) (insn : Nat) (pos : Bool) :
    Sim.sat (h.exec_srai insn pos) (fun h' => h'.regs.regVec[0]? = h.regs.regVec[0]?) := by
  unfold exec_srai
  with_reducible repeat first
    | (refine Sim.sat_bind _ _ _ _ (registerfile.set_sat _ _ _ _ rfl) ?_; intro regs hregs)
    | (refine Sim.sat_bind _ _ _ _ (Sim.sat_true _) ?_; intro _ _)
    | exact Sim.sat_pure _ _ (by assumption)
    | exact Sim.sat_pure _ _ rfl
    | (dsimp only; split)

theorem exec_add_x0 (h : rv32i_hart) (insn : Nat) (pos : Bool) :
    Sim.sat (h.exec_add insn pos) (fun h' => h'.regs.regVec[0]? = h.regs.regVec[0]?) := by
  unfold exec_add
  with_reducible repeat first
    | (refine Sim.sat_bind _ _ _ _ (registerfile.set_sat _ _ _ _ rfl) ?_; intro regs hregs)
    | (refine Sim.sat_bind _ _ _ _ (Sim.sat_true _) ?_; intro _ _)
    | exact Sim.sat_pure _ _ (by assumption)
    | exact Sim.sat_pure _ _ rfl
    | (dsimp only; split)

theorem exec_sub_x0 (h : rv32i_hart) (insn : Nat) (pos : Bool) :
    Sim.sat (h.exec_sub insn pos) (fun h' => h'.regs.regVec[0]? = h.regs.regVec[0]?) := by
  unfold exec_sub
  with_reducible repeat first
    | (refine Sim.sat_bind _ _ _ _ (registerfile.set_sat _ _ _ _ rfl) ?_; intro regs hregs)
    | (refine Sim.sat_bind _ _ _ _ (Sim.sat_true _) ?_; intro _ _)
    | exact Sim.sat_pure _ _ (by assumption)
    | exact Sim.sat_pure _ _ rfl
    | (dsimp only; split)

theorem exec_sll_x0 (h : rv32i_hart) (insn : Nat) (pos : Bool) :
    Sim.sat (h.exec_sll insn pos) (fun h' => h'.regs.regVec[0]? = h.regs.regVec[0]?) := by
  unfold exec_sll
  with_reducible repeat first
    | (refine Sim.sat_bind _ _ _ _ (registerfile.set_sat _ _ _ _ rfl) ?_; intro regs hregs)
    | (refine Sim.sat_bind _ _ _ _ (Sim.sat_true _) ?_; intro _ _)
    | exact Sim.sat_pure _ _ (by assumption)
    | exact Sim.sat_pure _ _ rfl
    | (dsimp only; split)

theorem exec_slt_x0 (h : rv32i_hart) (insn : Nat) (pos : Bool) :
    Sim.sat (h.exec_slt insn pos) (fun h' => h'.regs.regVec[0]? = h.regs.regVec[0]?) := by
  unfold exec_slt
  with_reducible repeat first
    | (refine Sim.sat_bind _ _ _ _ (registerfile.set_sat _ _ _ _ rfl) ?_; intro regs hregs)
    | (refine Sim.sat_bind _ _ _ _ (Sim.sat_true _) ?_; intro _ _)
    | exact Sim.sat_pure _ _ (by assumption)
    | exact Sim.sat_pure _ _ rfl
    | (dsimp only; split)

theorem exec_sltu_x0 (h : rv32i_hart) (insn : Nat) (pos : Bool) :
    Sim.sat (h.exec_sltu insn pos) (fun h' => h'.regs.regVec[0]? = h.regs.regVec[0]?) := by
  unfold exec_sltu
  with_reducible repeat first
    | (refine Sim.sat_bind _ _ _ _ (registerfile.set_sat _ _ _ _ rfl) ?_; intro regs hregs)
    | (refine Sim.sat_bind _ _ _ _ (Sim.sat_true _) ?_; intro _ _)
    | exact Sim.sat_pure _ _ (by assumption)
    | exact Sim.sat_pure _ _ rfl
    | (dsimp only; split)

theorem exec_xor_x0 (h : rv32i_hart) (insn : Nat) (pos : Bool) :
    Sim.sat (h.exec_xor insn pos) (fun h' => h'.regs.regVec[0]? = h.regs.regVec[0]?) := by
  unfold exec_xor
  with_reducible repeat first
    | (refine Sim.sat_bind _ _ _ _ (registerfile.set_sat _ _ _ _ rfl) ?_; intro regs hregs)
    | (refine Sim.sat_bind _ _ _ _ (Sim.sat_true _) ?_; intro _ _)
    | exact Sim.sat_pure _ _ (by assumption)
    | exact Sim.sat_pure _ _ rfl
    | (dsimp only; split)

theorem exec_srl_x0 (h : rv32i_hart) (insn : Nat) (pos : Bool) :
    Sim.sat (h.exec_srl insn pos) (fun h' => h'.regs.regVec[0]? = h.regs.regVec[0]?) := by
  unfold exec_srl
  with_reducible repeat first
    | (refine Sim.sat_bind _ _ _ _ (registerfile.set_sat _ _ _ _ rfl) ?_; intro regs hregs)
    | (refine Sim.sat_bind _ _ _ _ (Sim.sat_true _) ?_; intro _ _)
    | exact Sim.sat_pure _ _ (by assumption)
    | exact Sim.sat_pure _ _ rfl
    | (dsimp only; split)

theorem exec_sra_x0 (h : rv32i_hart) (insn : Nat) (pos : Bool) :
    Sim.sat (h.exec_sra insn pos) (fun h' => h'.regs.regVec[0]? = h.regs.regVec[0]?) := by
  unfold exec_sra
  with_reducible repeat first
    | (refine Sim.sat_bind _ _ _ _ (registerfile.set_sat _ _ _ _ rfl) ?_; intro regs hregs)
    | (refine Sim.sat_bind _ _ _ _ (Sim.sat_true _) ?_; intro _ _)
    | exact Sim.sat_pure _ _ (by assumption)
    | exact Sim.sat_pure _ _ rfl
    | (dsimp only; split)

theorem exec_or_x0 (h : rv32i_hart) (insn : Nat) (pos : Bool) :
    Sim.sat (h.exec_or insn pos) (fun h' => h'.regs.regVec[0]? = h.regs.regVec[0]?) := by
  unfold exec_or
  with_reducible repeat first
    | (refine Sim.sat_bind _ _ _ _ (registerfile.set_sat _ _ _ _ rfl) ?_; intro regs hregs)
    | (refine Sim.sat_bind _ _ _ _ (Sim.sat_true _) ?_; intro _ _)
    | exact Sim.sat_pure _ _ (by assumption)
    | exact Sim.sat_pure _ _ rfl
    | (dsimp only; split)

theorem exec_and_x0 (h : rv32i_hart) (insn : Nat) (pos : Bool) :
    Sim.sat (h.exec_and insn pos) (fun h' => h'.regs.regVec[0]? = h.regs.regVec[0]?) := by
  unfold exec_and
  with_reducible repeat first
    | (refine Sim.sat_bind _ _ _ _ (registerfile.set_sat _ _ _ _ rfl) ?_; intro regs hregs)
    | (refine Sim.sat_bind _ _ _ _ (Sim.sat_true _) ?_; intro _ _)
    | exact Sim.sat_pure _ _ (by assumption)
    | exact Sim.sat_pure _ _ rfl
    | (dsimp only; split)

theorem exec_csrrs_x0 (h : rv32i_hart) (insn : Nat) (pos : Bool) :
    Sim.sat (h.exec_csrrs insn pos) (fun h' => h'.regs.regVec[0]? = h.regs.regVec[0]?) := by
  unfold exec_csrrs
  dsimp only
  split
  all_goals
    with_reducible repeat first
      | (refine Sim.sat_bind _ _ _ _ (registerfile.set_sat _ _ _ _ rfl) ?_; intro regs hregs)
      | (refine Sim.sat_bind _ _ _ _ (Sim.sat_true _) ?_; intro _ _)
      | exact Sim.sat_pure _ _ (by assumption)

theorem exec_x0 (h : rv32i_hart) (insn : Nat) (pos : Bool) :
    Sim.sat (h.exec insn pos) (fun h' => h'.regs.regVec[0]? = h.regs.regVec[0]?) := by
  unfold exec
  dsimp only
  with_reducible repeat' first
    | refine Sim.sat_ite _ _ _ _ ?_ ?_
    | exact exec_illegal_insn_x0 _ _
    | exact exec_ecall_x0 _ _
    | exact exec_ebreak_x0 _ _ _
    | exact exec_lui_x0 _ _ _
    | exact exec_auipc_x0 _ _ _
    | exact exec_jal_x0 _ _ _
    | exact exec_jalr_x0 _ _ _
    | exact exec_beq_x0 _ _ _
    | exact exec_bne_x0 _ _ _
    | exact exec_blt_x0 _ _ _
    | exact exec_bge_x0 _ _ _
    | exact exec_bltu_x0 _ _ _
    | exact exec_bgeu_x0 _ _ _
    | exact exec_addi_x0 _ _ _
    | exact exec_lbu_x0 _ _ _
    | exact exec_lhu_x0 _ _ _
    | exact exec_lb_x0 _ _ _
    | exact exec_lh_x0 _ _ _
    | exact exec_lw_x0 _ _ _
    | exact exec_sb_x0 _ _ _
    | exact exec_sh_x0 _ _ _
    | exact exec_sw_x0 _ _ _
    | exact exec_slti_x0 _ _ _
    | exact exec_sltiu_x0 _ _ _
    | exact exec_xori_x0 _ _ _
    | exact exec_ori_x0 _ _ _
    | exact exec_andi_x0 _ _ _
    | exact exec_slli_x0 _ _ _
    | exact exec_srli_x0 _ _ _
    | exact exec_srai_x0 _ _ _
    | exact exec_add_x0 _ _ _
    | exact exec_sub_x0 _ _ _
    | exact exec_sll_x0 _ _ _
    | exact exec_slt_x0 _ _ _
    | exact exec_sltu_x0 _ _ _
    | exact exec_xor_x0 _ _ _
    | exact exec_srl_x0 _ _ _
    | exact exec_sra_x0 _ _ _
    | exact exec_or_x0 _ _ _
    | exact exec_and_x0 _ _ _
    | exact exec_csrrs_x0 _ _ _

theorem tick_x0 (h : rv32i_hart) :
    Sim.sat h.tick (fun h' => h'.regs.regVec[0]? = h.regs.regVec[0]?) := by
  unfold tick
  split
  · exact Sim.sat_pure _ _ rfl
  · dsimp only
    refine Sim.sat_bind _ _ _ _ (Sim.sat_true _) ?_
    intro getinsn _
    split
    · refine Sim.sat_bind _ _ _ _ (exec_x0 _ _ _) ?_
      intro h₁ hh₁
      refine Sim.sat_bind _ _ _ _ (Sim.sat_true _) ?_
      intro _ _
      split
      · refine Sim.sat_bind _ _ _ _ (Sim.sat_true _) ?_
        intro _ _
        refine Sim.sat_bind _ _ _ _ (Sim.sat_true _) ?_
        intro _ _
        exact Sim.sat_pure _ _ hh₁
      · refine Sim.sat_bind _ _ _ _ (Sim.sat_true _) ?_
        intro _ _
        exact Sim.sat_pure _ _ hh₁
    · split
      · refine Sim.sat_bind _ _ _ _ (exec_x0 _ _ _) ?_
        intro h₁ hh₁
        refine Sim.sat_bind _ _ _ _ (Sim.sat_true _) ?_
        intro _ _
        exact Sim.sat_pure _ _ hh₁
      · exact exec_x0 _ _ _

theorem ticks_x0 (n : Nat) (h : rv32i_hart) :
    Sim.sat (h.ticks n) (fun h' => h'.regs.regVec[0]? = h.regs.regVec[0]?) := by
  induction n generalizing h with
  | zero => exact Sim.sat_pure _ _ rfl
  | succ n ih =>
    unfold ticks
    refine Sim.sat_bind _ _ _ _ (tick_x0 h) ?_
    intro h₁ hh₁ h₂ o e
    rw [ih h₁ h₂ o e]
    exact hh₁

end rv32i_hart

set_option maxRecDepth 100000 in
theorem scenario_addi_tick : scenario_addi.ticks 1 = Except.ok (scenario_addi_after, []) := by
  rfl

/-- One step of `ticks` is one call of `tick`. -/
theorem rv32i_hart.ticks_one (h h' : rv32i_hart) (o : List Out) :
    h.ticks 1 = Except.ok (h', o) ↔ h.tick = Except.ok (h', o) := by
  show Sim.andThen h.tick (fun h₁ => Except.ok (h₁, [])) = Except.ok (h', o) ↔ _
  rcases ht : h.tick with e | ⟨h₁, o₁⟩ <;> simp [Sim.andThen]

/-- C1: from every hart state (any pc, registers, memory, flags), after any number `n` of
calls of `tick` that return, register 0 reads as 0 and entry 0 of the register vector is
the one the hart started with; `n = 1` is a single call of `tick`, and the states
reachable from `reset` are those reached from a state `reset` returns. -/
theorem rv32i_hart.x0_zero_after_ticks (h : rv32i_hart) (n : Nat) (h' : rv32i_hart)
    (o : List Out) (hrun : h.ticks n = Except.ok (h', o)) :
    h'.regs.get 0 = Except.ok (0, []) ∧ h'.regs.regVec[0]? = h.regs.regVec[0]? :=
  ⟨registerfile.get_zero _, rv32i_hart.ticks_x0 n h h' o hrun⟩

theorem rv32i_hart.x0_zero_after_ticks_witness :
    scenario_addi.ticks 1 = Except.ok (scenario_addi_after, []) ∧
    scenario_addi_after.regs.get 0 = Except.ok (0, []) ∧
    scenario_addi_after.regs.regVec[0]? = scenario_addi.regs.regVec[0]? :=
  ⟨scenario_addi_tick,
    rv32i_hart.x0_zero_after_ticks scenario_addi 1 scenario_addi_after [] scenario_addi_tick⟩

/-! ## Auxiliary lemmas: computations that return -/

theorem Sim.ok_andThen_out {α β : Type} (a : α) (o : List Out) (f : α → Sim β) (b : β)
    (o' : List Out) (hf : f a = Except.ok (b, o')) :
    Sim.andThen (Except.ok (a, o)) f = Except.ok (b, o ++ o') := by
  simp [Sim.andThen, hf]

/-! ## Decoder: the unsigned fields as arithmetic -/

open rv32i_decode

theorem get_opcode_arith (insn : Nat) : get_opcode insn = insn % 128 :=
  Nat.and_pow_two_sub_one_eq_mod insn 7

theorem get_rd_arith (insn : Nat) : get_rd insn = insn / 128 % 32 := by
  have m : insn &&& 0x00000f80 = insn / 128 % 32 * 128 := by
    have h := and_mask insn 5 7
    norm_num at h
    exact h
  have hb : insn / 128 % 32 < 32 := Nat.mod_lt _ (by norm_num)
  simp only [get_rd, m, Nat.shiftRight_eq_div_pow]
  generalize insn / 128 % 32 = v at *
  rw [show v * 128 / 2 ^ 7 = v by omega]
  exact u32_i32 v (by omega)

theorem get_funct3_arith (insn : Nat) : get_funct3 insn = insn / 4096 % 8 := by
  have m : insn &&& 0x00007000 = insn / 4096 % 8 * 4096 := by
    have h := and_mask insn 3 12
    norm_num at h
    exact h
  have hb : insn / 4096 % 8 < 8 := Nat.mod_lt _ (by norm_num)
  simp only [get_funct3, m, Nat.shiftRight_eq_div_pow]
  generalize insn / 4096 % 8 = v at *
  rw [show v * 4096 / 2 ^ 12 = v by omega]
  exact u32_i32 v (by omega)

theorem get_rs1_arith (insn : Nat) : get_rs1 insn = insn / 32768 % 32 := by
  have m : insn &&& 0x000f8000 = insn / 32768 % 32 * 32768 := by
    have h := and_mask insn 5 15
    norm_num at h
    exact h
  have hb : insn / 32768 % 32 < 32 := Nat.mod_lt _ (by norm_num)
  simp only [get_rs1, m, Nat.shiftRight_eq_div_pow]
  generalize insn / 32768 % 32 = v at *
  rw [show v * 32768 / 2 ^ 15 = v by omega]
  exact u32_i32 v (by omega)

theorem get_rs2_arith (insn : Nat) : get_rs2 insn = insn / 1048576 % 32 := by
  have m : insn &&& 0x01f00000 = insn / 1048576 % 32 * 1048576 := by
    have h := and_mask insn 5 20
    norm_num at h
    exact h
  have hb : insn / 1048576 % 32 < 32 := Nat.mod_lt _ (by norm_num)
  simp only [get_rs2, m, Nat.shiftRight_eq_div_pow]
  generalize insn / 1048576 % 32 = v at *
  rw [show v * 1048576 / 2 ^ 20 = v by omega]
  exact u32_i32 v (by omega)

theorem get_funct7_arith (insn : Nat) : get_funct7 insn = insn / 33554432 % 128 := by
  have m : insn &&& 0xfe000000 = insn / 33554432 % 128 * 33554432 := by
    have h := and_mask insn 7 25
    norm_num at h
    exact h
  have hb : insn / 33554432 % 128 < 128 := Nat.mod_lt _ (by norm_num)
  simp only [get_funct7, m, Nat.shiftRight_eq_div_pow]
  generalize insn / 33554432 % 128 = v at *
  rw [show v * 33554432 / 2 ^ 25 = v by omega]
  exact u32_i32 v (by omega)

theorem get_rd_lt (insn : Nat) : get_rd insn < 32 := by
  rw [get_rd_arith]; exact Nat.mod_lt _ (by norm_num)

theorem get_rs1_lt (insn : Nat) : get_rs1 insn < 32 := by
  rw [get_rs1_arith]; exact Nat.mod_lt _ (by norm_num)

theorem get_rs2_lt (insn : Nat) : get_rs2 insn < 32 := by
  rw [get_rs2_arith]; exact Nat.mod_lt _ (by norm_num)

/-! ## Auxiliary lemmas: register reads and writes that return -/

theorem registerfile.set_eq_write (rf : registerfile) (r : Nat) (v : Int)
    (h : r < rf.regVec.length) : rf.set r v = Except.ok (rf.write r v, []) := by
  by_cases h0 : r = 0
  · subst h0
    rfl
  · simp [registerfile.set, registerfile.write, h0, h, Sim.pure_eq]

theorem registerfile.write_length (rf : registerfile) (r : Nat) (v : Int) :
    (rf.write r v).regVec.length = rf.regVec.length := by
  unfold registerfile.write
  split <;> simp

theorem registerfile.get_write_same (rf : registerfile) (r : Nat) (v : Int) (h0 : r ≠ 0)
    (h : r < rf.regVec.length) : (rf.write r v).get r = Except.ok (v, []) := by
  simp [registerfile.get, registerfile.write, h0, h, List.getElem?_set, Sim.pure_eq]

theorem registerfile.get_write_other (rf : registerfile) (r r' : Nat) (v : Int) (hne : r' ≠ r) :
    (rf.write r v).get r' = rf.get r' := by
  unfold registerfile.write
  split
  · rfl
  · simp only [registerfile.get]
    rw [List.getElem?_set_ne (fun e => hne e.symm)]

theorem registerfile.get_in (rf : registerfile) (r : Nat) (h : r < rf.regVec.length) :
    ∃ v, rf.get r = Except.ok (v, []) := by
  by_cases h0 : r = 0
  · exact ⟨0, by subst h0; rfl⟩
  · refine ⟨rf.regVec[r], ?_⟩
    simp [registerfile.get, h0, List.getElem?_eq_getElem, h, Sim.pure_eq]

theorem rv32i_hart.trace_eq (pos : Bool) :
    rv32i_hart.trace pos = Except.ok ((), rv32i_hart.trace_out pos) := by
  cases pos <;> rfl

namespace rv32i_hart

theorem exec_jal_eq (h : rv32i_hart) (insn : Nat) (pos : Bool)
    (hlen : h.regs.regVec.length = 32) :
    h.exec_jal insn pos = Except.ok
      ({ h with
          regs := h.regs.write (get_rd insn) (i32 ↑((h.pc + 4) % 4294967296))
          pc := u32 (i32 ↑((h.pc + u32 (get_imm_j insn)) % 4294967296)) },
        trace_out pos) := by
  have hrd := get_rd_lt insn
  simp only [exec_jal, Sim.bind_eq, trace_eq,
    registerfile.set_eq_write h.regs (get_rd insn) _ (by omega), Sim.andThen, Sim.pure_eq,
    List.append_nil, List.nil_append]

end rv32i_hart

namespace rv32i_hart

/-! ## The dispatch of `exec` -/

theorem exec_of_jal (h : rv32i_hart) (insn : Nat) (pos : Bool) (hop : get_opcode insn = 0x6f) :
    h.exec insn pos = h.exec_jal insn pos := by
  simp [exec, hop, opcode_lui, opcode_auipc, opcode_jal]

theorem exec_of_jalr (h : rv32i_hart) (insn : Nat) (pos : Bool) (hop : get_opcode insn = 0x67) :
    h.exec insn pos = h.exec_jalr insn pos := by
  simp [exec, hop, opcode_lui, opcode_auipc, opcode_jal, opcode_jalr]

theorem exec_of_addi (h : rv32i_hart) (insn : Nat) (pos : Bool) (hop : get_opcode insn = 0x13)
    (hf3 : get_funct3 insn = 0) : h.exec insn pos = h.exec_addi insn pos := by
  simp [exec, hop, hf3, opcode_lui, opcode_auipc, opcode_jal, opcode_jalr, opcode_rtype,
    opcode_btype, opcode_system, opcode_stype, opcode_alu_imm, funct3_add]

theorem exec_of_srli (h : rv32i_hart) (insn : Nat) (pos : Bool) (hop : get_opcode insn = 0x13)
    (hf3 : get_funct3 insn = 5) (hf7 : get_funct7 insn = 0x00) :
    h.exec insn pos = h.exec_srli insn pos := by
  simp [exec, hop, hf3, hf7, opcode_lui, opcode_auipc, opcode_jal, opcode_jalr, opcode_rtype,
    opcode_btype, opcode_system, opcode_stype, opcode_alu_imm, funct3_add, funct3_sll,
    funct3_slt, funct3_sltu, funct3_xor, funct3_or, funct3_and, funct3_srx, funct7_sra,
    funct7_srl]

theorem exec_of_srai (h : rv32i_hart) (insn : Nat) (pos : Bool) (hop : get_opcode insn = 0x13)
    (hf3 : get_funct3 insn = 5) (hf7 : get_funct7 insn = 0x20) :
    h.exec insn pos = h.exec_srai insn pos := by
  simp [exec, hop, hf3, hf7, opcode_lui, opcode_auipc, opcode_jal, opcode_jalr, opcode_rtype,
    opcode_btype, opcode_system, opcode_stype, opcode_alu_imm, funct3_add, funct3_sll,
    funct3_slt, funct3_sltu, funct3_xor, funct3_or, funct3_and, funct3_srx, funct7_sra,
    funct7_srl]

end rv32i_hart

namespace rv32i_hart

theorem ite_both {α : Type} (c : Prop) [Decidable c] (b₁ b₂ : Bool) (x₁ x₂ y : α)
    (h₁ : b₁ = true → x₁ = y) (h₂ : b₂ = true → x₂ = y) :
    (if c then b₁ else b₂) = true → (if c then x₁ else x₂) = y := by
  split
  · exact h₁
  · exact h₂

/-- A word that `exec_rejects` is executed by `exec_illegal_insn`. -/
theorem exec_of_rejects (h : rv32i_hart) (insn : Nat) (pos : Bool) :
    exec_rejects insn = true → h.exec insn pos = h.exec_illegal_insn pos := by
  unfold exec exec_rejects
  dsimp only
  with_reducible repeat' first
    | refine ite_both _ _ _ _ _ _ ?_ ?_
    | exact fun _ => rfl
    | exact fun e => Bool.noConfusion e

/-- A word whose opcode is none of the ten is rejected. -/
theorem exec_rejects_of_opcode (insn : Nat)
    (hop : get_opcode insn ∉ [0x37, 0x17, 0x6f, 0x67, 0x63, 0x03, 0x23, 0x13, 0x33, 0x73]) :
    exec_rejects insn = true := by
  simp only [List.mem_cons, List.mem_singleton, List.not_mem_nil, or_false, not_or] at hop
  obtain ⟨h1, h2, h3, h4, h5, h6, h7, h8, h9, h10⟩ := hop
  simp [exec_rejects, opcode_lui, opcode_auipc, opcode_jal, opcode_jalr, opcode_rtype,
    opcode_btype, opcode_system, opcode_stype, opcode_alu_imm, opcode_load_imm,
    h1, h2, h3, h4, h5, h6, h7, h8, h9, h10]

theorem exec_illegal_insn_eq (h : rv32i_hart) (pos : Bool) :
    h.exec_illegal_insn pos =
      Except.ok ({ h with halt := true, halt_reason := "Illegal instruction" }, trace_out pos) := by
  simp only [exec_illegal_insn, Sim.bind_eq, trace_eq, Sim.andThen, Sim.pure_eq, List.append_nil]

/-- What `tick` does once the fetch has returned `w` and `exec` returns `h'`. -/
theorem tick_of_exec (h h' : rv32i_hart) (w : Nat) (o : List Out) (hpc : h.pc % 4 = 0)
    (hfetch : h.mem.get32 h.pc = Except.ok (w, o))
    (hexec : ∀ pos, ∃ o',
      ({ h with insn_counter := (h.insn_counter + 1) % 18446744073709551616 }).exec w pos =
        Except.ok (h', o'))
    (hdump : h'.halt = false → 32 ≤ h'.regs.regVec.length) :
    ∃ o', h.tick = Except.ok (h', o') := by
  obtain ⟨mem, regs, pc, cnt, hlt, reason, si, sr⟩ := h
  have hne : ¬ (pc % 4 != 0) = true := by
    have : pc % 4 = 0 := hpc
    simp [this]
  have hf : mem.get32 pc = Except.ok (w, o) := hfetch
  cases si <;> cases sr
  all_goals
    obtain ⟨o₁, h₁⟩ := hexec true
    obtain ⟨o₂, h₂⟩ := hexec false
    unfold tick
    simp only [hne, if_false, Bool.false_eq_true, Sim.bind_eq, hf, Sim.andThen, h₁, h₂,
      Bool.and_self, Bool.and_false, Bool.false_and, beq_self_eq_true, if_true, Sim.emit,
      Bool.true_eq_false, Bool.false_eq_true, beq_iff_eq, Sim.pure_eq]
    first
      | exact ⟨_, rfl⟩
      | (cases hh : h'.halt
         · have hd := hdump hh
           simp only [registerfile.dump, hd, Sim.bind_eq, Sim.andThen, Sim.emit, Sim.pure_eq,
             if_true, Bool.not_false]
           exact ⟨_, rfl⟩
         · simp only [Sim.pure_eq, Bool.not_true, Bool.false_eq_true, if_false, Sim.andThen]
           exact ⟨_, rfl⟩)

end rv32i_hart

/-! ## Hart: illegal instructions and misaligned fetches -/

/-- C12: for every hart state with `pc mod 4 = 0` whose fetch returns a word `w` that has
an opcode outside the ten opcodes, or that the switch of `exec` otherwise rejects, `tick`
returns a state with `halted = true` and `halt_reason = "Illegal instruction"` in which
pc, registers and memory are as before (the instruction counter has counted the fetch). -/
theorem rv32i_hart.tick_illegal_instruction (h : rv32i_hart) (w : Nat) (o : List Out)
    (hpc : h.pc % 4 = 0) (hfetch : h.mem.get32 h.pc = Except.ok (w, o))
    (hw : get_opcode w ∉ [0x37, 0x17, 0x6f, 0x67, 0x63, 0x03, 0x23, 0x13, 0x33, 0x73] ∨
      rv32i_hart.exec_rejects w = true) :
    ∃ h' o', h.tick = Except.ok (h', o') ∧ h'.halt = true ∧
      h'.halt_reason = "Illegal instruction" ∧ h'.pc = h.pc ∧ h'.regs = h.regs ∧
      h'.mem = h.mem ∧ h'.insn_counter = (h.insn_counter + 1) % 18446744073709551616 := by
  have hrej : rv32i_hart.exec_rejects w = true := by
    rcases hw with hop | hr
    · exact rv32i_hart.exec_rejects_of_opcode w hop
    · exact hr
  obtain ⟨o', ht⟩ := rv32i_hart.tick_of_exec h
    { h with insn_counter := (h.insn_counter + 1) % 18446744073709551616, halt := true,
             halt_reason := "Illegal instruction" } w o hpc hfetch
    (fun pos => ⟨_, by rw [rv32i_hart.exec_of_rejects _ w pos hrej,
      rv32i_hart.exec_illegal_insn_eq]⟩)
    (fun hf => Bool.noConfusion hf)
  exact ⟨_, o', ht, rfl, rfl, rfl, rfl, rfl, rfl⟩

set_option maxRecDepth 100000 in
theorem scenario_illegal_fetch :
    scenario_illegal.mem.get32 scenario_illegal.pc = Except.ok (0xa5a5a5a5, []) := by
  rfl

theorem rv32i_hart.tick_illegal_instruction_witness :
    scenario_illegal.pc % 4 = 0 ∧
    scenario_illegal.mem.get32 scenario_illegal.pc = Except.ok (0xa5a5a5a5, []) ∧
    (get_opcode 0xa5a5a5a5 ∉ [0x37, 0x17, 0x6f, 0x67, 0x63, 0x03, 0x23, 0x13, 0x33, 0x73] ∨
      rv32i_hart.exec_rejects 0xa5a5a5a5 = true) ∧
    ∃ h' o', scenario_illegal.tick = Except.ok (h', o') ∧ h'.halt = true ∧
      h'.halt_reason = "Illegal instruction" ∧ h'.pc = scenario_illegal.pc ∧
      h'.regs = scenario_illegal.regs ∧ h'.mem = scenario_illegal.mem ∧
      h'.insn_counter = (scenario_illegal.insn_counter + 1) % 18446744073709551616 :=
  ⟨by decide, scenario_illegal_fetch, Or.inl (by decide),
    rv32i_hart.tick_illegal_instruction scenario_illegal 0xa5a5a5a5 [] (by decide)
      scenario_illegal_fetch (Or.inl (by decide))⟩

/-- C13: for every hart state with `pc mod 4 ≠ 0`, `tick` returns the same state with
`halted = true` and `halt_reason = "PC alignment error"`: pc, insn_counter, registers and
memory are unchanged, and nothing is fetched, executed or printed. -/
theorem rv32i_hart.tick_misaligned (h : rv32i_hart) (hpc : h.pc % 4 ≠ 0) :
    h.tick = Except.ok ({ h with halt := true, halt_reason := "PC alignment error" }, []) := by
  have hne : (h.pc % 4 != 0) = true := by simp [hpc]
  simp only [rv32i_hart.tick, hne, if_true, Sim.pure_eq]

theorem rv32i_hart.tick_misaligned_witness :
    scenario_misaligned.pc % 4 ≠ 0 ∧
    scenario_misaligned.tick = Except.ok
      ({ scenario_misaligned with halt := true, halt_reason := "PC alignment error" }, []) :=
  ⟨by decide, rv32i_hart.tick_misaligned scenario_misaligned (by decide)⟩

/-! ## Hart: the halted flag

No executor and no branch of `tick` assigns `false` to `halt`; the lemmas below follow
that through `exec` and `tick`. -/

namespace rv32i_hart

set_option linter.unusedTactic false
set_option linter.unreachableTactic false

theorem exec_illegal_insn_halt (h : rv32i_hart) (pos : Bool) (_hh : h.halt = true) :
    Sim.sat (h.exec_illegal_insn pos) (fun h' => h'.halt = true) := by
  unfold exec_illegal_insn
  refine Sim.sat_bind _ _ _ _ (Sim.sat_true _) ?_
  intro _ _
  exact Sim.sat_pure _ _ rfl

theorem exec_ebreak_halt (h : rv32i_hart) (insn : Int) (pos : Bool) (_hh : h.halt = true) :
    Sim.sat (h.exec_ebreak insn pos) (fun h' => h'.halt = true) := by
  unfold exec_ebreak
  refine Sim.sat_bind _ _ _ _ (Sim.sat_true _) ?_
  intro _ _
  exact Sim.sat_pure _ _ rfl

theorem exec_ecall_halt (h : rv32i_hart) (pos : Bool) (_hh : h.halt = true) :
    Sim.sat (h.exec_ecall pos) (fun h' => h'.halt = true) := by
  unfold exec_ecall
  refine Sim.sat_bind _ _ _ _ (Sim.sat_true _) ?_
  intro _ _
  exact Sim.sat_pure _ _ rfl

theorem exec_lui_halt (h : rv32i_hart) (insn : Nat) (pos : Bool) (hh : h.halt = true) :
    Sim.sat (h.exec_lui insn pos) (fun h' => h'.halt = true) := by
  unfold exec_lui
  with_reducible repeat first
    | (refine Sim.sat_bind _ _ _ _ (Sim.sat_true _) ?_; intro _ _)
    | exact Sim.sat_pure _ _ hh
    | exact Sim.sat_pure _ _ rfl
    | (dsimp only; split)

theorem exec_auipc_halt (h : rv32i_hart) (insn : Nat) (pos : Bool) (hh : h.halt = true) :
    Sim.sat (h.exec_auipc insn pos) (fun h' => h'.halt = true) := by
  unfold exec_auipc
  with_reducible repeat first
    | (refine Sim.sat_bind _ _ _ _ (Sim.sat_true _) ?_; intro _ _)
    | exact Sim.sat_pure _ _ hh
    | exact Sim.sat_pure _ _ rfl
    | (dsimp only; split)

theorem exec_jal_halt (h : rv32i_hart) (insn : Nat) (pos : Bool) (hh : h.halt = true) :
    Sim.sat (h.exec_jal insn pos) (fun h' => h'.halt = true) := by
  unfold exec_jal
  with_reducible repeat first
    | (refine Sim.sat_bind _ _ _ _ (Sim.sat_true _) ?_; intro _ _)
    | exact Sim.sat_pure _ _ hh
    | exact Sim.sat_pure _ _ rfl
    | (dsimp only; split)

theorem exec_jalr_halt (h : rv32i_hart) (insn : Nat) (pos : Bool) (hh : h.halt = true) :
    Sim.sat (h.exec_jalr insn pos) (fun h' => h'.halt = true) := by
  unfold exec_jalr
  with_reducible repeat first
    | (refine Sim.sat_bind _ _ _ _ (Sim.sat_true _) ?_; intro _ _)
    | exact Sim.sat_pure _ _ hh
    | exact Sim.sat_pure _ _ rfl
    | (dsimp only; split)

theorem exec_beq_halt (h : rv32i_hart) (insn : Nat) (pos : Bool) (hh : h.halt = true) :
    Sim.sat (h.exec_beq insn pos) (fun h' => h'.halt = true) := by
  unfold exec_beq
  with_reducible repeat first
    | (refine Sim.sat_bind _ _ _ _ (Sim.sat_true _) ?_; intro _ _)
    | exact Sim.sat_pure _ _ hh
    | exact Sim.sat_pure _ _ rfl
    | (dsimp only; split)

theorem exec_bne_halt (h : rv32i_hart) (insn : Nat) (pos : Bool) (hh : h.halt = true) :
    Sim.sat (h.exec_bne insn pos) (fun h' => h'.halt = true) := by
  unfold exec_bne
  with_reducible repeat first
    | (refine Sim.sat_bind _ _ _ _ (Sim.sat_true _) ?_; intro _ _)
    | exact Sim.sat_pure _ _ hh
    | exact Sim.sat_pure _ _ rfl
    | (dsimp only; split)

theorem exec_blt_halt (h : rv32i_hart) (insn : Nat) (pos : Bool) (hh : h.halt = true) :
    Sim.sat (h.exec_blt insn pos) (fun h' => h'.halt = true) := by
  unfold exec_blt
  with_reducible repeat first
    | (refine Sim.sat_bind _ _ _ _ (Sim.sat_true _) ?_; intro _ _)
    | exact Sim.sat_pure _ _ hh
    | exact Sim.sat_pure _ _ rfl
    | (dsimp only; split)

theorem exec_bge_halt (h : rv32i_hart) (insn : Nat) (pos : Bool) (hh : h.halt = true) :
    Sim.sat (h.exec_bge insn pos) (fun h' => h'.halt = true) := by
  unfold exec_bge
  with_reducible repeat first
    | (refine Sim.sat_bind _ _ _ _ (Sim.sat_true _) ?_; intro _ _)
    | exact Sim.sat_pure _ _ hh
    | exact Sim.sat_pure _ _ rfl
    | (dsimp only; split)

theorem exec_bltu_halt (h : rv32i_hart) (insn : Nat) (pos : Bool) (hh : h.halt = true) :
    Sim.sat (h.exec_bltu insn pos) (fun h' => h'.halt = true) := by
  unfold exec_bltu
  with_reducible repeat first
    | (refine Sim.sat_bind _ _ _ _ (Sim.sat_true _) ?_; intro _ _)
    | exact Sim.sat_pure _ _ hh
    | exact Sim.sat_pure _ _ rfl
    | (dsimp only; split)

theorem exec_bgeu_halt (h : rv32i_hart) (insn : Nat) (pos : Bool) (hh : h.halt = true) :
    Sim.sat (h.exec_bgeu insn pos) (fun h' => h'.halt = true) := by
  unfold exec_bgeu
  with_reducible repeat first
    | (refine Sim.sat_bind _ _ _ _ (Sim.sat_true _) ?_; intro _ _)
    | exact Sim.sat_pure _ _ hh
    | exact Sim.sat_pure _ _ rfl
    | (dsimp only; split)

theorem exec_addi_halt (h : rv32i_hart) (insn : Nat) (pos : Bool) (hh : h.halt = true) :
    Sim.sat (h.exec_addi insn pos) (fun h' => h'.halt = true) := by
  unfold exec_addi
  with_reducible repeat first
    | (refine Sim.sat_bind _ _ _ _ (Sim.sat_true _) ?_; intro _ _)
    | exact Sim.sat_pure _ _ hh
    | exact Sim.sat_pure _ _ rfl
    | (dsimp only; split)

theorem exec_lbu_halt (h : rv32i_hart) (insn : Nat) (pos : Bool) (hh : h.halt = true) :
    Sim.sat (h.exec_lbu insn pos) (fun h' => h'.halt = true) := by
  unfold exec_lbu
  with_reducible repeat first
    | (refine Sim.sat_bind _ _ _ _ (Sim.sat_true _) ?_; intro _ _)
    | exact Sim.sat_pure _ _ hh
    | exact Sim.sat_pure _ _ rfl
    | (dsimp only; split)

theorem exec_lhu_halt (h : rv32i_hart) (insn : Nat) (pos : Bool) (hh : h.halt = true) :
    Sim.sat (h.exec_lhu insn pos) (fun h' => h'.halt = true) := by
  unfold exec_lhu
  with_reducible repeat first
    | (refine Sim.sat_bind _ _ _ _ (Sim.sat_true _) ?_; intro _ _)
    | exact Sim.sat_pure _ _ hh
    | exact Sim.sat_pure _ _ rfl
    | (dsimp only; split)

theorem exec_lb_halt (h : rv32i_hart) (insn : Nat) (pos : Bool) (hh : h.halt = true) :
    Sim.sat (h.exec_lb insn pos) (fun h' => h'.halt = true) := by
  unfold exec_lb
  with_reducible repeat first
    | (refine Sim.sat_bind _ _ _ _ (Sim.sat_true _) ?_; intro _ _)
    | exact Sim.sat_pure _ _ hh
    | exact Sim.sat_pure _ _ rfl
    | (dsimp only; split)

theorem exec_lh_halt (h : rv32i_hart) (insn : Nat) (pos : Bool) (hh : h.halt = true) :
    Sim.sat (h.exec_lh insn pos) (fun h' => h'.halt = true) := by
  unfold exec_lh
  with_reducible repeat first
    | (refine Sim.sat_bind _ _ _ _ (Sim.sat_true _) ?_; intro _ _)
    | exact Sim.sat_pure _ _ hh
    | exact Sim.sat_pure _ _ rfl
    | (dsimp only; split)

theorem exec_lw_halt (h : rv32i_hart) (insn : Nat) (pos : Bool) (hh : h.halt = true) :
    Sim.sat (h.exec_lw insn pos) (fun h' => h'.halt = true) := by
  unfold exec_lw
  with_reducible repeat first
    | (refine Sim.sat_bind _ _ _ _ (Sim.sat_true _) ?_; intro _ _)
    | exact Sim.sat_pure _ _ hh
    | exact Sim.sat_pure _ _ rfl
    | (dsimp only; split)

theorem exec_sb_halt (h : rv32i_hart) (insn : Nat) (pos : Bool) (hh : h.halt = true) :
    Sim.sat (h.exec_sb insn pos) (fun h' => h'.halt = true) := by
  unfold exec_sb
  with_reducible repeat first
    | (refine Sim.sat_bind _ _ _ _ (Sim.sat_true _) ?_; intro _ _)
    | exact Sim.sat_pure _ _ hh
    | exact Sim.sat_pure _ _ rfl
    | (dsimp only; split)

theorem exec_sh_halt (h : rv32i_hart) (insn : Nat) (pos : Bool) (hh : h.halt = true) :
    Sim.sat (h.exec_sh insn pos) (fun h' => h'.halt = true) := by
  unfold exec_sh
  with_reducible repeat first
    | (refine Sim.sat_bind _ _ _ _ (Sim.sat_true _) ?_; intro _ _)
    | exact Sim.sat_pure _ _ hh
    | exact Sim.sat_pure _ _ rfl
    | (dsimp only; split)

theorem exec_sw_halt (h : rv32i_hart) (insn : Nat) (pos : Bool) (hh : h.halt = true) :
    Sim.sat (h.exec_sw insn pos) (fun h' => h'.halt = true) := by
  unfold exec_sw
  with_reducible repeat first
    | (refine Sim.sat_bind _ _ _ _ (Sim.sat_true _) ?_; intro _ _)
    | exact Sim.sat_pure _ _ hh
    | exact Sim.sat_pure _ _ rfl
    | (dsimp only; split)

theorem exec_slti_halt (h : rv32i_hart) (insn : Nat) (pos : Bool) (hh : h.halt = true) :
    Sim.sat (h.exec_slti insn pos) (fun h' => h'.halt = true) := by
  unfold exec_slti
  with_reducible repeat first
    | (refine Sim.sat_bind _ _ _ _ (Sim.sat_true _) ?_; intro _ _)
    | exact Sim.sat_pure _ _ hh
    | exact Sim.sat_pure _ _ rfl
    | (dsimp only; split)

theorem exec_sltiu_halt (h : rv32i_hart) (insn : Nat) (pos : Bool) (hh : h.halt = true) :
    Sim.sat (h.exec_sltiu insn pos) (fun h' => h'.halt = true) := by
  unfold exec_sltiu
  with_reducible repeat first
    | (refine Sim.sat_bind _ _ _ _ (Sim.sat_true _) ?_; intro _ _)
    | exact Sim.sat_pure _ _ hh
    | exact Sim.sat_pure _ _ rfl
    | (dsimp only; split)

theorem exec_xori_halt (h : rv32i_hart) (insn : Nat) (pos : Bool) (hh : h.halt = true) :
    Sim.sat (h.exec_xori insn pos) (fun h' => h'.halt = true) := by
  unfold exec_xori
  with_reducible repeat first
    | (refine Sim.sat_bind _ _ _ _ (Sim.sat_true _) ?_; intro _ _)
    | exact Sim.sat_pure _ _ hh
    | exact Sim.sat_pure _ _ rfl
    | (dsimp only; split)

theorem exec_ori_halt (h : rv32i_hart) (insn : Nat) (pos : Bool) (hh : h.halt = true) :
    Sim.sat (h.exec_ori insn pos) (fun h' => h'.halt = true) := by
  unfold exec_ori
  with_reducible repeat first
    | (refine Sim.sat_bind _ _ _ _ (Sim.sat_true _) ?_; intro _ _)
    | exact Sim.sat_pure _ _ hh
    | exact Sim.sat_pure _ _ rfl
    | (dsimp only; split)

theorem exec_andi_halt (h : rv32i_hart) (insn : Nat) (pos : Bool) (hh : h.halt = true) :
    Sim.sat (h.exec_andi insn pos) (fun h' => h'.halt = true) := by
  unfold exec_andi
  with_reducible repeat first
    | (refine Sim.sat_bind _ _ _ _ (Sim.sat_true _) ?_; intro _ _)
    | exact Sim.sat_pure _ _ hh
    | exact Sim.sat_pure _ _ rfl
    | (dsimp only; split)

theorem exec_slli_halt (h : rv32i_hart) (insn : Nat) (pos : Bool) (hh : h.halt = true) :
    Sim.sat (h.exec_slli insn pos) (fun h' => h'.halt = true) := by
  unfold exec_slli
  with_reducible repeat first
    | (refine Sim.sat_bind _ _ _ _ (Sim.sat_true _) ?_; intro _ _)
    | exact Sim.sat_pure _ _ hh
    | exact Sim.sat_pure _ _ rfl
    | (dsimp only; split)

theorem exec_srli_halt (h : rv32i_hart) (insn : Nat) (pos : Bool) (hh : h.halt = true) :
    Sim.sat (h.exec_srli insn pos) (fun h' => h'.halt = true) := by
  unfold exec_srli
  with_reducible repeat first
    | (refine Sim.sat_bind _ _ _ _ (Sim.sat_true _) ?_; intro _ _)
    | exact Sim.sat_pure _ _ hh
    | exact Sim.sat_pure _ _ rfl
    | (dsimp only; split)

theorem exec_srai_halt (h : rv32i_hart) (insn : Nat) (pos : Bool) (hh : h.halt = true) :
    Sim.sat (h.exec_srai insn pos) (fun h' => h'.halt = true) := by
  unfold exec_srai
  with_reducible repeat first
    | (refine Sim.sat_bind _ _ _ _ (Sim.sat_true _) ?_; intro _ _)
    | exact Sim.sat_pure _ _ hh
    | exact Sim.sat_pure _ _ rfl
    | (dsimp only; split)

theorem exec_add_halt (h : rv32i_hart) (insn : Nat) (pos : Bool) (hh : h.halt = true) :
    Sim.sat (h.exec_add insn pos) (fun h' => h'.halt = true) := by
  unfold exec_add
  with_reducible repeat first
    | (refine Sim.sat_bind _ _ _ _ (Sim.sat_true _) ?_; intro _ _)
    | exact Sim.sat_pure _ _ hh
    | exact Sim.sat_pure _ _ rfl
    | (dsimp only; split)

theorem exec_sub_halt (h : rv32i_hart) (insn : Nat) (pos : Bool) (hh : h.halt = true) :
    Sim.sat (h.exec_sub insn pos) (fun h' => h'.halt = true) := by
  unfold exec_sub
  with_reducible repeat first
    | (refine Sim.sat_bind _ _ _ _ (Sim.sat_true _) ?_; intro _ _)
    | exact Sim.sat_pure _ _ hh
    | exact Sim.sat_pure _ _ rfl
    | (dsimp only; split)

theorem exec_sll_halt (h : rv32i_hart) (insn : Nat) (pos : Bool) (hh : h.halt = true) :
    Sim.sat (h.exec_sll insn pos) (fun h' => h'.halt = true) := by
  unfold exec_sll
  with_reducible repeat first
    | (refine Sim.sat_bind _ _ _ _ (Sim.sat_true _) ?_; intro _ _)
    | exact Sim.sat_pure _ _ hh
    | exact Sim.sat_pure _ _ rfl
    | (dsimp only; split)

theorem exec_slt_halt (h : rv32i_hart) (insn : Nat) (pos : Bool) (hh : h.halt = true) :
    Sim.sat (h.exec_slt insn pos) (fun h' => h'.halt = true) := by
  unfold exec_slt
  with_reducible repeat first
    | (refine Sim.sat_bind _ _ _ _ (Sim.sat_true _) ?_; intro _ _)
    | exact Sim.sat_pure _ _ hh
    | exact Sim.sat_pure _ _ rfl
    | (dsimp only; split)

theorem exec_sltu_halt (h : rv32i_hart) (insn : Nat) (pos : Bool) (hh : h.halt = true) :
    Sim.sat (h.exec_sltu insn pos) (fun h' => h'.halt = true) := by
  unfold exec_sltu
  with_reducible repeat first
    | (refine Sim.sat_bind _ _ _ _ (Sim.sat_true _) ?_; intro _ _)
    | exact Sim.sat_pure _ _ hh
    | exact Sim.sat_pure _ _ rfl
    | (dsimp only; split)

theorem exec_xor_halt (h : rv32i_hart) (insn : Nat) (pos : Bool) (hh : h.halt = true) :
    Sim.sat (h.exec_xor insn pos) (fun h' => h'.halt = true) := by
  unfold exec_xor
  with_reducible repeat first
    | (refine Sim.sat_bind _ _ _ _ (Sim.sat_true _) ?_; intro _ _)
    | exact Sim.sat_pure _ _ hh
    | exact Sim.sat_pure _ _ rfl
    | (dsimp only; split)

theorem exec_srl_halt (h : rv32i_hart) (insn : Nat) (pos : Bool) (hh : h.halt = true) :
    Sim.sat (h.exec_srl insn pos) (fun h' => h'.halt = true) := by
  unfold exec_srl
  with_reducible repeat first
    | (refine Sim.sat_bind _ _ _ _ (Sim.sat_true _) ?_; intro _ _)
    | exact Sim.sat_pure _ _ hh
    | exact Sim.sat_pure _ _ rfl
    | (dsimp only; split)

theorem exec_sra_halt (h : rv32i_hart) (insn : Nat) (pos : Bool) (hh : h.halt = true) :
    Sim.sat (h.exec_sra insn pos) (fun h' => h'.halt = true) := by
  unfold exec_sra
  with_reducible repeat first
    | (refine Sim.sat_bind _ _ _ _ (Sim.sat_true _) ?_; intro _ _)
    | exact Sim.sat_pure _ _ hh
    | exact Sim.sat_pure _ _ rfl
    | (dsimp only; split)

theorem exec_or_halt (h : rv32i_hart) (insn : Nat) (pos : Bool) (hh : h.halt = true) :
    Sim.sat (h.exec_or insn pos) (fun h' => h'.halt = true) := by
  unfold exec_or
  with_reducible repeat first
    | (refine Sim.sat_bind _ _ _ _ (Sim.sat_true _) ?_; intro _ _)
    | exact Sim.sat_pure _ _ hh
    | exact Sim.sat_pure _ _ rfl
    | (dsimp only; split)

theorem exec_and_halt (h : rv32i_hart) (insn : Nat) (pos : Bool) (hh : h.halt = true) :
    Sim.sat (h.exec_and insn pos) (fun h' => h'.halt = true) := by
  unfold exec_and
  with_reducible repeat first
    | (refine Sim.sat_bind _ _ _ _ (Sim.sat_true _) ?_; intro _ _)
    | exact Sim.sat_pure _ _ hh
    | exact Sim.sat_pure _ _ rfl
    | (dsimp only; split)

theorem exec_csrrs_halt (h : rv32i_hart) (insn : Nat) (pos : Bool) (hh : h.halt = true) :
    Sim.sat (h.exec_csrrs insn pos) (fun h' => h'.halt = true) := by
  unfold exec_csrrs
  dsimp only
  split
  all_goals
    with_reducible repeat first
      | (refine Sim.sat_bind _ _ _ _ (Sim.sat_true _) ?_; intro _ _)
      | exact Sim.sat_pure _ _ hh
      | exact Sim.sat_pure _ _ rfl

theorem exec_halt (h : rv32i_hart) (insn : Nat) (pos : Bool) (hh : h.halt = true) :
    Sim.sat (h.exec insn pos) (fun h' => h'.halt = true) := by
  unfold exec
  dsimp only
  with_reducible repeat' first
    | refine Sim.sat_ite _ _ _ _ ?_ ?_
    | exact exec_illegal_insn_halt _ _ hh
    | exact exec_ecall_halt _ _ hh
    | exact exec_ebreak_halt _ _ _ hh
    | exact exec_lui_halt _ _ _ hh
    | exact exec_auipc_halt _ _ _ hh
    | exact exec_jal_halt _ _ _ hh
    | exact exec_jalr_halt _ _ _ hh
    | exact exec_beq_halt _ _ _ hh
    | exact exec_bne_halt _ _ _ hh
    | exact exec_blt_halt _ _ _ hh
    | exact exec_bge_halt _ _ _ hh
    | exact exec_bltu_halt _ _ _ hh
    | exact exec_bgeu_halt _ _ _ hh
    | exact exec_addi_halt _ _ _ hh
    | exact exec_lbu_halt _ _ _ hh
    | exact exec_lhu_halt _ _ _ hh
    | exact exec_lb_halt _ _ _ hh
    | exact exec_lh_halt _ _ _ hh
    | exact exec_lw_halt _ _ _ hh
    | exact exec_sb_halt _ _ _ hh
    | exact exec_sh_halt _ _ _ hh
    | exact exec_sw_halt _ _ _ hh
    | exact exec_slti_halt _ _ _ hh
    | exact exec_sltiu_halt _ _ _ hh
    | exact exec_xori_halt _ _ _ hh
    | exact exec_ori_halt _ _ _ hh
    | exact exec_andi_halt _ _ _ hh
    | exact exec_slli_halt _ _ _ hh
    | exact exec_srli_halt _ _ _ hh
    | exact exec_srai_halt _ _ _ hh
    | exact exec_add_halt _ _ _ hh
    | exact exec_sub_halt _ _ _ hh
    | exact exec_sll_halt _ _ _ hh
    | exact exec_slt_halt _ _ _ hh
    | exact exec_sltu_halt _ _ _ hh
    | exact exec_xor_halt _ _ _ hh
    | exact exec_srl_halt _ _ _ hh
    | exact exec_sra_halt _ _ _ hh
    | exact exec_or_halt _ _ _ hh
    | exact exec_and_halt _ _ _ hh
    | exact exec_csrrs_halt _ _ _ hh

theorem tick_halt (h : rv32i_hart) (hh : h.halt = true) :
    Sim.sat h.tick (fun h' => h'.halt = true) := by
  unfold tick
  split
  · exact Sim.sat_pure _ _ rfl
  · dsimp only
    refine Sim.sat_bind _ _ _ _ (Sim.sat_true _) ?_
    intro getinsn _
    split
    · refine Sim.sat_bind _ _ _ _ (exec_halt _ _ _ hh) ?_
      intro h₁ hh₁
      refine Sim.sat_bind _ _ _ _ (Sim.sat_true _) ?_
      intro _ _
      split
      · refine Sim.sat_bind _ _ _ _ (Sim.sat_true _) ?_
        intro _ _
        refine Sim.sat_bind _ _ _ _ (Sim.sat_true _) ?_
        intro _ _
        exact Sim.sat_pure _ _ hh₁
      · refine Sim.sat_bind _ _ _ _ (Sim.sat_true _) ?_
        intro _ _
        exact Sim.sat_pure _ _ hh₁
    · split
      · refine Sim.sat_bind _ _ _ _ (exec_halt _ _ _ hh) ?_
        intro h₁ hh₁
        refine Sim.sat_bind _ _ _ _ (Sim.sat_true _) ?_
        intro _ _
        exact Sim.sat_pure _ _ hh₁
      · exact exec_halt _ _ _ hh

end rv32i_hart

set_option maxRecDepth 100000 in
theorem scenario_halted_tick :
    scenario_halted.tick = Except.ok (scenario_halted_after, []) := by
  rfl

/-- C14, as stated: the hart of the first scenario with `halted = true` is not left alone by
`tick`; the `addi` at `pc = 0` is fetched, counted and executed, so pc, `x1` and
insn_counter change. -/
theorem rv32i_hart.tick_on_halted_executes :
    scenario_halted.halt = true ∧
    scenario_halted.tick = Except.ok (scenario_halted_after, []) ∧
    scenario_halted.pc = 0 ∧ scenario_halted_after.pc = 4 ∧
    scenario_halted.insn_counter = 0 ∧ scenario_halted_after.insn_counter = 1 ∧
    scenario_halted.regs.get 1 = Except.ok (-252645136, []) ∧
    scenario_halted_after.regs.get 1 = Except.ok (5, []) :=
  ⟨rfl, scenario_halted_tick, rfl, rfl, rfl, rfl, rfl, rfl⟩

/-- C14, amended: for every hart state with `halted = true`, a call of `tick` that returns
leaves `halted = true`. -/
theorem rv32i_hart.tick_keeps_halted (h h' : rv32i_hart) (o : List Out)
    (hh : h.halt = true) (ht : h.tick = Except.ok (h', o)) : h'.halt = true :=
  rv32i_hart.tick_halt h hh h' o ht

theorem rv32i_hart.tick_keeps_halted_witness :
    scenario_halted.halt = true ∧
    scenario_halted.tick = Except.ok (scenario_halted_after, []) ∧
    scenario_halted_after.halt = true :=
  ⟨rfl, scenario_halted_tick,
    rv32i_hart.tick_keeps_halted scenario_halted scenario_halted_after [] rfl
      scenario_halted_tick⟩

/-! ## The executors as equations

With the register reads (and the memory read of a load) given, each executor returns one
explicit state. -/

theorem u32_i32_reg (r : Nat) (h : r < 32) : u32 (i32 (r : Int)) = r :=
  u32_i32 r (by omega)

theorem u32_i32_int (x : Int) : u32 (i32 x) = u32 x := by
  unfold u32 i32
  split <;> omega

namespace rv32i_hart

theorem exec_addi_eq (h : rv32i_hart) (insn : Nat) (pos : Bool) (x : Int)
    (hlen : h.regs.regVec.length = 32)
    (hx : h.regs.get (get_rs1 insn) = Except.ok (x, [])) :
    h.exec_addi insn pos = Except.ok
      ({ h with
          regs := h.regs.write (get_rd insn) (i32 (x + get_imm_i insn))
          pc := (h.pc + 4) % 4294967296 },
        trace_out pos) := by
  have hrd := get_rd_lt insn
  simp only [exec_addi, Sim.bind_eq, trace_eq, hx,
    registerfile.set_eq_write h.regs (get_rd insn) _ (by omega), Sim.andThen, Sim.pure_eq,
    List.append_nil, List.nil_append]

theorem exec_srli_eq (h : rv32i_hart) (insn : Nat) (pos : Bool) (x : Int)
    (hlen : h.regs.regVec.length = 32)
    (hx : h.regs.get (get_rs1 insn) = Except.ok (x, [])) :
    h.exec_srli insn pos = Except.ok
      ({ h with
          regs := h.regs.write (get_rd insn)
            (i32 ↑(u32 x >>> (u32 (get_imm_i insn) &&& 0x0000001f)))
          pc := (h.pc + 4) % 4294967296 },
        trace_out pos) := by
  have hrd := get_rd_lt insn
  simp only [exec_srli, u32_i32_reg _ (get_rs1_lt insn), Sim.bind_eq, trace_eq, hx,
    registerfile.set_eq_write h.regs (get_rd insn) _ (by omega), Sim.andThen, Sim.pure_eq,
    List.append_nil, List.nil_append]

theorem exec_srai_eq (h : rv32i_hart) (insn : Nat) (pos : Bool) (x : Int)
    (hlen : h.regs.regVec.length = 32)
    (hx : h.regs.get (get_rs1 insn) = Except.ok (x, [])) :
    h.exec_srai insn pos = Except.ok
      ({ h with
          regs := h.regs.write (get_rd insn)
            (i32 ↑(u32 (x >>> (u32 (get_imm_i insn) &&& 0x0000001f))))
          pc := (h.pc + 4) % 4294967296 },
        trace_out pos) := by
  have hrd := get_rd_lt insn
  simp only [exec_srai, u32_i32_reg _ (get_rs1_lt insn), Sim.bind_eq, trace_eq, hx,
    registerfile.set_eq_write h.regs (get_rd insn) _ (by omega), Sim.andThen, Sim.pure_eq,
    List.append_nil, List.nil_append]

theorem exec_jalr_eq (h : rv32i_hart) (insn : Nat) (pos : Bool) (x : Int)
    (hlen : h.regs.regVec.length = 32)
    (hx : h.regs.get (get_rs1 insn) = Except.ok (x, [])) :
    h.exec_jalr insn pos = Except.ok
      ({ h with
          regs := h.regs.write (get_rd insn) (i32 ↑((h.pc + 4) % 4294967296))
          pc := u32 (i32 (x + get_imm_i insn)) &&& 0xfffffffe },
        trace_out pos) := by
  have hrd := get_rd_lt insn
  simp only [exec_jalr, Sim.bind_eq, trace_eq, hx,
    registerfile.set_eq_write h.regs (get_rd insn) _ (by omega), Sim.andThen, Sim.pure_eq,
    List.append_nil, List.nil_append]

theorem exec_beq_eq (h : rv32i_hart) (insn : Nat) (pos : Bool) (x y : Int)
    (hx : h.regs.get (get_rs1 insn) = Except.ok (x, []))
    (hy : h.regs.get (get_rs2 insn) = Except.ok (y, [])) :
    h.exec_beq insn pos = Except.ok
      ({ h with pc := (h.pc + u32 (if (x == y) = true then get_imm_b insn else 4)) % 4294967296 },
        trace_out pos) := by
  simp only [exec_beq, Sim.bind_eq, trace_eq, hx, hy, Sim.andThen, Sim.pure_eq,
    List.append_nil, List.nil_append]

theorem exec_bne_eq (h : rv32i_hart) (insn : Nat) (pos : Bool) (x y : Int)
    (hx : h.regs.get (get_rs1 insn) = Except.ok (x, []))
    (hy : h.regs.get (get_rs2 insn) = Except.ok (y, [])) :
    h.exec_bne insn pos = Except.ok
      ({ h with pc := (h.pc + u32 (if (x != y) = true then get_imm_b insn else 4)) % 4294967296 },
        trace_out pos) := by
  simp only [exec_bne, Sim.bind_eq, trace_eq, hx, hy, Sim.andThen, Sim.pure_eq,
    List.append_nil, List.nil_append]

theorem exec_blt_eq (h : rv32i_hart) (insn : Nat) (pos : Bool) (x y : Int)
    (hx : h.regs.get (get_rs1 insn) = Except.ok (x, []))
    (hy : h.regs.get (get_rs2 insn) = Except.ok (y, [])) :
    h.exec_blt insn pos = Except.ok
      ({ h with pc := (h.pc + u32 (if x < y then get_imm_b insn else 4)) % 4294967296 },
        trace_out pos) := by
  simp only [exec_blt, u32_i32_reg _ (get_rs1_lt insn), u32_i32_reg _ (get_rs2_lt insn),
    Sim.bind_eq, trace_eq, hx, hy, Sim.andThen, Sim.pure_eq, List.append_nil, List.nil_append]

theorem exec_bge_eq (h : rv32i_hart) (insn : Nat) (pos : Bool) (x y : Int)
    (hx : h.regs.get (get_rs1 insn) = Except.ok (x, []))
    (hy : h.regs.get (get_rs2 insn) = Except.ok (y, [])) :
    h.exec_bge insn pos = Except.ok
      ({ h with pc := (h.pc + u32 (if x ≥ y then get_imm_b insn else 4)) % 4294967296 },
        trace_out pos) := by
  simp only [exec_bge, u32_i32_reg _ (get_rs1_lt insn), u32_i32_reg _ (get_rs2_lt insn),
    Sim.bind_eq, trace_eq, hx, hy, Sim.andThen, Sim.pure_eq, List.append_nil, List.nil_append]

theorem exec_bltu_eq (h : rv32i_hart) (insn : Nat) (pos : Bool) (x y : Int)
    (hx : h.regs.get (get_rs1 insn) = Except.ok (x, []))
    (hy : h.regs.get (get_rs2 insn) = Except.ok (y, [])) :
    h.exec_bltu insn pos = Except.ok
      ({ h with pc := (h.pc + (if u32 x < u32 y then u32 (get_imm_b insn) else 4)) % 4294967296 },
        trace_out pos) := by
  simp only [exec_bltu, Sim.bind_eq, trace_eq, hx, hy, Sim.andThen, Sim.pure_eq,
    List.append_nil, List.nil_append]

theorem exec_bgeu_eq (h : rv32i_hart) (insn : Nat) (pos : Bool) (x y : Int)
    (hx : h.regs.get (get_rs1 insn) = Except.ok (x, []))
    (hy : h.regs.get (get_rs2 insn) = Except.ok (y, [])) :
    h.exec_bgeu insn pos = Except.ok
      ({ h with pc := (h.pc + (if u32 x ≥ u32 y then u32 (get_imm_b insn) else 4)) % 4294967296 },
        trace_out pos) := by
  simp only [exec_bgeu, Sim.bind_eq, trace_eq, hx, hy, Sim.andThen, Sim.pure_eq,
    List.append_nil, List.nil_append]

end rv32i_hart

namespace rv32i_hart

theorem exec_lbu_eq (h : rv32i_hart) (insn : Nat) (pos : Bool) (x : Int) (b : Nat)
    (o : List Out) (hlen : h.regs.regVec.length = 32)
    (hx : h.regs.get (get_rs1 insn) = Except.ok (x, []))
    (hm : h.mem.get8 ((u32 x + u32 (get_imm_i insn)) % 4294967296) = Except.ok (b, o)) :
    h.exec_lbu insn pos = Except.ok
      ({ h with
          regs := h.regs.write (get_rd insn) ↑((b &&& 0x000000ff) % 256)
          pc := (h.pc + 4) % 4294967296 },
        o ++ trace_out pos) := by
  have hrd := get_rd_lt insn
  simp only [exec_lbu, Sim.bind_eq, trace_eq, hx, hm,
    registerfile.set_eq_write h.regs (get_rd insn) _ (by omega), Sim.andThen, Sim.pure_eq,
    List.append_nil, List.nil_append]

theorem exec_lhu_eq (h : rv32i_hart) (insn : Nat) (pos : Bool) (x : Int) (b : Nat)
    (o : List Out) (hlen : h.regs.regVec.length = 32)
    (hx : h.regs.get (get_rs1 insn) = Except.ok (x, []))
    (hm : h.mem.get16 ((u32 x + u32 (get_imm_i insn)) % 4294967296) = Except.ok (b, o)) :
    h.exec_lhu insn pos = Except.ok
      ({ h with
          regs := h.regs.write (get_rd insn) ↑((b &&& 0x0000ffff) % 65536)
          pc := (h.pc + 4) % 4294967296 },
        o ++ trace_out pos) := by
  have hrd := get_rd_lt insn
  simp only [exec_lhu, Sim.bind_eq, trace_eq, hx, hm,
    registerfile.set_eq_write h.regs (get_rd insn) _ (by omega), Sim.andThen, Sim.pure_eq,
    List.append_nil, List.nil_append]

theorem exec_lb_eq (h : rv32i_hart) (insn : Nat) (pos : Bool) (x : Int) (b : Nat)
    (o : List Out) (hlen : h.regs.regVec.length = 32)
    (hx : h.regs.get (get_rs1 insn) = Except.ok (x, []))
    (hm : h.mem.get8 (u32 (i32 (x + get_imm_i insn))) = Except.ok (b, o)) :
    h.exec_lb insn pos = Except.ok
      ({ h with
          regs := h.regs.write (get_rd insn) (i8 ↑b)
          pc := (h.pc + 4) % 4294967296 },
        o ++ trace_out pos) := by
  have hrd := get_rd_lt insn
  simp only [exec_lb, Sim.bind_eq, trace_eq, hx, hm,
    registerfile.set_eq_write h.regs (get_rd insn) _ (by omega), Sim.andThen, Sim.pure_eq,
    List.append_nil, List.nil_append]

theorem exec_lh_eq (h : rv32i_hart) (insn : Nat) (pos : Bool) (x : Int) (b : Nat)
    (o : List Out) (hlen : h.regs.regVec.length = 32)
    (hx : h.regs.get (get_rs1 insn) = Except.ok (x, []))
    (hm : h.mem.get16 (u32 (i32 (x + get_imm_i insn))) = Except.ok (b, o)) :
    h.exec_lh insn pos = Except.ok
      ({ h with
          regs := h.regs.write (get_rd insn) (i16 ↑b)
          pc := (h.pc + 4) % 4294967296 },
        o ++ trace_out pos) := by
  have hrd := get_rd_lt insn
  simp only [exec_lh, Sim.bind_eq, trace_eq, hx, hm,
    registerfile.set_eq_write h.regs (get_rd insn) _ (by omega), Sim.andThen, Sim.pure_eq,
    List.append_nil, List.nil_append]

theorem exec_lw_eq (h : rv32i_hart) (insn : Nat) (pos : Bool) (x : Int) (b : Nat)
    (o : List Out) (hlen : h.regs.regVec.length = 32)
    (hx : h.regs.get (get_rs1 insn) = Except.ok (x, []))
    (hm : h.mem.get32 (u32 (i32 (x + get_imm_i insn))) = Except.ok (b, o)) :
    h.exec_lw insn pos = Except.ok
      ({ h with
          regs := h.regs.write (get_rd insn) (i32 ↑b)
          pc := (h.pc + 4) % 4294967296 },
        o ++ trace_out pos) := by
  have hrd := get_rd_lt insn
  simp only [exec_lw, Sim.bind_eq, trace_eq, hx, hm,
    registerfile.set_eq_write h.regs (get_rd insn) _ (by omega), Sim.andThen, Sim.pure_eq,
    List.append_nil, List.nil_append]

end rv32i_hart

theorem add_u32 (p : Nat) (i : Int) : (p + u32 i) % 4294967296 = u32 (↑p + i) := by
  unfold u32
  omega

theorem u32_add_u32 (x i : Int) : (u32 x + u32 i) % 4294967296 = u32 (x + i) := by
  unfold u32
  omega

theorem int_shiftRight_cast (m : Int) (n : Nat) : m >>> (n : Int) = m >>> n := by
  cases m with
  | ofNat a => exact Int.shiftRight_coe_nat a n
  | negSucc a => exact Int.shiftRight_negSucc a n

theorem sx8_eq_i8 (b : Nat) : i32 ((b : Int) * 2 ^ 24) >>> (24 : Int) = i8 ↑b := by
  rw [show (24 : Int) = ((24 : Nat) : Int) from rfl, int_shiftRight_cast,
    Int.shiftRight_eq_div_pow]
  unfold i32 i8
  norm_num
  split_ifs <;> omega

theorem sx16_eq_i16 (b : Nat) : i32 ((b : Int) * 2 ^ 16) >>> (16 : Int) = i16 ↑b := by
  rw [show (16 : Int) = ((16 : Nat) : Int) from rfl, int_shiftRight_cast,
    Int.shiftRight_eq_div_pow]
  unfold i32 i16
  norm_num
  split_ifs <;> omega

/-! ## Hart: `ADDI r, x0, k` -/

theorem addi_x0_word_arith (r : Nat) (k : Int) (hr : r < 32) :
    addi_x0_word r k = u32 k % 4096 * 1048576 + r * 128 + 19 := by
  have ha : u32 k % 4096 < 4096 := Nat.mod_lt _ (by norm_num)
  have e : u32 k &&& 0xFFF = u32 k % 4096 := Nat.and_pow_two_sub_one_eq_mod _ 12
  simp only [addi_x0_word, e, Nat.shiftLeft_eq]
  generalize u32 k % 4096 = a at *
  rw [or_add (a * 2 ^ 20) (r * 2 ^ 7) 12 (by omega) (by omega),
    or_add (a * 2 ^ 20 + r * 2 ^ 7) 0x13 7 (by omega) (by norm_num)]

theorem addi_x0_word_fields (r : Nat) (k : Int) (hr : r < 32) (hk : -2048 ≤ k ∧ k ≤ 2047) :
    get_opcode (addi_x0_word r k) = 0x13 ∧ get_funct3 (addi_x0_word r k) = 0 ∧
    get_rd (addi_x0_word r k) = r ∧ get_rs1 (addi_x0_word r k) = 0 ∧
    get_imm_i (addi_x0_word r k) = k := by
  have ha : u32 k % 4096 < 4096 := Nat.mod_lt _ (by norm_num)
  have hka : (k < 0 → (u32 k % 4096 : Nat) = (k + 4096).toNat) ∧
      (0 ≤ k → (u32 k % 4096 : Nat) = k.toNat) := by
    unfold u32
    omega
  rw [get_opcode_arith, get_funct3_arith, get_rd_arith, get_rs1_arith, get_imm_i_arith,
    addi_x0_word_arith r k hr]
  generalize u32 k % 4096 = a at *
  refine ⟨by omega, by omega, by omega, by omega, ?_⟩
  have e : (a * 1048576 + r * 128 + 19) / 1048576 % 4096 = a := by omega
  rw [e]
  unfold spec_sx
  norm_num
  split_ifs <;> omega

/-- C15: for every `k` in `-2048..2047`, every `r` in `1..31` and every hart state (with a
32-entry register file) whose pc is aligned and in range and whose fetch returns the
encoding of `ADDI r, x0, k`: `tick` returns a state with `regs[r] = k` (the sign-extended
immediate), `pc = old pc + 4` and `insn_counter = old insn_counter + 1` (in `uint64_t`). -/
theorem rv32i_hart.tick_addi_x0 (h : rv32i_hart) (r : Nat) (k : Int) (o : List Out)
    (hk : -2048 ≤ k ∧ k ≤ 2047) (hr : 1 ≤ r ∧ r ≤ 31)
    (hlen : h.regs.regVec.length = 32)
    (hpc : h.pc % 4 = 0) (hin : h.pc + 3 < h.mem.get_size)
    (hfetch : h.mem.get32 h.pc = Except.ok (addi_x0_word r k, o)) :
    ∃ h' o', h.tick = Except.ok (h', o') ∧ h'.regs.get r = Except.ok (k, []) ∧
      h'.pc = h.pc + 4 ∧ h'.insn_counter = (h.insn_counter + 1) % 18446744073709551616 := by
  obtain ⟨hop, hf3, hrd, hrs1, himm⟩ := addi_x0_word_fields r k (by omega) hk
  have hi32 : i32 (0 + k) = k := by
    unfold i32
    split <;> omega
  have hpc4 : (h.pc + 4) % 4294967296 = h.pc + 4 := by
    unfold memory.get_size at hin
    omega
  have hx : h.regs.get (get_rs1 (addi_x0_word r k)) = Except.ok (0, []) := by
    rw [hrs1]
    rfl
  obtain ⟨o', ht⟩ := rv32i_hart.tick_of_exec h
    { h with
        insn_counter := (h.insn_counter + 1) % 18446744073709551616
        regs := h.regs.write r k
        pc := h.pc + 4 } (addi_x0_word r k) o hpc hfetch
    (fun pos => ⟨_, by
      rw [rv32i_hart.exec_of_addi _ _ pos hop hf3,
        rv32i_hart.exec_addi_eq
          { h with insn_counter := (h.insn_counter + 1) % 18446744073709551616 }
          _ pos 0 hlen hx, hrd, himm, hi32, hpc4]⟩)
    (fun _ => by
      show 32 ≤ (h.regs.write r k).regVec.length
      rw [registerfile.write_length, hlen])
  exact ⟨_, o', ht, registerfile.get_write_same h.regs r k (by omega) (by omega), rfl, rfl⟩

set_option maxRecDepth 100000 in
theorem scenario_addi_fetch :
    addi_x0_word 1 5 = 0x00500093 ∧
    scenario_addi.mem.get32 scenario_addi.pc = Except.ok (addi_x0_word 1 5, []) :=
  ⟨rfl, rfl⟩

set_option maxRecDepth 100000 in
theorem rv32i_hart.tick_addi_x0_witness :
    (-2048 ≤ (5 : Int) ∧ (5 : Int) ≤ 2047) ∧ (1 ≤ 1 ∧ 1 ≤ 31) ∧
    scenario_addi.regs.regVec.length = 32 ∧ scenario_addi.pc % 4 = 0 ∧
    scenario_addi.pc + 3 < scenario_addi.mem.get_size ∧
    addi_x0_word 1 5 = 0x00500093 ∧
    scenario_addi.mem.get32 scenario_addi.pc = Except.ok (addi_x0_word 1 5, []) ∧
    ∃ h' o', scenario_addi.tick = Except.ok (h', o') ∧ h'.regs.get 1 = Except.ok (5, []) ∧
      h'.pc = scenario_addi.pc + 4 ∧
      h'.insn_counter = (scenario_addi.insn_counter + 1) % 18446744073709551616 :=
  ⟨by decide, by decide, by decide, by decide, by decide, scenario_addi_fetch.1,
    scenario_addi_fetch.2,
    rv32i_hart.tick_addi_x0 scenario_addi 1 5 [] (by decide) (by decide) (by decide)
      (by decide) (by decide) scenario_addi_fetch.2⟩

/-! ## Hart: `SRLI` and `SRAI` -/

theorem shamt_eq (insn : Nat) :
    u32 (get_imm_i insn) &&& 0x0000001f = spec_bits insn 24 20 := by
  have e : u32 (get_imm_i insn) &&& 0x0000001f = u32 (get_imm_i insn) % 32 :=
    Nat.and_pow_two_sub_one_eq_mod _ 5
  have hv : insn / 1048576 % 4096 < 4096 := Nat.mod_lt _ (by norm_num)
  have hs : spec_bits insn 24 20 = insn / 1048576 % 4096 % 32 := by
    simp only [spec_bits]
    norm_num
  rw [e, hs, get_imm_i_arith]
  generalize insn / 1048576 % 4096 = v at *
  unfold u32 spec_sx
  norm_num
  split_ifs <;> omega

theorem i32_u32 (y : Int) (hy : -2147483648 ≤ y ∧ y < 2147483648) : i32 ↑(u32 y) = y := by
  unfold i32 u32
  split <;> omega

theorem ediv_pow_bounds (x : Int) (s : Nat) (hx : -2147483648 ≤ x ∧ x < 2147483648)
    (hs : s < 32) :
    -2147483648 ≤ x / 2 ^ s ∧ x / 2 ^ s < 2147483648 ∧ (x < 0 → x / 2 ^ s < 0) ∧
      (0 ≤ x → x / 2 ^ s = ↑(x.toNat / 2 ^ s)) := by
  interval_cases s <;> omega

theorem div_pow_bounds (n s : Nat) (hn : n < 4294967296) (hs : s < 32) :
    (0 < s → n / 2 ^ s < 2147483648) ∧ (s = 0 → n / 2 ^ s = n) ∧
      (n < 2147483648 → n / 2 ^ s < 2147483648) := by
  interval_cases s <;> omega

theorem shift_right_values (x : Int) (s : Nat) (hx : -2147483648 ≤ x ∧ x < 2147483648)
    (hs : s < 32) :
    i32 ↑(u32 (x >>> s)) = Int.fdiv x (2 ^ s) ∧
    (i32 ↑(u32 x / 2 ^ s) ≠ Int.fdiv x (2 ^ s) ↔ spec_bits (u32 x) 31 31 = 1 ∧ 0 < s) := by
  obtain ⟨h1, h2, h3, h4⟩ := ediv_pow_bounds x s hx hs
  have e : x >>> s = x / 2 ^ s := by
    rw [Int.shiftRight_eq_div_pow]
    norm_cast
  rw [e, Int.fdiv_eq_ediv x (by positivity), i32_u32 _ ⟨h1, h2⟩]
  refine ⟨rfl, ?_⟩
  have hb : spec_bits (u32 x) 31 31 = u32 x / 2147483648 % 2 := by
    simp only [spec_bits]
    norm_num
  have hu : u32 x < 4294967296 ∧ (0 ≤ x → u32 x = x.toNat) ∧
      (x < 0 → (u32 x : Int) = x + 4294967296) := by
    unfold u32
    omega
  obtain ⟨g1, g2, g3⟩ := div_pow_bounds (u32 x) s hu.1 hs
  rw [hb]
  have hi : ∀ q : Nat, q < 4294967296 →
      (q < 2147483648 → i32 ↑q = ↑q) ∧ (2147483648 ≤ q → i32 ↑q = ↑q - 4294967296) := by
    intro q hq
    unfold i32
    constructor <;> intro _ <;> split <;> omega
  rcases Nat.eq_zero_or_pos s with hs0 | hspos
  · have e0 : x / 2 ^ s = x := by
      subst hs0
      simp
    have hq := hi (u32 x) hu.1
    rw [g2 hs0, e0]
    constructor
    · intro hne
      exfalso
      apply hne
      rcases (by omega : 0 ≤ x ∨ x < 0) with hp | hn
      · rw [hq.1 (by omega)]
        omega
      · rw [hq.2 (by omega)]
        omega
    · intro hc
      omega
  · have hq := (hi (u32 x / 2 ^ s) (by have := g1 hspos; omega)).1 (g1 hspos)
    rw [hq]
    rcases (by omega : 0 ≤ x ∨ x < 0) with hp | hn
    · have e4 := h4 hp
      rw [← hu.2.1 hp] at e4
      constructor
      · intro hne
        exact absurd e4.symm hne
      · intro hc
        omega
    · have e3 := h3 hn
      constructor
      · intro _
        omega
      · intro _ hc
        have : (0 : Int) ≤ ↑(u32 x / 2 ^ s) := Int.ofNat_nonneg _
        omega

/-- C16: for every hart state (with a 32-entry register file), every 32-bit value `x` and
shift amount `s`, and every `SRLI` word `il` and `SRAI` word `ia` with shift field `s`, a
source register holding `x` and a destination other than `x0`: `exec` of `il` writes the
logical shift `x >> s` of the unsigned value, `exec` of `ia` writes the floor of the signed
value divided by `2^s`, and the two values differ exactly when bit 31 of `x` is set and
`s > 0`. -/
theorem rv32i_hart.exec_srli_srai (h : rv32i_hart) (il ia : Nat) (pos : Bool) (x : Int)
    (s : Nat) (hlen : h.regs.regVec.length = 32)
    (hxr : -2147483648 ≤ x ∧ x < 2147483648)
    (hl : get_opcode il = 0x13 ∧ get_funct3 il = 5 ∧ get_funct7 il = 0x00)
    (ha : get_opcode ia = 0x13 ∧ get_funct3 ia = 5 ∧ get_funct7 ia = 0x20)
    (hrdl : get_rd il ≠ 0) (hrda : get_rd ia ≠ 0)
    (hxl : h.regs.get (get_rs1 il) = Except.ok (x, []))
    (hxa : h.regs.get (get_rs1 ia) = Except.ok (x, []))
    (hsl : spec_bits il 24 20 = s) (hsa : spec_bits ia 24 20 = s) :
    (∃ h' o, h.exec il pos = Except.ok (h', o) ∧
      h'.regs.get (get_rd il) = Except.ok (i32 ↑(u32 x / 2 ^ s), [])) ∧
    (∃ h' o, h.exec ia pos = Except.ok (h', o) ∧
      h'.regs.get (get_rd ia) = Except.ok (Int.fdiv x (2 ^ s), [])) ∧
    (i32 ↑(u32 x / 2 ^ s) ≠ Int.fdiv x (2 ^ s) ↔ spec_bits (u32 x) 31 31 = 1 ∧ 0 < s) := by
  have hs : s < 32 := by
    rw [← hsl]
    simp only [spec_bits]
    exact Nat.mod_lt _ (by norm_num)
  obtain ⟨hv, hd⟩ := shift_right_values x s hxr hs
  have hrl := get_rd_lt il
  have hra := get_rd_lt ia
  refine ⟨⟨_, _, (rv32i_hart.exec_of_srli h il pos hl.1 hl.2.1 hl.2.2).trans
      (rv32i_hart.exec_srli_eq h il pos x hlen hxl), ?_⟩,
    ⟨_, _, (rv32i_hart.exec_of_srai h ia pos ha.1 ha.2.1 ha.2.2).trans
      (rv32i_hart.exec_srai_eq h ia pos x hlen hxa), ?_⟩, hd⟩
  · dsimp only
    rw [registerfile.get_write_same _ _ _ hrdl (by omega), shamt_eq, hsl,
      Nat.shiftRight_eq_div_pow]
  · dsimp only
    rw [registerfile.get_write_same _ _ _ hrda (by omega), shamt_eq, hsa, hv]

theorem rv32i_hart.exec_srli_srai_witness :
    scenario_shift.regs.regVec.length = 32 ∧
    (-2147483648 ≤ (-1 : Int) ∧ (-1 : Int) < 2147483648) ∧
    (get_opcode 0x0010D113 = 0x13 ∧ get_funct3 0x0010D113 = 5 ∧ get_funct7 0x0010D113 = 0x00) ∧
    (get_opcode 0x4010D113 = 0x13 ∧ get_funct3 0x4010D113 = 5 ∧ get_funct7 0x4010D113 = 0x20) ∧
    get_rd 0x0010D113 ≠ 0 ∧ get_rd 0x4010D113 ≠ 0 ∧
    scenario_shift.regs.get (get_rs1 0x0010D113) = Except.ok (-1, []) ∧
    scenario_shift.regs.get (get_rs1 0x4010D113) = Except.ok (-1, []) ∧
    spec_bits 0x0010D113 24 20 = 1 ∧ spec_bits 0x4010D113 24 20 = 1 ∧
    ((∃ h' o, scenario_shift.exec 0x0010D113 false = Except.ok (h', o) ∧
      h'.regs.get (get_rd 0x0010D113) = Except.ok (i32 ((u32 (-1) / 2 ^ 1 : Nat) : Int), [])) ∧
    (∃ h' o, scenario_shift.exec 0x4010D113 false = Except.ok (h', o) ∧
      h'.regs.get (get_rd 0x4010D113) = Except.ok (Int.fdiv (-1) (2 ^ 1), [])) ∧
    (i32 ((u32 (-1) / 2 ^ 1 : Nat) : Int) ≠ Int.fdiv (-1) (2 ^ 1) ↔
      spec_bits (u32 (-1)) 31 31 = 1 ∧ 0 < 1)) ∧
    Int.fdiv (-1) (2 ^ 1) = -1 ∧ get_rd 0x4010D113 = 2 :=
  ⟨by decide, by decide, by decide, by decide, by decide, by decide, rfl, rfl, by decide,
    by decide,
    rv32i_hart.exec_srli_srai scenario_shift 0x0010D113 0x4010D113 false (-1) 1 (by decide)
      (by decide) (by decide) (by decide) (by decide) (by decide) rfl rfl (by decide)
      (by decide),
    by decide, by decide⟩

/-! ## Hart: `JAL` and `JALR` -/

/-- C17: for every hart state (with a 32-entry register file) and every `JAL` word, `exec`
returns a state with `pc = old_pc + imm_j` (mod 2^32) and, when `rd ≠ 0`,
`regs[rd] = old_pc + 4` (mod 2^32, as the `int32_t` the register holds); every other
register reads as before and the memory is the same. -/
theorem rv32i_hart.exec_jal_spec (h : rv32i_hart) (insn : Nat) (pos : Bool)
    (hlen : h.regs.regVec.length = 32) (hop : get_opcode insn = 0x6f) :
    ∃ h' o, h.exec insn pos = Except.ok (h', o) ∧
      h'.pc = u32 (↑h.pc + get_imm_j insn) ∧
      (get_rd insn ≠ 0 →
        h'.regs.get (get_rd insn) = Except.ok (i32 ↑((h.pc + 4) % 4294967296), [])) ∧
      (∀ r, r ≠ get_rd insn → h'.regs.get r = h.regs.get r) ∧
      h'.mem = h.mem := by
  have hrd := get_rd_lt insn
  refine ⟨_, _, (rv32i_hart.exec_of_jal h insn pos hop).trans
    (rv32i_hart.exec_jal_eq h insn pos hlen), ?_, ?_, ?_, rfl⟩
  · dsimp only
    rw [u32_i32 _ (Nat.mod_lt _ (by norm_num)), add_u32]
  · intro hne
    dsimp only
    exact registerfile.get_write_same h.regs (get_rd insn) _ hne (by omega)
  · intro r hr
    dsimp only
    exact registerfile.get_write_other h.regs (get_rd insn) r _ hr

theorem rv32i_hart.exec_jal_spec_witness :
    scenario_addi.regs.regVec.length = 32 ∧ get_opcode 0x008000EF = 0x6f ∧
    get_rd 0x008000EF = 1 ∧ get_imm_j 0x008000EF = 8 ∧
    ∃ h' o, scenario_addi.exec 0x008000EF false = Except.ok (h', o) ∧
      h'.pc = u32 (↑scenario_addi.pc + get_imm_j 0x008000EF) ∧
      (get_rd 0x008000EF ≠ 0 →
        h'.regs.get (get_rd 0x008000EF) =
          Except.ok (i32 ↑((scenario_addi.pc + 4) % 4294967296), [])) ∧
      (∀ r, r ≠ get_rd 0x008000EF → h'.regs.get r = scenario_addi.regs.get r) ∧
      h'.mem = scenario_addi.mem :=
  ⟨by decide, by decide, by decide, by decide,
    rv32i_hart.exec_jal_spec scenario_addi 0x008000EF false (by decide) (by decide)⟩

/-- C18: for every hart state (with a 32-entry register file) and every `JALR` word with
`rd = rs1 ≠ x0`, where `x` is the value of `rs1` before the instruction: `exec` returns a
state with `pc = (x + imm_i) & 0xFFFFFFFE` and `regs[rd] = old_pc + 4`; with `imm_i = 0`,
`pc = x & 0xFFFFFFFE`. -/
theorem rv32i_hart.exec_jalr_same_register (h : rv32i_hart) (insn : Nat) (pos : Bool)
    (x : Int) (hlen : h.regs.regVec.length = 32) (hop : get_opcode insn = 0x67)
    (hsame : get_rd insn = get_rs1 insn) (hne : get_rd insn ≠ 0)
    (hx : h.regs.get (get_rs1 insn) = Except.ok (x, [])) :
    ∃ h' o, h.exec insn pos = Except.ok (h', o) ∧
      h'.pc = u32 (x + get_imm_i insn) &&& 0xfffffffe ∧
      h'.regs.get (get_rd insn) = Except.ok (i32 ↑((h.pc + 4) % 4294967296), []) ∧
      (get_imm_i insn = 0 → h'.pc = u32 x &&& 0xfffffffe) := by
  have hrd := get_rd_lt insn
  have hpc : u32 (i32 (x + get_imm_i insn)) &&& 0xfffffffe =
      u32 (x + get_imm_i insn) &&& 0xfffffffe := by
    rw [u32_i32_int]
  refine ⟨_, _, (rv32i_hart.exec_of_jalr h insn pos hop).trans
    (rv32i_hart.exec_jalr_eq h insn pos x hlen hx), hpc, ?_, ?_⟩
  · dsimp only
    exact registerfile.get_write_same h.regs (get_rd insn) _ hne (by omega)
  · intro h0
    dsimp only
    rw [hpc, h0, Int.add_zero]

theorem rv32i_hart.exec_jalr_same_register_witness :
    scenario_shift.regs.regVec.length = 32 ∧ get_opcode 0x000080E7 = 0x67 ∧
    get_rd 0x000080E7 = get_rs1 0x000080E7 ∧ get_rd 0x000080E7 ≠ 0 ∧
    scenario_shift.regs.get (get_rs1 0x000080E7) = Except.ok (-1, []) ∧
    ∃ h' o, scenario_shift.exec 0x000080E7 false = Except.ok (h', o) ∧
      h'.pc = u32 (-1 + get_imm_i 0x000080E7) &&& 0xfffffffe ∧
      h'.regs.get (get_rd 0x000080E7) =
        Except.ok (i32 ↑((scenario_shift.pc + 4) % 4294967296), []) ∧
      (get_imm_i 0x000080E7 = 0 → h'.pc = u32 (-1) &&& 0xfffffffe) :=
  ⟨by decide, by decide, by decide, by decide, rfl,
    rv32i_hart.exec_jalr_same_register scenario_shift 0x000080E7 false (-1) (by decide)
      (by decide) (by decide) (by decide) rfl⟩

namespace rv32i_hart

theorem exec_of_beq (h : rv32i_hart) (insn : Nat) (pos : Bool) (hop : get_opcode insn = 0x63)
    (hf3 : get_funct3 insn = 0) : h.exec insn pos = h.exec_beq insn pos := by
  simp [exec, hop, hf3, opcode_lui, opcode_auipc, opcode_jal, opcode_jalr, opcode_rtype,
    opcode_btype, funct3_beq]

theorem exec_of_bne (h : rv32i_hart) (insn : Nat) (pos : Bool) (hop : get_opcode insn = 0x63)
    (hf3 : get_funct3 insn = 1) : h.exec insn pos = h.exec_bne insn pos := by
  simp [exec, hop, hf3, opcode_lui, opcode_auipc, opcode_jal, opcode_jalr, opcode_rtype,
    opcode_btype, funct3_beq, funct3_bne]

theorem exec_of_blt (h : rv32i_hart) (insn : Nat) (pos : Bool) (hop : get_opcode insn = 0x63)
    (hf3 : get_funct3 insn = 4) : h.exec insn pos = h.exec_blt insn pos := by
  simp [exec, hop, hf3, opcode_lui, opcode_auipc, opcode_jal, opcode_jalr, opcode_rtype,
    opcode_btype, funct3_beq, funct3_bne, funct3_blt]

theorem exec_of_bge (h : rv32i_hart) (insn : Nat) (pos : Bool) (hop : get_opcode insn = 0x63)
    (hf3 : get_funct3 insn = 5) : h.exec insn pos = h.exec_bge insn pos := by
  simp [exec, hop, hf3, opcode_lui, opcode_auipc, opcode_jal, opcode_jalr, opcode_rtype,
    opcode_btype, funct3_beq, funct3_bne, funct3_blt, funct3_bge]

theorem exec_of_bltu (h : rv32i_hart) (insn : Nat) (pos : Bool) (hop : get_opcode insn = 0x63)
    (hf3 : get_funct3 insn = 6) : h.exec insn pos = h.exec_bltu insn pos := by
  simp [exec, hop, hf3, opcode_lui, opcode_auipc, opcode_jal, opcode_jalr, opcode_rtype,
    opcode_btype, funct3_beq, funct3_bne, funct3_blt, funct3_bge, funct3_bltu]

theorem exec_of_bgeu (h : rv32i_hart) (insn : Nat) (pos : Bool) (hop : get_opcode insn = 0x63)
    (hf3 : get_funct3 insn = 7) : h.exec insn pos = h.exec_bgeu insn pos := by
  simp [exec, hop, hf3, opcode_lui, opcode_auipc, opcode_jal, opcode_jalr, opcode_rtype,
    opcode_btype, funct3_beq, funct3_bne, funct3_blt, funct3_bge, funct3_bltu, funct3_bgeu]

theorem exec_of_lb (h : rv32i_hart) (insn : Nat) (pos : Bool) (hop : get_opcode insn = 0x03)
    (hf3 : get_funct3 insn = 0) : h.exec insn pos = h.exec_lb insn pos := by
  simp [exec, hop, hf3, opcode_lui, opcode_auipc, opcode_jal, opcode_jalr, opcode_rtype,
    opcode_btype, opcode_system, opcode_stype, opcode_alu_imm, opcode_load_imm, funct3_lbu,
    funct3_lhu, funct3_lb]

theorem exec_of_lh (h : rv32i_hart) (insn : Nat) (pos : Bool) (hop : get_opcode insn = 0x03)
    (hf3 : get_funct3 insn = 1) : h.exec insn pos = h.exec_lh insn pos := by
  simp [exec, hop, hf3, opcode_lui, opcode_auipc, opcode_jal, opcode_jalr, opcode_rtype,
    opcode_btype, opcode_system, opcode_stype, opcode_alu_imm, opcode_load_imm, funct3_lbu,
    funct3_lhu, funct3_lb, funct3_lh]

theorem exec_of_lw (h : rv32i_hart) (insn : Nat) (pos : Bool) (hop : get_opcode insn = 0x03)
    (hf3 : get_funct3 insn = 2) : h.exec insn pos = h.exec_lw insn pos := by
  simp [exec, hop, hf3, opcode_lui, opcode_auipc, opcode_jal, opcode_jalr, opcode_rtype,
    opcode_btype, opcode_system, opcode_stype, opcode_alu_imm, opcode_load_imm, funct3_lbu,
    funct3_lhu, funct3_lb, funct3_lh, funct3_lw]

theorem exec_of_lbu (h : rv32i_hart) (insn : Nat) (pos : Bool) (hop : get_opcode insn = 0x03)
    (hf3 : get_funct3 insn = 4) : h.exec insn pos = h.exec_lbu insn pos := by
  simp [exec, hop, hf3, opcode_lui, opcode_auipc, opcode_jal, opcode_jalr, opcode_rtype,
    opcode_btype, opcode_system, opcode_stype, opcode_alu_imm, opcode_load_imm, funct3_lbu]

theorem exec_of_lhu (h : rv32i_hart) (insn : Nat) (pos : Bool) (hop : get_opcode insn = 0x03)
    (hf3 : get_funct3 insn = 5) : h.exec insn pos = h.exec_lhu insn pos := by
  simp [exec, hop, hf3, opcode_lui, opcode_auipc, opcode_jal, opcode_jalr, opcode_rtype,
    opcode_btype, opcode_system, opcode_stype, opcode_alu_imm, opcode_load_imm, funct3_lbu,
    funct3_lhu]

end rv32i_hart

/-! ## Hart: branches -/

/-- C19: for every hart state and every B-type word (`funct3` one of 0, 1, 4, 5, 6, 7), with
`x` and `y` the values of `rs1` and `rs2`: `exec` returns the same state with only the pc
changed, to `old_pc + imm_b` (mod 2^32) if the condition of the instruction holds and to
`old_pc + 4` (mod 2^32) otherwise; registers and memory are untouched. -/
theorem rv32i_hart.exec_branch (h : rv32i_hart) (insn : Nat) (pos : Bool) (x y : Int)
    (hop : get_opcode insn = 0x63) (hf3 : get_funct3 insn ∈ [0, 1, 4, 5, 6, 7])
    (hx : h.regs.get (get_rs1 insn) = Except.ok (x, []))
    (hy : h.regs.get (get_rs2 insn) = Except.ok (y, [])) :
    h.exec insn pos = Except.ok
      ({ h with
          pc := if branch_condition (get_funct3 insn) x y = true
            then u32 (↑h.pc + get_imm_b insn) else (h.pc + 4) % 4294967296 },
        rv32i_hart.trace_out pos) := by
  have h4 : u32 4 = 4 := by decide
  simp only [List.mem_cons, List.mem_singleton, List.not_mem_nil, or_false] at hf3
  rcases hf3 with e | e | e | e | e | e
  · rw [rv32i_hart.exec_of_beq h insn pos hop e, rv32i_hart.exec_beq_eq h insn pos x y hx hy, e]
    by_cases c : x = y <;> simp [branch_condition, c, add_u32, h4]
  · rw [rv32i_hart.exec_of_bne h insn pos hop e, rv32i_hart.exec_bne_eq h insn pos x y hx hy, e]
    by_cases c : x = y <;> simp [branch_condition, c, add_u32, h4]
  · rw [rv32i_hart.exec_of_blt h insn pos hop e, rv32i_hart.exec_blt_eq h insn pos x y hx hy, e]
    by_cases c : x < y <;> simp [branch_condition, c, add_u32, h4]
  · rw [rv32i_hart.exec_of_bge h insn pos hop e, rv32i_hart.exec_bge_eq h insn pos x y hx hy, e]
    by_cases c : y ≤ x <;> simp [branch_condition, c, add_u32, h4]
  · rw [rv32i_hart.exec_of_bltu h insn pos hop e,
      rv32i_hart.exec_bltu_eq h insn pos x y hx hy, e]
    by_cases c : u32 x < u32 y <;> simp [branch_condition, c, add_u32]
  · rw [rv32i_hart.exec_of_bgeu h insn pos hop e,
      rv32i_hart.exec_bgeu_eq h insn pos x y hx hy, e]
    by_cases c : u32 y ≤ u32 x <;> simp [branch_condition, c, add_u32]

theorem rv32i_hart.exec_branch_witness :
    get_opcode 0xFE208CE3 = 0x63 ∧ get_funct3 0xFE208CE3 ∈ [0, 1, 4, 5, 6, 7] ∧
    scenario_branch.regs.get (get_rs1 0xFE208CE3) = Except.ok (1, []) ∧
    scenario_branch.regs.get (get_rs2 0xFE208CE3) = Except.ok (2, []) ∧
    scenario_branch.exec 0xFE208CE3 false = Except.ok
      ({ scenario_branch with
          pc := if branch_condition (get_funct3 0xFE208CE3) 1 2 = true
            then u32 (↑scenario_branch.pc + get_imm_b 0xFE208CE3)
            else (scenario_branch.pc + 4) % 4294967296 },
        rv32i_hart.trace_out false) ∧
    (if branch_condition (get_funct3 0xFE208CE3) 1 2 = true
      then u32 (↑scenario_branch.pc + get_imm_b 0xFE208CE3)
      else (scenario_branch.pc + 4) % 4294967296) = 12 :=
  ⟨by decide, by decide, rfl, rfl,
    rv32i_hart.exec_branch scenario_branch 0xFE208CE3 false 1 2 (by decide) (by decide) rfl
      rfl,
    by decide⟩

/-! ## Hart: loads -/

theorem Sim.bind_pure_inv {α β : Type} (x : Sim α) (f : α → β) (v : β) (o : List Out)
    (h : (x >>= fun a => pure (f a)) = Except.ok (v, o)) :
    ∃ a, x = Except.ok (a, o) ∧ v = f a := by
  rw [Sim.bind_eq] at h
  rcases hx : x with e | ⟨a, o₁⟩
  · simp [hx, Sim.andThen] at h
  · simp only [hx, Sim.andThen, Sim.pure_eq, List.append_nil] at h
    cases h
    exact ⟨a, rfl, rfl⟩

theorem memory.get8_lt (m : memory) (a b : Nat) (o : List Out)
    (hbytes : ∀ c ∈ m.mem, c < 256) (h : m.get8 a = Except.ok (b, o)) : b < 256 := by
  by_cases hgt : m.mem.length < a
  · rw [memory.get8_above m a hgt] at h
    cases h
    decide
  · rcases hm : m.mem[a]? with _ | c
    · have hlen : a = m.mem.length := by
        have := List.getElem?_eq_none_iff.mp hm
        omega
      subst hlen
      rw [memory.get8_at_size] at h
      cases h
    · rw [memory.get8_in m a c hm] at h
      cases h
      exact hbytes _ (List.getElem?_mem hm)

theorem memory.get16_lt (m : memory) (a b : Nat) (o : List Out)
    (h : m.get16 a = Except.ok (b, o)) : b < 65536 := by
  unfold memory.get16 at h
  rw [Sim.bind_eq] at h
  rcases h₁ : m.get8 a with e | ⟨b₁, o₁⟩
  · simp [h₁, Sim.andThen] at h
  · rcases h₂ : m.get8 ((a + 1) % 4294967296) with e | ⟨b₂, o₂⟩
    · simp [h₁, h₂, Sim.andThen, Sim.bind_eq] at h
    · simp only [h₁, h₂, Sim.andThen, Sim.bind_eq, Sim.pure_eq, List.append_nil] at h
      cases h
      exact Nat.mod_lt _ (by norm_num)

theorem load_value_lb (m : memory) (a : Nat) : load_value 0 m a = m.get8_sx a := rfl

theorem load_value_lh (m : memory) (a : Nat) : load_value 1 m a = m.get16_sx a := rfl

theorem load_value_lw (m : memory) (a : Nat) :
    load_value 2 m a = (m.get32 a >>= fun w => pure (i32 ↑w)) := rfl

theorem load_value_lbu (m : memory) (a : Nat) :
    load_value 4 m a = (m.get8 a >>= fun b => pure (↑b : Int)) := rfl

theorem load_value_lhu (m : memory) (a : Nat) :
    load_value 5 m a = (m.get16 a >>= fun b => pure (↑b : Int)) := rfl

theorem memory.get8_sx_inv (m : memory) (a : Nat) (v : Int) (o : List Out)
    (h : m.get8_sx a = Except.ok (v, o)) : ∃ b, m.get8 a = Except.ok (b, o) ∧ v = i8 ↑b := by
  obtain ⟨b, hb, hv⟩ := Sim.bind_pure_inv (m.get8 a)
    (fun b => i32 ((b : Int) * 2 ^ 24) >>> (24 : Int)) v o h
  exact ⟨b, hb, hv.trans (sx8_eq_i8 b)⟩

theorem memory.get16_sx_inv (m : memory) (a : Nat) (v : Int) (o : List Out)
    (h : m.get16_sx a = Except.ok (v, o)) :
    ∃ b, m.get16 a = Except.ok (b, o) ∧ v = i16 ↑b := by
  obtain ⟨b, hb, hv⟩ := Sim.bind_pure_inv (m.get16 a)
    (fun b => i32 ((b : Int) * 2 ^ 16) >>> (16 : Int)) v o h
  exact ⟨b, hb, hv.trans (sx16_eq_i16 b)⟩

/-- C20: for every hart state (with a 32-entry register file and byte-sized memory cells)
and every load word (`funct3` one of 0, 1, 2, 4, 5) with `rd ≠ x0`, where `x` is the value
of `rs1` and `a = x + imm_i` (mod 2^32): if reading the value of the load at `a` returns
`v`, `exec` returns a state in which `rd` holds `v`, every other register reads as before,
`pc = old_pc + 4` (mod 2^32) and the memory is the same; its output is that of the read,
then the trace. -/
theorem rv32i_hart.exec_load (h : rv32i_hart) (insn : Nat) (pos : Bool) (x v : Int)
    (o : List Out) (hlen : h.regs.regVec.length = 32)
    (hbytes : ∀ c ∈ h.mem.mem, c < 256)
    (hop : get_opcode insn = 0x03) (hf3 : get_funct3 insn ∈ [0, 1, 2, 4, 5])
    (hrd : get_rd insn ≠ 0)
    (hx : h.regs.get (get_rs1 insn) = Except.ok (x, []))
    (hv : load_value (get_funct3 insn) h.mem (u32 (x + get_imm_i insn)) = Except.ok (v, o)) :
    h.exec insn pos = Except.ok
        ({ h with regs := h.regs.write (get_rd insn) v, pc := (h.pc + 4) % 4294967296 },
          o ++ rv32i_hart.trace_out pos) ∧
      (h.regs.write (get_rd insn) v).get (get_rd insn) = Except.ok (v, []) ∧
      ∀ r, r ≠ get_rd insn → (h.regs.write (get_rd insn) v).get r = h.regs.get r := by
  have hrdlt := get_rd_lt insn
  have hsame := registerfile.get_write_same h.regs (get_rd insn) v hrd (by omega)
  have hother : ∀ r, r ≠ get_rd insn → (h.regs.write (get_rd insn) v).get r = h.regs.get r :=
    fun r hr => registerfile.get_write_other h.regs (get_rd insn) r v hr
  refine ⟨?_, hsame, hother⟩
  clear hsame hother
  have hcases : get_funct3 insn = 0 ∨ get_funct3 insn = 1 ∨ get_funct3 insn = 2 ∨
      get_funct3 insn = 4 ∨ get_funct3 insn = 5 := by
    simpa only [List.mem_cons, List.mem_singleton, List.not_mem_nil, or_false] using hf3
  clear hf3
  generalize hf : get_funct3 insn = f at hv hcases
  rcases hcases with e | e | e | e | e
  · subst e
    rw [load_value_lb] at hv
    obtain ⟨b, hb, hvb⟩ := memory.get8_sx_inv h.mem _ v o hv
    rw [hvb]
    rw [rv32i_hart.exec_of_lb h insn pos hop hf]
    exact rv32i_hart.exec_lb_eq h insn pos x b o hlen hx
      ((congrArg h.mem.get8 (u32_i32_int (x + get_imm_i insn))).trans hb)
  · subst e
    rw [load_value_lh] at hv
    obtain ⟨b, hb, hvb⟩ := memory.get16_sx_inv h.mem _ v o hv
    rw [hvb]
    rw [rv32i_hart.exec_of_lh h insn pos hop hf]
    exact rv32i_hart.exec_lh_eq h insn pos x b o hlen hx
      ((congrArg h.mem.get16 (u32_i32_int (x + get_imm_i insn))).trans hb)
  · subst e
    rw [load_value_lw] at hv
    obtain ⟨b, hb, hvb⟩ := Sim.bind_pure_inv (h.mem.get32 (u32 (x + get_imm_i insn)))
      (fun w => i32 (w : Int)) v o hv
    rw [hvb]
    rw [rv32i_hart.exec_of_lw h insn pos hop hf]
    exact rv32i_hart.exec_lw_eq h insn pos x b o hlen hx
      ((congrArg h.mem.get32 (u32_i32_int (x + get_imm_i insn))).trans hb)
  · subst e
    rw [load_value_lbu] at hv
    obtain ⟨b, hb, hvb⟩ := Sim.bind_pure_inv (h.mem.get8 (u32 (x + get_imm_i insn)))
      (fun w => (w : Int)) v o hv
    rw [hvb]
    have hlt := memory.get8_lt h.mem _ b o hbytes hb
    have hval : (b &&& 0x000000ff) % 256 = b := by
      rw [and_255]
      omega
    rw [rv32i_hart.exec_of_lbu h insn pos hop hf]
    have key := rv32i_hart.exec_lbu_eq h insn pos x b o hlen hx
      ((congrArg h.mem.get8 (u32_add_u32 x (get_imm_i insn))).trans hb)
    rw [hval] at key
    exact key
  · subst e
    rw [load_value_lhu] at hv
    obtain ⟨b, hb, hvb⟩ := Sim.bind_pure_inv (h.mem.get16 (u32 (x + get_imm_i insn)))
      (fun w => (w : Int)) v o hv
    rw [hvb]
    have hlt := memory.get16_lt h.mem _ b o hb
    have hval : (b &&& 0x0000ffff) % 65536 = b := by
      rw [show (0x0000ffff : Nat) = 2 ^ 16 - 1 by norm_num, Nat.and_pow_two_sub_one_eq_mod]
      omega
    rw [rv32i_hart.exec_of_lhu h insn pos hop hf]
    have key := rv32i_hart.exec_lhu_eq h insn pos x b o hlen hx
      ((congrArg h.mem.get16 (u32_add_u32 x (get_imm_i insn))).trans hb)
    rw [hval] at key
    exact key

set_option maxRecDepth 100000 in
theorem scenario_load_bytes : ∀ c ∈ scenario_load.mem.mem, c < 256 := by
  decide

set_option maxRecDepth 100000 in
theorem rv32i_hart.exec_load_witness :
    scenario_load.regs.regVec.length = 32 ∧ (∀ c ∈ scenario_load.mem.mem, c < 256) ∧
    get_opcode 0x00408103 = 0x03 ∧ get_funct3 0x00408103 ∈ [0, 1, 2, 4, 5] ∧
    get_rd 0x00408103 ≠ 0 ∧
    scenario_load.regs.get (get_rs1 0x00408103) = Except.ok (4, []) ∧
    load_value (get_funct3 0x00408103) scenario_load.mem (u32 (4 + get_imm_i 0x00408103)) =
      Except.ok (-128, []) ∧
    (scenario_load.exec 0x00408103 false = Except.ok
        ({ scenario_load with
            regs := scenario_load.regs.write (get_rd 0x00408103) (-128)
            pc := (scenario_load.pc + 4) % 4294967296 },
          [] ++ rv32i_hart.trace_out false) ∧
      (scenario_load.regs.write (get_rd 0x00408103) (-128)).get (get_rd 0x00408103) =
        Except.ok (-128, []) ∧
      ∀ r, r ≠ get_rd 0x00408103 →
        (scenario_load.regs.write (get_rd 0x00408103) (-128)).get r =
          scenario_load.regs.get r) :=
  ⟨by decide, scenario_load_bytes, by decide, by decide, by decide, rfl, rfl,
    rv32i_hart.exec_load scenario_load 0x00408103 false 4 (-128) [] (by decide)
      scenario_load_bytes (by decide) (by decide) (by decide) rfl rfl⟩

/-! ## Decoder: the words `decode` renders as an error -/

theorem starts_other_append (a b : String) (h : starts_other a = true) :
    starts_other (a ++ b) = true := by
  unfold starts_other at h ⊢
  rw [String.data_append]
  rcases hd : a.data with _ | ⟨c, l⟩
  · rw [hd] at h
    cases h
  · rw [hd] at h
    exact h

theorem starts_other_ne (s : String) (h : starts_other s = true) :
    s ≠ render_illegal_insn := by
  intro e
  rw [e] at h
  revert h
  decide

theorem render_mnemonic_starts (m : String) (h : starts_other m = true) :
    starts_other (render_mnemonic m) = true :=
  starts_other_append _ _ h

theorem render_lui_starts (insn : Nat) : starts_other (render_lui insn) = true :=
  starts_other_append _ _ (starts_other_append _ _ (starts_other_append _ _
    (render_mnemonic_starts _ (by decide))))

theorem render_auipc_starts (insn : Nat) : starts_other (render_auipc insn) = true :=
  starts_other_append _ _ (starts_other_append _ _ (starts_other_append _ _
    (render_mnemonic_starts _ (by decide))))

theorem render_jal_starts (addr insn : Nat) : starts_other (render_jal addr insn) = true :=
  starts_other_append _ _ (starts_other_append _ _ (starts_other_append _ _
    (render_mnemonic_starts _ (by decide))))

theorem render_jalr_starts (insn : Nat) : starts_other (render_jalr insn) = true :=
  starts_other_append _ _ (starts_other_append _ _ (starts_other_append _ _
    (render_mnemonic_starts _ (by decide))))

theorem render_itype_alu_starts (insn : Nat) (m : String) (i : Int)
    (h : starts_other m = true) : starts_other (render_itype_alu insn m i) = true :=
  starts_other_append _ _ (starts_other_append _ _ (starts_other_append _ _
    (starts_other_append _ _ (starts_other_append _ _ (render_mnemonic_starts _ h)))))

theorem render_itype_load_starts (insn : Nat) (m : String) (h : starts_other m = true) :
    starts_other (render_itype_load insn m) = true :=
  starts_other_append _ _ (starts_other_append _ _ (starts_other_append _ _
    (render_mnemonic_starts _ h)))

theorem render_stype_starts (insn : Nat) (m : String) (h : starts_other m = true) :
    starts_other (render_stype insn m) = true :=
  starts_other_append _ _ (starts_other_append _ _ (starts_other_append _ _
    (render_mnemonic_starts _ h)))

theorem render_btype_starts (addr insn : Nat) (m : String) (h : starts_other m = true) :
    starts_other (render_btype addr insn m) = true :=
  starts_other_append _ _ (starts_other_append _ _ (starts_other_append _ _
    (starts_other_append _ _ (starts_other_append _ _ (render_mnemonic_starts _ h)))))

theorem render_rtype_starts (insn : Nat) (m : String) (h : starts_other m = true) :
    starts_other (render_rtype insn m) = true :=
  starts_other_append _ _ (starts_other_append _ _ (starts_other_append _ _
    (starts_other_append _ _ (starts_other_append _ _ (render_mnemonic_starts _ h)))))

theorem render_csrrx_starts (insn : Nat) (m : String) (h : starts_other m = true) :
    starts_other (render_csrrx insn m) = true :=
  starts_other_append _ _ (starts_other_append _ _ (starts_other_append _ _
    (starts_other_append _ _ (starts_other_append _ _ (render_mnemonic_starts _ h)))))

theorem render_csrrxi_starts (insn : Nat) (m : String) (h : starts_other m = true) :
    starts_other (render_csrrxi insn m) = true :=
  starts_other_append _ _ (starts_other_append _ _ (starts_other_append _ _
    (starts_other_append _ _ (starts_other_append _ _ (render_mnemonic_starts _ h)))))

theorem ite_starts (c : Prop) [Decidable c] (b₁ b₂ : Bool) (x₁ x₂ : String)
    (h₁ : b₁ = false → starts_other x₁ = true) (h₂ : b₂ = false → starts_other x₂ = true) :
    (if c then b₁ else b₂) = false → starts_other (if c then x₁ else x₂) = true := by
  split
  · exact h₁
  · exact h₂

/-- A word that `decode_rejects` is rendered as the error text. -/
theorem decode_of_rejects (addr insn : Nat) :
    decode_rejects insn = true → decode addr insn = render_illegal_insn := by
  unfold decode decode_rejects
  dsimp only
  with_reducible repeat' first
    | refine rv32i_hart.ite_both _ _ _ _ _ _ ?_ ?_
    | exact fun _ => rfl
    | exact fun e => Bool.noConfusion e

/-- A word that `decode_rejects` does not is rendered as a text that begins with its
mnemonic. -/
theorem decode_of_accepts (addr insn : Nat) :
    decode_rejects insn = false → starts_other (decode addr insn) = true := by
  unfold decode decode_rejects
  dsimp only
  with_reducible repeat' first
    | refine ite_starts _ _ _ _ _ ?_ ?_
    | exact fun e => Bool.noConfusion e
    | exact fun _ => render_lui_starts _
    | exact fun _ => render_auipc_starts _
    | exact fun _ => render_jal_starts _ _
    | exact fun _ => render_jalr_starts _
    | exact fun _ => render_rtype_starts _ _ (by decide)
    | exact fun _ => render_btype_starts _ _ _ (by decide)
    | exact fun _ => render_csrrx_starts _ _ (by decide)
    | exact fun _ => render_csrrxi_starts _ _ (by decide)
    | exact fun _ => render_stype_starts _ _ (by decide)
    | exact fun _ => render_itype_load_starts _ _ (by decide)
    | exact fun _ => render_itype_alu_starts _ _ _ (by decide)
    | exact fun _ => (by decide : starts_other render_ecall = true)
    | exact fun _ => (by decide : starts_other render_ebreak = true)

theorem decode_illegal_iff_rejects (addr insn : Nat) :
    decode addr insn = render_illegal_insn ↔ decode_rejects insn = true := by
  constructor
  · intro h
    by_contra hr
    exact starts_other_ne _ (decode_of_accepts addr insn (by simpa using hr)) h
  · exact decode_of_rejects addr insn

theorem get_funct3_lt (insn : Nat) : get_funct3 insn < 8 := by
  rw [get_funct3_arith]
  omega

/-- In terms of the fields: `decode_rejects` is the complement of the table with the JALR
row at any funct3. -/
theorem decode_rejects_eq (w : Nat) :
    decode_rejects w = !spec_classified_any_jalr w := by
  have hf3 := get_funct3_lt w
  unfold decode_rejects spec_classified_any_jalr spec_classified
  simp only [opcode_lui, opcode_auipc, opcode_jal, opcode_jalr, opcode_rtype, opcode_btype,
    opcode_system, opcode_stype, opcode_alu_imm, opcode_load_imm, funct3_add, funct3_sll,
    funct3_slt, funct3_sltu, funct3_xor, funct3_srx, funct3_or, funct3_and, funct3_beq,
    funct3_bne, funct3_blt, funct3_bge, funct3_bltu, funct3_bgeu, funct3_csrrw, funct3_csrrs,
    funct3_csrrc, funct3_csrrwi, funct3_csrrsi, funct3_csrrci, funct3_e, funct3_sb, funct3_sh,
    funct3_sw, funct3_lb, funct3_lh, funct3_lw, funct3_lbu, funct3_lhu, funct7_add,
    funct7_sub, funct7_srl, funct7_sra]
  generalize get_opcode w = op
  generalize get_funct7 w = f7
  generalize get_imm_i w = imm
  generalize get_funct3 w = f3 at hf3
  have hop : op = 0x37 ∨ op = 0x17 ∨ op = 0x6f ∨ op = 0x67 ∨ op = 0x33 ∨ op = 0x63 ∨
      op = 0x73 ∨ op = 0x23 ∨ op = 0x03 ∨ op = 0x13 ∨
      (op ≠ 0x37 ∧ op ≠ 0x17 ∧ op ≠ 0x6f ∧ op ≠ 0x67 ∧ op ≠ 0x33 ∧ op ≠ 0x63 ∧
        op ≠ 0x73 ∧ op ≠ 0x23 ∧ op ≠ 0x03 ∧ op ≠ 0x13) := by
    omega
  rcases hop with e | e | e | e | e | e | e | e | e | e | ⟨h1, h2, h3, h4, h5, h6, h7, h8, h9, h10⟩
  · subst e
    simp
  · subst e
    simp
  · subst e
    simp
  · subst e
    simp
  · subst e
    interval_cases f3 <;> simp
  · subst e
    interval_cases f3 <;> simp
  · subst e
    interval_cases f3 <;> simp
    by_cases hi0 : imm = 0 <;> by_cases hi1 : imm = 1 <;> simp_all
  · subst e
    interval_cases f3 <;> simp
  · subst e
    interval_cases f3 <;> simp
  · subst e
    interval_cases f3 <;> simp
    by_cases h0 : f7 = 0 <;> by_cases h32 : f7 = 32 <;> simp_all
  · simp [h1, h2, h3, h4, h5, h6, h7, h8, h9, h10]

/-- C11, counterexample: the word `0x00001067` (opcode 0x67, funct3 = 1) matches no row of
the classification table as worded, JALR being listed with funct3 = 0, yet `decode` does
not return the error text for it: it renders the word as a `jalr`. -/
theorem decode_jalr_funct3_unchecked :
    get_opcode 0x00001067 = 0x67 ∧ get_funct3 0x00001067 = 1 ∧
    spec_classified 0x00001067 = false ∧
    decode 0 0x00001067 = "jalr    x0,0(x0)" ∧
    decode 0 0x00001067 ≠ render_illegal_insn := by
  refine ⟨by decide, by decide, by decide, by decide, by decide⟩

/-- C11, amended: for every address `a` and every word `w`, `decode a w` is the text
`"ERROR: UNIMPLEMENTED INSTRUCTION"` if and only if `w` matches none of the rows of the
classification table in which the JALR row is opcode 0x67 with any funct3 (the other rows
as worded). -/
theorem decode_illegal_iff (a w : Nat) :
    decode a w = "ERROR: UNIMPLEMENTED INSTRUCTION" ↔ spec_classified_any_jalr w = false := by
  have h := decode_illegal_iff_rejects a w
  rw [decode_rejects_eq] at h
  rw [show ("ERROR: UNIMPLEMENTED INSTRUCTION" : String) = render_illegal_insn from rfl, h]
  cases spec_classified_any_jalr w <;> simp

/-! ## Reset -/

theorem registerfile.reset_eq (rf : registerfile) : rf.reset = rf := rfl

theorem rv32i_hart.hart_reset_eq (h : rv32i_hart) (hlen : h.regs.regVec.length = 32) :
    h.reset = Except.ok
      ({ h with
          pc := 0
          regs := h.regs.write 2 (i32 ↑h.mem.get_size)
          insn_counter := 0
          halt := false
          halt_reason := "none" }, []) := by
  simp only [rv32i_hart.reset, registerfile.reset_eq, Sim.bind_eq,
    registerfile.set_eq_write h.regs 2 _ (by omega), Sim.andThen, Sim.pure_eq, List.append_nil]

/-- C28: for every hart state (with a 32-entry register file, whatever the registers,
pc, counter and halt flag hold), `reset` returns a state with `pc = 0`, `regs[2]` equal to
the size of the memory (stored as `int32_t`, the same 32-bit pattern), `regs[0] = 0`,
`insn_counter = 0`, `halted = false`, `halt_reason = "none"` and the memory as before. -/
theorem rv32i_hart.reset_spec (h : rv32i_hart) (hlen : h.regs.regVec.length = 32) :
    ∃ h', h.reset = Except.ok (h', []) ∧ h'.pc = 0 ∧
      h'.regs.get 2 = Except.ok (i32 ↑h.mem.get_size, []) ∧
      u32 (i32 ↑h.mem.get_size) = h.mem.get_size ∧
      h'.regs.get 0 = Except.ok (0, []) ∧ h'.insn_counter = 0 ∧ h'.halt = false ∧
      h'.halt_reason = "none" ∧ h'.mem = h.mem := by
  refine ⟨_, rv32i_hart.hart_reset_eq h hlen, rfl, ?_, ?_, rfl, rfl, rfl, rfl, rfl⟩
  · dsimp only
    exact registerfile.get_write_same h.regs 2 (i32 ↑h.mem.get_size) (by decide) (by omega)
  · exact u32_i32 _ (Nat.mod_lt _ (by norm_num))

theorem rv32i_hart.reset_spec_witness :
    scenario_halted_after.regs.regVec.length = 32 ∧
    ∃ h', scenario_halted_after.reset = Except.ok (h', []) ∧ h'.pc = 0 ∧
      h'.regs.get 2 = Except.ok (i32 ↑scenario_halted_after.mem.get_size, []) ∧
      u32 (i32 ↑scenario_halted_after.mem.get_size) = scenario_halted_after.mem.get_size ∧
      h'.regs.get 0 = Except.ok (0, []) ∧ h'.insn_counter = 0 ∧ h'.halt = false ∧
      h'.halt_reason = "none" ∧ h'.mem = scenario_halted_after.mem :=
  ⟨by decide, rv32i_hart.reset_spec scenario_halted_after (by decide)⟩

/-- C29, at a register file that has been written: `reset` returns every register file as
it is, so after `x1` has been set to 5 (the hart after `addi x1, x0, 5`), `x1` still reads
5 after `registerfile::reset` and after `rv32i_hart::reset`, not `0xF0F0F0F0`. -/
theorem registerfile.reset_keeps_values :
    (∀ rf : registerfile, rf.reset = rf) ∧
    scenario_addi_after.regs.get 1 = Except.ok (5, []) ∧
    scenario_addi_after.regs.reset.get 1 = Except.ok (5, []) ∧
    (5 : Int) ≠ i32 0xf0f0f0f0 ∧
    registerfile.new.get 1 = Except.ok (i32 0xf0f0f0f0, []) ∧
    (∃ h', scenario_addi_after.reset = Except.ok (h', []) ∧
      h'.regs.get 1 = Except.ok (5, [])) := by
  refine ⟨fun _ => rfl, rfl, rfl, by decide, rfl, _, rv32i_hart.hart_reset_eq _ (by decide), rfl⟩

/-! ## Hart: the SYSTEM opcode -/

namespace rv32i_hart

theorem exec_of_ecall (h : rv32i_hart) (insn : Nat) (pos : Bool) (hop : get_opcode insn = 0x73)
    (hf3 : get_funct3 insn = 0) (hi : get_imm_i insn = 0) :
    h.exec insn pos = h.exec_ecall pos := by
  simp [exec, hop, hf3, hi, opcode_lui, opcode_auipc, opcode_jal, opcode_jalr, opcode_rtype,
    opcode_btype, opcode_system, funct3_csrrs, funct3_e]

theorem exec_of_ebreak (h : rv32i_hart) (insn : Nat) (pos : Bool)
    (hop : get_opcode insn = 0x73) (hf3 : get_funct3 insn = 0) (hi : get_imm_i insn = 1) :
    h.exec insn pos = h.exec_ebreak (i32 ↑insn) pos := by
  simp [exec, hop, hf3, hi, opcode_lui, opcode_auipc, opcode_jal, opcode_jalr, opcode_rtype,
    opcode_btype, opcode_system, funct3_csrrs, funct3_e]

theorem exec_of_csrrs (h : rv32i_hart) (insn : Nat) (pos : Bool)
    (hop : get_opcode insn = 0x73) (hf3 : get_funct3 insn = 2) :
    h.exec insn pos = h.exec_csrrs insn pos := by
  simp [exec, hop, hf3, opcode_lui, opcode_auipc, opcode_jal, opcode_jalr, opcode_rtype,
    opcode_btype, opcode_system, funct3_csrrs, funct3_e]

theorem exec_ecall_eq (h : rv32i_hart) (pos : Bool) :
    h.exec_ecall pos =
      Except.ok ({ h with halt := true, halt_reason := "ECALL instruction" }, trace_out pos) := by
  simp only [exec_ecall, Sim.bind_eq, trace_eq, Sim.andThen, Sim.pure_eq, List.append_nil]

theorem exec_ebreak_eq (h : rv32i_hart) (insn : Int) (pos : Bool) :
    h.exec_ebreak insn pos =
      Except.ok ({ h with halt := true, halt_reason := "EBREAK instruction" }, trace_out pos) := by
  simp only [exec_ebreak, Sim.bind_eq, trace_eq, Sim.andThen, Sim.pure_eq, List.append_nil]

end rv32i_hart

set_option maxRecDepth 100000 in
theorem scenario_ecall_fetch :
    scenario_ecall.mem.get32 scenario_ecall.pc = Except.ok (0x00000073, []) := by
  rfl

set_option maxRecDepth 100000 in
theorem scenario_ebreak_fetch :
    scenario_ebreak.mem.get32 scenario_ebreak.pc = Except.ok (0x00100073, []) := by
  rfl

/-- C27: for every hart state with `pc mod 4 = 0` whose fetch returns a word `w` with
opcode 0x73, funct3 = 0 and `imm_i` 0 or 1, `tick` returns a state with `halted = true` and
`halt_reason = "ECALL instruction"` when `imm_i = 0`, `"EBREAK instruction"` when
`imm_i = 1`, in which registers, memory and pc are as before. -/
theorem rv32i_hart.tick_ecall_ebreak (h : rv32i_hart) (w : Nat) (o : List Out)
    (hpc : h.pc % 4 = 0) (hfetch : h.mem.get32 h.pc = Except.ok (w, o))
    (hop : get_opcode w = 0x73) (hf3 : get_funct3 w = 0)
    (hi : get_imm_i w = 0 ∨ get_imm_i w = 1) :
    ∃ h' o', h.tick = Except.ok (h', o') ∧ h'.halt = true ∧
      (get_imm_i w = 0 → h'.halt_reason = "ECALL instruction") ∧
      (get_imm_i w = 1 → h'.halt_reason = "EBREAK instruction") ∧
      h'.regs = h.regs ∧ h'.mem = h.mem ∧ h'.pc = h.pc := by
  rcases hi with e | e
  · obtain ⟨o', ht⟩ := rv32i_hart.tick_of_exec h
      { h with insn_counter := (h.insn_counter + 1) % 18446744073709551616, halt := true,
               halt_reason := "ECALL instruction" } w o hpc hfetch
      (fun pos => ⟨_, by rw [rv32i_hart.exec_of_ecall _ w pos hop hf3 e,
        rv32i_hart.exec_ecall_eq]⟩)
      (fun hf => Bool.noConfusion hf)
    refine ⟨_, o', ht, rfl, fun _ => rfl, fun e1 => ?_, rfl, rfl, rfl⟩
    rw [e] at e1
    exact absurd e1 (by decide)
  · obtain ⟨o', ht⟩ := rv32i_hart.tick_of_exec h
      { h with insn_counter := (h.insn_counter + 1) % 18446744073709551616, halt := true,
               halt_reason := "EBREAK instruction" } w o hpc hfetch
      (fun pos => ⟨_, by rw [rv32i_hart.exec_of_ebreak _ w pos hop hf3 e,
        rv32i_hart.exec_ebreak_eq]⟩)
      (fun hf => Bool.noConfusion hf)
    refine ⟨_, o', ht, rfl, fun e0 => ?_, fun _ => rfl, rfl, rfl, rfl⟩
    rw [e] at e0
    exact absurd e0 (by decide)

theorem rv32i_hart.tick_ecall_ebreak_witness :
    (scenario_ecall.pc % 4 = 0 ∧
      scenario_ecall.mem.get32 scenario_ecall.pc = Except.ok (0x00000073, []) ∧
      get_opcode 0x00000073 = 0x73 ∧ get_funct3 0x00000073 = 0 ∧ get_imm_i 0x00000073 = 0 ∧
      ∃ h' o', scenario_ecall.tick = Except.ok (h', o') ∧ h'.halt = true ∧
        (get_imm_i 0x00000073 = 0 → h'.halt_reason = "ECALL instruction") ∧
        (get_imm_i 0x00000073 = 1 → h'.halt_reason = "EBREAK instruction") ∧
        h'.regs = scenario_ecall.regs ∧ h'.mem = scenario_ecall.mem ∧
        h'.pc = scenario_ecall.pc) ∧
    (scenario_ebreak.pc % 4 = 0 ∧
      scenario_ebreak.mem.get32 scenario_ebreak.pc = Except.ok (0x00100073, []) ∧
      get_opcode 0x00100073 = 0x73 ∧ get_funct3 0x00100073 = 0 ∧ get_imm_i 0x00100073 = 1 ∧
      ∃ h' o', scenario_ebreak.tick = Except.ok (h', o') ∧ h'.halt = true ∧
        (get_imm_i 0x00100073 = 0 → h'.halt_reason = "ECALL instruction") ∧
        (get_imm_i 0x00100073 = 1 → h'.halt_reason = "EBREAK instruction") ∧
        h'.regs = scenario_ebreak.regs ∧ h'.mem = scenario_ebreak.mem ∧
        h'.pc = scenario_ebreak.pc) :=
  ⟨⟨by decide, scenario_ecall_fetch, by decide, by decide, by decide,
      rv32i_hart.tick_ecall_ebreak scenario_ecall 0x00000073 [] (by decide)
        scenario_ecall_fetch (by decide) (by decide) (Or.inl (by decide))⟩,
    ⟨by decide, scenario_ebreak_fetch, by decide, by decide, by decide,
      rv32i_hart.tick_ecall_ebreak scenario_ebreak 0x00100073 [] (by decide)
        scenario_ebreak_fetch (by decide) (by decide) (Or.inr (by decide))⟩⟩

/-! ## Hart: `CSRRS` -/

theorem csr_field (insn : Nat) :
    i32 ↑(u32 (get_imm_i insn) &&& 0x00000fff) = ↑(spec_bits insn 31 20) := by
  have e : u32 (get_imm_i insn) &&& 0x00000fff = u32 (get_imm_i insn) % 4096 :=
    Nat.and_pow_two_sub_one_eq_mod _ 12
  have hv : insn / 1048576 % 4096 < 4096 := Nat.mod_lt _ (by norm_num)
  have hs : spec_bits insn 31 20 = insn / 1048576 % 4096 := by
    simp only [spec_bits]
    norm_num
  rw [e, hs, get_imm_i_arith]
  generalize insn / 1048576 % 4096 = v at *
  have hu : u32 (spec_sx 12 v) % 4096 = v := by
    unfold u32 spec_sx
    split <;> omega
  rw [hu]
  exact i32_small v (by omega)

namespace rv32i_hart

theorem exec_csrrs_legal (h : rv32i_hart) (insn : Nat) (pos : Bool)
    (hlen : h.regs.regVec.length = 32) (hrs1 : get_rs1 insn = 0)
    (hcsr : spec_bits insn 31 20 = 0xF14) :
    h.exec_csrrs insn pos = Except.ok
      ({ h with
          regs := h.regs.write (get_rd insn) 0
          pc := (h.pc + 4) % 4294967296 },
        trace_out pos) := by
  have hrd := get_rd_lt insn
  have hc : i32 ↑(u32 (get_imm_i insn) &&& 0x00000fff) = 0x00000f14 := by
    rw [csr_field, hcsr]
    rfl
  have hm : i32 (↑mhartid : Int) = 0 := by decide
  simp only [exec_csrrs, hrs1, hc, hm, bne_self_eq_false, Bool.or_self, Bool.false_eq_true,
    if_false, Sim.bind_eq, trace_eq,
    registerfile.set_eq_write h.regs (get_rd insn) _ (by omega), Sim.andThen, Sim.pure_eq,
    List.append_nil, List.nil_append]

theorem exec_csrrs_illegal (h : rv32i_hart) (insn : Nat) (pos : Bool)
    (hlen : h.regs.regVec.length = 32)
    (hill : get_rs1 insn ≠ 0 ∨ spec_bits insn 31 20 ≠ 0xF14) :
    h.exec_csrrs insn pos = Except.ok
      ({ h with
          halt := true
          halt_reason := "Illegal CSR in CSRRS instruction"
          regs := h.regs.write (get_rd insn) 0
          pc := (h.pc + 4) % 4294967296 },
        trace_out pos) := by
  have hrd := get_rd_lt insn
  have hm : i32 (↑mhartid : Int) = 0 := by decide
  have hcond : (get_rs1 insn != 0 ||
      i32 ↑(u32 (get_imm_i insn) &&& 0x00000fff) != 0x00000f14) = true := by
    rw [csr_field]
    rcases hill with e | e
    · simp [e]
    · have : (↑(spec_bits insn 31 20) : Int) ≠ 0x00000f14 := by
        intro c
        apply e
        exact_mod_cast c
      simp [this]
  simp only [exec_csrrs, hcond, hm, if_true, Sim.bind_eq, trace_eq,
    registerfile.set_eq_write h.regs (get_rd insn) _ (by omega), Sim.andThen, Sim.pure_eq,
    List.append_nil, List.nil_append]

end rv32i_hart

/-- C24: for every hart state (with a 32-entry register file) and every `CSRRS` word
(opcode 0x73, funct3 = 2), `exec` returns a state with `pc = old_pc + 4` (mod 2^32); if
`rs1 ≠ x0` or the CSR address `insn[31:20]` is not `0xF14` it has `halted = true` and
`halt_reason = "Illegal CSR in CSRRS instruction"`; otherwise the halt flag and reason
are as before and `rd` reads 0.  So on a running hart the halt is set if and only if
`rs1 ≠ x0` or the CSR address is not `0xF14`. -/
theorem rv32i_hart.exec_csrrs_spec (h : rv32i_hart) (insn : Nat) (pos : Bool)
    (hlen : h.regs.regVec.length = 32)
    (hop : get_opcode insn = 0x73) (hf3 : get_funct3 insn = 2) :
    ∃ h', h.exec insn pos = Except.ok (h', rv32i_hart.trace_out pos) ∧
      h'.pc = (h.pc + 4) % 4294967296 ∧
      ((get_rs1 insn ≠ 0 ∨ spec_bits insn 31 20 ≠ 0xF14) →
        h'.halt = true ∧ h'.halt_reason = "Illegal CSR in CSRRS instruction") ∧
      ((get_rs1 insn = 0 ∧ spec_bits insn 31 20 = 0xF14) →
        h'.halt = h.halt ∧ h'.halt_reason = h.halt_reason ∧
        h'.regs.get (get_rd insn) = Except.ok (0, [])) ∧
      (h.halt = false →
        (h'.halt = true ↔ (get_rs1 insn ≠ 0 ∨ spec_bits insn 31 20 ≠ 0xF14))) := by
  have hrd := get_rd_lt insn
  rw [rv32i_hart.exec_of_csrrs h insn pos hop hf3]
  by_cases hill : get_rs1 insn ≠ 0 ∨ spec_bits insn 31 20 ≠ 0xF14
  · refine ⟨_, rv32i_hart.exec_csrrs_illegal h insn pos hlen hill, rfl, fun _ => ⟨rfl, rfl⟩,
      fun hl => ?_, fun _ => ⟨fun _ => hill, fun _ => rfl⟩⟩
    rcases hill with e | e
    · exact absurd hl.1 e
    · exact absurd hl.2 e
  · have hl : get_rs1 insn = 0 ∧ spec_bits insn 31 20 = 0xF14 := by
      constructor
      · by_contra c
        exact hill (Or.inl c)
      · by_contra c
        exact hill (Or.inr c)
    refine ⟨_, rv32i_hart.exec_csrrs_legal h insn pos hlen hl.1 hl.2, rfl,
      fun hi => absurd hi hill, fun _ => ⟨rfl, rfl, ?_⟩, fun hh => ⟨fun ht => ?_, fun hi =>
        absurd hi hill⟩⟩
    · dsimp only
      by_cases h0 : get_rd insn = 0
      · rw [h0]
        rfl
      · exact registerfile.get_write_same h.regs (get_rd insn) 0 h0 (by omega)
    · have hf : h.halt = true := ht
      rw [hh] at hf
      exact Bool.noConfusion hf

theorem rv32i_hart.exec_csrrs_spec_witness :
    scenario_addi.regs.regVec.length = 32 ∧ get_opcode 0xF1402573 = 0x73 ∧
    get_funct3 0xF1402573 = 2 ∧
    (∃ h', scenario_addi.exec 0xF1402573 false = Except.ok (h', rv32i_hart.trace_out false) ∧
      h'.pc = (scenario_addi.pc + 4) % 4294967296 ∧
      ((get_rs1 0xF1402573 ≠ 0 ∨ spec_bits 0xF1402573 31 20 ≠ 0xF14) →
        h'.halt = true ∧ h'.halt_reason = "Illegal CSR in CSRRS instruction") ∧
      ((get_rs1 0xF1402573 = 0 ∧ spec_bits 0xF1402573 31 20 = 0xF14) →
        h'.halt = scenario_addi.halt ∧ h'.halt_reason = scenario_addi.halt_reason ∧
        h'.regs.get (get_rd 0xF1402573) = Except.ok (0, [])) ∧
      (scenario_addi.halt = false →
        (h'.halt = true ↔ (get_rs1 0xF1402573 ≠ 0 ∨ spec_bits 0xF1402573 31 20 ≠ 0xF14)))) ∧
    get_rs1 0xF1402573 = 0 ∧ spec_bits 0xF1402573 31 20 = 0xF14 ∧ get_rd 0xF1402573 = 10 ∧
    scenario_addi.pc = 0 ∧ scenario_addi.halt = false :=
  ⟨by decide, by decide, by decide,
    rv32i_hart.exec_csrrs_spec scenario_addi 0xF1402573 false (by decide) (by decide)
      (by decide),
    by decide, by decide, by decide, rfl, rfl⟩

/-- C25, as stated: the word `0x00002573` is a `CSRRS` with `rd = x10`, `rs1 = x0` and CSR
address 0, the illegal-CSR case; on the hart of the first scenario, where `x10` reads
`0xF0F0F0F0`, `exec` halts with the illegal-CSR reason and `x10` reads 0 afterwards. -/
theorem rv32i_hart.exec_csrrs_illegal_writes_rd :
    get_opcode 0x00002573 = 0x73 ∧ get_funct3 0x00002573 = 2 ∧ get_rd 0x00002573 = 10 ∧
    get_rs1 0x00002573 = 0 ∧ spec_bits 0x00002573 31 20 = 0 ∧
    scenario_addi.regs.get 10 = Except.ok (i32 0xf0f0f0f0, []) ∧
    (∃ h', scenario_addi.exec 0x00002573 false = Except.ok (h', []) ∧ h'.halt = true ∧
      h'.halt_reason = "Illegal CSR in CSRRS instruction" ∧
      h'.regs.get 10 = Except.ok (0, [])) ∧
    i32 0xf0f0f0f0 ≠ 0 := by
  have key := rv32i_hart.exec_csrrs_illegal scenario_addi 0x00002573 false (by decide)
    (Or.inr (by decide))
  have hd := rv32i_hart.exec_of_csrrs scenario_addi 0x00002573 false (by decide) (by decide)
  exact ⟨by decide, by decide, by decide, by decide, by decide, rfl,
    ⟨_, hd.trans key, rfl, rfl, rfl⟩, by decide⟩

/-- C25, amended: for every hart state (with a 32-entry register file) and every `CSRRS`
word with `rs1 ≠ x0` or CSR address other than `0xF14`, `exec` writes 0 to `rd` as in the
legal case (`rd` reads 0 afterwards) and every register other than `rd` reads as before. -/
theorem rv32i_hart.exec_csrrs_illegal_frame (h : rv32i_hart) (insn : Nat) (pos : Bool)
    (hlen : h.regs.regVec.length = 32)
    (hop : get_opcode insn = 0x73) (hf3 : get_funct3 insn = 2)
    (hill : get_rs1 insn ≠ 0 ∨ spec_bits insn 31 20 ≠ 0xF14) :
    ∃ h', h.exec insn pos = Except.ok (h', rv32i_hart.trace_out pos) ∧
      h'.halt = true ∧ h'.halt_reason = "Illegal CSR in CSRRS instruction" ∧
      h'.regs.get (get_rd insn) = Except.ok (0, []) ∧
      ∀ r, r ≠ get_rd insn → h'.regs.get r = h.regs.get r := by
  have hrd := get_rd_lt insn
  rw [rv32i_hart.exec_of_csrrs h insn pos hop hf3]
  refine ⟨_, rv32i_hart.exec_csrrs_illegal h insn pos hlen hill, rfl, rfl, ?_, fun r hr => ?_⟩
  · dsimp only
    by_cases h0 : get_rd insn = 0
    · rw [h0]
      rfl
    · exact registerfile.get_write_same h.regs (get_rd insn) 0 h0 (by omega)
  · dsimp only
    exact registerfile.get_write_other h.regs (get_rd insn) r 0 hr

theorem rv32i_hart.exec_csrrs_illegal_frame_witness :
    scenario_addi.regs.regVec.length = 32 ∧ get_opcode 0x00002573 = 0x73 ∧
    get_funct3 0x00002573 = 2 ∧
    (get_rs1 0x00002573 ≠ 0 ∨ spec_bits 0x00002573 31 20 ≠ 0xF14) ∧
    ∃ h', scenario_addi.exec 0x00002573 true = Except.ok (h', rv32i_hart.trace_out true) ∧
      h'.halt = true ∧ h'.halt_reason = "Illegal CSR in CSRRS instruction" ∧
      h'.regs.get (get_rd 0x00002573) = Except.ok (0, []) ∧
      ∀ r, r ≠ get_rd 0x00002573 → h'.regs.get r = scenario_addi.regs.get r :=
  ⟨by decide, by decide, by decide, Or.inr (by decide),
    rv32i_hart.exec_csrrs_illegal_frame scenario_addi 0x00002573 true (by decide) (by decide)
      (by decide) (Or.inr (by decide))⟩

/-! ## Hart: dispatch of the ALU and store words -/

namespace rv32i_hart

theorem exec_of_slti (h : rv32i_hart) (insn : Nat) (pos : Bool) (hop : get_opcode insn = 0x13)
    (hf3 : get_funct3 insn = 2) :
    h.exec insn pos = h.exec_slti insn pos := by
  simp [exec, hop, hf3, opcode_lui, opcode_auipc, opcode_jal, opcode_jalr, opcode_rtype,
    opcode_btype, opcode_system, opcode_stype, opcode_alu_imm, opcode_load_imm, funct3_add,
    funct3_sll, funct3_slt, funct3_sltu, funct3_xor, funct3_srx, funct3_or, funct3_and,
    funct3_sb, funct3_sh, funct3_sw, funct7_add, funct7_sub, funct7_srl, funct7_sra]

theorem exec_of_sltiu (h : rv32i_hart) (insn : Nat) (pos : Bool) (hop : get_opcode insn = 0x13)
    (hf3 : get_funct3 insn = 3) :
    h.exec insn pos = h.exec_sltiu insn pos := by
  simp [exec, hop, hf3, opcode_lui, opcode_auipc, opcode_jal, opcode_jalr, opcode_rtype,
    opcode_btype, opcode_system, opcode_stype, opcode_alu_imm, opcode_load_imm, funct3_add,
    funct3_sll, funct3_slt, funct3_sltu, funct3_xor, funct3_srx, funct3_or, funct3_and,
    funct3_sb, funct3_sh, funct3_sw, funct7_add, funct7_sub, funct7_srl, funct7_sra]

theorem exec_of_add (h : rv32i_hart) (insn : Nat) (pos : Bool) (hop : get_opcode insn = 0x33)
    (hf3 : get_funct3 insn = 0) (hf7 : get_funct7 insn = 0x00) :
    h.exec insn pos = h.exec_add insn pos := by
  simp [exec, hop, hf3, hf7, opcode_lui, opcode_auipc, opcode_jal, opcode_jalr, opcode_rtype,
    opcode_btype, opcode_system, opcode_stype, opcode_alu_imm, opcode_load_imm, funct3_add,
    funct3_sll, funct3_slt, funct3_sltu, funct3_xor, funct3_srx, funct3_or, funct3_and,
    funct3_sb, funct3_sh, funct3_sw, funct7_add, funct7_sub, funct7_srl, funct7_sra]

theorem exec_of_sub (h : rv32i_hart) (insn : Nat) (pos : Bool) (hop : get_opcode insn = 0x33)
    (hf3 : get_funct3 insn = 0) (hf7 : get_funct7 insn = 0x20) :
    h.exec insn pos = h.exec_sub insn pos := by
  simp [exec, hop, hf3, hf7, opcode_lui, opcode_auipc, opcode_jal, opcode_jalr, opcode_rtype,
    opcode_btype, opcode_system, opcode_stype, opcode_alu_imm, opcode_load_imm, funct3_add,
    funct3_sll, funct3_slt, funct3_sltu, funct3_xor, funct3_srx, funct3_or, funct3_and,
    funct3_sb, funct3_sh, funct3_sw, funct7_add, funct7_sub, funct7_srl, funct7_sra]

theorem exec_of_sll (h : rv32i_hart) (insn : Nat) (pos : Bool) (hop : get_opcode insn = 0x33)
    (hf3 : get_funct3 insn = 1) :
    h.exec insn pos = h.exec_sll insn pos := by
  simp [exec, hop, hf3, opcode_lui, opcode_auipc, opcode_jal, opcode_jalr, opcode_rtype,
    opcode_btype, opcode_system, opcode_stype, opcode_alu_imm, opcode_load_imm, funct3_add,
    funct3_sll, funct3_slt, funct3_sltu, funct3_xor, funct3_srx, funct3_or, funct3_and,
    funct3_sb, funct3_sh, funct3_sw, funct7_add, funct7_sub, funct7_srl, funct7_sra]

theorem exec_of_slt (h : rv32i_hart) (insn : Nat) (pos : Bool) (hop : get_opcode insn = 0x33)
    (hf3 : get_funct3 insn = 2) :
    h.exec insn pos = h.exec_slt insn pos := by
  simp [exec, hop, hf3, opcode_lui, opcode_auipc, opcode_jal, opcode_jalr, opcode_rtype,
    opcode_btype, opcode_system, opcode_stype, opcode_alu_imm, opcode_load_imm, funct3_add,
    funct3_sll, funct3_slt, funct3_sltu, funct3_xor, funct3_srx, funct3_or, funct3_and,
    funct3_sb, funct3_sh, funct3_sw, funct7_add, funct7_sub, funct7_srl, funct7_sra]

theorem exec_of_sltu (h : rv32i_hart) (insn : Nat) (pos : Bool) (hop : get_opcode insn = 0x33)
    (hf3 : get_funct3 insn = 3) :
    h.exec insn pos = h.exec_sltu insn pos := by
  simp [exec, hop, hf3, opcode_lui, opcode_auipc, opcode_jal, opcode_jalr, opcode_rtype,
    opcode_btype, opcode_system, opcode_stype, opcode_alu_imm, opcode_load_imm, funct3_add,
    funct3_sll, funct3_slt, funct3_sltu, funct3_xor, funct3_srx, funct3_or, funct3_and,
    funct3_sb, funct3_sh, funct3_sw, funct7_add, funct7_sub, funct7_srl, funct7_sra]

theorem exec_of_xor (h : rv32i_hart) (insn : Nat) (pos : Bool) (hop : get_opcode insn = 0x33)
    (hf3 : get_funct3 insn = 4) :
    h.exec insn pos = h.exec_xor insn pos := by
  simp [exec, hop, hf3, opcode_lui, opcode_auipc, opcode_jal, opcode_jalr, opcode_rtype,
    opcode_btype, opcode_system, opcode_stype, opcode_alu_imm, opcode_load_imm, funct3_add,
    funct3_sll, funct3_slt, funct3_sltu, funct3_xor, funct3_srx, funct3_or, funct3_and,
    funct3_sb, funct3_sh, funct3_sw, funct7_add, funct7_sub, funct7_srl, funct7_sra]

theorem exec_of_srl (h : rv32i_hart) (insn : Nat) (pos : Bool) (hop : get_opcode insn = 0x33)
    (hf3 : get_funct3 insn = 5) (hf7 : get_funct7 insn = 0x00) :
    h.exec insn pos = h.exec_srl insn pos := by
  simp [exec, hop, hf3, hf7, opcode_lui, opcode_auipc, opcode_jal, opcode_jalr, opcode_rtype,
    opcode_btype, opcode_system, opcode_stype, opcode_alu_imm, opcode_load_imm, funct3_add,
    funct3_sll, funct3_slt, funct3_sltu, funct3_xor, funct3_srx, funct3_or, funct3_and,
    funct3_sb, funct3_sh, funct3_sw, funct7_add, funct7_sub, funct7_srl, funct7_sra]

theorem exec_of_sra (h : rv32i_hart) (insn : Nat) (pos : Bool) (hop : get_opcode insn = 0x33)
    (hf3 : get_funct3 insn = 5) (hf7 : get_funct7 insn = 0x20) :
    h.exec insn pos = h.exec_sra insn pos := by
  simp [exec, hop, hf3, hf7, opcode_lui, opcode_auipc, opcode_jal, opcode_jalr, opcode_rtype,
    opcode_btype, opcode_system, opcode_stype, opcode_alu_imm, opcode_load_imm, funct3_add,
    funct3_sll, funct3_slt, funct3_sltu, funct3_xor, funct3_srx, funct3_or, funct3_and,
    funct3_sb, funct3_sh, funct3_sw, funct7_add, funct7_sub, funct7_srl, funct7_sra]

theorem exec_of_or (h : rv32i_hart) (insn : Nat) (pos : Bool) (hop : get_opcode insn = 0x33)
    (hf3 : get_funct3 insn = 6) :
    h.exec insn pos = h.exec_or insn pos := by
  simp [exec, hop, hf3, opcode_lui, opcode_auipc, opcode_jal, opcode_jalr, opcode_rtype,
    opcode_btype, opcode_system, opcode_stype, opcode_alu_imm, opcode_load_imm, funct3_add,
    funct3_sll, funct3_slt, funct3_sltu, funct3_xor, funct3_srx, funct3_or, funct3_and,
    funct3_sb, funct3_sh, funct3_sw, funct7_add, funct7_sub, funct7_srl, funct7_sra]

theorem exec_of_and (h : rv32i_hart) (insn : Nat) (pos : Bool) (hop : get_opcode insn = 0x33)
    (hf3 : get_funct3 insn = 7) :
    h.exec insn pos = h.exec_and insn pos := by
  simp [exec, hop, hf3, opcode_lui, opcode_auipc, opcode_jal, opcode_jalr, opcode_rtype,
    opcode_btype, opcode_system, opcode_stype, opcode_alu_imm, opcode_load_imm, funct3_add,
    funct3_sll, funct3_slt, funct3_sltu, funct3_xor, funct3_srx, funct3_or, funct3_and,
    funct3_sb, funct3_sh, funct3_sw, funct7_add, funct7_sub, funct7_srl, funct7_sra]

theorem exec_of_sb (h : rv32i_hart) (insn : Nat) (pos : Bool) (hop : get_opcode insn = 0x23)
    (hf3 : get_funct3 insn = 0) :
    h.exec insn pos = h.exec_sb insn pos := by
  simp [exec, hop, hf3, opcode_lui, opcode_auipc, opcode_jal, opcode_jalr, opcode_rtype,
    opcode_btype, opcode_system, opcode_stype, opcode_alu_imm, opcode_load_imm, funct3_add,
    funct3_sll, funct3_slt, funct3_sltu, funct3_xor, funct3_srx, funct3_or, funct3_and,
    funct3_sb, funct3_sh, funct3_sw, funct7_add, funct7_sub, funct7_srl, funct7_sra]

theorem exec_of_sh (h : rv32i_hart) (insn : Nat) (pos : Bool) (hop : get_opcode insn = 0x23)
    (hf3 : get_funct3 insn = 1) :
    h.exec insn pos = h.exec_sh insn pos := by
  simp [exec, hop, hf3, opcode_lui, opcode_auipc, opcode_jal, opcode_jalr, opcode_rtype,
    opcode_btype, opcode_system, opcode_stype, opcode_alu_imm, opcode_load_imm, funct3_add,
    funct3_sll, funct3_slt, funct3_sltu, funct3_xor, funct3_srx, funct3_or, funct3_and,
    funct3_sb, funct3_sh, funct3_sw, funct7_add, funct7_sub, funct7_srl, funct7_sra]

theorem exec_of_sw (h : rv32i_hart) (insn : Nat) (pos : Bool) (hop : get_opcode insn = 0x23)
    (hf3 : get_funct3 insn = 2) :
    h.exec insn pos = h.exec_sw insn pos := by
  simp [exec, hop, hf3, opcode_lui, opcode_auipc, opcode_jal, opcode_jalr, opcode_rtype,
    opcode_btype, opcode_system, opcode_stype, opcode_alu_imm, opcode_load_imm, funct3_add,
    funct3_sll, funct3_slt, funct3_sltu, funct3_xor, funct3_srx, funct3_or, funct3_and,
    funct3_sb, funct3_sh, funct3_sw, funct7_add, funct7_sub, funct7_srl, funct7_sra]

end rv32i_hart

/-! ## Hart: the ALU executors as equations -/

namespace rv32i_hart

theorem exec_slti_eq (h : rv32i_hart) (insn : Nat) (pos : Bool) (x : Int)
    (hlen : h.regs.regVec.length = 32)
    (hx : h.regs.get (get_rs1 insn) = Except.ok (x, [])) :
    h.exec_slti insn pos = Except.ok
      ({ h with
          regs := h.regs.write (get_rd insn) (if x < get_imm_i insn then 1 else 0)
          pc := (h.pc + 4) % 4294967296 },
        trace_out pos) := by
  have hrd := get_rd_lt insn
  simp only [exec_slti, Sim.bind_eq, trace_eq, hx,
    registerfile.set_eq_write h.regs (get_rd insn) _ (by omega), Sim.andThen, Sim.pure_eq,
    List.append_nil, List.nil_append]

theorem exec_sltiu_eq (h : rv32i_hart) (insn : Nat) (pos : Bool) (x : Int)
    (hlen : h.regs.regVec.length = 32)
    (hx : h.regs.get (get_rs1 insn) = Except.ok (x, [])) :
    h.exec_sltiu insn pos = Except.ok
      ({ h with
          regs := h.regs.write (get_rd insn) (if u32 x < u32 (get_imm_i insn) then 1 else 0)
          pc := (h.pc + 4) % 4294967296 },
        trace_out pos) := by
  have hrd := get_rd_lt insn
  simp only [exec_sltiu, u32_i32_reg _ (get_rs1_lt insn), Sim.bind_eq, trace_eq, hx,
    registerfile.set_eq_write h.regs (get_rd insn) _ (by omega), Sim.andThen, Sim.pure_eq,
    List.append_nil, List.nil_append]

theorem exec_add_eq (h : rv32i_hart) (insn : Nat) (pos : Bool) (x y : Int)
    (hlen : h.regs.regVec.length = 32)
    (hx : h.regs.get (get_rs1 insn) = Except.ok (x, []))
    (hy : h.regs.get (get_rs2 insn) = Except.ok (y, [])) :
    h.exec_add insn pos = Except.ok
      ({ h with
          regs := h.regs.write (get_rd insn) (i32 (x + y))
          pc := (h.pc + 4) % 4294967296 },
        trace_out pos) := by
  have hrd := get_rd_lt insn
  simp only [exec_add, u32_i32_reg _ (get_rs1_lt insn), u32_i32_reg _ (get_rs2_lt insn),
    Sim.bind_eq, trace_eq, hx, hy,
    registerfile.set_eq_write h.regs (get_rd insn) _ (by omega), Sim.andThen, Sim.pure_eq,
    List.append_nil, List.nil_append]

theorem exec_sub_eq (h : rv32i_hart) (insn : Nat) (pos : Bool) (x y : Int)
    (hlen : h.regs.regVec.length = 32)
    (hx : h.regs.get (get_rs1 insn) = Except.ok (x, []))
    (hy : h.regs.get (get_rs2 insn) = Except.ok (y, [])) :
    h.exec_sub insn pos = Except.ok
      ({ h with
          regs := h.regs.write (get_rd insn) (i32 (x - y))
          pc := (h.pc + 4) % 4294967296 },
        trace_out pos) := by
  have hrd := get_rd_lt insn
  simp only [exec_sub, u32_i32_reg _ (get_rs1_lt insn), u32_i32_reg _ (get_rs2_lt insn),
    Sim.bind_eq, trace_eq, hx, hy,
    registerfile.set_eq_write h.regs (get_rd insn) _ (by omega), Sim.andThen, Sim.pure_eq,
    List.append_nil, List.nil_append]

theorem exec_sll_eq (h : rv32i_hart) (insn : Nat) (pos : Bool) (x y : Int)
    (hlen : h.regs.regVec.length = 32)
    (hx : h.regs.get (get_rs1 insn) = Except.ok (x, []))
    (hy : h.regs.get (get_rs2 insn) = Except.ok (y, [])) :
    h.exec_sll insn pos = Except.ok
      ({ h with
          regs := h.regs.write (get_rd insn) (i32 ↑(u32 (i32 (x * 2 ^ (u32 y &&& 0x0000001f)))))
          pc := (h.pc + 4) % 4294967296 },
        trace_out pos) := by
  have hrd := get_rd_lt insn
  simp only [exec_sll, u32_i32_reg _ (get_rs1_lt insn), u32_i32_reg _ (get_rs2_lt insn),
    Sim.bind_eq, trace_eq, hx, hy,
    registerfile.set_eq_write h.regs (get_rd insn) _ (by omega), Sim.andThen, Sim.pure_eq,
    List.append_nil, List.nil_append]

theorem exec_slt_eq (h : rv32i_hart) (insn : Nat) (pos : Bool) (x y : Int)
    (hlen : h.regs.regVec.length = 32)
    (hx : h.regs.get (get_rs1 insn) = Except.ok (x, []))
    (hy : h.regs.get (get_rs2 insn) = Except.ok (y, [])) :
    h.exec_slt insn pos = Except.ok
      ({ h with
          regs := h.regs.write (get_rd insn) (if x < y then 1 else 0)
          pc := (h.pc + 4) % 4294967296 },
        trace_out pos) := by
  have hrd := get_rd_lt insn
  simp only [exec_slt, Sim.bind_eq, trace_eq, hx, hy,
    registerfile.set_eq_write h.regs (get_rd insn) _ (by omega), Sim.andThen, Sim.pure_eq,
    List.append_nil, List.nil_append]

theorem exec_sltu_eq (h : rv32i_hart) (insn : Nat) (pos : Bool) (x y : Int)
    (hlen : h.regs.regVec.length = 32)
    (hx : h.regs.get (get_rs1 insn) = Except.ok (x, []))
    (hy : h.regs.get (get_rs2 insn) = Except.ok (y, [])) :
    h.exec_sltu insn pos = Except.ok
      ({ h with
          regs := h.regs.write (get_rd insn) (if u32 x < u32 y then 1 else 0)
          pc := (h.pc + 4) % 4294967296 },
        trace_out pos) := by
  have hrd := get_rd_lt insn
  simp only [exec_sltu, Sim.bind_eq, trace_eq, hx, hy,
    registerfile.set_eq_write h.regs (get_rd insn) _ (by omega), Sim.andThen, Sim.pure_eq,
    List.append_nil, List.nil_append]

theorem exec_xor_eq (h : rv32i_hart) (insn : Nat) (pos : Bool) (x y : Int)
    (hlen : h.regs.regVec.length = 32)
    (hx : h.regs.get (get_rs1 insn) = Except.ok (x, []))
    (hy : h.regs.get (get_rs2 insn) = Except.ok (y, [])) :
    h.exec_xor insn pos = Except.ok
      ({ h with
          regs := h.regs.write (get_rd insn) (i32 ↑(u32 x ^^^ u32 y))
          pc := (h.pc + 4) % 4294967296 },
        trace_out pos) := by
  have hrd := get_rd_lt insn
  simp only [exec_xor, Sim.bind_eq, trace_eq, hx, hy,
    registerfile.set_eq_write h.regs (get_rd insn) _ (by omega), Sim.andThen, Sim.pure_eq,
    List.append_nil, List.nil_append]

theorem exec_srl_eq (h : rv32i_hart) (insn : Nat) (pos : Bool) (x y : Int)
    (hlen : h.regs.regVec.length = 32)
    (hx : h.regs.get (get_rs1 insn) = Except.ok (x, []))
    (hy : h.regs.get (get_rs2 insn) = Except.ok (y, [])) :
    h.exec_srl insn pos = Except.ok
      ({ h with
          regs := h.regs.write (get_rd insn) (i32 ↑(u32 x >>> (u32 y &&& 0x0000001f)))
          pc := (h.pc + 4) % 4294967296 },
        trace_out pos) := by
  have hrd := get_rd_lt insn
  simp only [exec_srl, Sim.bind_eq, trace_eq, hx, hy,
    registerfile.set_eq_write h.regs (get_rd insn) _ (by omega), Sim.andThen, Sim.pure_eq,
    List.append_nil, List.nil_append]

theorem exec_sra_eq (h : rv32i_hart) (insn : Nat) (pos : Bool) (x y : Int)
    (hlen : h.regs.regVec.length = 32)
    (hx : h.regs.get (get_rs1 insn) = Except.ok (x, []))
    (hy : h.regs.get (get_rs2 insn) = Except.ok (y, [])) :
    h.exec_sra insn pos = Except.ok
      ({ h with
          regs := h.regs.write (get_rd insn) (i32 ↑(u32 (x >>> (u32 y &&& 0x0000001f))))
          pc := (h.pc + 4) % 4294967296 },
        trace_out pos) := by
  have hrd := get_rd_lt insn
  simp only [exec_sra, Sim.bind_eq, trace_eq, hx, hy,
    registerfile.set_eq_write h.regs (get_rd insn) _ (by omega), Sim.andThen, Sim.pure_eq,
    List.append_nil, List.nil_append]

theorem exec_or_eq (h : rv32i_hart) (insn : Nat) (pos : Bool) (x y : Int)
    (hlen : h.regs.regVec.length = 32)
    (hx : h.regs.get (get_rs1 insn) = Except.ok (x, []))
    (hy : h.regs.get (get_rs2 insn) = Except.ok (y, [])) :
    h.exec_or insn pos = Except.ok
      ({ h with
          regs := h.regs.write (get_rd insn) (i32 ↑(u32 x ||| u32 y))
          pc := (h.pc + 4) % 4294967296 },
        trace_out pos) := by
  have hrd := get_rd_lt insn
  simp only [exec_or, Sim.bind_eq, trace_eq, hx, hy,
    registerfile.set_eq_write h.regs (get_rd insn) _ (by omega), Sim.andThen, Sim.pure_eq,
    List.append_nil, List.nil_append]

theorem exec_and_eq (h : rv32i_hart) (insn : Nat) (pos : Bool) (x y : Int)
    (hlen : h.regs.regVec.length = 32)
    (hx : h.regs.get (get_rs1 insn) = Except.ok (x, []))
    (hy : h.regs.get (get_rs2 insn) = Except.ok (y, [])) :
    h.exec_and insn pos = Except.ok
      ({ h with
          regs := h.regs.write (get_rd insn) (i32 ↑(u32 x &&& u32 y))
          pc := (h.pc + 4) % 4294967296 },
        trace_out pos) := by
  have hrd := get_rd_lt insn
  simp only [exec_and, Sim.bind_eq, trace_eq, hx, hy,
    registerfile.set_eq_write h.regs (get_rd insn) _ (by omega), Sim.andThen, Sim.pure_eq,
    List.append_nil, List.nil_append]

end rv32i_hart

/-! ## Hart: `SLTIU` and `SLTI` -/

theorem get_imm_i_sx (insn : Nat) : get_imm_i insn = spec_sx 12 (spec_bits insn 31 20) := by
  have hs : spec_bits insn 31 20 = insn / 1048576 % 4096 := by
    simp only [spec_bits]
    norm_num
  rw [hs, get_imm_i_arith]

/-- C22: for every hart state (with a 32-entry register file), every value `x`, every
immediate `k` and every `SLTIU` word `wu` and `SLTI` word `ws` with the sign-extended
12-bit immediate `k`, a source register holding `x` and a destination other than `x0`:
`exec` of `wu` writes 1 if `x` read as unsigned is below `k` read as unsigned and 0
otherwise, `exec` of `ws` writes 1 if `x < k` as signed numbers and 0 otherwise; with
`k = -1` the unsigned result is 1 exactly when `x` is not `0xFFFFFFFF`. -/
theorem rv32i_hart.exec_sltiu_slti (h : rv32i_hart) (wu ws : Nat) (pos : Bool) (x k : Int)
    (hlen : h.regs.regVec.length = 32)
    (hu : get_opcode wu = 0x13 ∧ get_funct3 wu = 3)
    (hs : get_opcode ws = 0x13 ∧ get_funct3 ws = 2)
    (hrdu : get_rd wu ≠ 0) (hrds : get_rd ws ≠ 0)
    (hxu : h.regs.get (get_rs1 wu) = Except.ok (x, []))
    (hxs : h.regs.get (get_rs1 ws) = Except.ok (x, []))
    (hku : spec_sx 12 (spec_bits wu 31 20) = k) (hks : spec_sx 12 (spec_bits ws 31 20) = k) :
    (∃ h' o, h.exec wu pos = Except.ok (h', o) ∧ h'.pc = (h.pc + 4) % 4294967296 ∧
      h'.regs.get (get_rd wu) = Except.ok (if u32 x < u32 k then 1 else 0, [])) ∧
    (∃ h' o, h.exec ws pos = Except.ok (h', o) ∧ h'.pc = (h.pc + 4) % 4294967296 ∧
      h'.regs.get (get_rd ws) = Except.ok (if x < k then 1 else 0, [])) ∧
    (k = -1 → ((if u32 x < u32 k then (1 : Int) else 0) = 1 ↔ u32 x ≠ 0xFFFFFFFF)) := by
  have hru := get_rd_lt wu
  have hrs := get_rd_lt ws
  have hiu : get_imm_i wu = k := (get_imm_i_sx wu).trans hku
  have his : get_imm_i ws = k := (get_imm_i_sx ws).trans hks
  refine ⟨⟨_, _, (rv32i_hart.exec_of_sltiu h wu pos hu.1 hu.2).trans
      (rv32i_hart.exec_sltiu_eq h wu pos x hlen hxu), rfl, ?_⟩,
    ⟨_, _, (rv32i_hart.exec_of_slti h ws pos hs.1 hs.2).trans
      (rv32i_hart.exec_slti_eq h ws pos x hlen hxs), rfl, ?_⟩, ?_⟩
  · dsimp only
    rw [hiu]
    exact registerfile.get_write_same h.regs (get_rd wu) _ hrdu (by omega)
  · dsimp only
    rw [his]
    exact registerfile.get_write_same h.regs (get_rd ws) _ hrds (by omega)
  · intro hk
    rw [hk]
    have hm : u32 (-1) = 4294967295 := by decide
    have hlt : u32 x < 4294967296 := by
      unfold u32
      omega
    rw [hm]
    constructor
    · intro e
      by_contra c
      rw [c] at e
      simp at e
    · intro hne
      have : u32 x < 4294967295 := by omega
      simp [this]

theorem rv32i_hart.exec_sltiu_slti_witness :
    scenario_addi.regs.regVec.length = 32 ∧
    (get_opcode 0xFFF03113 = 0x13 ∧ get_funct3 0xFFF03113 = 3) ∧
    (get_opcode 0xFFF02113 = 0x13 ∧ get_funct3 0xFFF02113 = 2) ∧
    get_rd 0xFFF03113 ≠ 0 ∧ get_rd 0xFFF02113 ≠ 0 ∧
    scenario_addi.regs.get (get_rs1 0xFFF03113) = Except.ok (0, []) ∧
    scenario_addi.regs.get (get_rs1 0xFFF02113) = Except.ok (0, []) ∧
    spec_sx 12 (spec_bits 0xFFF03113 31 20) = -1 ∧
    spec_sx 12 (spec_bits 0xFFF02113 31 20) = -1 ∧
    ((∃ h' o, scenario_addi.exec 0xFFF03113 false = Except.ok (h', o) ∧
      h'.pc = (scenario_addi.pc + 4) % 4294967296 ∧
      h'.regs.get (get_rd 0xFFF03113) = Except.ok (if u32 0 < u32 (-1) then 1 else 0, [])) ∧
    (∃ h' o, scenario_addi.exec 0xFFF02113 false = Except.ok (h', o) ∧
      h'.pc = (scenario_addi.pc + 4) % 4294967296 ∧
      h'.regs.get (get_rd 0xFFF02113) = Except.ok (if (0 : Int) < -1 then 1 else 0, [])) ∧
    ((-1 : Int) = -1 →
      ((if u32 0 < u32 (-1) then (1 : Int) else 0) = 1 ↔ u32 0 ≠ 0xFFFFFFFF))) ∧
    (if u32 0 < u32 (-1) then (1 : Int) else 0) = 1 ∧
    (if (0 : Int) < -1 then (1 : Int) else 0) = 0 :=
  ⟨by decide, by decide, by decide, by decide, by decide, rfl, rfl, by decide, by decide,
    rv32i_hart.exec_sltiu_slti scenario_addi 0xFFF03113 0xFFF02113 false 0 (-1) (by decide)
      (by decide) (by decide) (by decide) (by decide) rfl rfl (by decide) (by decide),
    by decide, by decide⟩

/-! ## Hart: R-type -/

theorem u32_lt (z : Int) : u32 z < 4294967296 := by
  unfold u32
  omega

theorem i32_u32_int (z : Int) : i32 ↑(u32 z) = i32 z := by
  unfold i32 u32
  have e : ((z % 4294967296).toNat : Int) = z % 4294967296 :=
    Int.toNat_of_nonneg (Int.emod_nonneg _ (by norm_num))
  rw [e, Int.emod_emod_of_dvd _ (dvd_refl _)]

theorem u32_mul_pow (x : Int) (s : Nat) :
    u32 (x * 2 ^ s) = (u32 x <<< s) % 4294967296 := by
  rw [Nat.shiftLeft_eq]
  unfold u32
  have e : ((x % 4294967296).toNat : Int) = x % 4294967296 :=
    Int.toNat_of_nonneg (Int.emod_nonneg _ (by norm_num))
  apply Int.ofNat.inj
  show (((x * 2 ^ s % 4294967296).toNat : Nat) : Int) =
    ((((x % 4294967296).toNat * 2 ^ s % 4294967296 : Nat)) : Int)
  rw [Int.toNat_of_nonneg (Int.emod_nonneg _ (by norm_num))]
  push_cast
  rw [e]
  exact (Int.ModEq.mul_right _ (Int.mod_modEq x 4294967296)).symm

theorem shamt_lt (y : Int) : u32 y &&& 0x0000001f < 32 := by
  have e : u32 y &&& 0x0000001f = u32 y % 32 := Nat.and_pow_two_sub_one_eq_mod _ 5
  rw [e]
  exact Nat.mod_lt _ (by norm_num)

theorem u32_sra (x : Int) (s : Nat) (hx : -2147483648 ≤ x ∧ x < 2147483648) (hs : s < 32) :
    u32 (x >>> s) = u32 (Int.fdiv x (2 ^ s)) := by
  have e1 := (shift_right_values x s hx hs).1
  rw [← e1, u32_i32 _ (u32_lt _)]

theorem rtype_value_lt (funct3 funct7 : Nat) (x y : Int) :
    rtype_value funct3 funct7 x y < 4294967296 := by
  have hx := u32_lt x
  have hy := u32_lt y
  unfold rtype_value
  dsimp only
  split_ifs
  · exact u32_lt _
  · exact u32_lt _
  · exact Nat.mod_lt _ (by norm_num)
  · norm_num
  · norm_num
  · norm_num
  · norm_num
  · exact Nat.xor_lt_two_pow (n := 32) hx hy
  · exact u32_lt _
  · rw [Nat.shiftRight_eq_div_pow]
    exact lt_of_le_of_lt (Nat.div_le_self _ _) hx
  · exact Nat.or_lt_two_pow (n := 32) hx hy
  · exact Nat.and_lt_two_pow (n := 32) _ hy

theorem rtype_value_add (x y : Int) : i32 ↑(rtype_value 0 0x00 x y) = i32 (x + y) :=
  i32_u32_int (x + y)

theorem rtype_value_sub (x y : Int) : i32 ↑(rtype_value 0 0x20 x y) = i32 (x - y) :=
  i32_u32_int (x - y)

theorem rtype_value_sll (f7 : Nat) (x y : Int) :
    i32 ↑(rtype_value 1 f7 x y) = i32 ↑(u32 (i32 (x * 2 ^ (u32 y &&& 0x0000001f)))) := by
  rw [u32_i32_int, u32_mul_pow]
  rfl

theorem rtype_value_slt (f7 : Nat) (x y : Int) :
    i32 ↑(rtype_value 2 f7 x y) = if x < y then 1 else 0 := by
  have e : rtype_value 2 f7 x y = if x < y then 1 else 0 := rfl
  rw [e]
  split <;> rfl

theorem rtype_value_sltu (f7 : Nat) (x y : Int) :
    i32 ↑(rtype_value 3 f7 x y) = if u32 x < u32 y then 1 else 0 := by
  have e : rtype_value 3 f7 x y = if u32 x < u32 y then 1 else 0 := rfl
  rw [e]
  split <;> rfl

theorem rtype_value_xor (f7 : Nat) (x y : Int) :
    rtype_value 4 f7 x y = u32 x ^^^ u32 y := rfl

theorem rtype_value_srl (x y : Int) :
    rtype_value 5 0x00 x y = u32 x >>> (u32 y &&& 0x0000001f) := rfl

theorem rtype_value_sra (x y : Int) (hx : -2147483648 ≤ x ∧ x < 2147483648) :
    rtype_value 5 0x20 x y = u32 (x >>> (u32 y &&& 0x0000001f)) := by
  rw [u32_sra x _ hx (shamt_lt y)]
  rfl

theorem rtype_value_or (f7 : Nat) (x y : Int) :
    rtype_value 6 f7 x y = u32 x ||| u32 y := rfl

theorem rtype_value_and (f7 : Nat) (x y : Int) :
    rtype_value 7 f7 x y = u32 x &&& u32 y := rfl

/-- C23: for every hart state (with a 32-entry register file) and every R-type word
(opcode 0x33; funct7 0x00 or 0x20 where funct3 is 0 or 5) with `rd ≠ x0`, where `x` and `y`
are the values of `rs1` and `rs2` (`x` an `int32_t`): `exec` returns the old state with `rd` holding
the value of `rtype_value` for the word (as `int32_t`, the same 32-bit pattern) and
`pc = old_pc + 4` (mod 2^32); the memory is the same. -/
theorem rv32i_hart.exec_rtype (h : rv32i_hart) (insn : Nat) (pos : Bool) (x y : Int)
    (hlen : h.regs.regVec.length = 32)
    (hxr : -2147483648 ≤ x ∧ x < 2147483648)
    (hop : get_opcode insn = 0x33)
    (hf7 : (get_funct3 insn = 0 ∨ get_funct3 insn = 5) →
      (get_funct7 insn = 0x00 ∨ get_funct7 insn = 0x20))
    (hrd : get_rd insn ≠ 0)
    (hx : h.regs.get (get_rs1 insn) = Except.ok (x, []))
    (hy : h.regs.get (get_rs2 insn) = Except.ok (y, [])) :
    h.exec insn pos = Except.ok
        ({ h with
            regs := h.regs.write (get_rd insn)
              (i32 ↑(rtype_value (get_funct3 insn) (get_funct7 insn) x y))
            pc := (h.pc + 4) % 4294967296 },
          rv32i_hart.trace_out pos) ∧
      (h.regs.write (get_rd insn)
        (i32 ↑(rtype_value (get_funct3 insn) (get_funct7 insn) x y))).get (get_rd insn) =
        Except.ok (i32 ↑(rtype_value (get_funct3 insn) (get_funct7 insn) x y), []) ∧
      u32 (i32 ↑(rtype_value (get_funct3 insn) (get_funct7 insn) x y)) =
        rtype_value (get_funct3 insn) (get_funct7 insn) x y := by
  have hrdlt := get_rd_lt insn
  have hpat := u32_i32 _ (rtype_value_lt (get_funct3 insn) (get_funct7 insn) x y)
  have hsame := registerfile.get_write_same h.regs (get_rd insn)
    (i32 ↑(rtype_value (get_funct3 insn) (get_funct7 insn) x y)) hrd (by omega)
  refine ⟨?_, hsame, hpat⟩
  clear hsame hpat
  have hlt := get_funct3_lt insn
  have hcases : get_funct3 insn = 0 ∨ get_funct3 insn = 1 ∨ get_funct3 insn = 2 ∨
      get_funct3 insn = 3 ∨ get_funct3 insn = 4 ∨ get_funct3 insn = 5 ∨
      get_funct3 insn = 6 ∨ get_funct3 insn = 7 := by
    omega
  rcases hcases with e | e | e | e | e | e | e | e
  · rcases hf7 (Or.inl e) with e7 | e7
    · rw [e, e7, rtype_value_add x y]
      exact (rv32i_hart.exec_of_add h insn pos hop e e7).trans
        (rv32i_hart.exec_add_eq h insn pos x y hlen hx hy)
    · rw [e, e7, rtype_value_sub x y]
      exact (rv32i_hart.exec_of_sub h insn pos hop e e7).trans
        (rv32i_hart.exec_sub_eq h insn pos x y hlen hx hy)
  · rw [e, rtype_value_sll (get_funct7 insn) x y]
    exact (rv32i_hart.exec_of_sll h insn pos hop e).trans
      (rv32i_hart.exec_sll_eq h insn pos x y hlen hx hy)
  · rw [e, rtype_value_slt (get_funct7 insn) x y]
    exact (rv32i_hart.exec_of_slt h insn pos hop e).trans
      (rv32i_hart.exec_slt_eq h insn pos x y hlen hx hy)
  · rw [e, rtype_value_sltu (get_funct7 insn) x y]
    exact (rv32i_hart.exec_of_sltu h insn pos hop e).trans
      (rv32i_hart.exec_sltu_eq h insn pos x y hlen hx hy)
  · rw [e, rtype_value_xor (get_funct7 insn) x y]
    exact (rv32i_hart.exec_of_xor h insn pos hop e).trans
      (rv32i_hart.exec_xor_eq h insn pos x y hlen hx hy)
  · rcases hf7 (Or.inr e) with e7 | e7
    · rw [e, e7, rtype_value_srl x y]
      exact (rv32i_hart.exec_of_srl h insn pos hop e e7).trans
        (rv32i_hart.exec_srl_eq h insn pos x y hlen hx hy)
    · rw [e, e7, rtype_value_sra x y hxr]
      exact (rv32i_hart.exec_of_sra h insn pos hop e e7).trans
        (rv32i_hart.exec_sra_eq h insn pos x y hlen hx hy)
  · rw [e, rtype_value_or (get_funct7 insn) x y]
    exact (rv32i_hart.exec_of_or h insn pos hop e).trans
      (rv32i_hart.exec_or_eq h insn pos x y hlen hx hy)
  · rw [e, rtype_value_and (get_funct7 insn) x y]
    exact (rv32i_hart.exec_of_and h insn pos hop e).trans
      (rv32i_hart.exec_and_eq h insn pos x y hlen hx hy)

theorem rv32i_hart.exec_rtype_witness :
    scenario_rtype.regs.regVec.length = 32 ∧
    (-2147483648 ≤ (-8 : Int) ∧ (-8 : Int) < 2147483648) ∧
    get_opcode 0x4020D1B3 = 0x33 ∧
    ((get_funct3 0x4020D1B3 = 0 ∨ get_funct3 0x4020D1B3 = 5) →
      (get_funct7 0x4020D1B3 = 0x00 ∨ get_funct7 0x4020D1B3 = 0x20)) ∧
    get_rd 0x4020D1B3 ≠ 0 ∧
    scenario_rtype.regs.get (get_rs1 0x4020D1B3) = Except.ok (-8, []) ∧
    scenario_rtype.regs.get (get_rs2 0x4020D1B3) = Except.ok (33, []) ∧
    (scenario_rtype.exec 0x4020D1B3 false = Except.ok
        ({ scenario_rtype with
            regs := scenario_rtype.regs.write (get_rd 0x4020D1B3)
              (i32 ↑(rtype_value (get_funct3 0x4020D1B3) (get_funct7 0x4020D1B3) (-8) 33))
            pc := (scenario_rtype.pc + 4) % 4294967296 },
          rv32i_hart.trace_out false) ∧
      (scenario_rtype.regs.write (get_rd 0x4020D1B3)
        (i32 ↑(rtype_value (get_funct3 0x4020D1B3) (get_funct7 0x4020D1B3) (-8) 33))).get
          (get_rd 0x4020D1B3) =
        Except.ok (i32 ↑(rtype_value (get_funct3 0x4020D1B3) (get_funct7 0x4020D1B3) (-8) 33),
          []) ∧
      u32 (i32 ↑(rtype_value (get_funct3 0x4020D1B3) (get_funct7 0x4020D1B3) (-8) 33)) =
        rtype_value (get_funct3 0x4020D1B3) (get_funct7 0x4020D1B3) (-8) 33) ∧
    get_funct3 0x4020D1B3 = 5 ∧ get_funct7 0x4020D1B3 = 0x20 ∧ get_rd 0x4020D1B3 = 3 ∧
    i32 ↑(rtype_value 5 0x20 (-8) 33) = -4 ∧ rtype_value 5 0x00 (-8) 33 = 0x7FFFFFFC ∧
    rtype_value 0 0x00 (-8) 33 = 25 ∧ rtype_value 0 0x20 (-8) 33 = 0xFFFFFFD7 ∧
    rtype_value 1 0x00 (-8) 33 = 0xFFFFFFF0 ∧ rtype_value 2 0x00 (-8) 33 = 1 ∧
    rtype_value 3 0x00 (-8) 33 = 0 :=
  ⟨by decide, by decide, by decide, by decide, by decide, rfl, rfl,
    rv32i_hart.exec_rtype scenario_rtype 0x4020D1B3 false (-8) 33 (by decide) (by decide)
      (by decide) (by decide) (by decide) rfl rfl,
    by decide, by decide, by decide, by decide, by decide, by decide, by decide, by decide,
    by decide, by decide⟩

/-! ## Hart: stores -/

namespace rv32i_hart

theorem exec_sb_eq (h : rv32i_hart) (insn : Nat) (pos : Bool) (x y : Int)
    (hx : h.regs.get (get_rs1 insn) = Except.ok (x, []))
    (hy : h.regs.get (get_rs2 insn) = Except.ok (y, []))
    (hin : u32 (x + get_imm_s insn) < h.mem.mem.length) :
    h.exec_sb insn pos = Except.ok
      ({ h with
          mem :=
            { mem := h.mem.mem.set (u32 (x + get_imm_s insn)) ((u32 y &&& 0x000000ff) % 256) }
          pc := (h.pc + 4) % 4294967296 },
        trace_out pos) := by
  have hg : (⟨h.mem.mem.set (u32 (x + get_imm_s insn))
      ((u32 y &&& 0x000000ff) % 256)⟩ : memory).get8 (u32 (x + get_imm_s insn)) =
      Except.ok ((u32 y &&& 0x000000ff) % 256, []) := by
    apply memory.get8_in
    simp [List.getElem?_set, hin]
  cases pos <;>
    simp only [exec_sb, u32_i32_int, Sim.bind_eq, trace_eq, hx, hy,
      memory.set8_in h.mem _ _ hin, hg, Sim.andThen, Sim.pure_eq, List.append_nil,
      List.nil_append, if_true, if_false, Bool.false_eq_true]

theorem exec_sh_eq (h : rv32i_hart) (insn : Nat) (pos : Bool) (x y : Int)
    (hx : h.regs.get (get_rs1 insn) = Except.ok (x, []))
    (hy : h.regs.get (get_rs2 insn) = Except.ok (y, []))
    (hin : u32 (x + get_imm_s insn) + 1 < h.mem.mem.length)
    (h32 : u32 (x + get_imm_s insn) + 1 < 4294967296) :
    h.exec_sh insn pos = Except.ok
      ({ h with
          mem :=
            { mem := (h.mem.mem.set (u32 (x + get_imm_s insn))
                ((u32 y &&& 0x0000ffff) % 65536 % 256)).set (u32 (x + get_imm_s insn) + 1)
                (((u32 y &&& 0x0000ffff) % 65536) >>> 8 % 256) }
          pc := (h.pc + 4) % 4294967296 },
        trace_out pos) := by
  generalize ha : u32 (x + get_imm_s insn) = a at hin h32
  generalize hv : (u32 y &&& 0x0000ffff) % 65536 = v
  have hs := memory.set16_in h.mem a v hin h32
  obtain ⟨b₀, h₀⟩ := memory.mem_some ⟨(h.mem.mem.set a (v % 256)).set (a + 1) (v >>> 8 % 256)⟩ a
    (by simp only [List.length_set]; omega)
  obtain ⟨b₁, h₁⟩ := memory.mem_some ⟨(h.mem.mem.set a (v % 256)).set (a + 1) (v >>> 8 % 256)⟩
    (a + 1) (by simp only [List.length_set]; omega)
  have hg := memory.get16_in _ a b₀ b₁ h₀ h₁ h32
  cases pos <;>
    simp only [exec_sh, u32_i32_int, Sim.bind_eq, trace_eq, hx, hy, ha, hv, hs, hg,
      Sim.andThen, Sim.pure_eq, List.append_nil, List.nil_append, if_true, if_false,
      Bool.false_eq_true]

theorem exec_sw_eq (h : rv32i_hart) (insn : Nat) (pos : Bool) (x y : Int)
    (hx : h.regs.get (get_rs1 insn) = Except.ok (x, []))
    (hy : h.regs.get (get_rs2 insn) = Except.ok (y, []))
    (hin : u32 (x + get_imm_s insn) + 3 < h.mem.mem.length)
    (h32 : u32 (x + get_imm_s insn) + 3 < 4294967296) :
    h.exec_sw insn pos = Except.ok
      ({ h with
          mem :=
            { mem := (((h.mem.mem.set (u32 (x + get_imm_s insn)) (u32 y % 65536 % 256)).set
                (u32 (x + get_imm_s insn) + 1) ((u32 y % 65536) >>> 8 % 256)).set
                (u32 (x + get_imm_s insn) + 2) ((u32 y >>> 16) % 65536 % 256)).set
                (u32 (x + get_imm_s insn) + 3) (((u32 y >>> 16) % 65536) >>> 8 % 256) }
          pc := (h.pc + 4) % 4294967296 },
        trace_out pos) := by
  generalize ha : u32 (x + get_imm_s insn) = a at hin h32
  generalize hv : u32 y = v
  have hs := memory.set32_in h.mem a v hin h32
  generalize hm : (⟨(((h.mem.mem.set a (v % 65536 % 256)).set (a + 1)
    ((v % 65536) >>> 8 % 256)).set (a + 2) ((v >>> 16) % 65536 % 256)).set (a + 3)
    (((v >>> 16) % 65536) >>> 8 % 256)⟩ : memory) = m' at hs
  have hl : m'.mem.length = h.mem.mem.length := by
    rw [← hm]
    simp only [List.length_set]
  obtain ⟨b₀, h₀⟩ := memory.mem_some m' a (by omega)
  obtain ⟨b₁, h₁⟩ := memory.mem_some m' (a + 1) (by omega)
  obtain ⟨b₂, h₂⟩ := memory.mem_some m' (a + 2) (by omega)
  obtain ⟨b₃, h₃⟩ := memory.mem_some m' (a + 3) (by omega)
  have hg := memory.get32_in m' a b₀ b₁ b₂ b₃ h₀ h₁ h₂ h₃ h32
  cases pos <;>
    simp only [exec_sw, u32_i32_int, Sim.bind_eq, trace_eq, hx, hy, ha, hv, hs, hg,
      Sim.andThen, Sim.pure_eq, List.append_nil, List.nil_append, if_true, if_false,
      Bool.false_eq_true]

end rv32i_hart

theorem memory.get8_congr (m m' : memory) (b : Nat) (hl : m'.mem.length = m.mem.length)
    (he : m'.mem[b]? = m.mem[b]?) : m'.get8 b = m.get8 b := by
  simp only [memory.get8, memory.check_illegal, hl, he]

theorem and_65535 (x : Nat) : x &&& 0xffff = x % 65536 := Nat.and_pow_two_sub_one_eq_mod x 16

/-- C21: for every hart state and every store word (opcode 0x23, funct3 0, 1 or 2 for
`SB`, `SH`, `SW`), where `x` and `y` are the values of `rs1` and `rs2`, `a = x + imm_s`
(mod 2^32) and all of the 1, 2 or 4 bytes written lie below the size of the memory: `exec`
returns the old state with `pc = old_pc + 4` (mod 2^32), the same registers and a memory
in which byte `a + i` reads `(y >> 8*i) & 0xFF` for each byte written (little-endian),
every other address reads as before and the size is the same. -/
theorem rv32i_hart.exec_store (h : rv32i_hart) (insn : Nat) (pos : Bool) (x y : Int)
    (hop : get_opcode insn = 0x23) (hf3 : get_funct3 insn ∈ [0, 1, 2])
    (hx : h.regs.get (get_rs1 insn) = Except.ok (x, []))
    (hy : h.regs.get (get_rs2 insn) = Except.ok (y, []))
    (hin : u32 (x + get_imm_s insn) + store_bytes (get_funct3 insn) ≤ h.mem.get_size) :
    ∃ m', h.exec insn pos = Except.ok
        ({ h with mem := m', pc := (h.pc + 4) % 4294967296 }, rv32i_hart.trace_out pos) ∧
      (∀ i, i < store_bytes (get_funct3 insn) →
        m'.get8 (u32 (x + get_imm_s insn) + i) =
          Except.ok ((u32 y >>> (8 * i)) &&& 0xff, [])) ∧
      (∀ b, b < u32 (x + get_imm_s insn) ∨
          u32 (x + get_imm_s insn) + store_bytes (get_funct3 insn) ≤ b →
        m'.get8 b = h.mem.get8 b) ∧
      m'.get_size = h.mem.get_size := by
  have hcases : get_funct3 insn = 0 ∨ get_funct3 insn = 1 ∨ get_funct3 insn = 2 := by
    simpa only [List.mem_cons, List.mem_singleton, List.not_mem_nil, or_false] using hf3
  clear hf3
  have hsz : h.mem.get_size ≤ h.mem.mem.length ∧ h.mem.get_size < 4294967296 := by
    unfold memory.get_size
    omega
  generalize ha : u32 (x + get_imm_s insn) = a at hin
  generalize hw : u32 y = w
  rcases hcases with e | e | e
  · rw [e] at hin ⊢
    have hn : store_bytes 0 = 1 := rfl
    rw [hn] at hin ⊢
    have hlen : a < h.mem.mem.length := by omega
    refine ⟨_, (rv32i_hart.exec_of_sb h insn pos hop e).trans
      (rv32i_hart.exec_sb_eq h insn pos x y hx hy (by rw [ha]; exact hlen)), ?_, ?_, ?_⟩
    · intro i hi
      rw [ha, hw]
      apply memory.get8_in
      rw [and_255, and_255]
      simp only [Nat.shiftRight_eq_div_pow]
      interval_cases i
      simp [List.getElem?_set, hlen]
    · intro b hb
      rw [ha]
      apply memory.get8_congr
      · simp only [List.length_set]
      · rw [List.getElem?_set_ne (by omega)]
    · rw [ha]
      simp [memory.get_size]
  · rw [e] at hin ⊢
    have hn : store_bytes 1 = 2 := rfl
    rw [hn] at hin ⊢
    have hlen : a + 1 < h.mem.mem.length := by omega
    refine ⟨_, (rv32i_hart.exec_of_sh h insn pos hop e).trans
      (rv32i_hart.exec_sh_eq h insn pos x y hx hy (by rw [ha]; exact hlen)
        (by rw [ha]; omega)), ?_, ?_, ?_⟩
    · intro i hi
      rw [ha, hw]
      apply memory.get8_in
      rw [and_255, and_65535]
      simp only [Nat.shiftRight_eq_div_pow]
      interval_cases i
      · simp [List.getElem?_set]
        omega
      · simp [List.getElem?_set]
        omega
    · intro b hb
      rw [ha]
      apply memory.get8_congr
      · simp only [List.length_set]
      · rw [List.getElem?_set_ne (by omega), List.getElem?_set_ne (by omega)]
    · rw [ha]
      simp [memory.get_size]
  · rw [e] at hin ⊢
    have hn : store_bytes 2 = 4 := rfl
    rw [hn] at hin ⊢
    have hlen : a + 3 < h.mem.mem.length := by omega
    refine ⟨_, (rv32i_hart.exec_of_sw h insn pos hop e).trans
      (rv32i_hart.exec_sw_eq h insn pos x y hx hy (by rw [ha]; exact hlen)
        (by rw [ha]; omega)), ?_, ?_, ?_⟩
    · intro i hi
      rw [ha, hw]
      apply memory.get8_in
      rw [and_255]
      simp only [Nat.shiftRight_eq_div_pow]
      interval_cases i
      · simp [List.getElem?_set]
        omega
      · simp [List.getElem?_set]
        omega
      · simp [List.getElem?_set]
        omega
      · simp [List.getElem?_set]
        omega
    · intro b hb
      rw [ha]
      apply memory.get8_congr
      · simp only [List.length_set]
      · rw [List.getElem?_set_ne (by omega), List.getElem?_set_ne (by omega),
          List.getElem?_set_ne (by omega), List.getElem?_set_ne (by omega)]
    · rw [ha]
      simp [memory.get_size]

set_option maxRecDepth 100000 in
theorem rv32i_hart.exec_store_witness :
    get_opcode 0x0020A223 = 0x23 ∧ get_funct3 0x0020A223 ∈ [0, 1, 2] ∧
    scenario_store.regs.get (get_rs1 0x0020A223) = Except.ok (8, []) ∧
    scenario_store.regs.get (get_rs2 0x0020A223) = Except.ok (0x12345678, []) ∧
    u32 (8 + get_imm_s 0x0020A223) + store_bytes (get_funct3 0x0020A223) ≤
      scenario_store.mem.get_size ∧
    (∃ m', scenario_store.exec 0x0020A223 false = Except.ok
        ({ scenario_store with mem := m', pc := (scenario_store.pc + 4) % 4294967296 },
          rv32i_hart.trace_out false) ∧
      (∀ i, i < store_bytes (get_funct3 0x0020A223) →
        m'.get8 (u32 (8 + get_imm_s 0x0020A223) + i) =
          Except.ok ((u32 0x12345678 >>> (8 * i)) &&& 0xff, [])) ∧
      (∀ b, b < u32 (8 + get_imm_s 0x0020A223) ∨
          u32 (8 + get_imm_s 0x0020A223) + store_bytes (get_funct3 0x0020A223) ≤ b →
        m'.get8 b = scenario_store.mem.get8 b) ∧
      m'.get_size = scenario_store.mem.get_size) ∧
    u32 (8 + get_imm_s 0x0020A223) = 12 ∧ store_bytes (get_funct3 0x0020A223) = 4 :=
  ⟨by decide, by decide, rfl, rfl, by decide,
    rv32i_hart.exec_store scenario_store 0x0020A223 false 8 0x12345678 (by decide) (by decide)
      rfl rfl (by decide),
    by decide, by decide⟩

/-! ## The instruction counter, the display flags and the halt reason -/

namespace rv32i_hart

set_option linter.unusedTactic false
set_option linter.unreachableTactic false

theorem reason_illegal_ne : "Illegal instruction" ≠ "none" := by decide

theorem reason_ebreak_ne : "EBREAK instruction" ≠ "none" := by decide

theorem reason_ecall_ne : "ECALL instruction" ≠ "none" := by decide

theorem reason_csr_ne : "Illegal CSR in CSRRS instruction" ≠ "none" := by decide

theorem reason_alignment_ne : "PC alignment error" ≠ "none" := by decide

theorem exec_illegal_insn_kept (h : rv32i_hart) (pos : Bool) :
    Sim.sat (h.exec_illegal_insn pos) (kept h) := by
  unfold exec_illegal_insn
  refine Sim.sat_bind _ _ _ _ (Sim.sat_true _) ?_
  intro _ _
  exact Sim.sat_pure _ _ ⟨rfl, rfl, rfl, Or.inr ⟨rfl, reason_illegal_ne⟩⟩

theorem exec_ebreak_kept (h : rv32i_hart) (insn : Int) (pos : Bool) :
    Sim.sat (h.exec_ebreak insn pos) (kept h) := by
  unfold exec_ebreak
  refine Sim.sat_bind _ _ _ _ (Sim.sat_true _) ?_
  intro _ _
  exact Sim.sat_pure _ _ ⟨rfl, rfl, rfl, Or.inr ⟨rfl, reason_ebreak_ne⟩⟩

theorem exec_ecall_kept (h : rv32i_hart) (pos : Bool) :
    Sim.sat (h.exec_ecall pos) (kept h) := by
  unfold exec_ecall
  refine Sim.sat_bind _ _ _ _ (Sim.sat_true _) ?_
  intro _ _
  exact Sim.sat_pure _ _ ⟨rfl, rfl, rfl, Or.inr ⟨rfl, reason_ecall_ne⟩⟩

theorem exec_lui_kept (h : rv32i_hart) (insn : Nat) (pos : Bool) :
    Sim.sat (h.exec_lui insn pos) (kept h) := by
  unfold exec_lui
  with_reducible repeat first
    | (refine Sim.sat_bind _ _ _ _ (Sim.sat_true _) ?_; intro _ _)
    | exact Sim.sat_pure _ _ ⟨rfl, rfl, rfl, Or.inl ⟨rfl, rfl⟩⟩
    | (dsimp only; split)

theorem exec_auipc_kept (h : rv32i_hart) (insn : Nat) (pos : Bool) :
    Sim.sat (h.exec_auipc insn pos) (kept h) := by
  unfold exec_auipc
  with_reducible repeat first
    | (refine Sim.sat_bind _ _ _ _ (Sim.sat_true _) ?_; intro _ _)
    | exact Sim.sat_pure _ _ ⟨rfl, rfl, rfl, Or.inl ⟨rfl, rfl⟩⟩
    | (dsimp only; split)

theorem exec_jal_kept (h : rv32i_hart) (insn : Nat) (pos : Bool) :
    Sim.sat (h.exec_jal insn pos) (kept h) := by
  unfold exec_jal
  with_reducible repeat first
    | (refine Sim.sat_bind _ _ _ _ (Sim.sat_true _) ?_; intro _ _)
    | exact Sim.sat_pure _ _ ⟨rfl, rfl, rfl, Or.inl ⟨rfl, rfl⟩⟩
    | (dsimp only; split)

theorem exec_jalr_kept (h : rv32i_hart) (insn : Nat) (pos : Bool) :
    Sim.sat (h.exec_jalr insn pos) (kept h) := by
  unfold exec_jalr
  with_reducible repeat first
    | (refine Sim.sat_bind _ _ _ _ (Sim.sat_true _) ?_; intro _ _)
    | exact Sim.sat_pure _ _ ⟨rfl, rfl, rfl, Or.inl ⟨rfl, rfl⟩⟩
    | (dsimp only; split)

theorem exec_beq_kept (h : rv32i_hart) (insn : Nat) (pos : Bool) :
    Sim.sat (h.exec_beq insn pos) (kept h) := by
  unfold exec_beq
  with_reducible repeat first
    | (refine Sim.sat_bind _ _ _ _ (Sim.sat_true _) ?_; intro _ _)
    | exact Sim.sat_pure _ _ ⟨rfl, rfl, rfl, Or.inl ⟨rfl, rfl⟩⟩
    | (dsimp only; split)

theorem exec_bne_kept (h : rv32i_hart) (insn : Nat) (pos : Bool) :
    Sim.sat (h.exec_bne insn pos) (kept h) := by
  unfold exec_bne
  with_reducible repeat first
    | (refine Sim.sat_bind _ _ _ _ (Sim.sat_true _) ?_; intro _ _)
    | exact Sim.sat_pure _ _ ⟨rfl, rfl, rfl, Or.inl ⟨rfl, rfl⟩⟩
    | (dsimp only; split)

theorem exec_blt_kept (h : rv32i_hart) (insn : Nat) (pos : Bool) :
    Sim.sat (h.exec_blt insn pos) (kept h) := by
  unfold exec_blt
  with_reducible repeat first
    | (refine Sim.sat_bind _ _ _ _ (Sim.sat_true _) ?_; intro _ _)
    | exact Sim.sat_pure _ _ ⟨rfl, rfl, rfl, Or.inl ⟨rfl, rfl⟩⟩
    | (dsimp only; split)

theorem exec_bge_kept (h : rv32i_hart) (insn : Nat) (pos : Bool) :
    Sim.sat (h.exec_bge insn pos) (kept h) := by
  unfold exec_bge
  with_reducible repeat first
    | (refine Sim.sat_bind _ _ _ _ (Sim.sat_true _) ?_; intro _ _)
    | exact Sim.sat_pure _ _ ⟨rfl, rfl, rfl, Or.inl ⟨rfl, rfl⟩⟩
    | (dsimp only; split)

theorem exec_bltu_kept (h : rv32i_hart) (insn : Nat) (pos : Bool) :
    Sim.sat (h.exec_bltu insn pos) (kept h) := by
  unfold exec_bltu
  with_reducible repeat first
    | (refine Sim.sat_bind _ _ _ _ (Sim.sat_true _) ?_; intro _ _)
    | exact Sim.sat_pure _ _ ⟨rfl, rfl, rfl, Or.inl ⟨rfl, rfl⟩⟩
    | (dsimp only; split)

theorem exec_bgeu_kept (h : rv32i_hart) (insn : Nat) (pos : Bool) :
    Sim.sat (h.exec_bgeu insn pos) (kept h) := by
  unfold exec_bgeu
  with_reducible repeat first
    | (refine Sim.sat_bind _ _ _ _ (Sim.sat_true _) ?_; intro _ _)
    | exact Sim.sat_pure _ _ ⟨rfl, rfl, rfl, Or.inl ⟨rfl, rfl⟩⟩
    | (dsimp only; split)

theorem exec_addi_kept (h : rv32i_hart) (insn : Nat) (pos : Bool) :
    Sim.sat (h.exec_addi insn pos) (kept h) := by
  unfold exec_addi
  with_reducible repeat first
    | (refine Sim.sat_bind _ _ _ _ (Sim.sat_true _) ?_; intro _ _)
    | exact Sim.sat_pure _ _ ⟨rfl, rfl, rfl, Or.inl ⟨rfl, rfl⟩⟩
    | (dsimp only; split)

theorem exec_lbu_kept (h : rv32i_hart) (insn : Nat) (pos : Bool) :
    Sim.sat (h.exec_lbu insn pos) (kept h) := by
  unfold exec_lbu
  with_reducible repeat first
    | (refine Sim.sat_bind _ _ _ _ (Sim.sat_true _) ?_; intro _ _)
    | exact Sim.sat_pure _ _ ⟨rfl, rfl, rfl, Or.inl ⟨rfl, rfl⟩⟩
    | (dsimp only; split)

theorem exec_lhu_kept (h : rv32i_hart) (insn : Nat) (pos : Bool) :
    Sim.sat (h.exec_lhu insn pos) (kept h) := by
  unfold exec_lhu
  with_reducible repeat first
    | (refine Sim.sat_bind _ _ _ _ (Sim.sat_true _) ?_; intro _ _)
    | exact Sim.sat_pure _ _ ⟨rfl, rfl, rfl, Or.inl ⟨rfl, rfl⟩⟩
    | (dsimp only; split)

theorem exec_lb_kept (h : rv32i_hart) (insn : Nat) (pos : Bool) :
    Sim.sat (h.exec_lb insn pos) (kept h) := by
  unfold exec_lb
  with_reducible repeat first
    | (refine Sim.sat_bind _ _ _ _ (Sim.sat_true _) ?_; intro _ _)
    | exact Sim.sat_pure _ _ ⟨rfl, rfl, rfl, Or.inl ⟨rfl, rfl⟩⟩
    | (dsimp only; split)

theorem exec_lh_kept (h : rv32i_hart) (insn : Nat) (pos : Bool) :
    Sim.sat (h.exec_lh insn pos) (kept h) := by
  unfold exec_lh
  with_reducible repeat first
    | (refine Sim.sat_bind _ _ _ _ (Sim.sat_true _) ?_; intro _ _)
    | exact Sim.sat_pure _ _ ⟨rfl, rfl, rfl, Or.inl ⟨rfl, rfl⟩⟩
    | (dsimp only; split)

theorem exec_lw_kept (h : rv32i_hart) (insn : Nat) (pos : Bool) :
    Sim.sat (h.exec_lw insn pos) (kept h) := by
  unfold exec_lw
  with_reducible repeat first
    | (refine Sim.sat_bind _ _ _ _ (Sim.sat_true _) ?_; intro _ _)
    | exact Sim.sat_pure _ _ ⟨rfl, rfl, rfl, Or.inl ⟨rfl, rfl⟩⟩
    | (dsimp only; split)

theorem exec_sb_kept (h : rv32i_hart) (insn : Nat) (pos : Bool) :
    Sim.sat (h.exec_sb insn pos) (kept h) := by
  unfold exec_sb
  with_reducible repeat first
    | (refine Sim.sat_bind _ _ _ _ (Sim.sat_true _) ?_; intro _ _)
    | exact Sim.sat_pure _ _ ⟨rfl, rfl, rfl, Or.inl ⟨rfl, rfl⟩⟩
    | (dsimp only; split)

theorem exec_sh_kept (h : rv32i_hart) (insn : Nat) (pos : Bool) :
    Sim.sat (h.exec_sh insn pos) (kept h) := by
  unfold exec_sh
  with_reducible repeat first
    | (refine Sim.sat_bind _ _ _ _ (Sim.sat_true _) ?_; intro _ _)
    | exact Sim.sat_pure _ _ ⟨rfl, rfl, rfl, Or.inl ⟨rfl, rfl⟩⟩
    | (dsimp only; split)

theorem exec_sw_kept (h : rv32i_hart) (insn : Nat) (pos : Bool) :
    Sim.sat (h.exec_sw insn pos) (kept h) := by
  unfold exec_sw
  with_reducible repeat first
    | (refine Sim.sat_bind _ _ _ _ (Sim.sat_true _) ?_; intro _ _)
    | exact Sim.sat_pure _ _ ⟨rfl, rfl, rfl, Or.inl ⟨rfl, rfl⟩⟩
    | (dsimp only; split)

theorem exec_slti_kept (h : rv32i_hart) (insn : Nat) (pos : Bool) :
    Sim.sat (h.exec_slti insn pos) (kept h) := by
  unfold exec_slti
  with_reducible repeat first
    | (refine Sim.sat_bind _ _ _ _ (Sim.sat_true _) ?_; intro _ _)
    | exact Sim.sat_pure _ _ ⟨rfl, rfl, rfl, Or.inl ⟨rfl, rfl⟩⟩
    | (dsimp only; split)

theorem exec_sltiu_kept (h : rv32i_hart) (insn : Nat) (pos : Bool) :
    Sim.sat (h.exec_sltiu insn pos) (kept h) := by
  unfold exec_sltiu
  with_reducible repeat first
    | (refine Sim.sat_bind _ _ _ _ (Sim.sat_true _) ?_; intro _ _)
    | exact Sim.sat_pure _ _ ⟨rfl, rfl, rfl, Or.inl ⟨rfl, rfl⟩⟩
    | (dsimp only; split)

theorem exec_xori_kept (h : rv32i_hart) (insn : Nat) (pos : Bool) :
    Sim.sat (h.exec_xori insn pos) (kept h) := by
  unfold exec_xori
  with_reducible repeat first
    | (refine Sim.sat_bind _ _ _ _ (Sim.sat_true _) ?_; intro _ _)
    | exact Sim.sat_pure _ _ ⟨rfl, rfl, rfl, Or.inl ⟨rfl, rfl⟩⟩
    | (dsimp only; split)

theorem exec_ori_kept (h : rv32i_hart) (insn : Nat) (pos : Bool) :
    Sim.sat (h.exec_ori insn pos) (kept h) := by
  unfold exec_ori
  with_reducible repeat first
    | (refine Sim.sat_bind _ _ _ _ (Sim.sat_true _) ?_; intro _ _)
    | exact Sim.sat_pure _ _ ⟨rfl, rfl, rfl, Or.inl ⟨rfl, rfl⟩⟩
    | (dsimp only; split)

theorem exec_andi_kept (h : rv32i_hart) (insn : Nat) (pos : Bool) :
    Sim.sat (h.exec_andi insn pos) (kept h) := by
  unfold exec_andi
  with_reducible repeat first
    | (refine Sim.sat_bind _ _ _ _ (Sim.sat_true _) ?_; intro _ _)
    | exact Sim.sat_pure _ _ ⟨rfl, rfl, rfl, Or.inl ⟨rfl, rfl⟩⟩
    | (dsimp only; split)

theorem exec_slli_kept (h : rv32i_hart) (insn : Nat) (pos : Bool) :
    Sim.sat (h.exec_slli insn pos) (kept h) := by
  unfold exec_slli
  with_reducible repeat first
    | (refine Sim.sat_bind _ _ _ _ (Sim.sat_true _) ?_; intro _ _)
    | exact Sim.sat_pure _ _ ⟨rfl, rfl, rfl, Or.inl ⟨rfl, rfl⟩⟩
    | (dsimp only; split)

theorem exec_srli_kept (h : rv32i_hart) (insn : Nat) (pos : Bool) :
    Sim.sat (h.exec_srli insn pos) (kept h) := by
  unfold exec_srli
  with_reducible repeat first
    | (refine Sim.sat_bind _ _ _ _ (Sim.sat_true _) ?_; intro _ _)
    | exact Sim.sat_pure _ _ ⟨rfl, rfl, rfl, Or.inl ⟨rfl, rfl⟩⟩
    | (dsimp only; split)

theorem exec_srai_kept (h : rv32i_hart) (insn : Nat) (pos : Bool) :
    Sim.sat (h.exec_srai insn pos) (kept h) := by
  unfold exec_srai
  with_reducible repeat first
    | (refine Sim.sat_bind _ _ _ _ (Sim.sat_true _) ?_; intro _ _)
    | exact Sim.sat_pure _ _ ⟨rfl, rfl, rfl, Or.inl ⟨rfl, rfl⟩⟩
    | (dsimp only; split)

theorem exec_add_kept (h : rv32i_hart) (insn : Nat) (pos : Bool) :
    Sim.sat (h.exec_add insn pos) (kept h) := by
  unfold exec_add
  with_reducible repeat first
    | (refine Sim.sat_bind _ _ _ _ (Sim.sat_true _) ?_; intro _ _)
    | exact Sim.sat_pure _ _ ⟨rfl, rfl, rfl, Or.inl ⟨rfl, rfl⟩⟩
    | (dsimp only; split)

theorem exec_sub_kept (h : rv32i_hart) (insn : Nat) (pos : Bool) :
    Sim.sat (h.exec_sub insn pos) (kept h) := by
  unfold exec_sub
  with_reducible repeat first
    | (refine Sim.sat_bind _ _ _ _ (Sim.sat_true _) ?_; intro _ _)
    | exact Sim.sat_pure _ _ ⟨rfl, rfl, rfl, Or.inl ⟨rfl, rfl⟩⟩
    | (dsimp only; split)

theorem exec_sll_kept (h : rv32i_hart) (insn : Nat) (pos : Bool) :
    Sim.sat (h.exec_sll insn pos) (kept h) := by
  unfold exec_sll
  with_reducible repeat first
    | (refine Sim.sat_bind _ _ _ _ (Sim.sat_true _) ?_; intro _ _)
    | exact Sim.sat_pure _ _ ⟨rfl, rfl, rfl, Or.inl ⟨rfl, rfl⟩⟩
    | (dsimp only; split)

theorem exec_slt_kept (h : rv32i_hart) (insn : Nat) (pos : Bool) :
    Sim.sat (h.exec_slt insn pos) (kept h) := by
  unfold exec_slt
  with_reducible repeat first
    | (refine Sim.sat_bind _ _ _ _ (Sim.sat_true _) ?_; intro _ _)
    | exact Sim.sat_pure _ _ ⟨rfl, rfl, rfl, Or.inl ⟨rfl, rfl⟩⟩
    | (dsimp only; split)

theorem exec_sltu_kept (h : rv32i_hart) (insn : Nat) (pos : Bool) :
    Sim.sat (h.exec_sltu insn pos) (kept h) := by
  unfold exec_sltu
  with_reducible repeat first
    | (refine Sim.sat_bind _ _ _ _ (Sim.sat_true _) ?_; intro _ _)
    | exact Sim.sat_pure _ _ ⟨rfl, rfl, rfl, Or.inl ⟨rfl, rfl⟩⟩
    | (dsimp only; split)

theorem exec_xor_kept (h : rv32i_hart) (insn : Nat) (pos : Bool) :
    Sim.sat (h.exec_xor insn pos) (kept h) := by
  unfold exec_xor
  with_reducible repeat first
    | (refine Sim.sat_bind _ _ _ _ (Sim.sat_true _) ?_; intro _ _)
    | exact Sim.sat_pure _ _ ⟨rfl, rfl, rfl, Or.inl ⟨rfl, rfl⟩⟩
    | (dsimp only; split)

theorem exec_srl_kept (h : rv32i_hart) (insn : Nat) (pos : Bool) :
    Sim.sat (h.exec_srl insn pos) (kept h) := by
  unfold exec_srl
  with_reducible repeat first
    | (refine Sim.sat_bind _ _ _ _ (Sim.sat_true _) ?_; intro _ _)
    | exact Sim.sat_pure _ _ ⟨rfl, rfl, rfl, Or.inl ⟨rfl, rfl⟩⟩
    | (dsimp only; split)

theorem exec_sra_kept (h : rv32i_hart) (insn : Nat) (pos : Bool) :
    Sim.sat (h.exec_sra insn pos) (kept h) := by
  unfold exec_sra
  with_reducible repeat first
    | (refine Sim.sat_bind _ _ _ _ (Sim.sat_true _) ?_; intro _ _)
    | exact Sim.sat_pure _ _ ⟨rfl, rfl, rfl, Or.inl ⟨rfl, rfl⟩⟩
    | (dsimp only; split)

theorem exec_or_kept (h : rv32i_hart) (insn : Nat) (pos : Bool) :
    Sim.sat (h.exec_or insn pos) (kept h) := by
  unfold exec_or
  with_reducible repeat first
    | (refine Sim.sat_bind _ _ _ _ (Sim.sat_true _) ?_; intro _ _)
    | exact Sim.sat_pure _ _ ⟨rfl, rfl, rfl, Or.inl ⟨rfl, rfl⟩⟩
    | (dsimp only; split)

theorem exec_and_kept (h : rv32i_hart) (insn : Nat) (pos : Bool) :
    Sim.sat (h.exec_and insn pos) (kept h) := by
  unfold exec_and
  with_reducible repeat first
    | (refine Sim.sat_bind _ _ _ _ (Sim.sat_true _) ?_; intro _ _)
    | exact Sim.sat_pure _ _ ⟨rfl, rfl, rfl, Or.inl ⟨rfl, rfl⟩⟩
    | (dsimp only; split)

theorem exec_csrrs_kept (h : rv32i_hart) (insn : Nat) (pos : Bool) :
    Sim.sat (h.exec_csrrs insn pos) (kept h) := by
  unfold exec_csrrs
  dsimp only
  split
  all_goals
    with_reducible repeat first
      | (refine Sim.sat_bind _ _ _ _ (Sim.sat_true _) ?_; intro _ _)
      | exact Sim.sat_pure _ _ ⟨rfl, rfl, rfl, Or.inl ⟨rfl, rfl⟩⟩
      | exact Sim.sat_pure _ _ ⟨rfl, rfl, rfl, Or.inr ⟨rfl, reason_csr_ne⟩⟩

theorem exec_kept (h : rv32i_hart) (insn : Nat) (pos : Bool) :
    Sim.sat (h.exec insn pos) (kept h) := by
  unfold exec
  dsimp only
  with_reducible repeat' first
    | refine Sim.sat_ite _ _ _ _ ?_ ?_
    | exact exec_illegal_insn_kept _ _
    | exact exec_ebreak_kept _ _ _
    | exact exec_ecall_kept _ _
    | exact exec_lui_kept _ _ _
    | exact exec_auipc_kept _ _ _
    | exact exec_jal_kept _ _ _
    | exact exec_jalr_kept _ _ _
    | exact exec_beq_kept _ _ _
    | exact exec_bne_kept _ _ _
    | exact exec_blt_kept _ _ _
    | exact exec_bge_kept _ _ _
    | exact exec_bltu_kept _ _ _
    | exact exec_bgeu_kept _ _ _
    | exact exec_addi_kept _ _ _
    | exact exec_lbu_kept _ _ _
    | exact exec_lhu_kept _ _ _
    | exact exec_lb_kept _ _ _
    | exact exec_lh_kept _ _ _
    | exact exec_lw_kept _ _ _
    | exact exec_sb_kept _ _ _
    | exact exec_sh_kept _ _ _
    | exact exec_sw_kept _ _ _
    | exact exec_slti_kept _ _ _
    | exact exec_sltiu_kept _ _ _
    | exact exec_xori_kept _ _ _
    | exact exec_ori_kept _ _ _
    | exact exec_andi_kept _ _ _
    | exact exec_slli_kept _ _ _
    | exact exec_srli_kept _ _ _
    | exact exec_srai_kept _ _ _
    | exact exec_add_kept _ _ _
    | exact exec_sub_kept _ _ _
    | exact exec_sll_kept _ _ _
    | exact exec_slt_kept _ _ _
    | exact exec_sltu_kept _ _ _
    | exact exec_xor_kept _ _ _
    | exact exec_srl_kept _ _ _
    | exact exec_sra_kept _ _ _
    | exact exec_or_kept _ _ _
    | exact exec_and_kept _ _ _
    | exact exec_csrrs_kept _ _ _

end rv32i_hart

theorem Sim.sat_imp {α : Type} (x : Sim α) (P Q : α → Prop) (hx : Sim.sat x P)
    (hPQ : ∀ a, P a → Q a) : Sim.sat x Q :=
  fun a o e => hPQ a (hx a o e)

namespace rv32i_hart

/-- One `tick` counts at most one instruction, keeps the display flags, and either keeps
the halt flag and reason or halts with a reason other than `"none"`. -/
theorem tick_kept (h : rv32i_hart) :
    Sim.sat h.tick (fun h' =>
      (h'.insn_counter = h.insn_counter ∨
        h'.insn_counter = (h.insn_counter + 1) % 18446744073709551616) ∧
      h'.show_instructions = h.show_instructions ∧ h'.show_registers = h.show_registers ∧
      ((h'.halt = h.halt ∧ h'.halt_reason = h.halt_reason) ∨
        (h'.halt = true ∧ h'.halt_reason ≠ "none"))) := by
  unfold tick
  split
  · exact Sim.sat_pure _ _ ⟨Or.inl rfl, rfl, rfl, Or.inr ⟨rfl, reason_alignment_ne⟩⟩
  · dsimp only
    refine Sim.sat_bind _ _ _ _ (Sim.sat_true _) ?_
    intro getinsn _
    split
    · refine Sim.sat_bind _ _ _ _ (exec_kept _ _ _) ?_
      intro h₁ hk
      refine Sim.sat_bind _ _ _ _ (Sim.sat_true _) ?_
      intro _ _
      split
      · refine Sim.sat_bind _ _ _ _ (Sim.sat_true _) ?_
        intro _ _
        refine Sim.sat_bind _ _ _ _ (Sim.sat_true _) ?_
        intro _ _
        exact Sim.sat_pure _ _ ⟨Or.inr hk.1, hk.2.1, hk.2.2.1, hk.2.2.2⟩
      · refine Sim.sat_bind _ _ _ _ (Sim.sat_true _) ?_
        intro _ _
        exact Sim.sat_pure _ _ ⟨Or.inr hk.1, hk.2.1, hk.2.2.1, hk.2.2.2⟩
    · split
      · refine Sim.sat_bind _ _ _ _ (exec_kept _ _ _) ?_
        intro h₁ hk
        refine Sim.sat_bind _ _ _ _ (Sim.sat_true _) ?_
        intro _ _
        exact Sim.sat_pure _ _ ⟨Or.inr hk.1, hk.2.1, hk.2.2.1, hk.2.2.2⟩
      · exact Sim.sat_imp _ _ _ (exec_kept _ _ _)
          (fun h₁ hk => ⟨Or.inr hk.1, hk.2.1, hk.2.2.1, hk.2.2.2⟩)

end rv32i_hart

/-! ## The run loop -/

theorem Sim.bind_inv {α β : Type} (x : Sim α) (f : α → Sim β) (b : β) (o : List Out)
    (h : (x >>= f) = Except.ok (b, o)) :
    ∃ a o₁ o₂, x = Except.ok (a, o₁) ∧ f a = Except.ok (b, o₂) ∧ o = o₁ ++ o₂ := by
  rw [Sim.bind_eq] at h
  rcases hx : x with e | ⟨a, o₁⟩
  · simp [hx, Sim.andThen] at h
  · rcases hf : f a with e | ⟨b', o₂⟩
    · simp [hx, hf, Sim.andThen] at h
    · simp only [hx, hf, Sim.andThen] at h
      cases h
      exact ⟨a, o₁, o₂, rfl, hf, rfl⟩

theorem Sim.bind_ok {α β : Type} (x : Sim α) (f : α → Sim β) (a : α) (b : β)
    (o₁ o₂ : List Out) (hx : x = Except.ok (a, o₁)) (hf : f a = Except.ok (b, o₂)) :
    (x >>= f) = Except.ok (b, o₁ ++ o₂) := by
  rw [Sim.bind_eq]
  simp only [hx, hf, Sim.andThen]

namespace cpu_single_hart

theorem set_halt_of_halted (h : rv32i_hart) (hh : h.halt = true) :
    ({ h with halt := true } : rv32i_hart) = h := by
  obtain ⟨mem, regs, pc, cnt, hlt, reason, si, sr⟩ := h
  have e : hlt = true := hh
  rw [e]

theorem run_ticks_halted (N k lmt : Nat) (h : rv32i_hart) (hh : h.halt = true) :
    run_ticks N k lmt h = Except.ok (h, []) := by
  cases k with
  | zero => rfl
  | succ k =>
    rw [run_ticks]
    simp only [hh, if_true]
    rfl

theorem run_ticks_step (N k lmt : Nat) (h s : rv32i_hart) (o : List Out)
    (hh : h.halt = false) (hs : run_ticks N (k + 1) lmt h = Except.ok (s, o)) :
    ∃ h₁ o₁ o₂, h.tick = Except.ok (h₁, o₁) ∧
      run_ticks N k (lmt + 1)
        (if lmt + 1 = N - 1 then h₁.set_show_registers false else h₁) = Except.ok (s, o₂) ∧
      o = o₁ ++ o₂ := by
  rw [run_ticks] at hs
  simp only [hh, Bool.false_eq_true, if_false] at hs
  exact Sim.bind_inv _ _ _ _ hs

theorem run_limited_loop_halted (N fuel lmt : Nat) (h : rv32i_hart) (hh : h.halt = true) :
    run_limited_loop N fuel lmt h = Except.ok (some h, []) := by
  cases fuel with
  | zero =>
    rw [run_limited_loop]
    simp only [rv32i_hart.is_halted, hh, Bool.not_true, Bool.false_eq_true, if_false]
    rfl
  | succ k =>
    rw [run_limited_loop]
    simp only [rv32i_hart.is_halted, hh, Bool.not_true, Bool.false_eq_true, if_false]
    rfl

theorem run_limited_loop_last (N fuel lmt : Nat) (h h₁ : rv32i_hart) (o₁ : List Out)
    (hN64 : N < 18446744073709551616) (hl : lmt + 1 = N)
    (hh : h.halt = false) (ht : h.tick = Except.ok (h₁, o₁)) :
    ∃ out, run_limited_loop N (fuel + 1) lmt h =
      Except.ok (some { h₁ with halt := true }, out) := by
  rw [run_limited_loop]
  have e1 : (lmt + 1) % 18446744073709551616 = N := by omega
  have e2 : (N == N - 1) = false := by
    have : N ≠ N - 1 := by omega
    simp [this]
  simp only [rv32i_hart.is_halted, hh, Bool.not_false, if_true, e1, e2, Bool.false_eq_true,
    if_false, beq_self_eq_true]
  by_cases hr : (h₁.halt_reason != "none") = true
  · refine ⟨o₁ ++ [Out.terminated h₁.halt_reason, Out.executed h₁.insn_counter],
      Sim.bind_ok _ _ h₁ _ o₁ _ ht ?_⟩
    simp [rv32i_hart.set_halt, rv32i_hart.get_halt_reason, rv32i_hart.get_insn_counter, hr,
      Sim.emit, Sim.bind_eq, Sim.andThen, Sim.pure_eq]
  · refine ⟨o₁ ++ [Out.executed h₁.insn_counter], Sim.bind_ok _ _ h₁ _ o₁ _ ht ?_⟩
    simp [rv32i_hart.set_halt, rv32i_hart.get_halt_reason, rv32i_hart.get_insn_counter, hr,
      Sim.emit, Sim.bind_eq, Sim.andThen, Sim.pure_eq]

theorem run_limited_loop_step (N fuel lmt : Nat) (h h₁ : rv32i_hart) (o₁ o₂ : List Out)
    (r : Option rv32i_hart) (hN64 : N < 18446744073709551616) (hl : lmt + 1 < N)
    (hh : h.halt = false) (ht : h.tick = Except.ok (h₁, o₁))
    (hr : run_limited_loop N fuel (lmt + 1)
      (if lmt + 1 = N - 1 then h₁.set_show_registers false else h₁) = Except.ok (r, o₂)) :
    run_limited_loop N (fuel + 1) lmt h = Except.ok (r, o₁ ++ o₂) := by
  rw [run_limited_loop]
  have e1 : (lmt + 1) % 18446744073709551616 = lmt + 1 := by omega
  have e2 : (lmt + 1 == N) = false := by
    have : lmt + 1 ≠ N := by omega
    simp [this]
  simp only [rv32i_hart.is_halted, hh, Bool.not_false, if_true, e1, e2, Bool.false_eq_true,
    if_false]
  refine Sim.bind_ok _ _ h₁ _ o₁ _ ht ?_
  simp only [beq_iff_eq]
  exact hr

end cpu_single_hart

namespace cpu_single_hart

theorem run_ticks_kept (N : Nat) : ∀ (k lmt : Nat) (h s : rv32i_hart) (o : List Out),
    run_ticks N k lmt h = Except.ok (s, o) →
    s.insn_counter ≤ h.insn_counter + k ∧
    (s.halt = false → s.halt_reason = h.halt_reason ∧ h.halt = false) := by
  intro k
  induction k with
  | zero =>
    intro lmt h s o hs
    have e : (Except.ok (h, []) : Sim rv32i_hart) = Except.ok (s, o) := hs
    cases e
    exact ⟨Nat.le_refl _, fun c => ⟨rfl, c⟩⟩
  | succ k ih =>
    intro lmt h s o hs
    by_cases hh : h.halt = true
    · rw [run_ticks_halted N (k + 1) lmt h hh] at hs
      cases hs
      refine ⟨by omega, fun c => ?_⟩
      rw [hh] at c
      exact Bool.noConfusion c
    · have hf : h.halt = false := by
        cases hb : h.halt
        · rfl
        · exact absurd hb hh
      obtain ⟨h₁, o₁, o₂, ht, hr, _⟩ := run_ticks_step N k lmt h s o hf hs
      obtain ⟨hc, _, _, hd⟩ := rv32i_hart.tick_kept h h₁ o₁ ht
      obtain ⟨hc', hs'⟩ := ih (lmt + 1) _ s o₂ hr
      have e1 : (if lmt + 1 = N - 1 then h₁.set_show_registers false else h₁).insn_counter =
          h₁.insn_counter := by
        split <;> rfl
      have e2 : (if lmt + 1 = N - 1 then h₁.set_show_registers false else h₁).halt =
          h₁.halt := by
        split <;> rfl
      have e3 : (if lmt + 1 = N - 1 then h₁.set_show_registers false else h₁).halt_reason =
          h₁.halt_reason := by
        split <;> rfl
      rw [e1] at hc'
      rw [e2, e3] at hs'
      refine ⟨by omega, fun c => ?_⟩
      obtain ⟨hr1, hh1⟩ := hs' c
      rcases hd with ⟨_, hsame⟩ | ⟨htrue, _⟩
      · exact ⟨hr1.trans hsame, hf⟩
      · rw [hh1] at htrue
        exact Bool.noConfusion htrue

theorem run_limited_loop_of_ticks (N : Nat) (hN64 : N < 18446744073709551616) :
    ∀ (fuel lmt : Nat) (h s : rv32i_hart) (o : List Out), lmt + fuel + 1 = N →
    run_ticks N (fuel + 1) lmt h = Except.ok (s, o) →
    ∃ out, run_limited_loop N (fuel + 1) lmt h =
      Except.ok (some { s with halt := true }, out) := by
  intro fuel
  induction fuel with
  | zero =>
    intro lmt h s o hl hs
    by_cases hh : h.halt = true
    · rw [run_ticks_halted N 1 lmt h hh] at hs
      cases hs
      rw [set_halt_of_halted h hh]
      exact ⟨_, run_limited_loop_halted N 1 lmt h hh⟩
    · have hf : h.halt = false := by
        cases hb : h.halt
        · rfl
        · exact absurd hb hh
      obtain ⟨h₁, o₁, o₂, ht, hr, _⟩ := run_ticks_step N 0 lmt h s o hf hs
      have hne : ¬ (lmt + 1 = N - 1) := by omega
      rw [if_neg hne] at hr
      have e : (Except.ok (h₁, []) : Sim rv32i_hart) = Except.ok (s, o₂) := hr
      cases e
      exact run_limited_loop_last N 0 lmt h _ o₁ hN64 (by omega) hf ht
  | succ fuel ih =>
    intro lmt h s o hl hs
    by_cases hh : h.halt = true
    · rw [run_ticks_halted N (fuel + 1 + 1) lmt h hh] at hs
      cases hs
      rw [set_halt_of_halted h hh]
      exact ⟨_, run_limited_loop_halted N (fuel + 1 + 1) lmt h hh⟩
    · have hf : h.halt = false := by
        cases hb : h.halt
        · rfl
        · exact absurd hb hh
      obtain ⟨h₁, o₁, o₂, ht, hr, _⟩ := run_ticks_step N (fuel + 1) lmt h s o hf hs
      obtain ⟨out, hloop⟩ := ih (lmt + 1) _ s o₂ (by omega) hr
      exact ⟨_, run_limited_loop_step N (fuel + 1) lmt h h₁ o₁ out _ hN64 (by omega) hf ht
        hloop⟩

end cpu_single_hart

/-- The loop of `run(N)` when its ticks return: for every budget `N` with `0 < N < 2^64`
and every hart state for which the ticks of the loop (`run_ticks`: at most `N` ticks, none
once the hart is halted) return and leave the hart `s`, `run(N)` ends within `N`
iterations of its loop (`N` units of fuel, one `tick` each, are enough) and returns `s`
with `halted = true`, with `insn_counter ≤ old insn_counter + N`; and if no tick has
halted the hart (`s` is not halted) the halt reason is the one at the start, `"none"` if it
was `"none"`. -/
theorem cpu_single_hart.run_budget (h s : rv32i_hart) (N : Nat) (o : List Out)
    (hN : 0 < N) (hN64 : N < 18446744073709551616)
    (hs : cpu_single_hart.run_ticks N N 0 h = Except.ok (s, o)) :
    ∃ h' out, cpu_single_hart.run h N N = Except.ok (some h', out) ∧
      h' = { s with halt := true } ∧ h'.halt = true ∧
      h'.insn_counter ≤ h.insn_counter + N ∧
      (s.halt = false → h'.halt_reason = h.halt_reason) ∧
      (s.halt = false → h.halt_reason = "none" → h'.halt_reason = "none") := by
  obtain ⟨fuel, rfl⟩ : ∃ fuel, N = fuel + 1 := ⟨N - 1, by omega⟩
  obtain ⟨out, hloop⟩ := cpu_single_hart.run_limited_loop_of_ticks (fuel + 1) hN64 fuel 0 h s o
    (by omega) hs
  obtain ⟨hc, hr⟩ := cpu_single_hart.run_ticks_kept (fuel + 1) (fuel + 1) 0 h s o hs
  have hrun : cpu_single_hart.run h (fuel + 1) (fuel + 1) =
      cpu_single_hart.run_limited_loop (fuel + 1) (fuel + 1) 0 h := by
    unfold cpu_single_hart.run
    have hne : (fuel + 1 == 0) = false := by simp
    simp only [hne, Bool.false_eq_true, if_false]
  refine ⟨_, out, hrun.trans hloop, rfl, rfl, hc, fun c => (hr c).1, fun c e => ?_⟩
  exact ((hr c).1).trans e

set_option maxRecDepth 100000 in
theorem scenario_addi_run_ticks :
    cpu_single_hart.run_ticks 1 1 0 scenario_addi = Except.ok (scenario_addi_after, []) := by
  rfl

set_option maxRecDepth 100000 in
theorem cpu_single_hart.run_budget_witness :
    0 < 1 ∧ 1 < 18446744073709551616 ∧ scenario_addi.halt = false ∧
    cpu_single_hart.run_ticks 1 1 0 scenario_addi = Except.ok (scenario_addi_after, []) ∧
    (∃ h' out, cpu_single_hart.run scenario_addi 1 1 = Except.ok (some h', out) ∧
      h' = { scenario_addi_after with halt := true } ∧ h'.halt = true ∧
      h'.insn_counter ≤ scenario_addi.insn_counter + 1 ∧
      (scenario_addi_after.halt = false → h'.halt_reason = scenario_addi.halt_reason) ∧
      (scenario_addi_after.halt = false → scenario_addi.halt_reason = "none" →
        h'.halt_reason = "none")) ∧
    cpu_single_hart.run scenario_addi 1 1 =
      Except.ok (some { scenario_addi_after with halt := true }, [Out.executed 1]) :=
  ⟨by decide, by decide, rfl, scenario_addi_run_ticks,
    cpu_single_hart.run_budget scenario_addi scenario_addi_after 1 [] (by decide) (by decide)
      scenario_addi_run_ticks,
    rfl⟩

/-! ## The states reached from `reset` by ticks -/

namespace rv32i_hart

/-- What holds of a hart and is kept by every `tick` holds after any number of ticks. -/
theorem ticks_sat (Q : rv32i_hart → Prop) (hQ : ∀ h, Q h → Sim.sat h.tick Q) (n : Nat)
    (h : rv32i_hart) (h0 : Q h) : Sim.sat (h.ticks n) Q := by
  induction n generalizing h with
  | zero => exact Sim.sat_pure _ _ h0
  | succ n ih =>
    unfold ticks
    exact Sim.sat_bind _ _ _ _ (hQ h h0) (fun h₁ hh₁ => ih h₁ hh₁)

theorem reset_sat (h : rv32i_hart) :
    Sim.sat h.reset (fun r => r.pc = 0 ∧ r.insn_counter = 0 ∧ r.halt = false ∧
      r.halt_reason = "none" ∧ r.mem = h.mem) := by
  unfold reset
  dsimp only
  refine Sim.sat_bind _ _ _ _ (Sim.sat_true _) ?_
  intro _ _
  exact Sim.sat_pure _ _ ⟨rfl, rfl, rfl, rfl, rfl⟩

/-- The halt flag and the halt reason go together: kept by `tick`. -/
theorem tick_reason (h : rv32i_hart)
    (hi : (h.halt = true → h.halt_reason ≠ "none") ∧ (h.halt = false → h.halt_reason = "none")) :
    Sim.sat h.tick (fun h' =>
      (h'.halt = true → h'.halt_reason ≠ "none") ∧
      (h'.halt = false → h'.halt_reason = "none")) := by
  refine Sim.sat_imp _ _ _ (tick_kept h) ?_
  intro h' hk
  obtain ⟨_, _, _, hd⟩ := hk
  rcases hd with ⟨e1, e2⟩ | ⟨e1, e2⟩
  · rw [e1, e2]
    exact hi
  · refine ⟨fun _ => e2, fun c => ?_⟩
    rw [e1] at c
    exact Bool.noConfusion c

end rv32i_hart

set_option maxRecDepth 100000 in
theorem scenario_addi_reset : scenario_addi.reset = Except.ok (scenario_addi, []) := by
  rfl

/-- C39: in every state `s` reached from a state `reset` returns by any number of ticks,
`halted = true` implies `halt_reason ≠ "none"` and `halted = false` implies
`halt_reason = "none"`; and a `tick` that returns on `s` with `halted = true` leaves
`halted = true`. -/
theorem rv32i_hart.halt_reason_invariant (h₀ r s : rv32i_hart) (n : Nat) (o o' : List Out)
    (hr : h₀.reset = Except.ok (r, o)) (ht : r.ticks n = Except.ok (s, o')) :
    (s.halt = true → s.halt_reason ≠ "none") ∧ (s.halt = false → s.halt_reason = "none") ∧
    (∀ s' o'', s.halt = true → s.tick = Except.ok (s', o'') → s'.halt = true) := by
  obtain ⟨_, _, hh, hn, _⟩ := rv32i_hart.reset_sat h₀ r o hr
  have hi : (r.halt = true → r.halt_reason ≠ "none") ∧
      (r.halt = false → r.halt_reason = "none") := by
    refine ⟨fun c => ?_, fun _ => hn⟩
    rw [hh] at c
    exact Bool.noConfusion c
  obtain ⟨h1, h2⟩ := rv32i_hart.ticks_sat _ rv32i_hart.tick_reason n r hi s o' ht
  exact ⟨h1, h2, fun s' o'' hs hts => rv32i_hart.tick_halt s hs s' o'' hts⟩

theorem rv32i_hart.halt_reason_invariant_witness :
    scenario_addi.reset = Except.ok (scenario_addi, []) ∧
    scenario_addi.ticks 1 = Except.ok (scenario_addi_after, []) ∧
    ((scenario_addi_after.halt = true → scenario_addi_after.halt_reason ≠ "none") ∧
    (scenario_addi_after.halt = false → scenario_addi_after.halt_reason = "none") ∧
    (∀ s' o'', scenario_addi_after.halt = true →
      scenario_addi_after.tick = Except.ok (s', o'') → s'.halt = true)) :=
  ⟨scenario_addi_reset, scenario_addi_tick,
    rv32i_hart.halt_reason_invariant scenario_addi scenario_addi scenario_addi_after 1 [] []
      scenario_addi_reset scenario_addi_tick⟩

/-! ## Who sets the reason `"Illegal instruction"` -/

namespace rv32i_hart

set_option linter.unusedTactic false
set_option linter.unreachableTactic false

theorem reason_ebreak_legal : "EBREAK instruction" ≠ "Illegal instruction" := by decide

theorem reason_ecall_legal : "ECALL instruction" ≠ "Illegal instruction" := by decide

theorem reason_csr_legal : "Illegal CSR in CSRRS instruction" ≠ "Illegal instruction" := by
  decide

theorem exec_ebreak_accepted (h : rv32i_hart) (insn : Int) (pos : Bool) :
    Sim.sat (h.exec_ebreak insn pos) (legal_kept h) := by
  unfold exec_ebreak
  refine Sim.sat_bind _ _ _ _ (Sim.sat_true _) ?_
  intro _ _
  exact Sim.sat_pure _ _ (Or.inr reason_ebreak_legal)

theorem exec_ecall_accepted (h : rv32i_hart) (pos : Bool) :
    Sim.sat (h.exec_ecall pos) (legal_kept h) := by
  unfold exec_ecall
  refine Sim.sat_bind _ _ _ _ (Sim.sat_true _) ?_
  intro _ _
  exact Sim.sat_pure _ _ (Or.inr reason_ecall_legal)

theorem exec_lui_accepted (h : rv32i_hart) (insn : Nat) (pos : Bool) :
    Sim.sat (h.exec_lui insn pos) (legal_kept h) := by
  unfold exec_lui
  with_reducible repeat first
    | (refine Sim.sat_bind _ _ _ _ (Sim.sat_true _) ?_; intro _ _)
    | exact Sim.sat_pure _ _ (Or.inl ⟨rfl, rfl⟩)
    | (dsimp only; split)

theorem exec_auipc_accepted (h : rv32i_hart) (insn : Nat) (pos : Bool) :
    Sim.sat (h.exec_auipc insn pos) (legal_kept h) := by
  unfold exec_auipc
  with_reducible repeat first
    | (refine Sim.sat_bind _ _ _ _ (Sim.sat_true _) ?_; intro _ _)
    | exact Sim.sat_pure _ _ (Or.inl ⟨rfl, rfl⟩)
    | (dsimp only; split)

theorem exec_jal_accepted (h : rv32i_hart) (insn : Nat) (pos : Bool) :
    Sim.sat (h.exec_jal insn pos) (legal_kept h) := by
  unfold exec_jal
  with_reducible repeat first
    | (refine Sim.sat_bind _ _ _ _ (Sim.sat_true _) ?_; intro _ _)
    | exact Sim.sat_pure _ _ (Or.inl ⟨rfl, rfl⟩)
    | (dsimp only; split)

theorem exec_jalr_accepted (h : rv32i_hart) (insn : Nat) (pos : Bool) :
    Sim.sat (h.exec_jalr insn pos) (legal_kept h) := by
  unfold exec_jalr
  with_reducible repeat first
    | (refine Sim.sat_bind _ _ _ _ (Sim.sat_true _) ?_; intro _ _)
    | exact Sim.sat_pure _ _ (Or.inl ⟨rfl, rfl⟩)
    | (dsimp only; split)

theorem exec_beq_accepted (h : rv32i_hart) (insn : Nat) (pos : Bool) :
    Sim.sat (h.exec_beq insn pos) (legal_kept h) := by
  unfold exec_beq
  with_reducible repeat first
    | (refine Sim.sat_bind _ _ _ _ (Sim.sat_true _) ?_; intro _ _)
    | exact Sim.sat_pure _ _ (Or.inl ⟨rfl, rfl⟩)
    | (dsimp only; split)

theorem exec_bne_accepted (h : rv32i_hart) (insn : Nat) (pos : Bool) :
    Sim.sat (h.exec_bne insn pos) (legal_kept h) := by
  unfold exec_bne
  with_reducible repeat first
    | (refine Sim.sat_bind _ _ _ _ (Sim.sat_true _) ?_; intro _ _)
    | exact Sim.sat_pure _ _ (Or.inl ⟨rfl, rfl⟩)
    | (dsimp only; split)

theorem exec_blt_accepted (h : rv32i_hart) (insn : Nat) (pos : Bool) :
    Sim.sat (h.exec_blt insn pos) (legal_kept h) := by
  unfold exec_blt
  with_reducible repeat first
    | (refine Sim.sat_bind _ _ _ _ (Sim.sat_true _) ?_; intro _ _)
    | exact Sim.sat_pure _ _ (Or.inl ⟨rfl, rfl⟩)
    | (dsimp only; split)

theorem exec_bge_accepted (h : rv32i_hart) (insn : Nat) (pos : Bool) :
    Sim.sat (h.exec_bge insn pos) (legal_kept h) := by
  unfold exec_bge
  with_reducible repeat first
    | (refine Sim.sat_bind _ _ _ _ (Sim.sat_true _) ?_; intro _ _)
    | exact Sim.sat_pure _ _ (Or.inl ⟨rfl, rfl⟩)
    | (dsimp only; split)

theorem exec_bltu_accepted (h : rv32i_hart) (insn : Nat) (pos : Bool) :
    Sim.sat (h.exec_bltu insn pos) (legal_kept h) := by
  unfold exec_bltu
  with_reducible repeat first
    | (refine Sim.sat_bind _ _ _ _ (Sim.sat_true _) ?_; intro _ _)
    | exact Sim.sat_pure _ _ (Or.inl ⟨rfl, rfl⟩)
    | (dsimp only; split)

theorem exec_bgeu_accepted (h : rv32i_hart) (insn : Nat) (pos : Bool) :
    Sim.sat (h.exec_bgeu insn pos) (legal_kept h) := by
  unfold exec_bgeu
  with_reducible repeat first
    | (refine Sim.sat_bind _ _ _ _ (Sim.sat_true _) ?_; intro _ _)
    | exact Sim.sat_pure _ _ (Or.inl ⟨rfl, rfl⟩)
    | (dsimp only; split)

theorem exec_addi_accepted (h : rv32i_hart) (insn : Nat) (pos : Bool) :
    Sim.sat (h.exec_addi insn pos) (legal_kept h) := by
  unfold exec_addi
  with_reducible repeat first
    | (refine Sim.sat_bind _ _ _ _ (Sim.sat_true _) ?_; intro _ _)
    | exact Sim.sat_pure _ _ (Or.inl ⟨rfl, rfl⟩)
    | (dsimp only; split)

theorem exec_lbu_accepted (h : rv32i_hart) (insn : Nat) (pos : Bool) :
    Sim.sat (h.exec_lbu insn pos) (legal_kept h) := by
  unfold exec_lbu
  with_reducible repeat first
    | (refine Sim.sat_bind _ _ _ _ (Sim.sat_true _) ?_; intro _ _)
    | exact Sim.sat_pure _ _ (Or.inl ⟨rfl, rfl⟩)
    | (dsimp only; split)

theorem exec_lhu_accepted (h : rv32i_hart) (insn : Nat) (pos : Bool) :
    Sim.sat (h.exec_lhu insn pos) (legal_kept h) := by
  unfold exec_lhu
  with_reducible repeat first
    | (refine Sim.sat_bind _ _ _ _ (Sim.sat_true _) ?_; intro _ _)
    | exact Sim.sat_pure _ _ (Or.inl ⟨rfl, rfl⟩)
    | (dsimp only; split)

theorem exec_lb_accepted (h : rv32i_hart) (insn : Nat) (pos : Bool) :
    Sim.sat (h.exec_lb insn pos) (legal_kept h) := by
  unfold exec_lb
  with_reducible repeat first
    | (refine Sim.sat_bind _ _ _ _ (Sim.sat_true _) ?_; intro _ _)
    | exact Sim.sat_pure _ _ (Or.inl ⟨rfl, rfl⟩)
    | (dsimp only; split)

theorem exec_lh_accepted (h : rv32i_hart) (insn : Nat) (pos : Bool) :
    Sim.sat (h.exec_lh insn pos) (legal_kept h) := by
  unfold exec_lh
  with_reducible repeat first
    | (refine Sim.sat_bind _ _ _ _ (Sim.sat_true _) ?_; intro _ _)
    | exact Sim.sat_pure _ _ (Or.inl ⟨rfl, rfl⟩)
    | (dsimp only; split)

theorem exec_lw_accepted (h : rv32i_hart) (insn : Nat) (pos : Bool) :
    Sim.sat (h.exec_lw insn pos) (legal_kept h) := by
  unfold exec_lw
  with_reducible repeat first
    | (refine Sim.sat_bind _ _ _ _ (Sim.sat_true _) ?_; intro _ _)
    | exact Sim.sat_pure _ _ (Or.inl ⟨rfl, rfl⟩)
    | (dsimp only; split)

theorem exec_sb_accepted (h : rv32i_hart) (insn : Nat) (pos : Bool) :
    Sim.sat (h.exec_sb insn pos) (legal_kept h) := by
  unfold exec_sb
  with_reducible repeat first
    | (refine Sim.sat_bind _ _ _ _ (Sim.sat_true _) ?_; intro _ _)
    | exact Sim.sat_pure _ _ (Or.inl ⟨rfl, rfl⟩)
    | (dsimp only; split)

theorem exec_sh_accepted (h : rv32i_hart) (insn : Nat) (pos : Bool) :
    Sim.sat (h.exec_sh insn pos) (legal_kept h) := by
  unfold exec_sh
  with_reducible repeat first
    | (refine Sim.sat_bind _ _ _ _ (Sim.sat_true _) ?_; intro _ _)
    | exact Sim.sat_pure _ _ (Or.inl ⟨rfl, rfl⟩)
    | (dsimp only; split)

theorem exec_sw_accepted (h : rv32i_hart) (insn : Nat) (pos : Bool) :
    Sim.sat (h.exec_sw insn pos) (legal_kept h) := by
  unfold exec_sw
  with_reducible repeat first
    | (refine Sim.sat_bind _ _ _ _ (Sim.sat_true _) ?_; intro _ _)
    | exact Sim.sat_pure _ _ (Or.inl ⟨rfl, rfl⟩)
    | (dsimp only; split)

theorem exec_slti_accepted (h : rv32i_hart) (insn : Nat) (pos : Bool) :
    Sim.sat (h.exec_slti insn pos) (legal_kept h) := by
  unfold exec_slti
  with_reducible repeat first
    | (refine Sim.sat_bind _ _ _ _ (Sim.sat_true _) ?_; intro _ _)
    | exact Sim.sat_pure _ _ (Or.inl ⟨rfl, rfl⟩)
    | (dsimp only; split)

theorem exec_sltiu_accepted (h : rv32i_hart) (insn : Nat) (pos : Bool) :
    Sim.sat (h.exec_sltiu insn pos) (legal_kept h) := by
  unfold exec_sltiu
  with_reducible repeat first
    | (refine Sim.sat_bind _ _ _ _ (Sim.sat_true _) ?_; intro _ _)
    | exact Sim.sat_pure _ _ (Or.inl ⟨rfl, rfl⟩)
    | (dsimp only; split)

theorem exec_xori_accepted (h : rv32i_hart) (insn : Nat) (pos : Bool) :
    Sim.sat (h.exec_xori insn pos) (legal_kept h) := by
  unfold exec_xori
  with_reducible repeat first
    | (refine Sim.sat_bind _ _ _ _ (Sim.sat_true _) ?_; intro _ _)
    | exact Sim.sat_pure _ _ (Or.inl ⟨rfl, rfl⟩)
    | (dsimp only; split)

theorem exec_ori_accepted (h : rv32i_hart) (insn : Nat) (pos : Bool) :
    Sim.sat (h.exec_ori insn pos) (legal_kept h) := by
  unfold exec_ori
  with_reducible repeat first
    | (refine Sim.sat_bind _ _ _ _ (Sim.sat_true _) ?_; intro _ _)
    | exact Sim.sat_pure _ _ (Or.inl ⟨rfl, rfl⟩)
    | (dsimp only; split)

theorem exec_andi_accepted (h : rv32i_hart) (insn : Nat) (pos : Bool) :
    Sim.sat (h.exec_andi insn pos) (legal_kept h) := by
  unfold exec_andi
  with_reducible repeat first
    | (refine Sim.sat_bind _ _ _ _ (Sim.sat_true _) ?_; intro _ _)
    | exact Sim.sat_pure _ _ (Or.inl ⟨rfl, rfl⟩)
    | (dsimp only; split)

theorem exec_slli_accepted (h : rv32i_hart) (insn : Nat) (pos : Bool) :
    Sim.sat (h.exec_slli insn pos) (legal_kept h) := by
  unfold exec_slli
  with_reducible repeat first
    | (refine Sim.sat_bind _ _ _ _ (Sim.sat_true _) ?_; intro _ _)
    | exact Sim.sat_pure _ _ (Or.inl ⟨rfl, rfl⟩)
    | (dsimp only; split)

theorem exec_srli_accepted (h : rv32i_hart) (insn : Nat) (pos : Bool) :
    Sim.sat (h.exec_srli insn pos) (legal_kept h) := by
  unfold exec_srli
  with_reducible repeat first
    | (refine Sim.sat_bind _ _ _ _ (Sim.sat_true _) ?_; intro _ _)
    | exact Sim.sat_pure _ _ (Or.inl ⟨rfl, rfl⟩)
    | (dsimp only; split)

theorem exec_srai_accepted (h : rv32i_hart) (insn : Nat) (pos : Bool) :
    Sim.sat (h.exec_srai insn pos) (legal_kept h) := by
  unfold exec_srai
  with_reducible repeat first
    | (refine Sim.sat_bind _ _ _ _ (Sim.sat_true _) ?_; intro _ _)
    | exact Sim.sat_pure _ _ (Or.inl ⟨rfl, rfl⟩)
    | (dsimp only; split)

theorem exec_add_accepted (h : rv32i_hart) (insn : Nat) (pos : Bool) :
    Sim.sat (h.exec_add insn pos) (legal_kept h) := by
  unfold exec_add
  with_reducible repeat first
    | (refine Sim.sat_bind _ _ _ _ (Sim.sat_true _) ?_; intro _ _)
    | exact Sim.sat_pure _ _ (Or.inl ⟨rfl, rfl⟩)
    | (dsimp only; split)

theorem exec_sub_accepted (h : rv32i_hart) (insn : Nat) (pos : Bool) :
    Sim.sat (h.exec_sub insn pos) (legal_kept h) := by
  unfold exec_sub
  with_reducible repeat first
    | (refine Sim.sat_bind _ _ _ _ (Sim.sat_true _) ?_; intro _ _)
    | exact Sim.sat_pure _ _ (Or.inl ⟨rfl, rfl⟩)
    | (dsimp only; split)

theorem exec_sll_accepted (h : rv32i_hart) (insn : Nat) (pos : Bool) :
    Sim.sat (h.exec_sll insn pos) (legal_kept h) := by
  unfold exec_sll
  with_reducible repeat first
    | (refine Sim.sat_bind _ _ _ _ (Sim.sat_true _) ?_; intro _ _)
    | exact Sim.sat_pure _ _ (Or.inl ⟨rfl, rfl⟩)
    | (dsimp only; split)

theorem exec_slt_accepted (h : rv32i_hart) (insn : Nat) (pos : Bool) :
    Sim.sat (h.exec_slt insn pos) (legal_kept h) := by
  unfold exec_slt
  with_reducible repeat first
    | (refine Sim.sat_bind _ _ _ _ (Sim.sat_true _) ?_; intro _ _)
    | exact Sim.sat_pure _ _ (Or.inl ⟨rfl, rfl⟩)
    | (dsimp only; split)

theorem exec_sltu_accepted (h : rv32i_hart) (insn : Nat) (pos : Bool) :
    Sim.sat (h.exec_sltu insn pos) (legal_kept h) := by
  unfold exec_sltu
  with_reducible repeat first
    | (refine Sim.sat_bind _ _ _ _ (Sim.sat_true _) ?_; intro _ _)
    | exact Sim.sat_pure _ _ (Or.inl ⟨rfl, rfl⟩)
    | (dsimp only; split)

theorem exec_xor_accepted (h : rv32i_hart) (insn : Nat) (pos : Bool) :
    Sim.sat (h.exec_xor insn pos) (legal_kept h) := by
  unfold exec_xor
  with_reducible repeat first
    | (refine Sim.sat_bind _ _ _ _ (Sim.sat_true _) ?_; intro _ _)
    | exact Sim.sat_pure _ _ (Or.inl ⟨rfl, rfl⟩)
    | (dsimp only; split)

theorem exec_srl_accepted (h : rv32i_hart) (insn : Nat) (pos : Bool) :
    Sim.sat (h.exec_srl insn pos) (legal_kept h) := by
  unfold exec_srl
  with_reducible repeat first
    | (refine Sim.sat_bind _ _ _ _ (Sim.sat_true _) ?_; intro _ _)
    | exact Sim.sat_pure _ _ (Or.inl ⟨rfl, rfl⟩)
    | (dsimp only; split)

theorem exec_sra_accepted (h : rv32i_hart) (insn : Nat) (pos : Bool) :
    Sim.sat (h.exec_sra insn pos) (legal_kept h) := by
  unfold exec_sra
  with_reducible repeat first
    | (refine Sim.sat_bind _ _ _ _ (Sim.sat_true _) ?_; intro _ _)
    | exact Sim.sat_pure _ _ (Or.inl ⟨rfl, rfl⟩)
    | (dsimp only; split)

theorem exec_or_accepted (h : rv32i_hart) (insn : Nat) (pos : Bool) :
    Sim.sat (h.exec_or insn pos) (legal_kept h) := by
  unfold exec_or
  with_reducible repeat first
    | (refine Sim.sat_bind _ _ _ _ (Sim.sat_true _) ?_; intro _ _)
    | exact Sim.sat_pure _ _ (Or.inl ⟨rfl, rfl⟩)
    | (dsimp only; split)

theorem exec_and_accepted (h : rv32i_hart) (insn : Nat) (pos : Bool) :
    Sim.sat (h.exec_and insn pos) (legal_kept h) := by
  unfold exec_and
  with_reducible repeat first
    | (refine Sim.sat_bind _ _ _ _ (Sim.sat_true _) ?_; intro _ _)
    | exact Sim.sat_pure _ _ (Or.inl ⟨rfl, rfl⟩)
    | (dsimp only; split)

theorem exec_csrrs_accepted (h : rv32i_hart) (insn : Nat) (pos : Bool) :
    Sim.sat (h.exec_csrrs insn pos) (legal_kept h) := by
  unfold exec_csrrs
  dsimp only
  split
  all_goals
    with_reducible repeat first
      | (refine Sim.sat_bind _ _ _ _ (Sim.sat_true _) ?_; intro _ _)
      | exact Sim.sat_pure _ _ (Or.inl ⟨rfl, rfl⟩)
      | exact Sim.sat_pure _ _ (Or.inr reason_csr_legal)

theorem ite_sat_accepts {α : Type} (c : Prop) [Decidable c] (b₁ b₂ : Bool) (x₁ x₂ : Sim α)
    (Q : α → Prop) (h₁ : b₁ = false → Sim.sat x₁ Q) (h₂ : b₂ = false → Sim.sat x₂ Q) :
    (if c then b₁ else b₂) = false → Sim.sat (if c then x₁ else x₂) Q := by
  split
  · exact h₁
  · exact h₂

/-- A word that `exec_rejects` does not is executed by an executor other than
`exec_illegal_insn`. -/
theorem exec_accepted (h : rv32i_hart) (insn : Nat) (pos : Bool) :
    exec_rejects insn = false → Sim.sat (h.exec insn pos) (legal_kept h) := by
  unfold exec exec_rejects
  dsimp only
  with_reducible repeat' first
    | refine ite_sat_accepts _ _ _ _ _ _ ?_ ?_
    | exact fun e => Bool.noConfusion e
    | exact fun _ => exec_ebreak_accepted _ _ _
    | exact fun _ => exec_ecall_accepted _ _
    | exact fun _ => exec_lui_accepted _ _ _
    | exact fun _ => exec_auipc_accepted _ _ _
    | exact fun _ => exec_jal_accepted _ _ _
    | exact fun _ => exec_jalr_accepted _ _ _
    | exact fun _ => exec_beq_accepted _ _ _
    | exact fun _ => exec_bne_accepted _ _ _
    | exact fun _ => exec_blt_accepted _ _ _
    | exact fun _ => exec_bge_accepted _ _ _
    | exact fun _ => exec_bltu_accepted _ _ _
    | exact fun _ => exec_bgeu_accepted _ _ _
    | exact fun _ => exec_addi_accepted _ _ _
    | exact fun _ => exec_lbu_accepted _ _ _
    | exact fun _ => exec_lhu_accepted _ _ _
    | exact fun _ => exec_lb_accepted _ _ _
    | exact fun _ => exec_lh_accepted _ _ _
    | exact fun _ => exec_lw_accepted _ _ _
    | exact fun _ => exec_sb_accepted _ _ _
    | exact fun _ => exec_sh_accepted _ _ _
    | exact fun _ => exec_sw_accepted _ _ _
    | exact fun _ => exec_slti_accepted _ _ _
    | exact fun _ => exec_sltiu_accepted _ _ _
    | exact fun _ => exec_xori_accepted _ _ _
    | exact fun _ => exec_ori_accepted _ _ _
    | exact fun _ => exec_andi_accepted _ _ _
    | exact fun _ => exec_slli_accepted _ _ _
    | exact fun _ => exec_srli_accepted _ _ _
    | exact fun _ => exec_srai_accepted _ _ _
    | exact fun _ => exec_add_accepted _ _ _
    | exact fun _ => exec_sub_accepted _ _ _
    | exact fun _ => exec_sll_accepted _ _ _
    | exact fun _ => exec_slt_accepted _ _ _
    | exact fun _ => exec_sltu_accepted _ _ _
    | exact fun _ => exec_xor_accepted _ _ _
    | exact fun _ => exec_srl_accepted _ _ _
    | exact fun _ => exec_sra_accepted _ _ _
    | exact fun _ => exec_or_accepted _ _ _
    | exact fun _ => exec_and_accepted _ _ _
    | exact fun _ => exec_csrrs_accepted _ _ _

end rv32i_hart

/-! ## The disassembler and the executor on illegal words -/

/-- The switch of `exec` rejects what the switch of `decode` rejects, and the SYSTEM words
with funct3 1, 3, 5, 6, 7 besides. -/
theorem exec_rejects_eq (w : Nat) :
    rv32i_hart.exec_rejects w =
      (decode_rejects w || (get_opcode w == 0x73 && [1, 3, 5, 6, 7].contains (get_funct3 w))) := by
  have hf3 := get_funct3_lt w
  unfold rv32i_hart.exec_rejects decode_rejects
  simp only [opcode_lui, opcode_auipc, opcode_jal, opcode_jalr, opcode_rtype, opcode_btype,
    opcode_system, opcode_stype, opcode_alu_imm, opcode_load_imm, funct3_add, funct3_sll,
    funct3_slt, funct3_sltu, funct3_xor, funct3_srx, funct3_or, funct3_and, funct3_beq,
    funct3_bne, funct3_blt, funct3_bge, funct3_bltu, funct3_bgeu, funct3_csrrw, funct3_csrrs,
    funct3_csrrc, funct3_csrrwi, funct3_csrrsi, funct3_csrrci, funct3_e, funct3_sb, funct3_sh,
    funct3_sw, funct3_lb, funct3_lh, funct3_lw, funct3_lbu, funct3_lhu, funct7_add,
    funct7_sub, funct7_srl, funct7_sra]
  generalize get_opcode w = op
  generalize get_funct7 w = f7
  generalize get_imm_i w = imm
  generalize get_funct3 w = f3 at hf3
  have hop : op = 0x37 ∨ op = 0x17 ∨ op = 0x6f ∨ op = 0x67 ∨ op = 0x33 ∨ op = 0x63 ∨
      op = 0x73 ∨ op = 0x23 ∨ op = 0x03 ∨ op = 0x13 ∨
      (op ≠ 0x37 ∧ op ≠ 0x17 ∧ op ≠ 0x6f ∧ op ≠ 0x67 ∧ op ≠ 0x33 ∧ op ≠ 0x63 ∧
        op ≠ 0x73 ∧ op ≠ 0x23 ∧ op ≠ 0x03 ∧ op ≠ 0x13) := by
    omega
  rcases hop with e | e | e | e | e | e | e | e | e | e | ⟨h1, h2, h3, h4, h5, h6, h7, h8, h9, h10⟩
  · subst e
    simp
  · subst e
    simp
  · subst e
    simp
  · subst e
    simp
  · subst e
    interval_cases f3 <;> simp
  · subst e
    interval_cases f3 <;> simp
  · subst e
    interval_cases f3 <;> simp
    by_cases hi0 : imm = 0 <;> by_cases hi1 : imm = 1 <;> simp_all
  · subst e
    interval_cases f3 <;> simp
  · subst e
    interval_cases f3 <;> simp
  · subst e
    interval_cases f3 <;> simp
  · simp [h1, h2, h3, h4, h5, h6, h7, h8, h9, h10]

/-- C38: for every running hart, word `w` and address `a`: if `decode a w` is the error
text, `exec` of `w` returns the old state with `halted = true` and
`halt_reason = "Illegal instruction"`; and if `exec` of `w` returns a state that is halted
with `halt_reason = "Illegal instruction"`, then `decode a w` is the error text or `w` is
a SYSTEM word (opcode 0x73) with funct3 in 1, 3, 5, 6, 7. -/
theorem rv32i_hart.decode_exec_illegal (h : rv32i_hart) (w a : Nat) (pos : Bool)
    (hh : h.halt = false) :
    (decode a w = "ERROR: UNIMPLEMENTED INSTRUCTION" →
      h.exec w pos = Except.ok
        ({ h with halt := true, halt_reason := "Illegal instruction" },
          rv32i_hart.trace_out pos)) ∧
    (∀ h' o, h.exec w pos = Except.ok (h', o) → h'.halt = true →
      h'.halt_reason = "Illegal instruction" →
      decode a w = "ERROR: UNIMPLEMENTED INSTRUCTION" ∨
        (get_opcode w = 0x73 ∧ get_funct3 w ∈ [1, 3, 5, 6, 7])) := by
  have hre := exec_rejects_eq w
  constructor
  · intro hd
    have hdr : decode_rejects w = true := (decode_illegal_iff_rejects a w).mp hd
    rw [hdr, Bool.true_or] at hre
    rw [rv32i_hart.exec_of_rejects h w pos hre]
    exact rv32i_hart.exec_illegal_insn_eq h pos
  · intro h' o he hh' hr
    cases hrej : rv32i_hart.exec_rejects w
    · rcases rv32i_hart.exec_accepted h w pos hrej h' o he with ⟨e1, _⟩ | hne
      · rw [e1, hh] at hh'
        exact Bool.noConfusion hh'
      · exact absurd hr hne
    · rw [hrej] at hre
      cases hdr : decode_rejects w
      · right
        rw [hdr, Bool.false_or] at hre
        have hre' := hre.symm
        simp only [Bool.and_eq_true, beq_iff_eq, List.contains_eq_any_beq, List.any_eq_true]
          at hre'
        obtain ⟨hop, x, hx, hxe⟩ := hre'
        refine ⟨hop, ?_⟩
        rw [hxe]
        exact hx
      · left
        exact (decode_illegal_iff_rejects a w).mpr hdr

theorem rv32i_hart.decode_exec_illegal_witness :
    scenario_addi.halt = false ∧
    ((decode 0 0xa5a5a5a5 = "ERROR: UNIMPLEMENTED INSTRUCTION" →
      scenario_addi.exec 0xa5a5a5a5 false = Except.ok
        ({ scenario_addi with halt := true, halt_reason := "Illegal instruction" },
          rv32i_hart.trace_out false)) ∧
    (∀ h' o, scenario_addi.exec 0xa5a5a5a5 false = Except.ok (h', o) → h'.halt = true →
      h'.halt_reason = "Illegal instruction" →
      decode 0 0xa5a5a5a5 = "ERROR: UNIMPLEMENTED INSTRUCTION" ∨
        (get_opcode 0xa5a5a5a5 = 0x73 ∧ get_funct3 0xa5a5a5a5 ∈ [1, 3, 5, 6, 7]))) ∧
    decode 0 0xa5a5a5a5 = "ERROR: UNIMPLEMENTED INSTRUCTION" :=
  ⟨rfl, rv32i_hart.decode_exec_illegal scenario_addi 0xa5a5a5a5 0 false rfl, by decide⟩

/-! ## The parity of the pc -/

theorem get_imm_b_even (insn : Nat) : get_imm_b insn % 2 = 0 := by
  rw [get_imm_b_arith]
  unfold spec_sx
  split <;> omega

theorem get_imm_j_even (insn : Nat) : get_imm_j insn % 2 = 0 := by
  rw [get_imm_j_arith]
  unfold spec_sx
  split <;> omega

theorem u32_even (x : Int) (hx : x % 2 = 0) : u32 x % 2 = 0 := by
  unfold u32
  omega

theorem pc_add4_even (p : Nat) (hp : p % 2 = 0) : (p + 4) % 4294967296 % 2 = 0 := by
  omega

theorem pc_branch_even (p insn : Nat) (c : Prop) [Decidable c] (hp : p % 2 = 0) :
    (p + u32 (if c then get_imm_b insn else 4)) % 4294967296 % 2 = 0 := by
  have hb := u32_even _ (get_imm_b_even insn)
  have h4 : u32 4 = 4 := by decide
  split <;> omega

theorem pc_jal_even (p insn : Nat) (hp : p % 2 = 0) :
    u32 (i32 ↑((p + u32 (get_imm_j insn)) % 4294967296)) % 2 = 0 := by
  have hj := u32_even _ (get_imm_j_even insn)
  rw [u32_i32 _ (Nat.mod_lt _ (by norm_num))]
  omega

theorem pc_jalr_even (n : Nat) : (n &&& 0xfffffffe) % 2 = 0 := by
  have h := and_mask n 31 1
  norm_num at h
  rw [h]
  omega

theorem pc_branch_u_even (p insn : Nat) (c : Prop) [Decidable c] (hp : p % 2 = 0) :
    (p + (if c then u32 (get_imm_b insn) else 4)) % 4294967296 % 2 = 0 := by
  have hb := u32_even _ (get_imm_b_even insn)
  split <;> omega

namespace rv32i_hart

set_option linter.unusedTactic false
set_option linter.unreachableTactic false

theorem exec_illegal_insn_even (h : rv32i_hart) (pos : Bool) (hp : h.pc % 2 = 0) :
    Sim.sat (h.exec_illegal_insn pos) (fun h' => h'.pc % 2 = 0) := by
  unfold exec_illegal_insn
  refine Sim.sat_bind _ _ _ _ (Sim.sat_true _) ?_
  intro _ _
  exact Sim.sat_pure _ _ hp

theorem exec_ebreak_even (h : rv32i_hart) (insn : Int) (pos : Bool) (hp : h.pc % 2 = 0) :
    Sim.sat (h.exec_ebreak insn pos) (fun h' => h'.pc % 2 = 0) := by
  unfold exec_ebreak
  refine Sim.sat_bind _ _ _ _ (Sim.sat_true _) ?_
  intro _ _
  exact Sim.sat_pure _ _ hp

theorem exec_ecall_even (h : rv32i_hart) (pos : Bool) (hp : h.pc % 2 = 0) :
    Sim.sat (h.exec_ecall pos) (fun h' => h'.pc % 2 = 0) := by
  unfold exec_ecall
  refine Sim.sat_bind _ _ _ _ (Sim.sat_true _) ?_
  intro _ _
  exact Sim.sat_pure _ _ hp

theorem exec_lui_even (h : rv32i_hart) (insn : Nat) (pos : Bool) (hp : h.pc % 2 = 0) :
    Sim.sat (h.exec_lui insn pos) (fun h' => h'.pc % 2 = 0) := by
  unfold exec_lui
  with_reducible repeat first
    | (refine Sim.sat_bind _ _ _ _ (Sim.sat_true _) ?_; intro _ _)
    | exact Sim.sat_pure _ _ (pc_add4_even _ hp)
    | exact Sim.sat_pure _ _ (pc_branch_even _ _ _ hp)
    | exact Sim.sat_pure _ _ (pc_branch_u_even _ _ _ hp)
    | exact Sim.sat_pure _ _ (pc_jal_even _ _ hp)
    | exact Sim.sat_pure _ _ (pc_jalr_even _)
    | (dsimp only; split)

theorem exec_auipc_even (h : rv32i_hart) (insn : Nat) (pos : Bool) (hp : h.pc % 2 = 0) :
    Sim.sat (h.exec_auipc insn pos) (fun h' => h'.pc % 2 = 0) := by
  unfold exec_auipc
  with_reducible repeat first
    | (refine Sim.sat_bind _ _ _ _ (Sim.sat_true _) ?_; intro _ _)
    | exact Sim.sat_pure _ _ (pc_add4_even _ hp)
    | exact Sim.sat_pure _ _ (pc_branch_even _ _ _ hp)
    | exact Sim.sat_pure _ _ (pc_branch_u_even _ _ _ hp)
    | exact Sim.sat_pure _ _ (pc_jal_even _ _ hp)
    | exact Sim.sat_pure _ _ (pc_jalr_even _)
    | (dsimp only; split)

theorem exec_jal_even (h : rv32i_hart) (insn : Nat) (pos : Bool) (hp : h.pc % 2 = 0) :
    Sim.sat (h.exec_jal insn pos) (fun h' => h'.pc % 2 = 0) := by
  unfold exec_jal
  with_reducible repeat first
    | (refine Sim.sat_bind _ _ _ _ (Sim.sat_true _) ?_; intro _ _)
    | exact Sim.sat_pure _ _ (pc_add4_even _ hp)
    | exact Sim.sat_pure _ _ (pc_branch_even _ _ _ hp)
    | exact Sim.sat_pure _ _ (pc_branch_u_even _ _ _ hp)
    | exact Sim.sat_pure _ _ (pc_jal_even _ _ hp)
    | exact Sim.sat_pure _ _ (pc_jalr_even _)
    | (dsimp only; split)

theorem exec_jalr_even (h : rv32i_hart) (insn : Nat) (pos : Bool) (_hp : h.pc % 2 = 0) :
    Sim.sat (h.exec_jalr insn pos) (fun h' => h'.pc % 2 = 0) := by
  unfold exec_jalr
  with_reducible repeat first
    | (refine Sim.sat_bind _ _ _ _ (Sim.sat_true _) ?_; intro _ _)
    | exact Sim.sat_pure _ _ (pc_jalr_even _)
    | (dsimp only; split)

theorem exec_beq_even (h : rv32i_hart) (insn : Nat) (pos : Bool) (hp : h.pc % 2 = 0) :
    Sim.sat (h.exec_beq insn pos) (fun h' => h'.pc % 2 = 0) := by
  unfold exec_beq
  with_reducible repeat first
    | (refine Sim.sat_bind _ _ _ _ (Sim.sat_true _) ?_; intro _ _)
    | exact Sim.sat_pure _ _ (pc_add4_even _ hp)
    | exact Sim.sat_pure _ _ (pc_branch_even _ _ _ hp)
    | exact Sim.sat_pure _ _ (pc_branch_u_even _ _ _ hp)
    | exact Sim.sat_pure _ _ (pc_jal_even _ _ hp)
    | exact Sim.sat_pure _ _ (pc_jalr_even _)
    | (dsimp only; split)

theorem exec_bne_even (h : rv32i_hart) (insn : Nat) (pos : Bool) (hp : h.pc % 2 = 0) :
    Sim.sat (h.exec_bne insn pos) (fun h' => h'.pc % 2 = 0) := by
  unfold exec_bne
  with_reducible repeat first
    | (refine Sim.sat_bind _ _ _ _ (Sim.sat_true _) ?_; intro _ _)
    | exact Sim.sat_pure _ _ (pc_add4_even _ hp)
    | exact Sim.sat_pure _ _ (pc_branch_even _ _ _ hp)
    | exact Sim.sat_pure _ _ (pc_branch_u_even _ _ _ hp)
    | exact Sim.sat_pure _ _ (pc_jal_even _ _ hp)
    | exact Sim.sat_pure _ _ (pc_jalr_even _)
    | (dsimp only; split)

theorem exec_blt_even (h : rv32i_hart) (insn : Nat) (pos : Bool) (hp : h.pc % 2 = 0) :
    Sim.sat (h.exec_blt insn pos) (fun h' => h'.pc % 2 = 0) := by
  unfold exec_blt
  with_reducible repeat first
    | (refine Sim.sat_bind _ _ _ _ (Sim.sat_true _) ?_; intro _ _)
    | exact Sim.sat_pure _ _ (pc_add4_even _ hp)
    | exact Sim.sat_pure _ _ (pc_branch_even _ _ _ hp)
    | exact Sim.sat_pure _ _ (pc_branch_u_even _ _ _ hp)
    | exact Sim.sat_pure _ _ (pc_jal_even _ _ hp)
    | exact Sim.sat_pure _ _ (pc_jalr_even _)
    | (dsimp only; split)

theorem exec_bge_even (h : rv32i_hart) (insn : Nat) (pos : Bool) (hp : h.pc % 2 = 0) :
    Sim.sat (h.exec_bge insn pos) (fun h' => h'.pc % 2 = 0) := by
  unfold exec_bge
  with_reducible repeat first
    | (refine Sim.sat_bind _ _ _ _ (Sim.sat_true _) ?_; intro _ _)
    | exact Sim.sat_pure _ _ (pc_add4_even _ hp)
    | exact Sim.sat_pure _ _ (pc_branch_even _ _ _ hp)
    | exact Sim.sat_pure _ _ (pc_branch_u_even _ _ _ hp)
    | exact Sim.sat_pure _ _ (pc_jal_even _ _ hp)
    | exact Sim.sat_pure _ _ (pc_jalr_even _)
    | (dsimp only; split)

theorem exec_bltu_even (h : rv32i_hart) (insn : Nat) (pos : Bool) (hp : h.pc % 2 = 0) :
    Sim.sat (h.exec_bltu insn pos) (fun h' => h'.pc % 2 = 0) := by
  unfold exec_bltu
  with_reducible repeat first
    | (refine Sim.sat_bind _ _ _ _ (Sim.sat_true _) ?_; intro _ _)
    | exact Sim.sat_pure _ _ (pc_add4_even _ hp)
    | exact Sim.sat_pure _ _ (pc_branch_even _ _ _ hp)
    | exact Sim.sat_pure _ _ (pc_branch_u_even _ _ _ hp)
    | exact Sim.sat_pure _ _ (pc_jal_even _ _ hp)
    | exact Sim.sat_pure _ _ (pc_jalr_even _)
    | (dsimp only; split)

theorem exec_bgeu_even (h : rv32i_hart) (insn : Nat) (pos : Bool) (hp : h.pc % 2 = 0) :
    Sim.sat (h.exec_bgeu insn pos) (fun h' => h'.pc % 2 = 0) := by
  unfold exec_bgeu
  with_reducible repeat first
    | (refine Sim.sat_bind _ _ _ _ (Sim.sat_true _) ?_; intro _ _)
    | exact Sim.sat_pure _ _ (pc_add4_even _ hp)
    | exact Sim.sat_pure _ _ (pc_branch_even _ _ _ hp)
    | exact Sim.sat_pure _ _ (pc_branch_u_even _ _ _ hp)
    | exact Sim.sat_pure _ _ (pc_jal_even _ _ hp)
    | exact Sim.sat_pure _ _ (pc_jalr_even _)
    | (dsimp only; split)

theorem exec_addi_even (h : rv32i_hart) (insn : Nat) (pos : Bool) (hp : h.pc % 2 = 0) :
    Sim.sat (h.exec_addi insn pos) (fun h' => h'.pc % 2 = 0) := by
  unfold exec_addi
  with_reducible repeat first
    | (refine Sim.sat_bind _ _ _ _ (Sim.sat_true _) ?_; intro _ _)
    | exact Sim.sat_pure _ _ (pc_add4_even _ hp)
    | exact Sim.sat_pure _ _ (pc_branch_even _ _ _ hp)
    | exact Sim.sat_pure _ _ (pc_branch_u_even _ _ _ hp)
    | exact Sim.sat_pure _ _ (pc_jal_even _ _ hp)
    | exact Sim.sat_pure _ _ (pc_jalr_even _)
    | (dsimp only; split)

theorem exec_lbu_even (h : rv32i_hart) (insn : Nat) (pos : Bool) (hp : h.pc % 2 = 0) :
    Sim.sat (h.exec_lbu insn pos) (fun h' => h'.pc % 2 = 0) := by
  unfold exec_lbu
  with_reducible repeat first
    | (refine Sim.sat_bind _ _ _ _ (Sim.sat_true _) ?_; intro _ _)
    | exact Sim.sat_pure _ _ (pc_add4_even _ hp)
    | exact Sim.sat_pure _ _ (pc_branch_even _ _ _ hp)
    | exact Sim.sat_pure _ _ (pc_branch_u_even _ _ _ hp)
    | exact Sim.sat_pure _ _ (pc_jal_even _ _ hp)
    | exact Sim.sat_pure _ _ (pc_jalr_even _)
    | (dsimp only; split)

theorem exec_lhu_even (h : rv32i_hart) (insn : Nat) (pos : Bool) (hp : h.pc % 2 = 0) :
    Sim.sat (h.exec_lhu insn pos) (fun h' => h'.pc % 2 = 0) := by
  unfold exec_lhu
  with_reducible repeat first
    | (refine Sim.sat_bind _ _ _ _ (Sim.sat_true _) ?_; intro _ _)
    | exact Sim.sat_pure _ _ (pc_add4_even _ hp)
    | exact Sim.sat_pure _ _ (pc_branch_even _ _ _ hp)
    | exact Sim.sat_pure _ _ (pc_branch_u_even _ _ _ hp)
    | exact Sim.sat_pure _ _ (pc_jal_even _ _ hp)
    | exact Sim.sat_pure _ _ (pc_jalr_even _)
    | (dsimp only; split)

theorem exec_lb_even (h : rv32i_hart) (insn : Nat) (pos : Bool) (hp : h.pc % 2 = 0) :
    Sim.sat (h.exec_lb insn pos) (fun h' => h'.pc % 2 = 0) := by
  unfold exec_lb
  with_reducible repeat first
    | (refine Sim.sat_bind _ _ _ _ (Sim.sat_true _) ?_; intro _ _)
    | exact Sim.sat_pure _ _ (pc_add4_even _ hp)
    | exact Sim.sat_pure _ _ (pc_branch_even _ _ _ hp)
    | exact Sim.sat_pure _ _ (pc_branch_u_even _ _ _ hp)
    | exact Sim.sat_pure _ _ (pc_jal_even _ _ hp)
    | exact Sim.sat_pure _ _ (pc_jalr_even _)
    | (dsimp only; split)

theorem exec_lh_even (h : rv32i_hart) (insn : Nat) (pos : Bool) (hp : h.pc % 2 = 0) :
    Sim.sat (h.exec_lh insn pos) (fun h' => h'.pc % 2 = 0) := by
  unfold exec_lh
  with_reducible repeat first
    | (refine Sim.sat_bind _ _ _ _ (Sim.sat_true _) ?_; intro _ _)
    | exact Sim.sat_pure _ _ (pc_add4_even _ hp)
    | exact Sim.sat_pure _ _ (pc_branch_even _ _ _ hp)
    | exact Sim.sat_pure _ _ (pc_branch_u_even _ _ _ hp)
    | exact Sim.sat_pure _ _ (pc_jal_even _ _ hp)
    | exact Sim.sat_pure _ _ (pc_jalr_even _)
    | (dsimp only; split)

theorem exec_lw_even (h : rv32i_hart) (insn : Nat) (pos : Bool) (hp : h.pc % 2 = 0) :
    Sim.sat (h.exec_lw insn pos) (fun h' => h'.pc % 2 = 0) := by
  unfold exec_lw
  with_reducible repeat first
    | (refine Sim.sat_bind _ _ _ _ (Sim.sat_true _) ?_; intro _ _)
    | exact Sim.sat_pure _ _ (pc_add4_even _ hp)
    | exact Sim.sat_pure _ _ (pc_branch_even _ _ _ hp)
    | exact Sim.sat_pure _ _ (pc_branch_u_even _ _ _ hp)
    | exact Sim.sat_pure _ _ (pc_jal_even _ _ hp)
    | exact Sim.sat_pure _ _ (pc_jalr_even _)
    | (dsimp only; split)

theorem exec_sb_even (h : rv32i_hart) (insn : Nat) (pos : Bool) (hp : h.pc % 2 = 0) :
    Sim.sat (h.exec_sb insn pos) (fun h' => h'.pc % 2 = 0) := by
  unfold exec_sb
  with_reducible repeat first
    | (refine Sim.sat_bind _ _ _ _ (Sim.sat_true _) ?_; intro _ _)
    | exact Sim.sat_pure _ _ (pc_add4_even _ hp)
    | exact Sim.sat_pure _ _ (pc_branch_even _ _ _ hp)
    | exact Sim.sat_pure _ _ (pc_branch_u_even _ _ _ hp)
    | exact Sim.sat_pure _ _ (pc_jal_even _ _ hp)
    | exact Sim.sat_pure _ _ (pc_jalr_even _)
    | (dsimp only; split)

theorem exec_sh_even (h : rv32i_hart) (insn : Nat) (pos : Bool) (hp : h.pc % 2 = 0) :
    Sim.sat (h.exec_sh insn pos) (fun h' => h'.pc % 2 = 0) := by
  unfold exec_sh
  with_reducible repeat first
    | (refine Sim.sat_bind _ _ _ _ (Sim.sat_true _) ?_; intro _ _)
    | exact Sim.sat_pure _ _ (pc_add4_even _ hp)
    | exact Sim.sat_pure _ _ (pc_branch_even _ _ _ hp)
    | exact Sim.sat_pure _ _ (pc_branch_u_even _ _ _ hp)
    | exact Sim.sat_pure _ _ (pc_jal_even _ _ hp)
    | exact Sim.sat_pure _ _ (pc_jalr_even _)
    | (dsimp only; split)

theorem exec_sw_even (h : rv32i_hart) (insn : Nat) (pos : Bool) (hp : h.pc % 2 = 0) :
    Sim.sat (h.exec_sw insn pos) (fun h' => h'.pc % 2 = 0) := by
  unfold exec_sw
  with_reducible repeat first
    | (refine Sim.sat_bind _ _ _ _ (Sim.sat_true _) ?_; intro _ _)
    | exact Sim.sat_pure _ _ (pc_add4_even _ hp)
    | exact Sim.sat_pure _ _ (pc_branch_even _ _ _ hp)
    | exact Sim.sat_pure _ _ (pc_branch_u_even _ _ _ hp)
    | exact Sim.sat_pure _ _ (pc_jal_even _ _ hp)
    | exact Sim.sat_pure _ _ (pc_jalr_even _)
    | (dsimp only; split)

theorem exec_slti_even (h : rv32i_hart) (insn : Nat) (pos : Bool) (hp : h.pc % 2 = 0) :
    Sim.sat (h.exec_slti insn pos) (fun h' => h'.pc % 2 = 0) := by
  unfold exec_slti
  with_reducible repeat first
    | (refine Sim.sat_bind _ _ _ _ (Sim.sat_true _) ?_; intro _ _)
    | exact Sim.sat_pure _ _ (pc_add4_even _ hp)
    | exact Sim.sat_pure _ _ (pc_branch_even _ _ _ hp)
    | exact Sim.sat_pure _ _ (pc_branch_u_even _ _ _ hp)
    | exact Sim.sat_pure _ _ (pc_jal_even _ _ hp)
    | exact Sim.sat_pure _ _ (pc_jalr_even _)
    | (dsimp only; split)

theorem exec_sltiu_even (h : rv32i_hart) (insn : Nat) (pos : Bool) (hp : h.pc % 2 = 0) :
    Sim.sat (h.exec_sltiu insn pos) (fun h' => h'.pc % 2 = 0) := by
  unfold exec_sltiu
  with_reducible repeat first
    | (refine Sim.sat_bind _ _ _ _ (Sim.sat_true _) ?_; intro _ _)
    | exact Sim.sat_pure _ _ (pc_add4_even _ hp)
    | exact Sim.sat_pure _ _ (pc_branch_even _ _ _ hp)
    | exact Sim.sat_pure _ _ (pc_branch_u_even _ _ _ hp)
    | exact Sim.sat_pure _ _ (pc_jal_even _ _ hp)
    | exact Sim.sat_pure _ _ (pc_jalr_even _)
    | (dsimp only; split)

theorem exec_xori_even (h : rv32i_hart) (insn : Nat) (pos : Bool) (hp : h.pc % 2 = 0) :
    Sim.sat (h.exec_xori insn pos) (fun h' => h'.pc % 2 = 0) := by
  unfold exec_xori
  with_reducible repeat first
    | (refine Sim.sat_bind _ _ _ _ (Sim.sat_true _) ?_; intro _ _)
    | exact Sim.sat_pure _ _ (pc_add4_even _ hp)
    | exact Sim.sat_pure _ _ (pc_branch_even _ _ _ hp)
    | exact Sim.sat_pure _ _ (pc_branch_u_even _ _ _ hp)
    | exact Sim.sat_pure _ _ (pc_jal_even _ _ hp)
    | exact Sim.sat_pure _ _ (pc_jalr_even _)
    | (dsimp only; split)

theorem exec_ori_even (h : rv32i_hart) (insn : Nat) (pos : Bool) (hp : h.pc % 2 = 0) :
    Sim.sat (h.exec_ori insn pos) (fun h' => h'.pc % 2 = 0) := by
  unfold exec_ori
  with_reducible repeat first
    | (refine Sim.sat_bind _ _ _ _ (Sim.sat_true _) ?_; intro _ _)
    | exact Sim.sat_pure _ _ (pc_add4_even _ hp)
    | exact Sim.sat_pure _ _ (pc_branch_even _ _ _ hp)
    | exact Sim.sat_pure _ _ (pc_branch_u_even _ _ _ hp)
    | exact Sim.sat_pure _ _ (pc_jal_even _ _ hp)
    | exact Sim.sat_pure _ _ (pc_jalr_even _)
    | (dsimp only; split)

theorem exec_andi_even (h : rv32i_hart) (insn : Nat) (pos : Bool) (hp : h.pc % 2 = 0) :
    Sim.sat (h.exec_andi insn pos) (fun h' => h'.pc % 2 = 0) := by
  unfold exec_andi
  with_reducible repeat first
    | (refine Sim.sat_bind _ _ _ _ (Sim.sat_true _) ?_; intro _ _)
    | exact Sim.sat_pure _ _ (pc_add4_even _ hp)
    | exact Sim.sat_pure _ _ (pc_branch_even _ _ _ hp)
    | exact Sim.sat_pure _ _ (pc_branch_u_even _ _ _ hp)
    | exact Sim.sat_pure _ _ (pc_jal_even _ _ hp)
    | exact Sim.sat_pure _ _ (pc_jalr_even _)
    | (dsimp only; split)

theorem exec_slli_even (h : rv32i_hart) (insn : Nat) (pos : Bool) (hp : h.pc % 2 = 0) :
    Sim.sat (h.exec_slli insn pos) (fun h' => h'.pc % 2 = 0) := by
  unfold exec_slli
  with_reducible repeat first
    | (refine Sim.sat_bind _ _ _ _ (Sim.sat_true _) ?_; intro _ _)
    | exact Sim.sat_pure _ _ (pc_add4_even _ hp)
    | exact Sim.sat_pure _ _ (pc_branch_even _ _ _ hp)
    | exact Sim.sat_pure _ _ (pc_branch_u_even _ _ _ hp)
    | exact Sim.sat_pure _ _ (pc_jal_even _ _ hp)
    | exact Sim.sat_pure _ _ (pc_jalr_even _)
    | (dsimp only; split)

theorem exec_srli_even (h : rv32i_hart) (insn : Nat) (pos : Bool) (hp : h.pc % 2 = 0) :
    Sim.sat (h.exec_srli insn pos) (fun h' => h'.pc % 2 = 0) := by
  unfold exec_srli
  with_reducible repeat first
    | (refine Sim.sat_bind _ _ _ _ (Sim.sat_true _) ?_; intro _ _)
    | exact Sim.sat_pure _ _ (pc_add4_even _ hp)
    | exact Sim.sat_pure _ _ (pc_branch_even _ _ _ hp)
    | exact Sim.sat_pure _ _ (pc_branch_u_even _ _ _ hp)
    | exact Sim.sat_pure _ _ (pc_jal_even _ _ hp)
    | exact Sim.sat_pure _ _ (pc_jalr_even _)
    | (dsimp only; split)

theorem exec_srai_even (h : rv32i_hart) (insn : Nat) (pos : Bool) (hp : h.pc % 2 = 0) :
    Sim.sat (h.exec_srai insn pos) (fun h' => h'.pc % 2 = 0) := by
  unfold exec_srai
  with_reducible repeat first
    | (refine Sim.sat_bind _ _ _ _ (Sim.sat_true _) ?_; intro _ _)
    | exact Sim.sat_pure _ _ (pc_add4_even _ hp)
    | exact Sim.sat_pure _ _ (pc_branch_even _ _ _ hp)
    | exact Sim.sat_pure _ _ (pc_branch_u_even _ _ _ hp)
    | exact Sim.sat_pure _ _ (pc_jal_even _ _ hp)
    | exact Sim.sat_pure _ _ (pc_jalr_even _)
    | (dsimp only; split)

theorem exec_add_even (h : rv32i_hart) (insn : Nat) (pos : Bool) (hp : h.pc % 2 = 0) :
    Sim.sat (h.exec_add insn pos) (fun h' => h'.pc % 2 = 0) := by
  unfold exec_add
  with_reducible repeat first
    | (refine Sim.sat_bind _ _ _ _ (Sim.sat_true _) ?_; intro _ _)
    | exact Sim.sat_pure _ _ (pc_add4_even _ hp)
    | exact Sim.sat_pure _ _ (pc_branch_even _ _ _ hp)
    | exact Sim.sat_pure _ _ (pc_branch_u_even _ _ _ hp)
    | exact Sim.sat_pure _ _ (pc_jal_even _ _ hp)
    | exact Sim.sat_pure _ _ (pc_jalr_even _)
    | (dsimp only; split)

theorem exec_sub_even (h : rv32i_hart) (insn : Nat) (pos : Bool) (hp : h.pc % 2 = 0) :
    Sim.sat (h.exec_sub insn pos) (fun h' => h'.pc % 2 = 0) := by
  unfold exec_sub
  with_reducible repeat first
    | (refine Sim.sat_bind _ _ _ _ (Sim.sat_true _) ?_; intro _ _)
    | exact Sim.sat_pure _ _ (pc_add4_even _ hp)
    | exact Sim.sat_pure _ _ (pc_branch_even _ _ _ hp)
    | exact Sim.sat_pure _ _ (pc_branch_u_even _ _ _ hp)
    | exact Sim.sat_pure _ _ (pc_jal_even _ _ hp)
    | exact Sim.sat_pure _ _ (pc_jalr_even _)
    | (dsimp only; split)

theorem exec_sll_even (h : rv32i_hart) (insn : Nat) (pos : Bool) (hp : h.pc % 2 = 0) :
    Sim.sat (h.exec_sll insn pos) (fun h' => h'.pc % 2 = 0) := by
  unfold exec_sll
  with_reducible repeat first
    | (refine Sim.sat_bind _ _ _ _ (Sim.sat_true _) ?_; intro _ _)
    | exact Sim.sat_pure _ _ (pc_add4_even _ hp)
    | exact Sim.sat_pure _ _ (pc_branch_even _ _ _ hp)
    | exact Sim.sat_pure _ _ (pc_branch_u_even _ _ _ hp)
    | exact Sim.sat_pure _ _ (pc_jal_even _ _ hp)
    | exact Sim.sat_pure _ _ (pc_jalr_even _)
    | (dsimp only; split)

theorem exec_slt_even (h : rv32i_hart) (insn : Nat) (pos : Bool) (hp : h.pc % 2 = 0) :
    Sim.sat (h.exec_slt insn pos) (fun h' => h'.pc % 2 = 0) := by
  unfold exec_slt
  with_reducible repeat first
    | (refine Sim.sat_bind _ _ _ _ (Sim.sat_true _) ?_; intro _ _)
    | exact Sim.sat_pure _ _ (pc_add4_even _ hp)
    | exact Sim.sat_pure _ _ (pc_branch_even _ _ _ hp)
    | exact Sim.sat_pure _ _ (pc_branch_u_even _ _ _ hp)
    | exact Sim.sat_pure _ _ (pc_jal_even _ _ hp)
    | exact Sim.sat_pure _ _ (pc_jalr_even _)
    | (dsimp only; split)

theorem exec_sltu_even (h : rv32i_hart) (insn : Nat) (pos : Bool) (hp : h.pc % 2 = 0) :
    Sim.sat (h.exec_sltu insn pos) (fun h' => h'.pc % 2 = 0) := by
  unfold exec_sltu
  with_reducible repeat first
    | (refine Sim.sat_bind _ _ _ _ (Sim.sat_true _) ?_; intro _ _)
    | exact Sim.sat_pure _ _ (pc_add4_even _ hp)
    | exact Sim.sat_pure _ _ (pc_branch_even _ _ _ hp)
    | exact Sim.sat_pure _ _ (pc_branch_u_even _ _ _ hp)
    | exact Sim.sat_pure _ _ (pc_jal_even _ _ hp)
    | exact Sim.sat_pure _ _ (pc_jalr_even _)
    | (dsimp only; split)

theorem exec_xor_even (h : rv32i_hart) (insn : Nat) (pos : Bool) (hp : h.pc % 2 = 0) :
    Sim.sat (h.exec_xor insn pos) (fun h' => h'.pc % 2 = 0) := by
  unfold exec_xor
  with_reducible repeat first
    | (refine Sim.sat_bind _ _ _ _ (Sim.sat_true _) ?_; intro _ _)
    | exact Sim.sat_pure _ _ (pc_add4_even _ hp)
    | exact Sim.sat_pure _ _ (pc_branch_even _ _ _ hp)
    | exact Sim.sat_pure _ _ (pc_branch_u_even _ _ _ hp)
    | exact Sim.sat_pure _ _ (pc_jal_even _ _ hp)
    | exact Sim.sat_pure _ _ (pc_jalr_even _)
    | (dsimp only; split)

theorem exec_srl_even (h : rv32i_hart) (insn : Nat) (pos : Bool) (hp : h.pc % 2 = 0) :
    Sim.sat (h.exec_srl insn pos) (fun h' => h'.pc % 2 = 0) := by
  unfold exec_srl
  with_reducible repeat first
    | (refine Sim.sat_bind _ _ _ _ (Sim.sat_true _) ?_; intro _ _)
    | exact Sim.sat_pure _ _ (pc_add4_even _ hp)
    | exact Sim.sat_pure _ _ (pc_branch_even _ _ _ hp)
    | exact Sim.sat_pure _ _ (pc_branch_u_even _ _ _ hp)
    | exact Sim.sat_pure _ _ (pc_jal_even _ _ hp)
    | exact Sim.sat_pure _ _ (pc_jalr_even _)
    | (dsimp only; split)

theorem exec_sra_even (h : rv32i_hart) (insn : Nat) (pos : Bool) (hp : h.pc % 2 = 0) :
    Sim.sat (h.exec_sra insn pos) (fun h' => h'.pc % 2 = 0) := by
  unfold exec_sra
  with_reducible repeat first
    | (refine Sim.sat_bind _ _ _ _ (Sim.sat_true _) ?_; intro _ _)
    | exact Sim.sat_pure _ _ (pc_add4_even _ hp)
    | exact Sim.sat_pure _ _ (pc_branch_even _ _ _ hp)
    | exact Sim.sat_pure _ _ (pc_branch_u_even _ _ _ hp)
    | exact Sim.sat_pure _ _ (pc_jal_even _ _ hp)
    | exact Sim.sat_pure _ _ (pc_jalr_even _)
    | (dsimp only; split)

theorem exec_or_even (h : rv32i_hart) (insn : Nat) (pos : Bool) (hp : h.pc % 2 = 0) :
    Sim.sat (h.exec_or insn pos) (fun h' => h'.pc % 2 = 0) := by
  unfold exec_or
  with_reducible repeat first
    | (refine Sim.sat_bind _ _ _ _ (Sim.sat_true _) ?_; intro _ _)
    | exact Sim.sat_pure _ _ (pc_add4_even _ hp)
    | exact Sim.sat_pure _ _ (pc_branch_even _ _ _ hp)
    | exact Sim.sat_pure _ _ (pc_branch_u_even _ _ _ hp)
    | exact Sim.sat_pure _ _ (pc_jal_even _ _ hp)
    | exact Sim.sat_pure _ _ (pc_jalr_even _)
    | (dsimp only; split)

theorem exec_and_even (h : rv32i_hart) (insn : Nat) (pos : Bool) (hp : h.pc % 2 = 0) :
    Sim.sat (h.exec_and insn pos) (fun h' => h'.pc % 2 = 0) := by
  unfold exec_and
  with_reducible repeat first
    | (refine Sim.sat_bind _ _ _ _ (Sim.sat_true _) ?_; intro _ _)
    | exact Sim.sat_pure _ _ (pc_add4_even _ hp)
    | exact Sim.sat_pure _ _ (pc_branch_even _ _ _ hp)
    | exact Sim.sat_pure _ _ (pc_branch_u_even _ _ _ hp)
    | exact Sim.sat_pure _ _ (pc_jal_even _ _ hp)
    | exact Sim.sat_pure _ _ (pc_jalr_even _)
    | (dsimp only; split)

theorem exec_csrrs_even (h : rv32i_hart) (insn : Nat) (pos : Bool) (hp : h.pc % 2 = 0) :
    Sim.sat (h.exec_csrrs insn pos) (fun h' => h'.pc % 2 = 0) := by
  unfold exec_csrrs
  dsimp only
  split
  all_goals
    with_reducible repeat first
      | (refine Sim.sat_bind _ _ _ _ (Sim.sat_true _) ?_; intro _ _)
      | exact Sim.sat_pure _ _ (pc_add4_even _ hp)

theorem exec_even (h : rv32i_hart) (insn : Nat) (pos : Bool) (hp : h.pc % 2 = 0) :
    Sim.sat (h.exec insn pos) (fun h' => h'.pc % 2 = 0) := by
  unfold exec
  dsimp only
  with_reducible repeat' first
    | refine Sim.sat_ite _ _ _ _ ?_ ?_
    | exact exec_illegal_insn_even _ _ hp
    | exact exec_ebreak_even _ _ _ hp
    | exact exec_ecall_even _ _ hp
    | exact exec_lui_even _ _ _ hp
    | exact exec_auipc_even _ _ _ hp
    | exact exec_jal_even _ _ _ hp
    | exact exec_jalr_even _ _ _ hp
    | exact exec_beq_even _ _ _ hp
    | exact exec_bne_even _ _ _ hp
    | exact exec_blt_even _ _ _ hp
    | exact exec_bge_even _ _ _ hp
    | exact exec_bltu_even _ _ _ hp
    | exact exec_bgeu_even _ _ _ hp
    | exact exec_addi_even _ _ _ hp
    | exact exec_lbu_even _ _ _ hp
    | exact exec_lhu_even _ _ _ hp
    | exact exec_lb_even _ _ _ hp
    | exact exec_lh_even _ _ _ hp
    | exact exec_lw_even _ _ _ hp
    | exact exec_sb_even _ _ _ hp
    | exact exec_sh_even _ _ _ hp
    | exact exec_sw_even _ _ _ hp
    | exact exec_slti_even _ _ _ hp
    | exact exec_sltiu_even _ _ _ hp
    | exact exec_xori_even _ _ _ hp
    | exact exec_ori_even _ _ _ hp
    | exact exec_andi_even _ _ _ hp
    | exact exec_slli_even _ _ _ hp
    | exact exec_srli_even _ _ _ hp
    | exact exec_srai_even _ _ _ hp
    | exact exec_add_even _ _ _ hp
    | exact exec_sub_even _ _ _ hp
    | exact exec_sll_even _ _ _ hp
    | exact exec_slt_even _ _ _ hp
    | exact exec_sltu_even _ _ _ hp
    | exact exec_xor_even _ _ _ hp
    | exact exec_srl_even _ _ _ hp
    | exact exec_sra_even _ _ _ hp
    | exact exec_or_even _ _ _ hp
    | exact exec_and_even _ _ _ hp
    | exact exec_csrrs_even _ _ _ hp

theorem tick_even (h : rv32i_hart) (hp : h.pc % 2 = 0) :
    Sim.sat h.tick (fun h' => h'.pc % 2 = 0) := by
  unfold tick
  split
  · exact Sim.sat_pure _ _ hp
  · dsimp only
    refine Sim.sat_bind _ _ _ _ (Sim.sat_true _) ?_
    intro getinsn _
    split
    · refine Sim.sat_bind _ _ _ _ (exec_even _ _ _ hp) ?_
      intro h₁ hh₁
      refine Sim.sat_bind _ _ _ _ (Sim.sat_true _) ?_
      intro _ _
      split
      · refine Sim.sat_bind _ _ _ _ (Sim.sat_true _) ?_
        intro _ _
        refine Sim.sat_bind _ _ _ _ (Sim.sat_true _) ?_
        intro _ _
        exact Sim.sat_pure _ _ hh₁
      · refine Sim.sat_bind _ _ _ _ (Sim.sat_true _) ?_
        intro _ _
        exact Sim.sat_pure _ _ hh₁
    · split
      · refine Sim.sat_bind _ _ _ _ (exec_even _ _ _ hp) ?_
        intro h₁ hh₁
        refine Sim.sat_bind _ _ _ _ (Sim.sat_true _) ?_
        intro _ _
        exact Sim.sat_pure _ _ hh₁
      · exact exec_even _ _ _ hp

end rv32i_hart

theorem rv32i_hart.tick_alignment_error (h : rv32i_hart) (hpc : h.pc % 4 ≠ 0) :
    h.tick = Except.ok ({ h with halt := true, halt_reason := "PC alignment error" }, []) := by
  have hne : (h.pc % 4 != 0) = true := by simp [hpc]
  simp only [rv32i_hart.tick, hne, if_true, Sim.pure_eq]

/-- C40: in every state `s` reached from a state `reset` returns by any number of ticks,
the pc is even; so whenever the pc of `s` is not a multiple of 4 (the case in which `tick`
halts with `"PC alignment error"`), `pc mod 4 = 2`. -/
theorem rv32i_hart.pc_even_invariant (h₀ r s : rv32i_hart) (n : Nat) (o o' : List Out)
    (hr : h₀.reset = Except.ok (r, o)) (ht : r.ticks n = Except.ok (s, o')) :
    s.pc % 2 = 0 ∧
    (s.pc % 4 ≠ 0 → s.pc % 4 = 2 ∧
      s.tick = Except.ok ({ s with halt := true, halt_reason := "PC alignment error" }, [])) := by
  obtain ⟨hp, _⟩ := rv32i_hart.reset_sat h₀ r o hr
  have h0 : r.pc % 2 = 0 := by
    rw [hp]
  have he := rv32i_hart.ticks_sat _ rv32i_hart.tick_even n r h0 s o' ht
  exact ⟨he, fun hne => ⟨by omega, rv32i_hart.tick_alignment_error s hne⟩⟩

theorem rv32i_hart.pc_even_invariant_witness :
    scenario_addi.reset = Except.ok (scenario_addi, []) ∧
    scenario_addi.ticks 1 = Except.ok (scenario_addi_after, []) ∧
    (scenario_addi_after.pc % 2 = 0 ∧
    (scenario_addi_after.pc % 4 ≠ 0 → scenario_addi_after.pc % 4 = 2 ∧
      scenario_addi_after.tick = Except.ok
        ({ scenario_addi_after with halt := true, halt_reason := "PC alignment error" },
          []))) :=
  ⟨scenario_addi_reset, scenario_addi_tick,
    rv32i_hart.pc_even_invariant scenario_addi scenario_addi scenario_addi_after 1 [] []
      scenario_addi_reset scenario_addi_tick⟩

/-! ## Hart: the register file is never indexed out of range

The register indices of every executor come from `get_rd`, `get_rs1` and `get_rs2`, which
are below 32; on a register file of 32 entries every executor other than the loads and
stores returns, and a load or store can fault only when the size of the memory is itself a
32-bit address. -/

theorem Sim.wp_pure {α : Type} (a : α) (F : Prop) (Q : α → Prop) (h : Q a) :
    Sim.wp (pure a) F Q := h

theorem Sim.wp_ok {α : Type} (x : Sim α) (a : α) (o : List Out) (F : Prop) (Q : α → Prop)
    (e : x = Except.ok (a, o)) (h : Q a) : Sim.wp x F Q := by
  rw [e]
  exact h

theorem Sim.wp_bind {α β : Type} (x : Sim α) (f : α → Sim β) (F : Prop) (R : α → Prop)
    (Q : β → Prop) (hx : Sim.wp x F R) (hf : ∀ a, R a → Sim.wp (f a) F Q) :
    Sim.wp (x >>= f) F Q := by
  rw [Sim.bind_eq]
  rcases x with er | ⟨a, o₁⟩
  · exact hx
  · have hfa := hf a hx
    simp only [Sim.andThen]
    rcases hfa' : f a with er | ⟨b, o₂⟩
    · rw [hfa'] at hfa
      exact hfa
    · rw [hfa'] at hfa
      exact hfa

theorem Sim.wp_imp {α : Type} (x : Sim α) (F F' : Prop) (Q Q' : α → Prop)
    (hx : Sim.wp x F Q) (hF : F → F') (hQ : ∀ a, Q a → Q' a) : Sim.wp x F' Q' := by
  rcases x with er | ⟨a, o⟩
  · exact hF hx
  · exact hQ a hx

theorem Sim.wp_sat {α : Type} (x : Sim α) (F : Prop) (Q : α → Prop) (hx : Sim.wp x F Q) :
    Sim.sat x Q := by
  intro a o e
  rw [e] at hx
  exact hx

theorem Sim.wp_returns {α : Type} (x : Sim α) (Q : α → Prop) (hx : Sim.wp x False Q) :
    ∃ a o, x = Except.ok (a, o) ∧ Q a := by
  rcases x with er | ⟨a, o⟩
  · exact hx.elim
  · exact ⟨a, o, rfl, hx⟩

theorem Sim.wp_fault {α : Type} (x : Sim α) (F : Prop) (Q : α → Prop) (e : Fault)
    (hx : Sim.wp x F Q) (he : x = Except.error e) : F := by
  rw [he] at hx
  exact hx

theorem registerfile.get_wp (rf : registerfile) (r : Nat) (F : Prop)
    (h : r < rf.regVec.length) : Sim.wp (rf.get r) F (fun _ => True) := by
  obtain ⟨x, hx⟩ := registerfile.get_in rf r h
  rw [hx]
  trivial

theorem registerfile.set_wp (rf : registerfile) (r : Nat) (v : Int) (F : Prop)
    (h : r < 32) (hl : rf.regVec.length = 32) :
    Sim.wp (rf.set r v) F (fun rf' => rf'.regVec.length = 32) := by
  rw [registerfile.set_eq_write rf r v (by omega)]
  show (rf.write r v).regVec.length = 32
  rw [registerfile.write_length, hl]

namespace rv32i_hart

open rv32i_decode

set_option linter.unusedTactic false
set_option linter.unreachableTactic false

theorem get_rs1_cast_lt (insn : Nat) : u32 (i32 ↑(get_rs1 insn)) < 32 := by
  rw [u32_i32_reg _ (get_rs1_lt insn)]
  exact get_rs1_lt insn

theorem get_rs2_cast_lt (insn : Nat) : u32 (i32 ↑(get_rs2 insn)) < 32 := by
  rw [u32_i32_reg _ (get_rs2_lt insn)]
  exact get_rs2_lt insn

theorem trace_wp (pos : Bool) (F : Prop) : Sim.wp (trace pos) F (fun _ => True) := by
  cases pos <;> trivial

theorem exec_illegal_insn_wp (h : rv32i_hart) (pos : Bool)
    (hlen : h.regs.regVec.length = 32) :
    Sim.wp (h.exec_illegal_insn pos) False (fun h' => h'.regs.regVec.length = 32) := by
  unfold exec_illegal_insn
  with_reducible repeat first
    | (refine Sim.wp_bind _ _ _ _ _ (trace_wp _ _) ?_; intro _ _)
    | exact Sim.wp_pure _ _ _ hlen

theorem exec_ebreak_wp (h : rv32i_hart) (insn : Int) (pos : Bool)
    (hlen : h.regs.regVec.length = 32) :
    Sim.wp (h.exec_ebreak insn pos) False (fun h' => h'.regs.regVec.length = 32) := by
  unfold exec_ebreak
  with_reducible repeat first
    | (refine Sim.wp_bind _ _ _ _ _ (trace_wp _ _) ?_; intro _ _)
    | exact Sim.wp_pure _ _ _ hlen

theorem exec_ecall_wp (h : rv32i_hart) (pos : Bool)
    (hlen : h.regs.regVec.length = 32) :
    Sim.wp (h.exec_ecall pos) False (fun h' => h'.regs.regVec.length = 32) := by
  unfold exec_ecall
  with_reducible repeat first
    | (refine Sim.wp_bind _ _ _ _ _ (trace_wp _ _) ?_; intro _ _)
    | exact Sim.wp_pure _ _ _ hlen

theorem exec_lui_wp (h : rv32i_hart) (insn : Nat) (pos : Bool)
    (hlen : h.regs.regVec.length = 32) :
    Sim.wp (h.exec_lui insn pos) False (fun h' => h'.regs.regVec.length = 32) := by
  unfold exec_lui
  with_reducible repeat first
    | (refine Sim.wp_bind _ _ _ _ _ (registerfile.get_wp _ _ _ (hlen ▸ get_rs1_lt insn)) ?_; intro _ _)
    | (refine Sim.wp_bind _ _ _ _ _ (registerfile.get_wp _ _ _ (hlen ▸ get_rs2_lt insn)) ?_; intro _ _)
    | (refine Sim.wp_bind _ _ _ _ _ (registerfile.get_wp _ _ _ (hlen ▸ get_rs1_cast_lt insn)) ?_; intro _ _)
    | (refine Sim.wp_bind _ _ _ _ _ (registerfile.get_wp _ _ _ (hlen ▸ get_rs2_cast_lt insn)) ?_; intro _ _)
    | (refine Sim.wp_bind _ _ _ _ _ (registerfile.set_wp _ _ _ _ (get_rd_lt insn) hlen) ?_; intro _ _)
    | (refine Sim.wp_bind _ _ _ _ _ (trace_wp _ _) ?_; intro _ _)
    | exact Sim.wp_pure _ _ _ (by assumption)
    | (dsimp only; split)

theorem exec_auipc_wp (h : rv32i_hart) (insn : Nat) (pos : Bool)
    (hlen : h.regs.regVec.length = 32) :
    Sim.wp (h.exec_auipc insn pos) False (fun h' => h'.regs.regVec.length = 32) := by
  unfold exec_auipc
  with_reducible repeat first
    | (refine Sim.wp_bind _ _ _ _ _ (registerfile.get_wp _ _ _ (hlen ▸ get_rs1_lt insn)) ?_; intro _ _)
    | (refine Sim.wp_bind _ _ _ _ _ (registerfile.get_wp _ _ _ (hlen ▸ get_rs2_lt insn)) ?_; intro _ _)
    | (refine Sim.wp_bind _ _ _ _ _ (registerfile.get_wp _ _ _ (hlen ▸ get_rs1_cast_lt insn)) ?_; intro _ _)
    | (refine Sim.wp_bind _ _ _ _ _ (registerfile.get_wp _ _ _ (hlen ▸ get_rs2_cast_lt insn)) ?_; intro _ _)
    | (refine Sim.wp_bind _ _ _ _ _ (registerfile.set_wp _ _ _ _ (get_rd_lt insn) hlen) ?_; intro _ _)
    | (refine Sim.wp_bind _ _ _ _ _ (trace_wp _ _) ?_; intro _ _)
    | exact Sim.wp_pure _ _ _ (by assumption)
    | (dsimp only; split)

theorem exec_jal_wp (h : rv32i_hart) (insn : Nat) (pos : Bool)
    (hlen : h.regs.regVec.length = 32) :
    Sim.wp (h.exec_jal insn pos) False (fun h' => h'.regs.regVec.length = 32) := by
  unfold exec_jal
  with_reducible repeat first
    | (refine Sim.wp_bind _ _ _ _ _ (registerfile.get_wp _ _ _ (hlen ▸ get_rs1_lt insn)) ?_; intro _ _)
    | (refine Sim.wp_bind _ _ _ _ _ (registerfile.get_wp _ _ _ (hlen ▸ get_rs2_lt insn)) ?_; intro _ _)
    | (refine Sim.wp_bind _ _ _ _ _ (registerfile.get_wp _ _ _ (hlen ▸ get_rs1_cast_lt insn)) ?_; intro _ _)
    | (refine Sim.wp_bind _ _ _ _ _ (registerfile.get_wp _ _ _ (hlen ▸ get_rs2_cast_lt insn)) ?_; intro _ _)
    | (refine Sim.wp_bind _ _ _ _ _ (registerfile.set_wp _ _ _ _ (get_rd_lt insn) hlen) ?_; intro _ _)
    | (refine Sim.wp_bind _ _ _ _ _ (trace_wp _ _) ?_; intro _ _)
    | exact Sim.wp_pure _ _ _ (by assumption)
    | (dsimp only; split)

theorem exec_jalr_wp (h : rv32i_hart) (insn : Nat) (pos : Bool)
    (hlen : h.regs.regVec.length = 32) :
    Sim.wp (h.exec_jalr insn pos) False (fun h' => h'.regs.regVec.length = 32) := by
  unfold exec_jalr
  with_reducible repeat first
    | (refine Sim.wp_bind _ _ _ _ _ (registerfile.get_wp _ _ _ (hlen ▸ get_rs1_lt insn)) ?_; intro _ _)
    | (refine Sim.wp_bind _ _ _ _ _ (registerfile.get_wp _ _ _ (hlen ▸ get_rs2_lt insn)) ?_; intro _ _)
    | (refine Sim.wp_bind _ _ _ _ _ (registerfile.get_wp _ _ _ (hlen ▸ get_rs1_cast_lt insn)) ?_; intro _ _)
    | (refine Sim.wp_bind _ _ _ _ _ (registerfile.get_wp _ _ _ (hlen ▸ get_rs2_cast_lt insn)) ?_; intro _ _)
    | (refine Sim.wp_bind _ _ _ _ _ (registerfile.set_wp _ _ _ _ (get_rd_lt insn) hlen) ?_; intro _ _)
    | (refine Sim.wp_bind _ _ _ _ _ (trace_wp _ _) ?_; intro _ _)
    | exact Sim.wp_pure _ _ _ (by assumption)
    | (dsimp only; split)

theorem exec_beq_wp (h : rv32i_hart) (insn : Nat) (pos : Bool)
    (hlen : h.regs.regVec.length = 32) :
    Sim.wp (h.exec_beq insn pos) False (fun h' => h'.regs.regVec.length = 32) := by
  unfold exec_beq
  with_reducible repeat first
    | (refine Sim.wp_bind _ _ _ _ _ (registerfile.get_wp _ _ _ (hlen ▸ get_rs1_lt insn)) ?_; intro _ _)
    | (refine Sim.wp_bind _ _ _ _ _ (registerfile.get_wp _ _ _ (hlen ▸ get_rs2_lt insn)) ?_; intro _ _)
    | (refine Sim.wp_bind _ _ _ _ _ (registerfile.get_wp _ _ _ (hlen ▸ get_rs1_cast_lt insn)) ?_; intro _ _)
    | (refine Sim.wp_bind _ _ _ _ _ (registerfile.get_wp _ _ _ (hlen ▸ get_rs2_cast_lt insn)) ?_; intro _ _)
    | (refine Sim.wp_bind _ _ _ _ _ (registerfile.set_wp _ _ _ _ (get_rd_lt insn) hlen) ?_; intro _ _)
    | (refine Sim.wp_bind _ _ _ _ _ (trace_wp _ _) ?_; intro _ _)
    | exact Sim.wp_pure _ _ _ (by assumption)
    | (dsimp only; split)

theorem exec_bne_wp (h : rv32i_hart) (insn : Nat) (pos : Bool)
    (hlen : h.regs.regVec.length = 32) :
    Sim.wp (h.exec_bne insn pos) False (fun h' => h'.regs.regVec.length = 32) := by
  unfold exec_bne
  with_reducible repeat first
    | (refine Sim.wp_bind _ _ _ _ _ (registerfile.get_wp _ _ _ (hlen ▸ get_rs1_lt insn)) ?_; intro _ _)
    | (refine Sim.wp_bind _ _ _ _ _ (registerfile.get_wp _ _ _ (hlen ▸ get_rs2_lt insn)) ?_; intro _ _)
    | (refine Sim.wp_bind _ _ _ _ _ (registerfile.get_wp _ _ _ (hlen ▸ get_rs1_cast_lt insn)) ?_; intro _ _)
    | (refine Sim.wp_bind _ _ _ _ _ (registerfile.get_wp _ _ _ (hlen ▸ get_rs2_cast_lt insn)) ?_; intro _ _)
    | (refine Sim.wp_bind _ _ _ _ _ (registerfile.set_wp _ _ _ _ (get_rd_lt insn) hlen) ?_; intro _ _)
    | (refine Sim.wp_bind _ _ _ _ _ (trace_wp _ _) ?_; intro _ _)
    | exact Sim.wp_pure _ _ _ (by assumption)
    | (dsimp only; split)

theorem exec_blt_wp (h : rv32i_hart) (insn : Nat) (pos : Bool)
    (hlen : h.regs.regVec.length = 32) :
    Sim.wp (h.exec_blt insn pos) False (fun h' => h'.regs.regVec.length = 32) := by
  unfold exec_blt
  with_reducible repeat first
    | (refine Sim.wp_bind _ _ _ _ _ (registerfile.get_wp _ _ _ (hlen ▸ get_rs1_lt insn)) ?_; intro _ _)
    | (refine Sim.wp_bind _ _ _ _ _ (registerfile.get_wp _ _ _ (hlen ▸ get_rs2_lt insn)) ?_; intro _ _)
    | (refine Sim.wp_bind _ _ _ _ _ (registerfile.get_wp _ _ _ (hlen ▸ get_rs1_cast_lt insn)) ?_; intro _ _)
    | (refine Sim.wp_bind _ _ _ _ _ (registerfile.get_wp _ _ _ (hlen ▸ get_rs2_cast_lt insn)) ?_; intro _ _)
    | (refine Sim.wp_bind _ _ _ _ _ (registerfile.set_wp _ _ _ _ (get_rd_lt insn) hlen) ?_; intro _ _)
    | (refine Sim.wp_bind _ _ _ _ _ (trace_wp _ _) ?_; intro _ _)
    | exact Sim.wp_pure _ _ _ (by assumption)
    | (dsimp only; split)

theorem exec_bge_wp (h : rv32i_hart) (insn : Nat) (pos : Bool)
    (hlen : h.regs.regVec.length = 32) :
    Sim.wp (h.exec_bge insn pos) False (fun h' => h'.regs.regVec.length = 32) := by
  unfold exec_bge
  with_reducible repeat first
    | (refine Sim.wp_bind _ _ _ _ _ (registerfile.get_wp _ _ _ (hlen ▸ get_rs1_lt insn)) ?_; intro _ _)
    | (refine Sim.wp_bind _ _ _ _ _ (registerfile.get_wp _ _ _ (hlen ▸ get_rs2_lt insn)) ?_; intro _ _)
    | (refine Sim.wp_bind _ _ _ _ _ (registerfile.get_wp _ _ _ (hlen ▸ get_rs1_cast_lt insn)) ?_; intro _ _)
    | (refine Sim.wp_bind _ _ _ _ _ (registerfile.get_wp _ _ _ (hlen ▸ get_rs2_cast_lt insn)) ?_; intro _ _)
    | (refine Sim.wp_bind _ _ _ _ _ (registerfile.set_wp _ _ _ _ (get_rd_lt insn) hlen) ?_; intro _ _)
    | (refine Sim.wp_bind _ _ _ _ _ (trace_wp _ _) ?_; intro _ _)
    | exact Sim.wp_pure _ _ _ (by assumption)
    | (dsimp only; split)

theorem exec_bltu_wp (h : rv32i_hart) (insn : Nat) (pos : Bool)
    (hlen : h.regs.regVec.length = 32) :
    Sim.wp (h.exec_bltu insn pos) False (fun h' => h'.regs.regVec.length = 32) := by
  unfold exec_bltu
  with_reducible repeat first
    | (refine Sim.wp_bind _ _ _ _ _ (registerfile.get_wp _ _ _ (hlen ▸ get_rs1_lt insn)) ?_; intro _ _)
    | (refine Sim.wp_bind _ _ _ _ _ (registerfile.get_wp _ _ _ (hlen ▸ get_rs2_lt insn)) ?_; intro _ _)
    | (refine Sim.wp_bind _ _ _ _ _ (registerfile.get_wp _ _ _ (hlen ▸ get_rs1_cast_lt insn)) ?_; intro _ _)
    | (refine Sim.wp_bind _ _ _ _ _ (registerfile.get_wp _ _ _ (hlen ▸ get_rs2_cast_lt insn)) ?_; intro _ _)
    | (refine Sim.wp_bind _ _ _ _ _ (registerfile.set_wp _ _ _ _ (get_rd_lt insn) hlen) ?_; intro _ _)
    | (refine Sim.wp_bind _ _ _ _ _ (trace_wp _ _) ?_; intro _ _)
    | exact Sim.wp_pure _ _ _ (by assumption)
    | (dsimp only; split)

theorem exec_bgeu_wp (h : rv32i_hart) (insn : Nat) (pos : Bool)
    (hlen : h.regs.regVec.length = 32) :
    Sim.wp (h.exec_bgeu insn pos) False (fun h' => h'.regs.regVec.length = 32) := by
  unfold exec_bgeu
  with_reducible repeat first
    | (refine Sim.wp_bind _ _ _ _ _ (registerfile.get_wp _ _ _ (hlen ▸ get_rs1_lt insn)) ?_; intro _ _)
    | (refine Sim.wp_bind _ _ _ _ _ (registerfile.get_wp _ _ _ (hlen ▸ get_rs2_lt insn)) ?_; intro _ _)
    | (refine Sim.wp_bind _ _ _ _ _ (registerfile.get_wp _ _ _ (hlen ▸ get_rs1_cast_lt insn)) ?_; intro _ _)
    | (refine Sim.wp_bind _ _ _ _ _ (registerfile.get_wp _ _ _ (hlen ▸ get_rs2_cast_lt insn)) ?_; intro _ _)
    | (refine Sim.wp_bind _ _ _ _ _ (registerfile.set_wp _ _ _ _ (get_rd_lt insn) hlen) ?_; intro _ _)
    | (refine Sim.wp_bind _ _ _ _ _ (trace_wp _ _) ?_; intro _ _)
    | exact Sim.wp_pure _ _ _ (by assumption)
    | (dsimp only; split)

theorem exec_addi_wp (h : rv32i_hart) (insn : Nat) (pos : Bool)
    (hlen : h.regs.regVec.length = 32) :
    Sim.wp (h.exec_addi insn pos) False (fun h' => h'.regs.regVec.length = 32) := by
  unfold exec_addi
  with_reducible repeat first
    | (refine Sim.wp_bind _ _ _ _ _ (registerfile.get_wp _ _ _ (hlen ▸ get_rs1_lt insn)) ?_; intro _ _)
    | (refine Sim.wp_bind _ _ _ _ _ (registerfile.get_wp _ _ _ (hlen ▸ get_rs2_lt insn)) ?_; intro _ _)
    | (refine Sim.wp_bind _ _ _ _ _ (registerfile.get_wp _ _ _ (hlen ▸ get_rs1_cast_lt insn)) ?_; intro _ _)
    | (refine Sim.wp_bind _ _ _ _ _ (registerfile.get_wp _ _ _ (hlen ▸ get_rs2_cast_lt insn)) ?_; intro _ _)
    | (refine Sim.wp_bind _ _ _ _ _ (registerfile.set_wp _ _ _ _ (get_rd_lt insn) hlen) ?_; intro _ _)
    | (refine Sim.wp_bind _ _ _ _ _ (trace_wp _ _) ?_; intro _ _)
    | exact Sim.wp_pure _ _ _ (by assumption)
    | (dsimp only; split)

theorem exec_slti_wp (h : rv32i_hart) (insn : Nat) (pos : Bool)
    (hlen : h.regs.regVec.length = 32) :
    Sim.wp (h.exec_slti insn pos) False (fun h' => h'.regs.regVec.length = 32) := by
  unfold exec_slti
  with_reducible repeat first
    | (refine Sim.wp_bind _ _ _ _ _ (registerfile.get_wp _ _ _ (hlen ▸ get_rs1_lt insn)) ?_; intro _ _)
    | (refine Sim.wp_bind _ _ _ _ _ (registerfile.get_wp _ _ _ (hlen ▸ get_rs2_lt insn)) ?_; intro _ _)
    | (refine Sim.wp_bind _ _ _ _ _ (registerfile.get_wp _ _ _ (hlen ▸ get_rs1_cast_lt insn)) ?_; intro _ _)
    | (refine Sim.wp_bind _ _ _ _ _ (registerfile.get_wp _ _ _ (hlen ▸ get_rs2_cast_lt insn)) ?_; intro _ _)
    | (refine Sim.wp_bind _ _ _ _ _ (registerfile.set_wp _ _ _ _ (get_rd_lt insn) hlen) ?_; intro _ _)
    | (refine Sim.wp_bind _ _ _ _ _ (trace_wp _ _) ?_; intro _ _)
    | exact Sim.wp_pure _ _ _ (by assumption)
    | (dsimp only; split)

theorem exec_sltiu_wp (h : rv32i_hart) (insn : Nat) (pos : Bool)
    (hlen : h.regs.regVec.length = 32) :
    Sim.wp (h.exec_sltiu insn pos) False (fun h' => h'.regs.regVec.length = 32) := by
  unfold exec_sltiu
  with_reducible repeat first
    | (refine Sim.wp_bind _ _ _ _ _ (registerfile.get_wp _ _ _ (hlen ▸ get_rs1_lt insn)) ?_; intro _ _)
    | (refine Sim.wp_bind _ _ _ _ _ (registerfile.get_wp _ _ _ (hlen ▸ get_rs2_lt insn)) ?_; intro _ _)
    | (refine Sim.wp_bind _ _ _ _ _ (registerfile.get_wp _ _ _ (hlen ▸ get_rs1_cast_lt insn)) ?_; intro _ _)
    | (refine Sim.wp_bind _ _ _ _ _ (registerfile.get_wp _ _ _ (hlen ▸ get_rs2_cast_lt insn)) ?_; intro _ _)
    | (refine Sim.wp_bind _ _ _ _ _ (registerfile.set_wp _ _ _ _ (get_rd_lt insn) hlen) ?_; intro _ _)
    | (refine Sim.wp_bind _ _ _ _ _ (trace_wp _ _) ?_; intro _ _)
    | exact Sim.wp_pure _ _ _ (by assumption)
    | (dsimp only; split)

theorem exec_xori_wp (h : rv32i_hart) (insn : Nat) (pos : Bool)
    (hlen : h.regs.regVec.length = 32) :
    Sim.wp (h.exec_xori insn pos) False (fun h' => h'.regs.regVec.length = 32) := by
  unfold exec_xori
  with_reducible repeat first
    | (refine Sim.wp_bind _ _ _ _ _ (registerfile.get_wp _ _ _ (hlen ▸ get_rs1_lt insn)) ?_; intro _ _)
    | (refine Sim.wp_bind _ _ _ _ _ (registerfile.get_wp _ _ _ (hlen ▸ get_rs2_lt insn)) ?_; intro _ _)
    | (refine Sim.wp_bind _ _ _ _ _ (registerfile.get_wp _ _ _ (hlen ▸ get_rs1_cast_lt insn)) ?_; intro _ _)
    | (refine Sim.wp_bind _ _ _ _ _ (registerfile.get_wp _ _ _ (hlen ▸ get_rs2_cast_lt insn)) ?_; intro _ _)
    | (refine Sim.wp_bind _ _ _ _ _ (registerfile.set_wp _ _ _ _ (get_rd_lt insn) hlen) ?_; intro _ _)
    | (refine Sim.wp_bind _ _ _ _ _ (trace_wp _ _) ?_; intro _ _)
    | exact Sim.wp_pure _ _ _ (by assumption)
    | (dsimp only; split)

theorem exec_ori_wp (h : rv32i_hart) (insn : Nat) (pos : Bool)
    (hlen : h.regs.regVec.length = 32) :
    Sim.wp (h.exec_ori insn pos) False (fun h' => h'.regs.regVec.length = 32) := by
  unfold exec_ori
  with_reducible repeat first
    | (refine Sim.wp_bind _ _ _ _ _ (registerfile.get_wp _ _ _ (hlen ▸ get_rs1_lt insn)) ?_; intro _ _)
    | (refine Sim.wp_bind _ _ _ _ _ (registerfile.get_wp _ _ _ (hlen ▸ get_rs2_lt insn)) ?_; intro _ _)
    | (refine Sim.wp_bind _ _ _ _ _ (registerfile.get_wp _ _ _ (hlen ▸ get_rs1_cast_lt insn)) ?_; intro _ _)
    | (refine Sim.wp_bind _ _ _ _ _ (registerfile.get_wp _ _ _ (hlen ▸ get_rs2_cast_lt insn)) ?_; intro _ _)
    | (refine Sim.wp_bind _ _ _ _ _ (registerfile.set_wp _ _ _ _ (get_rd_lt insn) hlen) ?_; intro _ _)
    | (refine Sim.wp_bind _ _ _ _ _ (trace_wp _ _) ?_; intro _ _)
    | exact Sim.wp_pure _ _ _ (by assumption)
    | (dsimp only; split)

theorem exec_andi_wp (h : rv32i_hart) (insn : Nat) (pos : Bool)
    (hlen : h.regs.regVec.length = 32) :
    Sim.wp (h.exec_andi insn pos) False (fun h' => h'.regs.regVec.length = 32) := by
  unfold exec_andi
  with_reducible repeat first
    | (refine Sim.wp_bind _ _ _ _ _ (registerfile.get_wp _ _ _ (hlen ▸ get_rs1_lt insn)) ?_; intro _ _)
    | (refine Sim.wp_bind _ _ _ _ _ (registerfile.get_wp _ _ _ (hlen ▸ get_rs2_lt insn)) ?_; intro _ _)
    | (refine Sim.wp_bind _ _ _ _ _ (registerfile.get_wp _ _ _ (hlen ▸ get_rs1_cast_lt insn)) ?_; intro _ _)
    | (refine Sim.wp_bind _ _ _ _ _ (registerfile.get_wp _ _ _ (hlen ▸ get_rs2_cast_lt insn)) ?_; intro _ _)
    | (refine Sim.wp_bind _ _ _ _ _ (registerfile.set_wp _ _ _ _ (get_rd_lt insn) hlen) ?_; intro _ _)
    | (refine Sim.wp_bind _ _ _ _ _ (trace_wp _ _) ?_; intro _ _)
    | exact Sim.wp_pure _ _ _ (by assumption)
    | (dsimp only; split)

theorem exec_slli_wp (h : rv32i_hart) (insn : Nat) (pos : Bool)
    (hlen : h.regs.regVec.length = 32) :
    Sim.wp (h.exec_slli insn pos) False (fun h' => h'.regs.regVec.length = 32) := by
  unfold exec_slli
  with_reducible repeat first
    | (refine Sim.wp_bind _ _ _ _ _ (registerfile.get_wp _ _ _ (hlen ▸ get_rs1_lt insn)) ?_; intro _ _)
    | (refine Sim.wp_bind _ _ _ _ _ (registerfile.get_wp _ _ _ (hlen ▸ get_rs2_lt insn)) ?_; intro _ _)
    | (refine Sim.wp_bind _ _ _ _ _ (registerfile.get_wp _ _ _ (hlen ▸ get_rs1_cast_lt insn)) ?_; intro _ _)
    | (refine Sim.wp_bind _ _ _ _ _ (registerfile.get_wp _ _ _ (hlen ▸ get_rs2_cast_lt insn)) ?_; intro _ _)
    | (refine Sim.wp_bind _ _ _ _ _ (registerfile.set_wp _ _ _ _ (get_rd_lt insn) hlen) ?_; intro _ _)
    | (refine Sim.wp_bind _ _ _ _ _ (trace_wp _ _) ?_; intro _ _)
    | exact Sim.wp_pure _ _ _ (by assumption)
    | (dsimp only; split)

theorem exec_srli_wp (h : rv32i_hart) (insn : Nat) (pos : Bool)
    (hlen : h.regs.regVec.length = 32) :
    Sim.wp (h.exec_srli insn pos) False (fun h' => h'.regs.regVec.length = 32) := by
  unfold exec_srli
  with_reducible repeat first
    | (refine Sim.wp_bind _ _ _ _ _ (registerfile.get_wp _ _ _ (hlen ▸ get_rs1_lt insn)) ?_; intro _ _)
    | (refine Sim.wp_bind _ _ _ _ _ (registerfile.get_wp _ _ _ (hlen ▸ get_rs2_lt insn)) ?_; intro _ _)
    | (refine Sim.wp_bind _ _ _ _ _ (registerfile.get_wp _ _ _ (hlen ▸ get_rs1_cast_lt insn)) ?_; intro _ _)
    | (refine Sim.wp_bind _ _ _ _ _ (registerfile.get_wp _ _ _ (hlen ▸ get_rs2_cast_lt insn)) ?_; intro _ _)
    | (refine Sim.wp_bind _ _ _ _ _ (registerfile.set_wp _ _ _ _ (get_rd_lt insn) hlen) ?_; intro _ _)
    | (refine Sim.wp_bind _ _ _ _ _ (trace_wp _ _) ?_; intro _ _)
    | exact Sim.wp_pure _ _ _ (by assumption)
    | (dsimp only; split)

theorem exec_srai_wp (h : rv32i_hart) (insn : Nat) (pos : Bool)
    (hlen : h.regs.regVec.length = 32) :
    Sim.wp (h.exec_srai insn pos) False (fun h' => h'.regs.regVec.length = 32) := by
  unfold exec_srai
  with_reducible repeat first
    | (refine Sim.wp_bind _ _ _ _ _ (registerfile.get_wp _ _ _ (hlen ▸ get_rs1_lt insn)) ?_; intro _ _)
    | (refine Sim.wp_bind _ _ _ _ _ (registerfile.get_wp _ _ _ (hlen ▸ get_rs2_lt insn)) ?_; intro _ _)
    | (refine Sim.wp_bind _ _ _ _ _ (registerfile.get_wp _ _ _ (hlen ▸ get_rs1_cast_lt insn)) ?_; intro _ _)
    | (refine Sim.wp_bind _ _ _ _ _ (registerfile.get_wp _ _ _ (hlen ▸ get_rs2_cast_lt insn)) ?_; intro _ _)
    | (refine Sim.wp_bind _ _ _ _ _ (registerfile.set_wp _ _ _ _ (get_rd_lt insn) hlen) ?_; intro _ _)
    | (refine Sim.wp_bind _ _ _ _ _ (trace_wp _ _) ?_; intro _ _)
    | exact Sim.wp_pure _ _ _ (by assumption)
    | (dsimp only; split)

theorem exec_add_wp (h : rv32i_hart) (insn : Nat) (pos : Bool)
    (hlen : h.regs.regVec.length = 32) :
    Sim.wp (h.exec_add insn pos) False (fun h' => h'.regs.regVec.length = 32) := by
  unfold exec_add
  with_reducible repeat first
    | (refine Sim.wp_bind _ _ _ _ _ (registerfile.get_wp _ _ _ (hlen ▸ get_rs1_lt insn)) ?_; intro _ _)
    | (refine Sim.wp_bind _ _ _ _ _ (registerfile.get_wp _ _ _ (hlen ▸ get_rs2_lt insn)) ?_; intro _ _)
    | (refine Sim.wp_bind _ _ _ _ _ (registerfile.get_wp _ _ _ (hlen ▸ get_rs1_cast_lt insn)) ?_; intro _ _)
    | (refine Sim.wp_bind _ _ _ _ _ (registerfile.get_wp _ _ _ (hlen ▸ get_rs2_cast_lt insn)) ?_; intro _ _)
    | (refine Sim.wp_bind _ _ _ _ _ (registerfile.set_wp _ _ _ _ (get_rd_lt insn) hlen) ?_; intro _ _)
    | (refine Sim.wp_bind _ _ _ _ _ (trace_wp _ _) ?_; intro _ _)
    | exact Sim.wp_pure _ _ _ (by assumption)
    | (dsimp only; split)

theorem exec_sub_wp (h : rv32i_hart) (insn : Nat) (pos : Bool)
    (hlen : h.regs.regVec.length = 32) :
    Sim.wp (h.exec_sub insn pos) False (fun h' => h'.regs.regVec.length = 32) := by
  unfold exec_sub
  with_reducible repeat first
    | (refine Sim.wp_bind _ _ _ _ _ (registerfile.get_wp _ _ _ (hlen ▸ get_rs1_lt insn)) ?_; intro _ _)
    | (refine Sim.wp_bind _ _ _ _ _ (registerfile.get_wp _ _ _ (hlen ▸ get_rs2_lt insn)) ?_; intro _ _)
    | (refine Sim.wp_bind _ _ _ _ _ (registerfile.get_wp _ _ _ (hlen ▸ get_rs1_cast_lt insn)) ?_; intro _ _)
    | (refine Sim.wp_bind _ _ _ _ _ (registerfile.get_wp _ _ _ (hlen ▸ get_rs2_cast_lt insn)) ?_; intro _ _)
    | (refine Sim.wp_bind _ _ _ _ _ (registerfile.set_wp _ _ _ _ (get_rd_lt insn) hlen) ?_; intro _ _)
    | (refine Sim.wp_bind _ _ _ _ _ (trace_wp _ _) ?_; intro _ _)
    | exact Sim.wp_pure _ _ _ (by assumption)
    | (dsimp only; split)

theorem exec_sll_wp (h : rv32i_hart) (insn : Nat) (pos : Bool)
    (hlen : h.regs.regVec.length = 32) :
    Sim.wp (h.exec_sll insn pos) False (fun h' => h'.regs.regVec.length = 32) := by
  unfold exec_sll
  with_reducible repeat first
    | (refine Sim.wp_bind _ _ _ _ _ (registerfile.get_wp _ _ _ (hlen ▸ get_rs1_lt insn)) ?_; intro _ _)
    | (refine Sim.wp_bind _ _ _ _ _ (registerfile.get_wp _ _ _ (hlen ▸ get_rs2_lt insn)) ?_; intro _ _)
    | (refine Sim.wp_bind _ _ _ _ _ (registerfile.get_wp _ _ _ (hlen ▸ get_rs1_cast_lt insn)) ?_; intro _ _)
    | (refine Sim.wp_bind _ _ _ _ _ (registerfile.get_wp _ _ _ (hlen ▸ get_rs2_cast_lt insn)) ?_; intro _ _)
    | (refine Sim.wp_bind _ _ _ _ _ (registerfile.set_wp _ _ _ _ (get_rd_lt insn) hlen) ?_; intro _ _)
    | (refine Sim.wp_bind _ _ _ _ _ (trace_wp _ _) ?_; intro _ _)
    | exact Sim.wp_pure _ _ _ (by assumption)
    | (dsimp only; split)

theorem exec_slt_wp (h : rv32i_hart) (insn : Nat) (pos : Bool)
    (hlen : h.regs.regVec.length = 32) :
    Sim.wp (h.exec_slt insn pos) False (fun h' => h'.regs.regVec.length = 32) := by
  unfold exec_slt
  with_reducible repeat first
    | (refine Sim.wp_bind _ _ _ _ _ (registerfile.get_wp _ _ _ (hlen ▸ get_rs1_lt insn)) ?_; intro _ _)
    | (refine Sim.wp_bind _ _ _ _ _ (registerfile.get_wp _ _ _ (hlen ▸ get_rs2_lt insn)) ?_; intro _ _)
    | (refine Sim.wp_bind _ _ _ _ _ (registerfile.get_wp _ _ _ (hlen ▸ get_rs1_cast_lt insn)) ?_; intro _ _)
    | (refine Sim.wp_bind _ _ _ _ _ (registerfile.get_wp _ _ _ (hlen ▸ get_rs2_cast_lt insn)) ?_; intro _ _)
    | (refine Sim.wp_bind _ _ _ _ _ (registerfile.set_wp _ _ _ _ (get_rd_lt insn) hlen) ?_; intro _ _)
    | (refine Sim.wp_bind _ _ _ _ _ (trace_wp _ _) ?_; intro _ _)
    | exact Sim.wp_pure _ _ _ (by assumption)
    | (dsimp only; split)

theorem exec_sltu_wp (h : rv32i_hart) (insn : Nat) (pos : Bool)
    (hlen : h.regs.regVec.length = 32) :
    Sim.wp (h.exec_sltu insn pos) False (fun h' => h'.regs.regVec.length = 32) := by
  unfold exec_sltu
  with_reducible repeat first
    | (refine Sim.wp_bind _ _ _ _ _ (registerfile.get_wp _ _ _ (hlen ▸ get_rs1_lt insn)) ?_; intro _ _)
    | (refine Sim.wp_bind _ _ _ _ _ (registerfile.get_wp _ _ _ (hlen ▸ get_rs2_lt insn)) ?_; intro _ _)
    | (refine Sim.wp_bind _ _ _ _ _ (registerfile.get_wp _ _ _ (hlen ▸ get_rs1_cast_lt insn)) ?_; intro _ _)
    | (refine Sim.wp_bind _ _ _ _ _ (registerfile.get_wp _ _ _ (hlen ▸ get_rs2_cast_lt insn)) ?_; intro _ _)
    | (refine Sim.wp_bind _ _ _ _ _ (registerfile.set_wp _ _ _ _ (get_rd_lt insn) hlen) ?_; intro _ _)
    | (refine Sim.wp_bind _ _ _ _ _ (trace_wp _ _) ?_; intro _ _)
    | exact Sim.wp_pure _ _ _ (by assumption)
    | (dsimp only; split)

theorem exec_xor_wp (h : rv32i_hart) (insn : Nat) (pos : Bool)
    (hlen : h.regs.regVec.length = 32) :
    Sim.wp (h.exec_xor insn pos) False (fun h' => h'.regs.regVec.length = 32) := by
  unfold exec_xor
  with_reducible repeat first
    | (refine Sim.wp_bind _ _ _ _ _ (registerfile.get_wp _ _ _ (hlen ▸ get_rs1_lt insn)) ?_; intro _ _)
    | (refine Sim.wp_bind _ _ _ _ _ (registerfile.get_wp _ _ _ (hlen ▸ get_rs2_lt insn)) ?_; intro _ _)
    | (refine Sim.wp_bind _ _ _ _ _ (registerfile.get_wp _ _ _ (hlen ▸ get_rs1_cast_lt insn)) ?_; intro _ _)
    | (refine Sim.wp_bind _ _ _ _ _ (registerfile.get_wp _ _ _ (hlen ▸ get_rs2_cast_lt insn)) ?_; intro _ _)
    | (refine Sim.wp_bind _ _ _ _ _ (registerfile.set_wp _ _ _ _ (get_rd_lt insn) hlen) ?_; intro _ _)
    | (refine Sim.wp_bind _ _ _ _ _ (trace_wp _ _) ?_; intro _ _)
    | exact Sim.wp_pure _ _ _ (by assumption)
    | (dsimp only; split)

theorem exec_srl_wp (h : rv32i_hart) (insn : Nat) (pos : Bool)
    (hlen : h.regs.regVec.length = 32) :
    Sim.wp (h.exec_srl insn pos) False (fun h' => h'.regs.regVec.length = 32) := by
  unfold exec_srl
  with_reducible repeat first
    | (refine Sim.wp_bind _ _ _ _ _ (registerfile.get_wp _ _ _ (hlen ▸ get_rs1_lt insn)) ?_; intro _ _)
    | (refine Sim.wp_bind _ _ _ _ _ (registerfile.get_wp _ _ _ (hlen ▸ get_rs2_lt insn)) ?_; intro _ _)
    | (refine Sim.wp_bind _ _ _ _ _ (registerfile.get_wp _ _ _ (hlen ▸ get_rs1_cast_lt insn)) ?_; intro _ _)
    | (refine Sim.wp_bind _ _ _ _ _ (registerfile.get_wp _ _ _ (hlen ▸ get_rs2_cast_lt insn)) ?_; intro _ _)
    | (refine Sim.wp_bind _ _ _ _ _ (registerfile.set_wp _ _ _ _ (get_rd_lt insn) hlen) ?_; intro _ _)
    | (refine Sim.wp_bind _ _ _ _ _ (trace_wp _ _) ?_; intro _ _)
    | exact Sim.wp_pure _ _ _ (by assumption)
    | (dsimp only; split)

theorem exec_sra_wp (h : rv32i_hart) (insn : Nat) (pos : Bool)
    (hlen : h.regs.regVec.length = 32) :
    Sim.wp (h.exec_sra insn pos) False (fun h' => h'.regs.regVec.length = 32) := by
  unfold exec_sra
  with_reducible repeat first
    | (refine Sim.wp_bind _ _ _ _ _ (registerfile.get_wp _ _ _ (hlen ▸ get_rs1_lt insn)) ?_; intro _ _)
    | (refine Sim.wp_bind _ _ _ _ _ (registerfile.get_wp _ _ _ (hlen ▸ get_rs2_lt insn)) ?_; intro _ _)
    | (refine Sim.wp_bind _ _ _ _ _ (registerfile.get_wp _ _ _ (hlen ▸ get_rs1_cast_lt insn)) ?_; intro _ _)
    | (refine Sim.wp_bind _ _ _ _ _ (registerfile.get_wp _ _ _ (hlen ▸ get_rs2_cast_lt insn)) ?_; intro _ _)
    | (refine Sim.wp_bind _ _ _ _ _ (registerfile.set_wp _ _ _ _ (get_rd_lt insn) hlen) ?_; intro _ _)
    | (refine Sim.wp_bind _ _ _ _ _ (trace_wp _ _) ?_; intro _ _)
    | exact Sim.wp_pure _ _ _ (by assumption)
    | (dsimp only; split)

theorem exec_or_wp (h : rv32i_hart) (insn : Nat) (pos : Bool)
    (hlen : h.regs.regVec.length = 32) :
    Sim.wp (h.exec_or insn pos) False (fun h' => h'.regs.regVec.length = 32) := by
  unfold exec_or
  with_reducible repeat first
    | (refine Sim.wp_bind _ _ _ _ _ (registerfile.get_wp _ _ _ (hlen ▸ get_rs1_lt insn)) ?_; intro _ _)
    | (refine Sim.wp_bind _ _ _ _ _ (registerfile.get_wp _ _ _ (hlen ▸ get_rs2_lt insn)) ?_; intro _ _)
    | (refine Sim.wp_bind _ _ _ _ _ (registerfile.get_wp _ _ _ (hlen ▸ get_rs1_cast_lt insn)) ?_; intro _ _)
    | (refine Sim.wp_bind _ _ _ _ _ (registerfile.get_wp _ _ _ (hlen ▸ get_rs2_cast_lt insn)) ?_; intro _ _)
    | (refine Sim.wp_bind _ _ _ _ _ (registerfile.set_wp _ _ _ _ (get_rd_lt insn) hlen) ?_; intro _ _)
    | (refine Sim.wp_bind _ _ _ _ _ (trace_wp _ _) ?_; intro _ _)
    | exact Sim.wp_pure _ _ _ (by assumption)
    | (dsimp only; split)

theorem exec_and_wp (h : rv32i_hart) (insn : Nat) (pos : Bool)
    (hlen : h.regs.regVec.length = 32) :
    Sim.wp (h.exec_and insn pos) False (fun h' => h'.regs.regVec.length = 32) := by
  unfold exec_and
  with_reducible repeat first
    | (refine Sim.wp_bind _ _ _ _ _ (registerfile.get_wp _ _ _ (hlen ▸ get_rs1_lt insn)) ?_; intro _ _)
    | (refine Sim.wp_bind _ _ _ _ _ (registerfile.get_wp _ _ _ (hlen ▸ get_rs2_lt insn)) ?_; intro _ _)
    | (refine Sim.wp_bind _ _ _ _ _ (registerfile.get_wp _ _ _ (hlen ▸ get_rs1_cast_lt insn)) ?_; intro _ _)
    | (refine Sim.wp_bind _ _ _ _ _ (registerfile.get_wp _ _ _ (hlen ▸ get_rs2_cast_lt insn)) ?_; intro _ _)
    | (refine Sim.wp_bind _ _ _ _ _ (registerfile.set_wp _ _ _ _ (get_rd_lt insn) hlen) ?_; intro _ _)
    | (refine Sim.wp_bind _ _ _ _ _ (trace_wp _ _) ?_; intro _ _)
    | exact Sim.wp_pure _ _ _ (by assumption)
    | (dsimp only; split)

theorem exec_csrrs_wp (h : rv32i_hart) (insn : Nat) (pos : Bool)
    (hlen : h.regs.regVec.length = 32) :
    Sim.wp (h.exec_csrrs insn pos) False (fun h' => h'.regs.regVec.length = 32) := by
  unfold exec_csrrs
  dsimp only
  split
  all_goals
    with_reducible repeat first
      | (refine Sim.wp_bind _ _ _ _ _ (registerfile.set_wp _ _ _ _ (get_rd_lt insn) hlen) ?_; intro _ _)
      | (refine Sim.wp_bind _ _ _ _ _ (trace_wp _ _) ?_; intro _ _)
      | exact Sim.wp_pure _ _ _ (by assumption)

end rv32i_hart
namespace memory

theorem get8_wp (m : memory) (a : Nat) :
    Sim.wp (m.get8 a) (a = m.mem.length) (fun _ => a ≠ m.mem.length) := by
  rcases Nat.lt_trichotomy a m.mem.length with hlt | heq | hgt
  · obtain ⟨b, hb⟩ := memory.mem_some m a hlt
    exact Sim.wp_ok _ _ _ _ _ (get8_in m a b hb) (by omega)
  · rw [heq, memory.get8_at_size]
    exact rfl
  · exact Sim.wp_ok _ _ _ _ _ (memory.get8_above m a hgt) (by omega)

theorem set8_wp (m : memory) (a v : Nat) :
    Sim.wp (m.set8 a v) (a = m.mem.length)
      (fun m' => m'.mem.length = m.mem.length ∧ a ≠ m.mem.length) := by
  rcases Nat.lt_trichotomy a m.mem.length with hlt | heq | hgt
  · exact Sim.wp_ok _ _ _ _ _ (set8_in m a v hlt) ⟨List.length_set _ _ _, by omega⟩
  · rw [heq, memory.set8_at_size]
    exact rfl
  · exact Sim.wp_ok _ _ _ _ _ (memory.set8_above m a v hgt) ⟨rfl, by omega⟩

theorem get16_wp (m : memory) (a : Nat) :
    Sim.wp (m.get16 a) (a = m.mem.length ∨ (a + 1) % 4294967296 = m.mem.length)
      (fun _ => True) := by
  unfold get16
  refine Sim.wp_bind _ _ _ (fun _ => True) _
    (Sim.wp_imp _ _ _ _ _ (get8_wp m a) Or.inl (fun _ _ => trivial)) ?_
  intro _ _
  refine Sim.wp_bind _ _ _ (fun _ => True) _
    (Sim.wp_imp _ _ _ _ _ (get8_wp m _) Or.inr (fun _ _ => trivial)) ?_
  intro _ _
  exact Sim.wp_pure _ _ _ trivial

theorem set16_wp (m : memory) (a v : Nat) :
    Sim.wp (m.set16 a v) (a = m.mem.length ∨ (a + 1) % 4294967296 = m.mem.length)
      (fun m' => m'.mem.length = m.mem.length ∧
        ¬ (a = m.mem.length ∨ (a + 1) % 4294967296 = m.mem.length)) := by
  unfold set16
  refine Sim.wp_bind _ _ _ _ _
    (Sim.wp_imp _ _ _ _ _ (set8_wp m a _) Or.inl (fun _ hq => hq)) ?_
  intro m₁ hm₁
  refine Sim.wp_imp _ _ _ _ _ (set8_wp m₁ _ _) ?_ ?_
  · intro hf
    exact Or.inr (hf.trans hm₁.1)
  · intro m₂ hm₂
    refine ⟨hm₂.1.trans hm₁.1, ?_⟩
    have h1 := hm₁.1
    have h2 := hm₁.2
    have h3 := hm₂.2
    omega

theorem get32_wp (m : memory) (a : Nat) :
    Sim.wp (m.get32 a)
      ((a = m.mem.length ∨ (a + 1) % 4294967296 = m.mem.length) ∨
        ((a + 2) % 4294967296 = m.mem.length ∨
          ((a + 2) % 4294967296 + 1) % 4294967296 = m.mem.length))
      (fun _ => True) := by
  unfold get32
  refine Sim.wp_bind _ _ _ (fun _ => True) _
    (Sim.wp_imp _ _ _ _ _ (get16_wp m a) Or.inl (fun _ _ => trivial)) ?_
  intro _ _
  refine Sim.wp_bind _ _ _ (fun _ => True) _
    (Sim.wp_imp _ _ _ _ _ (get16_wp m _) Or.inr (fun _ _ => trivial)) ?_
  intro _ _
  exact Sim.wp_pure _ _ _ trivial

theorem set32_wp (m : memory) (a v : Nat) :
    Sim.wp (m.set32 a v)
      ((a = m.mem.length ∨ (a + 1) % 4294967296 = m.mem.length) ∨
        ((a + 2) % 4294967296 = m.mem.length ∨
          ((a + 2) % 4294967296 + 1) % 4294967296 = m.mem.length))
      (fun m' => m'.mem.length = m.mem.length ∧
        ¬ ((a = m.mem.length ∨ (a + 1) % 4294967296 = m.mem.length) ∨
          ((a + 2) % 4294967296 = m.mem.length ∨
            ((a + 2) % 4294967296 + 1) % 4294967296 = m.mem.length))) := by
  unfold set32
  refine Sim.wp_bind _ _ _ _ _
    (Sim.wp_imp _ _ _ _ _ (set16_wp m a _) Or.inl (fun _ hq => hq)) ?_
  intro m₁ hm₁
  refine Sim.wp_imp _ _ _ _ _ (set16_wp m₁ _ _) ?_ ?_
  · intro hf
    rw [hm₁.1] at hf
    exact Or.inr hf
  · intro m₂ hm₂
    refine ⟨hm₂.1.trans hm₁.1, ?_⟩
    have h1 := hm₁.1
    have h2 := hm₁.2
    have h3 := hm₂.2
    rw [h1] at h3
    exact fun hf => hf.elim h2 h3

end memory

theorem Sim.wp_not {α : Type} (x : Sim α) (F : Prop) (Q : α → Prop) (hx : Sim.wp x F Q)
    (hF : ¬ F) : ∃ a o, x = Except.ok (a, o) ∧ Q a :=
  Sim.wp_returns x Q (Sim.wp_imp x F False Q Q hx hF (fun _ hq => hq))

theorem memory.hit8 (len a : Nat) (ha : a < 4294967296) (e : a = len) : len < 4294967296 := by
  omega

theorem memory.hit16 (len a : Nat) (ha : a < 4294967296)
    (e : a = len ∨ (a + 1) % 4294967296 = len) : len < 4294967296 := by
  omega

theorem memory.hit32 (len a : Nat) (ha : a < 4294967296)
    (e : (a = len ∨ (a + 1) % 4294967296 = len) ∨
      ((a + 2) % 4294967296 = len ∨ ((a + 2) % 4294967296 + 1) % 4294967296 = len)) :
    len < 4294967296 := by
  omega

theorem address_lt (x : Nat) : x % 4294967296 < 4294967296 := Nat.mod_lt _ (by decide)

namespace rv32i_hart

open rv32i_decode

set_option linter.unusedTactic false
set_option linter.unreachableTactic false

theorem exec_lbu_wp (h : rv32i_hart) (insn : Nat) (pos : Bool)
    (hlen : h.regs.regVec.length = 32) :
    Sim.wp (h.exec_lbu insn pos) (h.mem.mem.length < 4294967296)
      (fun h' => h'.regs.regVec.length = 32) := by
  unfold exec_lbu
  with_reducible repeat first
    | (refine Sim.wp_bind _ _ _ _ _ (registerfile.get_wp _ _ _ (hlen ▸ get_rs1_lt insn)) ?_; intro _ _)
    | (refine Sim.wp_bind _ _ _ _ _ (registerfile.get_wp _ _ _ (hlen ▸ get_rs2_lt insn)) ?_; intro _ _)
    | (refine Sim.wp_bind _ _ _ _ _ (registerfile.get_wp _ _ _ (hlen ▸ get_rs1_cast_lt insn)) ?_; intro _ _)
    | (refine Sim.wp_bind _ _ _ _ _ (registerfile.get_wp _ _ _ (hlen ▸ get_rs2_cast_lt insn)) ?_; intro _ _)
    | (refine Sim.wp_bind _ _ _ _ _ (registerfile.set_wp _ _ _ _ (get_rd_lt insn) hlen) ?_; intro _ _)
    | (refine Sim.wp_bind _ _ _ _ _ (trace_wp _ _) ?_; intro _ _)
    | (refine Sim.wp_bind _ _ _ (fun _ => True) _ (Sim.wp_imp _ _ _ _ _ (memory.get8_wp _ _)
        (memory.hit8 _ _ (by first | exact u32_lt _ | exact address_lt _)) (fun _ _ => trivial)) ?_; intro _ _)
    | (refine Sim.wp_bind _ _ _ (fun _ => True) _ (Sim.wp_imp _ _ _ _ _ (memory.get16_wp _ _)
        (memory.hit16 _ _ (by first | exact u32_lt _ | exact address_lt _)) (fun _ _ => trivial)) ?_; intro _ _)
    | (refine Sim.wp_bind _ _ _ (fun _ => True) _ (Sim.wp_imp _ _ _ _ _ (memory.get32_wp _ _)
        (memory.hit32 _ _ (by first | exact u32_lt _ | exact address_lt _)) (fun _ _ => trivial)) ?_; intro _ _)
    | exact Sim.wp_pure _ _ _ (by assumption)
    | (dsimp only; split)

theorem exec_lhu_wp (h : rv32i_hart) (insn : Nat) (pos : Bool)
    (hlen : h.regs.regVec.length = 32) :
    Sim.wp (h.exec_lhu insn pos) (h.mem.mem.length < 4294967296)
      (fun h' => h'.regs.regVec.length = 32) := by
  unfold exec_lhu
  with_reducible repeat first
    | (refine Sim.wp_bind _ _ _ _ _ (registerfile.get_wp _ _ _ (hlen ▸ get_rs1_lt insn)) ?_; intro _ _)
    | (refine Sim.wp_bind _ _ _ _ _ (registerfile.get_wp _ _ _ (hlen ▸ get_rs2_lt insn)) ?_; intro _ _)
    | (refine Sim.wp_bind _ _ _ _ _ (registerfile.get_wp _ _ _ (hlen ▸ get_rs1_cast_lt insn)) ?_; intro _ _)
    | (refine Sim.wp_bind _ _ _ _ _ (registerfile.get_wp _ _ _ (hlen ▸ get_rs2_cast_lt insn)) ?_; intro _ _)
    | (refine Sim.wp_bind _ _ _ _ _ (registerfile.set_wp _ _ _ _ (get_rd_lt insn) hlen) ?_; intro _ _)
    | (refine Sim.wp_bind _ _ _ _ _ (trace_wp _ _) ?_; intro _ _)
    | (refine Sim.wp_bind _ _ _ (fun _ => True) _ (Sim.wp_imp _ _ _ _ _ (memory.get8_wp _ _)
        (memory.hit8 _ _ (by first | exact u32_lt _ | exact address_lt _)) (fun _ _ => trivial)) ?_; intro _ _)
    | (refine Sim.wp_bind _ _ _ (fun _ => True) _ (Sim.wp_imp _ _ _ _ _ (memory.get16_wp _ _)
        (memory.hit16 _ _ (by first | exact u32_lt _ | exact address_lt _)) (fun _ _ => trivial)) ?_; intro _ _)
    | (refine Sim.wp_bind _ _ _ (fun _ => True) _ (Sim.wp_imp _ _ _ _ _ (memory.get32_wp _ _)
        (memory.hit32 _ _ (by first | exact u32_lt _ | exact address_lt _)) (fun _ _ => trivial)) ?_; intro _ _)
    | exact Sim.wp_pure _ _ _ (by assumption)
    | (dsimp only; split)

theorem exec_lb_wp (h : rv32i_hart) (insn : Nat) (pos : Bool)
    (hlen : h.regs.regVec.length = 32) :
    Sim.wp (h.exec_lb insn pos) (h.mem.mem.length < 4294967296)
      (fun h' => h'.regs.regVec.length = 32) := by
  unfold exec_lb
  with_reducible repeat first
    | (refine Sim.wp_bind _ _ _ _ _ (registerfile.get_wp _ _ _ (hlen ▸ get_rs1_lt insn)) ?_; intro _ _)
    | (refine Sim.wp_bind _ _ _ _ _ (registerfile.get_wp _ _ _ (hlen ▸ get_rs2_lt insn)) ?_; intro _ _)
    | (refine Sim.wp_bind _ _ _ _ _ (registerfile.get_wp _ _ _ (hlen ▸ get_rs1_cast_lt insn)) ?_; intro _ _)
    | (refine Sim.wp_bind _ _ _ _ _ (registerfile.get_wp _ _ _ (hlen ▸ get_rs2_cast_lt insn)) ?_; intro _ _)
    | (refine Sim.wp_bind _ _ _ _ _ (registerfile.set_wp _ _ _ _ (get_rd_lt insn) hlen) ?_; intro _ _)
    | (refine Sim.wp_bind _ _ _ _ _ (trace_wp _ _) ?_; intro _ _)
    | (refine Sim.wp_bind _ _ _ (fun _ => True) _ (Sim.wp_imp _ _ _ _ _ (memory.get8_wp _ _)
        (memory.hit8 _ _ (by first | exact u32_lt _ | exact address_lt _)) (fun _ _ => trivial)) ?_; intro _ _)
    | (refine Sim.wp_bind _ _ _ (fun _ => True) _ (Sim.wp_imp _ _ _ _ _ (memory.get16_wp _ _)
        (memory.hit16 _ _ (by first | exact u32_lt _ | exact address_lt _)) (fun _ _ => trivial)) ?_; intro _ _)
    | (refine Sim.wp_bind _ _ _ (fun _ => True) _ (Sim.wp_imp _ _ _ _ _ (memory.get32_wp _ _)
        (memory.hit32 _ _ (by first | exact u32_lt _ | exact address_lt _)) (fun _ _ => trivial)) ?_; intro _ _)
    | exact Sim.wp_pure _ _ _ (by assumption)
    | (dsimp only; split)

theorem exec_lh_wp (h : rv32i_hart) (insn : Nat) (pos : Bool)
    (hlen : h.regs.regVec.length = 32) :
    Sim.wp (h.exec_lh insn pos) (h.mem.mem.length < 4294967296)
      (fun h' => h'.regs.regVec.length = 32) := by
  unfold exec_lh
  with_reducible repeat first
    | (refine Sim.wp_bind _ _ _ _ _ (registerfile.get_wp _ _ _ (hlen ▸ get_rs1_lt insn)) ?_; intro _ _)
    | (refine Sim.wp_bind _ _ _ _ _ (registerfile.get_wp _ _ _ (hlen ▸ get_rs2_lt insn)) ?_; intro _ _)
    | (refine Sim.wp_bind _ _ _ _ _ (registerfile.get_wp _ _ _ (hlen ▸ get_rs1_cast_lt insn)) ?_; intro _ _)
    | (refine Sim.wp_bind _ _ _ _ _ (registerfile.get_wp _ _ _ (hlen ▸ get_rs2_cast_lt insn)) ?_; intro _ _)
    | (refine Sim.wp_bind _ _ _ _ _ (registerfile.set_wp _ _ _ _ (get_rd_lt insn) hlen) ?_; intro _ _)
    | (refine Sim.wp_bind _ _ _ _ _ (trace_wp _ _) ?_; intro _ _)
    | (refine Sim.wp_bind _ _ _ (fun _ => True) _ (Sim.wp_imp _ _ _ _ _ (memory.get8_wp _ _)
        (memory.hit8 _ _ (by first | exact u32_lt _ | exact address_lt _)) (fun _ _ => trivial)) ?_; intro _ _)
    | (refine Sim.wp_bind _ _ _ (fun _ => True) _ (Sim.wp_imp _ _ _ _ _ (memory.get16_wp _ _)
        (memory.hit16 _ _ (by first | exact u32_lt _ | exact address_lt _)) (fun _ _ => trivial)) ?_; intro _ _)
    | (refine Sim.wp_bind _ _ _ (fun _ => True) _ (Sim.wp_imp _ _ _ _ _ (memory.get32_wp _ _)
        (memory.hit32 _ _ (by first | exact u32_lt _ | exact address_lt _)) (fun _ _ => trivial)) ?_; intro _ _)
    | exact Sim.wp_pure _ _ _ (by assumption)
    | (dsimp only; split)

theorem exec_lw_wp (h : rv32i_hart) (insn : Nat) (pos : Bool)
    (hlen : h.regs.regVec.length = 32) :
    Sim.wp (h.exec_lw insn pos) (h.mem.mem.length < 4294967296)
      (fun h' => h'.regs.regVec.length = 32) := by
  unfold exec_lw
  with_reducible repeat first
    | (refine Sim.wp_bind _ _ _ _ _ (registerfile.get_wp _ _ _ (hlen ▸ get_rs1_lt insn)) ?_; intro _ _)
    | (refine Sim.wp_bind _ _ _ _ _ (registerfile.get_wp _ _ _ (hlen ▸ get_rs2_lt insn)) ?_; intro _ _)
    | (refine Sim.wp_bind _ _ _ _ _ (registerfile.get_wp _ _ _ (hlen ▸ get_rs1_cast_lt insn)) ?_; intro _ _)
    | (refine Sim.wp_bind _ _ _ _ _ (registerfile.get_wp _ _ _ (hlen ▸ get_rs2_cast_lt insn)) ?_; intro _ _)
    | (refine Sim.wp_bind _ _ _ _ _ (registerfile.set_wp _ _ _ _ (get_rd_lt insn) hlen) ?_; intro _ _)
    | (refine Sim.wp_bind _ _ _ _ _ (trace_wp _ _) ?_; intro _ _)
    | (refine Sim.wp_bind _ _ _ (fun _ => True) _ (Sim.wp_imp _ _ _ _ _ (memory.get8_wp _ _)
        (memory.hit8 _ _ (by first | exact u32_lt _ | exact address_lt _)) (fun _ _ => trivial)) ?_; intro _ _)
    | (refine Sim.wp_bind _ _ _ (fun _ => True) _ (Sim.wp_imp _ _ _ _ _ (memory.get16_wp _ _)
        (memory.hit16 _ _ (by first | exact u32_lt _ | exact address_lt _)) (fun _ _ => trivial)) ?_; intro _ _)
    | (refine Sim.wp_bind _ _ _ (fun _ => True) _ (Sim.wp_imp _ _ _ _ _ (memory.get32_wp _ _)
        (memory.hit32 _ _ (by first | exact u32_lt _ | exact address_lt _)) (fun _ _ => trivial)) ?_; intro _ _)
    | exact Sim.wp_pure _ _ _ (by assumption)
    | (dsimp only; split)

theorem exec_sb_wp (h : rv32i_hart) (insn : Nat) (pos : Bool)
    (hlen : h.regs.regVec.length = 32) :
    Sim.wp (h.exec_sb insn pos) (h.mem.mem.length < 4294967296)
      (fun h' => h'.regs.regVec.length = 32) := by
  unfold exec_sb
  with_reducible repeat first
    | (refine Sim.wp_bind _ _ _ _ _ (registerfile.get_wp _ _ _ (hlen ▸ get_rs1_lt insn)) ?_; intro _ _)
    | (refine Sim.wp_bind _ _ _ _ _ (registerfile.get_wp _ _ _ (hlen ▸ get_rs2_lt insn)) ?_; intro _ _)
    | (refine Sim.wp_bind _ _ _ _ _ (registerfile.get_wp _ _ _ (hlen ▸ get_rs1_cast_lt insn)) ?_; intro _ _)
    | (refine Sim.wp_bind _ _ _ _ _ (registerfile.get_wp _ _ _ (hlen ▸ get_rs2_cast_lt insn)) ?_; intro _ _)
    | (refine Sim.wp_bind _ _ _ _ _ (trace_wp _ _) ?_; intro _ _)
    | (refine Sim.wp_bind _ _ _ _ _ (Sim.wp_imp _ _ _ _ _ (memory.set8_wp _ _ _)
        (memory.hit8 _ _ (u32_lt _)) (fun _ hq => hq)) ?_; intro _ hm)
    | (refine Sim.wp_bind _ _ _ (fun _ => True) _ (Sim.wp_imp _ _ _ _ _ (memory.get8_wp _ _)
        (fun e => absurd (hm.1 ▸ e) hm.2) (fun _ _ => trivial)) ?_; intro _ _)
    | (refine Sim.wp_bind _ _ _ (fun _ => True) _ (Sim.wp_pure _ _ _ trivial) ?_; intro _ _)
    | exact Sim.wp_pure _ _ _ trivial
    | exact Sim.wp_pure _ _ _ hlen
    | (dsimp only; split)

theorem exec_sh_wp (h : rv32i_hart) (insn : Nat) (pos : Bool)
    (hlen : h.regs.regVec.length = 32) :
    Sim.wp (h.exec_sh insn pos) (h.mem.mem.length < 4294967296)
      (fun h' => h'.regs.regVec.length = 32) := by
  unfold exec_sh
  with_reducible repeat first
    | (refine Sim.wp_bind _ _ _ _ _ (registerfile.get_wp _ _ _ (hlen ▸ get_rs1_lt insn)) ?_; intro _ _)
    | (refine Sim.wp_bind _ _ _ _ _ (registerfile.get_wp _ _ _ (hlen ▸ get_rs2_lt insn)) ?_; intro _ _)
    | (refine Sim.wp_bind _ _ _ _ _ (registerfile.get_wp _ _ _ (hlen ▸ get_rs1_cast_lt insn)) ?_; intro _ _)
    | (refine Sim.wp_bind _ _ _ _ _ (registerfile.get_wp _ _ _ (hlen ▸ get_rs2_cast_lt insn)) ?_; intro _ _)
    | (refine Sim.wp_bind _ _ _ _ _ (trace_wp _ _) ?_; intro _ _)
    | (refine Sim.wp_bind _ _ _ _ _ (Sim.wp_imp _ _ _ _ _ (memory.set16_wp _ _ _)
        (memory.hit16 _ _ (u32_lt _)) (fun _ hq => hq)) ?_; intro _ hm)
    | (refine Sim.wp_bind _ _ _ (fun _ => True) _ (Sim.wp_imp _ _ _ _ _ (memory.get16_wp _ _)
        (fun e => absurd (hm.1 ▸ e) hm.2) (fun _ _ => trivial)) ?_; intro _ _)
    | (refine Sim.wp_bind _ _ _ (fun _ => True) _ (Sim.wp_pure _ _ _ trivial) ?_; intro _ _)
    | exact Sim.wp_pure _ _ _ trivial
    | exact Sim.wp_pure _ _ _ hlen
    | (dsimp only; split)

theorem exec_sw_wp (h : rv32i_hart) (insn : Nat) (pos : Bool)
    (hlen : h.regs.regVec.length = 32) :
    Sim.wp (h.exec_sw insn pos) (h.mem.mem.length < 4294967296)
      (fun h' => h'.regs.regVec.length = 32) := by
  unfold exec_sw
  with_reducible repeat first
    | (refine Sim.wp_bind _ _ _ _ _ (registerfile.get_wp _ _ _ (hlen ▸ get_rs1_lt insn)) ?_; intro _ _)
    | (refine Sim.wp_bind _ _ _ _ _ (registerfile.get_wp _ _ _ (hlen ▸ get_rs2_lt insn)) ?_; intro _ _)
    | (refine Sim.wp_bind _ _ _ _ _ (registerfile.get_wp _ _ _ (hlen ▸ get_rs1_cast_lt insn)) ?_; intro _ _)
    | (refine Sim.wp_bind _ _ _ _ _ (registerfile.get_wp _ _ _ (hlen ▸ get_rs2_cast_lt insn)) ?_; intro _ _)
    | (refine Sim.wp_bind _ _ _ _ _ (trace_wp _ _) ?_; intro _ _)
    | (refine Sim.wp_bind _ _ _ _ _ (Sim.wp_imp _ _ _ _ _ (memory.set32_wp _ _ _)
        (memory.hit32 _ _ (u32_lt _)) (fun _ hq => hq)) ?_; intro _ hm)
    | (refine Sim.wp_bind _ _ _ (fun _ => True) _ (Sim.wp_imp _ _ _ _ _ (memory.get32_wp _ _)
        (fun e => absurd (hm.1 ▸ e) hm.2) (fun _ _ => trivial)) ?_; intro _ _)
    | (refine Sim.wp_bind _ _ _ (fun _ => True) _ (Sim.wp_pure _ _ _ trivial) ?_; intro _ _)
    | exact Sim.wp_pure _ _ _ trivial
    | exact Sim.wp_pure _ _ _ hlen
    | (dsimp only; split)

end rv32i_hart

namespace rv32i_hart

open rv32i_decode

set_option linter.unusedTactic false
set_option linter.unreachableTactic false

theorem ite_wp {α : Type} (c : Prop) [Decidable c] (b₁ b₂ : Bool) (x₁ x₂ : Sim α) (M : Prop)
    (Q : α → Prop) (h₁ : Sim.wp x₁ (b₁ = true ∧ M) Q) (h₂ : Sim.wp x₂ (b₂ = true ∧ M) Q) :
    Sim.wp (if c then x₁ else x₂) ((if c then b₁ else b₂) = true ∧ M) Q := by
  split
  · exact h₁
  · exact h₂

/-- On a register file of 32 entries `exec` returns a hart whose register file has 32
entries, or it faults on a word it sends to a load or store executor, in a memory whose
size is a 32-bit address. -/
theorem exec_wp (h : rv32i_hart) (insn : Nat) (pos : Bool) (hlen : h.regs.regVec.length = 32) :
    Sim.wp (h.exec insn pos) (exec_memory insn = true ∧ h.mem.mem.length < 4294967296)
      (fun h' => h'.regs.regVec.length = 32) := by
  unfold exec exec_memory
  dsimp only
  with_reducible repeat' first
    | refine ite_wp _ _ _ _ _ _ _ ?_ ?_
    | exact Sim.wp_imp _ _ _ _ _ (exec_illegal_insn_wp _ _ hlen) False.elim (fun _ hq => hq)
    | exact Sim.wp_imp _ _ _ _ _ (exec_ecall_wp _ _ hlen) False.elim (fun _ hq => hq)
    | exact Sim.wp_imp _ _ _ _ _ (exec_ebreak_wp _ _ _ hlen) False.elim (fun _ hq => hq)
    | exact Sim.wp_imp _ _ _ _ _ (exec_lui_wp _ _ _ hlen) False.elim (fun _ hq => hq)
    | exact Sim.wp_imp _ _ _ _ _ (exec_auipc_wp _ _ _ hlen) False.elim (fun _ hq => hq)
    | exact Sim.wp_imp _ _ _ _ _ (exec_jal_wp _ _ _ hlen) False.elim (fun _ hq => hq)
    | exact Sim.wp_imp _ _ _ _ _ (exec_jalr_wp _ _ _ hlen) False.elim (fun _ hq => hq)
    | exact Sim.wp_imp _ _ _ _ _ (exec_beq_wp _ _ _ hlen) False.elim (fun _ hq => hq)
    | exact Sim.wp_imp _ _ _ _ _ (exec_bne_wp _ _ _ hlen) False.elim (fun _ hq => hq)
    | exact Sim.wp_imp _ _ _ _ _ (exec_blt_wp _ _ _ hlen) False.elim (fun _ hq => hq)
    | exact Sim.wp_imp _ _ _ _ _ (exec_bge_wp _ _ _ hlen) False.elim (fun _ hq => hq)
    | exact Sim.wp_imp _ _ _ _ _ (exec_bltu_wp _ _ _ hlen) False.elim (fun _ hq => hq)
    | exact Sim.wp_imp _ _ _ _ _ (exec_bgeu_wp _ _ _ hlen) False.elim (fun _ hq => hq)
    | exact Sim.wp_imp _ _ _ _ _ (exec_addi_wp _ _ _ hlen) False.elim (fun _ hq => hq)
    | exact Sim.wp_imp _ _ _ _ _ (exec_slti_wp _ _ _ hlen) False.elim (fun _ hq => hq)
    | exact Sim.wp_imp _ _ _ _ _ (exec_sltiu_wp _ _ _ hlen) False.elim (fun _ hq => hq)
    | exact Sim.wp_imp _ _ _ _ _ (exec_xori_wp _ _ _ hlen) False.elim (fun _ hq => hq)
    | exact Sim.wp_imp _ _ _ _ _ (exec_ori_wp _ _ _ hlen) False.elim (fun _ hq => hq)
    | exact Sim.wp_imp _ _ _ _ _ (exec_andi_wp _ _ _ hlen) False.elim (fun _ hq => hq)
    | exact Sim.wp_imp _ _ _ _ _ (exec_slli_wp _ _ _ hlen) False.elim (fun _ hq => hq)
    | exact Sim.wp_imp _ _ _ _ _ (exec_srli_wp _ _ _ hlen) False.elim (fun _ hq => hq)
    | exact Sim.wp_imp _ _ _ _ _ (exec_srai_wp _ _ _ hlen) False.elim (fun _ hq => hq)
    | exact Sim.wp_imp _ _ _ _ _ (exec_add_wp _ _ _ hlen) False.elim (fun _ hq => hq)
    | exact Sim.wp_imp _ _ _ _ _ (exec_sub_wp _ _ _ hlen) False.elim (fun _ hq => hq)
    | exact Sim.wp_imp _ _ _ _ _ (exec_sll_wp _ _ _ hlen) False.elim (fun _ hq => hq)
    | exact Sim.wp_imp _ _ _ _ _ (exec_slt_wp _ _ _ hlen) False.elim (fun _ hq => hq)
    | exact Sim.wp_imp _ _ _ _ _ (exec_sltu_wp _ _ _ hlen) False.elim (fun _ hq => hq)
    | exact Sim.wp_imp _ _ _ _ _ (exec_xor_wp _ _ _ hlen) False.elim (fun _ hq => hq)
    | exact Sim.wp_imp _ _ _ _ _ (exec_srl_wp _ _ _ hlen) False.elim (fun _ hq => hq)
    | exact Sim.wp_imp _ _ _ _ _ (exec_sra_wp _ _ _ hlen) False.elim (fun _ hq => hq)
    | exact Sim.wp_imp _ _ _ _ _ (exec_or_wp _ _ _ hlen) False.elim (fun _ hq => hq)
    | exact Sim.wp_imp _ _ _ _ _ (exec_and_wp _ _ _ hlen) False.elim (fun _ hq => hq)
    | exact Sim.wp_imp _ _ _ _ _ (exec_csrrs_wp _ _ _ hlen) False.elim (fun _ hq => hq)
    | exact Sim.wp_imp _ _ _ _ _ (exec_lbu_wp _ _ _ hlen) (fun hf => ⟨rfl, hf⟩) (fun _ hq => hq)
    | exact Sim.wp_imp _ _ _ _ _ (exec_lhu_wp _ _ _ hlen) (fun hf => ⟨rfl, hf⟩) (fun _ hq => hq)
    | exact Sim.wp_imp _ _ _ _ _ (exec_lb_wp _ _ _ hlen) (fun hf => ⟨rfl, hf⟩) (fun _ hq => hq)
    | exact Sim.wp_imp _ _ _ _ _ (exec_lh_wp _ _ _ hlen) (fun hf => ⟨rfl, hf⟩) (fun _ hq => hq)
    | exact Sim.wp_imp _ _ _ _ _ (exec_lw_wp _ _ _ hlen) (fun hf => ⟨rfl, hf⟩) (fun _ hq => hq)
    | exact Sim.wp_imp _ _ _ _ _ (exec_sb_wp _ _ _ hlen) (fun hf => ⟨rfl, hf⟩) (fun _ hq => hq)
    | exact Sim.wp_imp _ _ _ _ _ (exec_sh_wp _ _ _ hlen) (fun hf => ⟨rfl, hf⟩) (fun _ hq => hq)
    | exact Sim.wp_imp _ _ _ _ _ (exec_sw_wp _ _ _ hlen) (fun hf => ⟨rfl, hf⟩) (fun _ hq => hq)

theorem exec_memory_opcode (insn : Nat) (h : exec_memory insn = true) :
    get_opcode insn = 0x03 ∨ get_opcode insn = 0x23 := by
  by_contra hn
  have h1 : get_opcode insn ≠ 3 := fun e => hn (Or.inl e)
  have h2 : get_opcode insn ≠ 35 := fun e => hn (Or.inr e)
  simp [exec_memory, opcode_load_imm, opcode_stype, h1, h2] at h

end rv32i_hart

theorem get_funct7_lt (insn : Nat) : get_funct7 insn < 128 := by
  rw [get_funct7_arith]
  omega

theorem get_opcode_lt (insn : Nat) : get_opcode insn < 128 := by
  rw [get_opcode_arith]
  omega

/-- C37: for every word the fields `get_rd`, `get_rs1` and `get_rs2` are below 32,
`get_funct3` below 8, `get_funct7` and `get_opcode` below 128.  Hence on the 32-entry
register file every read and write at one of these indices returns; `exec` returns for
every word whose opcode is not a load or store; and when `exec` faults the word is a load
or store and the size of the memory is a 32-bit address (the address at which
`memory::get8` and `memory::set8` fault), so no fault comes from the register file. -/
theorem rv32i_hart.register_index_in_range (h : rv32i_hart) (insn : Nat) (pos : Bool) (v : Int)
    (hlen : h.regs.regVec.length = 32) :
    (get_rd insn < 32 ∧ get_rs1 insn < 32 ∧ get_rs2 insn < 32 ∧ get_funct3 insn < 8 ∧
      get_funct7 insn < 128 ∧ get_opcode insn < 128) ∧
    (∀ r, r = get_rd insn ∨ r = get_rs1 insn ∨ r = get_rs2 insn →
      (∃ x, h.regs.get r = Except.ok (x, [])) ∧
      ∃ rf, h.regs.set r v = Except.ok (rf, []) ∧ rf.regVec.length = 32) ∧
    (get_opcode insn ≠ 0x03 → get_opcode insn ≠ 0x23 →
      ∃ h' o, h.exec insn pos = Except.ok (h', o) ∧ h'.regs.regVec.length = 32) ∧
    (∀ e, h.exec insn pos = Except.error e →
      (get_opcode insn = 0x03 ∨ get_opcode insn = 0x23) ∧
        h.mem.mem.length < 4294967296) := by
  have hw := rv32i_hart.exec_wp h insn pos hlen
  refine ⟨⟨get_rd_lt insn, get_rs1_lt insn, get_rs2_lt insn, get_funct3_lt insn,
    get_funct7_lt insn, get_opcode_lt insn⟩, ?_, ?_, ?_⟩
  · intro r hr
    have hlt : r < 32 := by
      rcases hr with e | e | e
      · rw [e]
        exact get_rd_lt insn
      · rw [e]
        exact get_rs1_lt insn
      · rw [e]
        exact get_rs2_lt insn
    refine ⟨registerfile.get_in h.regs r (by omega), h.regs.write r v, ?_, ?_⟩
    · exact registerfile.set_eq_write h.regs r v (by omega)
    · rw [registerfile.write_length, hlen]
  · intro h1 h2
    refine Sim.wp_not _ _ _ hw ?_
    intro hf
    rcases rv32i_hart.exec_memory_opcode insn hf.1 with e | e
    · exact h1 e
    · exact h2 e
  · intro e he
    have hf := Sim.wp_fault _ _ _ e hw he
    exact ⟨rv32i_hart.exec_memory_opcode insn hf.1, hf.2⟩

set_option maxRecDepth 100000 in
theorem rv32i_hart.register_index_in_range_witness :
    scenario_addi.regs.regVec.length = 32 ∧
    get_rd 0x00500093 = 1 ∧ get_rs1 0x00500093 = 0 ∧ get_opcode 0x00500093 = 0x13 ∧
    ∃ h' o, scenario_addi.exec 0x00500093 true = Except.ok (h', o) ∧
      h'.regs.regVec.length = 32 :=
  ⟨by decide, by decide, by decide, by decide,
    (rv32i_hart.register_index_in_range scenario_addi 0x00500093 true 0 (by decide)).2.2.1
      (by decide) (by decide)⟩

/-! ## Hart: the trace does not change the architectural state -/

theorem Sim.rel_pure {α β : Type} (R : α → β → Prop) (a : α) (b : β) (h : R a b) :
    Sim.rel R (pure a) (pure b) := h

theorem Sim.rel_bind {α β γ δ : Type} (x : Sim α) (y : Sim β) (f : α → Sim γ) (g : β → Sim δ)
    (S : α → β → Prop) (R : γ → δ → Prop) (hx : Sim.rel S x y)
    (hf : ∀ a b, S a b → Sim.rel R (f a) (g b)) : Sim.rel R (x >>= f) (y >>= g) := by
  rw [Sim.bind_eq, Sim.bind_eq]
  rcases x with e₁ | ⟨a, o₁⟩ <;> rcases y with e₂ | ⟨b, o₂⟩
  · trivial
  · exact hx.elim
  · exact hx.elim
  · have hfa := hf a b hx
    simp only [Sim.andThen]
    rcases hfa' : f a with e₁ | ⟨c, o₃⟩ <;> rcases hgb : g b with e₂ | ⟨d, o₄⟩
    · trivial
    · rw [hfa', hgb] at hfa
      exact hfa.elim
    · rw [hfa', hgb] at hfa
      exact hfa.elim
    · rw [hfa', hgb] at hfa
      exact hfa

theorem Sim.rel_same {α : Type} (x : Sim α) (P : α → Prop) (hx : Sim.sat x P) :
    Sim.rel (fun a b => a = b ∧ P a) x x := by
  rcases hxa : x with e | ⟨a, o⟩
  · trivial
  · exact ⟨rfl, hx a o hxa⟩

theorem Sim.rel_bind_same {α γ δ : Type} (x : Sim α) (f : α → Sim γ) (g : α → Sim δ)
    (R : γ → δ → Prop) (hf : ∀ a, Sim.rel R (f a) (g a)) : Sim.rel R (x >>= f) (x >>= g) :=
  Sim.rel_bind x x f g _ R (Sim.rel_same x (fun _ => True) (Sim.sat_true x))
    (fun a _ e => e.1 ▸ hf a)

theorem Sim.rel_bind_sat {α γ δ : Type} (x : Sim α) (f : α → Sim γ) (g : α → Sim δ)
    (P : α → Prop) (R : γ → δ → Prop) (hx : Sim.sat x P) (hf : ∀ a, P a → Sim.rel R (f a) (g a)) :
    Sim.rel R (x >>= f) (x >>= g) :=
  Sim.rel_bind x x f g _ R (Sim.rel_same x P hx) (fun a _ e => e.1 ▸ hf a e.2)

theorem Sim.rel_returns {α β : Type} (x : Sim α) (y : Sim β)
    (hx : Sim.wp x False (fun _ => True)) (hy : Sim.wp y False (fun _ => True)) :
    Sim.rel (fun _ _ => True) x y := by
  obtain ⟨a, o, e, _⟩ := Sim.wp_returns x _ hx
  obtain ⟨b, o', e', _⟩ := Sim.wp_returns y _ hy
  rw [e, e']
  trivial

theorem Sim.rel_ite_both {α β : Type} (c d : Prop) [Decidable c] [Decidable d]
    (x₁ x₂ : Sim α) (y₁ y₂ : Sim β) (R : α → β → Prop) (h₁₁ : Sim.rel R x₁ y₁)
    (h₁₂ : Sim.rel R x₁ y₂) (h₂₁ : Sim.rel R x₂ y₁) (h₂₂ : Sim.rel R x₂ y₂) :
    Sim.rel R (if c then x₁ else x₂) (if d then y₁ else y₂) := by
  split <;> split
  · exact h₁₁
  · exact h₁₂
  · exact h₂₁
  · exact h₂₂

theorem Sim.rel_skip_left {α β γ : Type} (x : Sim α) (f : α → Sim β) (y : Sim γ)
    (R : β → γ → Prop) (hx : Sim.wp x False (fun _ => True)) (hf : ∀ a, Sim.rel R (f a) y) :
    Sim.rel R (x >>= f) y := by
  obtain ⟨a, o, e, _⟩ := Sim.wp_returns x _ hx
  have hfa := hf a
  rw [Sim.bind_eq, e]
  simp only [Sim.andThen]
  rcases hfa' : f a with e₁ | ⟨c, o₃⟩ <;> rcases hy : y with e₂ | ⟨d, o₄⟩
  · trivial
  · rw [hfa', hy] at hfa
    exact hfa.elim
  · rw [hfa', hy] at hfa
    exact hfa.elim
  · rw [hfa', hy] at hfa
    exact hfa

theorem Sim.rel_skip_right {α β γ : Type} (x : Sim α) (f : α → Sim β) (y : Sim γ)
    (R : γ → β → Prop) (hx : Sim.wp x False (fun _ => True)) (hf : ∀ a, Sim.rel R y (f a)) :
    Sim.rel R y (x >>= f) := by
  obtain ⟨a, o, e, _⟩ := Sim.wp_returns x _ hx
  have hfa := hf a
  rw [Sim.bind_eq, e]
  simp only [Sim.andThen]
  rcases hfa' : f a with e₁ | ⟨c, o₃⟩ <;> rcases hy : y with e₂ | ⟨d, o₄⟩
  · trivial
  · rw [hfa', hy] at hfa
    exact hfa.elim
  · rw [hfa', hy] at hfa
    exact hfa.elim
  · rw [hfa', hy] at hfa
    exact hfa

theorem Sim.rel_ite {α β : Type} (c : Prop) [Decidable c] (x₁ x₂ : Sim α) (y₁ y₂ : Sim β)
    (R : α → β → Prop) (h₁ : Sim.rel R x₁ y₁) (h₂ : Sim.rel R x₂ y₂) :
    Sim.rel R (if c then x₁ else x₂) (if c then y₁ else y₂) := by
  split
  · exact h₁
  · exact h₂

theorem Sim.rel_value {α β γ : Type} (x : Sim α) (y : Sim β) (f : α → γ) (g : β → γ)
    (h : Sim.rel (fun a b => f a = g b) x y) : x.value.map f = y.value.map g := by
  rcases x with e₁ | ⟨a, o₁⟩ <;> rcases y with e₂ | ⟨b, o₂⟩
  · rfl
  · exact h.elim
  · exact h.elim
  · exact congrArg some h

theorem Sim.rel_left {α β : Type} (x : Sim α) (y : Sim β) (f : α → Sim α) (R : α → β → Prop)
    (P : α → Prop) (hr : Sim.rel R x y) (hx : Sim.sat x P)
    (hf : ∀ a, P a → ∃ o, f a = Except.ok (a, o)) : Sim.rel R (x >>= f) y := by
  rw [Sim.bind_eq]
  rcases hxa : x with e₁ | ⟨a, o₁⟩ <;> rcases hyb : y with e₂ | ⟨b, o₂⟩
  · trivial
  · rw [hxa, hyb] at hr
    exact hr.elim
  · rw [hxa, hyb] at hr
    exact hr.elim
  · obtain ⟨o, e⟩ := hf a (hx a o₁ hxa)
    rw [hxa, hyb] at hr
    simp only [Sim.andThen, e]
    exact hr

theorem Sim.rel_symm {α β : Type} (x : Sim α) (y : Sim β) (R : α → β → Prop)
    (h : Sim.rel R x y) : Sim.rel (fun b a => R a b) y x := by
  rcases x with e₁ | ⟨a, o₁⟩ <;> rcases y with e₂ | ⟨b, o₂⟩
  · trivial
  · exact h.elim
  · exact h.elim
  · exact h

namespace rv32i_hart

open rv32i_decode

set_option linter.unusedTactic false
set_option linter.unreachableTactic false

theorem trace_rel (p q : Bool) : Sim.rel (fun _ _ => True) (trace p) (trace q) :=
  Sim.rel_returns _ _ (trace_wp p False) (trace_wp q False)

theorem exec_illegal_insn_arch (h : rv32i_hart)  (p q si sr : Bool) :
    Sim.rel (fun a b => a.arch = b.arch)
      (({ h with show_instructions := si, show_registers := sr }).exec_illegal_insn  p)
      (h.exec_illegal_insn  q) := by
  unfold exec_illegal_insn
  with_reducible repeat first
    | (refine Sim.rel_bind_same _ _ _ _ ?_; intro _)
    | (refine Sim.rel_bind _ _ _ _ _ _ (trace_rel _ _) ?_; intro _ _ _)
    | exact Sim.rel_pure _ _ _ rfl
    | (dsimp only; split)

theorem exec_ebreak_arch (h : rv32i_hart) (insn : Int) (p q si sr : Bool) :
    Sim.rel (fun a b => a.arch = b.arch)
      (({ h with show_instructions := si, show_registers := sr }).exec_ebreak insn p)
      (h.exec_ebreak insn q) := by
  unfold exec_ebreak
  with_reducible repeat first
    | (refine Sim.rel_bind_same _ _ _ _ ?_; intro _)
    | (refine Sim.rel_bind _ _ _ _ _ _ (trace_rel _ _) ?_; intro _ _ _)
    | exact Sim.rel_pure _ _ _ rfl
    | (dsimp only; split)

theorem exec_ecall_arch (h : rv32i_hart)  (p q si sr : Bool) :
    Sim.rel (fun a b => a.arch = b.arch)
      (({ h with show_instructions := si, show_registers := sr }).exec_ecall  p)
      (h.exec_ecall  q) := by
  unfold exec_ecall
  with_reducible repeat first
    | (refine Sim.rel_bind_same _ _ _ _ ?_; intro _)
    | (refine Sim.rel_bind _ _ _ _ _ _ (trace_rel _ _) ?_; intro _ _ _)
    | exact Sim.rel_pure _ _ _ rfl
    | (dsimp only; split)

theorem exec_lui_arch (h : rv32i_hart) (insn : Nat) (p q si sr : Bool) :
    Sim.rel (fun a b => a.arch = b.arch)
      (({ h with show_instructions := si, show_registers := sr }).exec_lui insn p)
      (h.exec_lui insn q) := by
  unfold exec_lui
  with_reducible repeat first
    | (refine Sim.rel_bind_same _ _ _ _ ?_; intro _)
    | (refine Sim.rel_bind _ _ _ _ _ _ (trace_rel _ _) ?_; intro _ _ _)
    | exact Sim.rel_pure _ _ _ rfl
    | (dsimp only; split)

theorem exec_auipc_arch (h : rv32i_hart) (insn : Nat) (p q si sr : Bool) :
    Sim.rel (fun a b => a.arch = b.arch)
      (({ h with show_instructions := si, show_registers := sr }).exec_auipc insn p)
      (h.exec_auipc insn q) := by
  unfold exec_auipc
  with_reducible repeat first
    | (refine Sim.rel_bind_same _ _ _ _ ?_; intro _)
    | (refine Sim.rel_bind _ _ _ _ _ _ (trace_rel _ _) ?_; intro _ _ _)
    | exact Sim.rel_pure _ _ _ rfl
    | (dsimp only; split)

theorem exec_jal_arch (h : rv32i_hart) (insn : Nat) (p q si sr : Bool) :
    Sim.rel (fun a b => a.arch = b.arch)
      (({ h with show_instructions := si, show_registers := sr }).exec_jal insn p)
      (h.exec_jal insn q) := by
  unfold exec_jal
  with_reducible repeat first
    | (refine Sim.rel_bind_same _ _ _ _ ?_; intro _)
    | (refine Sim.rel_bind _ _ _ _ _ _ (trace_rel _ _) ?_; intro _ _ _)
    | exact Sim.rel_pure _ _ _ rfl
    | (dsimp only; split)

theorem exec_jalr_arch (h : rv32i_hart) (insn : Nat) (p q si sr : Bool) :
    Sim.rel (fun a b => a.arch = b.arch)
      (({ h with show_instructions := si, show_registers := sr }).exec_jalr insn p)
      (h.exec_jalr insn q) := by
  unfold exec_jalr
  with_reducible repeat first
    | (refine Sim.rel_bind_same _ _ _ _ ?_; intro _)
    | (refine Sim.rel_bind _ _ _ _ _ _ (trace_rel _ _) ?_; intro _ _ _)
    | exact Sim.rel_pure _ _ _ rfl
    | (dsimp only; split)

theorem exec_beq_arch (h : rv32i_hart) (insn : Nat) (p q si sr : Bool) :
    Sim.rel (fun a b => a.arch = b.arch)
      (({ h with show_instructions := si, show_registers := sr }).exec_beq insn p)
      (h.exec_beq insn q) := by
  unfold exec_beq
  with_reducible repeat first
    | (refine Sim.rel_bind_same _ _ _ _ ?_; intro _)
    | (refine Sim.rel_bind _ _ _ _ _ _ (trace_rel _ _) ?_; intro _ _ _)
    | exact Sim.rel_pure _ _ _ rfl
    | (dsimp only; split)

theorem exec_bne_arch (h : rv32i_hart) (insn : Nat) (p q si sr : Bool) :
    Sim.rel (fun a b => a.arch = b.arch)
      (({ h with show_instructions := si, show_registers := sr }).exec_bne insn p)
      (h.exec_bne insn q) := by
  unfold exec_bne
  with_reducible repeat first
    | (refine Sim.rel_bind_same _ _ _ _ ?_; intro _)
    | (refine Sim.rel_bind _ _ _ _ _ _ (trace_rel _ _) ?_; intro _ _ _)
    | exact Sim.rel_pure _ _ _ rfl
    | (dsimp only; split)

theorem exec_blt_arch (h : rv32i_hart) (insn : Nat) (p q si sr : Bool) :
    Sim.rel (fun a b => a.arch = b.arch)
      (({ h with show_instructions := si, show_registers := sr }).exec_blt insn p)
      (h.exec_blt insn q) := by
  unfold exec_blt
  with_reducible repeat first
    | (refine Sim.rel_bind_same _ _ _ _ ?_; intro _)
    | (refine Sim.rel_bind _ _ _ _ _ _ (trace_rel _ _) ?_; intro _ _ _)
    | exact Sim.rel_pure _ _ _ rfl
    | (dsimp only; split)

theorem exec_bge_arch (h : rv32i_hart) (insn : Nat) (p q si sr : Bool) :
    Sim.rel (fun a b => a.arch = b.arch)
      (({ h with show_instructions := si, show_registers := sr }).exec_bge insn p)
      (h.exec_bge insn q) := by
  unfold exec_bge
  with_reducible repeat first
    | (refine Sim.rel_bind_same _ _ _ _ ?_; intro _)
    | (refine Sim.rel_bind _ _ _ _ _ _ (trace_rel _ _) ?_; intro _ _ _)
    | exact Sim.rel_pure _ _ _ rfl
    | (dsimp only; split)

theorem exec_bltu_arch (h : rv32i_hart) (insn : Nat) (p q si sr : Bool) :
    Sim.rel (fun a b => a.arch = b.arch)
      (({ h with show_instructions := si, show_registers := sr }).exec_bltu insn p)
      (h.exec_bltu insn q) := by
  unfold exec_bltu
  with_reducible repeat first
    | (refine Sim.rel_bind_same _ _ _ _ ?_; intro _)
    | (refine Sim.rel_bind _ _ _ _ _ _ (trace_rel _ _) ?_; intro _ _ _)
    | exact Sim.rel_pure _ _ _ rfl
    | (dsimp only; split)

theorem exec_bgeu_arch (h : rv32i_hart) (insn : Nat) (p q si sr : Bool) :
    Sim.rel (fun a b => a.arch = b.arch)
      (({ h with show_instructions := si, show_registers := sr }).exec_bgeu insn p)
      (h.exec_bgeu insn q) := by
  unfold exec_bgeu
  with_reducible repeat first
    | (refine Sim.rel_bind_same _ _ _ _ ?_; intro _)
    | (refine Sim.rel_bind _ _ _ _ _ _ (trace_rel _ _) ?_; intro _ _ _)
    | exact Sim.rel_pure _ _ _ rfl
    | (dsimp only; split)

theorem exec_addi_arch (h : rv32i_hart) (insn : Nat) (p q si sr : Bool) :
    Sim.rel (fun a b => a.arch = b.arch)
      (({ h with show_instructions := si, show_registers := sr }).exec_addi insn p)
      (h.exec_addi insn q) := by
  unfold exec_addi
  with_reducible repeat first
    | (refine Sim.rel_bind_same _ _ _ _ ?_; intro _)
    | (refine Sim.rel_bind _ _ _ _ _ _ (trace_rel _ _) ?_; intro _ _ _)
    | exact Sim.rel_pure _ _ _ rfl
    | (dsimp only; split)

theorem exec_slti_arch (h : rv32i_hart) (insn : Nat) (p q si sr : Bool) :
    Sim.rel (fun a b => a.arch = b.arch)
      (({ h with show_instructions := si, show_registers := sr }).exec_slti insn p)
      (h.exec_slti insn q) := by
  unfold exec_slti
  with_reducible repeat first
    | (refine Sim.rel_bind_same _ _ _ _ ?_; intro _)
    | (refine Sim.rel_bind _ _ _ _ _ _ (trace_rel _ _) ?_; intro _ _ _)
    | exact Sim.rel_pure _ _ _ rfl
    | (dsimp only; split)

theorem exec_sltiu_arch (h : rv32i_hart) (insn : Nat) (p q si sr : Bool) :
    Sim.rel (fun a b => a.arch = b.arch)
      (({ h with show_instructions := si, show_registers := sr }).exec_sltiu insn p)
      (h.exec_sltiu insn q) := by
  unfold exec_sltiu
  with_reducible repeat first
    | (refine Sim.rel_bind_same _ _ _ _ ?_; intro _)
    | (refine Sim.rel_bind _ _ _ _ _ _ (trace_rel _ _) ?_; intro _ _ _)
    | exact Sim.rel_pure _ _ _ rfl
    | (dsimp only; split)

theorem exec_xori_arch (h : rv32i_hart) (insn : Nat) (p q si sr : Bool) :
    Sim.rel (fun a b => a.arch = b.arch)
      (({ h with show_instructions := si, show_registers := sr }).exec_xori insn p)
      (h.exec_xori insn q) := by
  unfold exec_xori
  with_reducible repeat first
    | (refine Sim.rel_bind_same _ _ _ _ ?_; intro _)
    | (refine Sim.rel_bind _ _ _ _ _ _ (trace_rel _ _) ?_; intro _ _ _)
    | exact Sim.rel_pure _ _ _ rfl
    | (dsimp only; split)

theorem exec_ori_arch (h : rv32i_hart) (insn : Nat) (p q si sr : Bool) :
    Sim.rel (fun a b => a.arch = b.arch)
      (({ h with show_instructions := si, show_registers := sr }).exec_ori insn p)
      (h.exec_ori insn q) := by
  unfold exec_ori
  with_reducible repeat first
    | (refine Sim.rel_bind_same _ _ _ _ ?_; intro _)
    | (refine Sim.rel_bind _ _ _ _ _ _ (trace_rel _ _) ?_; intro _ _ _)
    | exact Sim.rel_pure _ _ _ rfl
    | (dsimp only; split)

theorem exec_andi_arch (h : rv32i_hart) (insn : Nat) (p q si sr : Bool) :
    Sim.rel (fun a b => a.arch = b.arch)
      (({ h with show_instructions := si, show_registers := sr }).exec_andi insn p)
      (h.exec_andi insn q) := by
  unfold exec_andi
  with_reducible repeat first
    | (refine Sim.rel_bind_same _ _ _ _ ?_; intro _)
    | (refine Sim.rel_bind _ _ _ _ _ _ (trace_rel _ _) ?_; intro _ _ _)
    | exact Sim.rel_pure _ _ _ rfl
    | (dsimp only; split)

theorem exec_slli_arch (h : rv32i_hart) (insn : Nat) (p q si sr : Bool) :
    Sim.rel (fun a b => a.arch = b.arch)
      (({ h with show_instructions := si, show_registers := sr }).exec_slli insn p)
      (h.exec_slli insn q) := by
  unfold exec_slli
  with_reducible repeat first
    | (refine Sim.rel_bind_same _ _ _ _ ?_; intro _)
    | (refine Sim.rel_bind _ _ _ _ _ _ (trace_rel _ _) ?_; intro _ _ _)
    | exact Sim.rel_pure _ _ _ rfl
    | (dsimp only; split)

theorem exec_srli_arch (h : rv32i_hart) (insn : Nat) (p q si sr : Bool) :
    Sim.rel (fun a b => a.arch = b.arch)
      (({ h with show_instructions := si, show_registers := sr }).exec_srli insn p)
      (h.exec_srli insn q) := by
  unfold exec_srli
  with_reducible repeat first
    | (refine Sim.rel_bind_same _ _ _ _ ?_; intro _)
    | (refine Sim.rel_bind _ _ _ _ _ _ (trace_rel _ _) ?_; intro _ _ _)
    | exact Sim.rel_pure _ _ _ rfl
    | (dsimp only; split)

theorem exec_srai_arch (h : rv32i_hart) (insn : Nat) (p q si sr : Bool) :
    Sim.rel (fun a b => a.arch = b.arch)
      (({ h with show_instructions := si, show_registers := sr }).exec_srai insn p)
      (h.exec_srai insn q) := by
  unfold exec_srai
  with_reducible repeat first
    | (refine Sim.rel_bind_same _ _ _ _ ?_; intro _)
    | (refine Sim.rel_bind _ _ _ _ _ _ (trace_rel _ _) ?_; intro _ _ _)
    | exact Sim.rel_pure _ _ _ rfl
    | (dsimp only; split)

theorem exec_add_arch (h : rv32i_hart) (insn : Nat) (p q si sr : Bool) :
    Sim.rel (fun a b => a.arch = b.arch)
      (({ h with show_instructions := si, show_registers := sr }).exec_add insn p)
      (h.exec_add insn q) := by
  unfold exec_add
  with_reducible repeat first
    | (refine Sim.rel_bind_same _ _ _ _ ?_; intro _)
    | (refine Sim.rel_bind _ _ _ _ _ _ (trace_rel _ _) ?_; intro _ _ _)
    | exact Sim.rel_pure _ _ _ rfl
    | (dsimp only; split)

theorem exec_sub_arch (h : rv32i_hart) (insn : Nat) (p q si sr : Bool) :
    Sim.rel (fun a b => a.arch = b.arch)
      (({ h with show_instructions := si, show_registers := sr }).exec_sub insn p)
      (h.exec_sub insn q) := by
  unfold exec_sub
  with_reducible repeat first
    | (refine Sim.rel_bind_same _ _ _ _ ?_; intro _)
    | (refine Sim.rel_bind _ _ _ _ _ _ (trace_rel _ _) ?_; intro _ _ _)
    | exact Sim.rel_pure _ _ _ rfl
    | (dsimp only; split)

theorem exec_sll_arch (h : rv32i_hart) (insn : Nat) (p q si sr : Bool) :
    Sim.rel (fun a b => a.arch = b.arch)
      (({ h with show_instructions := si, show_registers := sr }).exec_sll insn p)
      (h.exec_sll insn q) := by
  unfold exec_sll
  with_reducible repeat first
    | (refine Sim.rel_bind_same _ _ _ _ ?_; intro _)
    | (refine Sim.rel_bind _ _ _ _ _ _ (trace_rel _ _) ?_; intro _ _ _)
    | exact Sim.rel_pure _ _ _ rfl
    | (dsimp only; split)

theorem exec_slt_arch (h : rv32i_hart) (insn : Nat) (p q si sr : Bool) :
    Sim.rel (fun a b => a.arch = b.arch)
      (({ h with show_instructions := si, show_registers := sr }).exec_slt insn p)
      (h.exec_slt insn q) := by
  unfold exec_slt
  with_reducible repeat first
    | (refine Sim.rel_bind_same _ _ _ _ ?_; intro _)
    | (refine Sim.rel_bind _ _ _ _ _ _ (trace_rel _ _) ?_; intro _ _ _)
    | exact Sim.rel_pure _ _ _ rfl
    | (dsimp only; split)

theorem exec_sltu_arch (h : rv32i_hart) (insn : Nat) (p q si sr : Bool) :
    Sim.rel (fun a b => a.arch = b.arch)
      (({ h with show_instructions := si, show_registers := sr }).exec_sltu insn p)
      (h.exec_sltu insn q) := by
  unfold exec_sltu
  with_reducible repeat first
    | (refine Sim.rel_bind_same _ _ _ _ ?_; intro _)
    | (refine Sim.rel_bind _ _ _ _ _ _ (trace_rel _ _) ?_; intro _ _ _)
    | exact Sim.rel_pure _ _ _ rfl
    | (dsimp only; split)

theorem exec_xor_arch (h : rv32i_hart) (insn : Nat) (p q si sr : Bool) :
    Sim.rel (fun a b => a.arch = b.arch)
      (({ h with show_instructions := si, show_registers := sr }).exec_xor insn p)
      (h.exec_xor insn q) := by
  unfold exec_xor
  with_reducible repeat first
    | (refine Sim.rel_bind_same _ _ _ _ ?_; intro _)
    | (refine Sim.rel_bind _ _ _ _ _ _ (trace_rel _ _) ?_; intro _ _ _)
    | exact Sim.rel_pure _ _ _ rfl
    | (dsimp only; split)

theorem exec_srl_arch (h : rv32i_hart) (insn : Nat) (p q si sr : Bool) :
    Sim.rel (fun a b => a.arch = b.arch)
      (({ h with show_instructions := si, show_registers := sr }).exec_srl insn p)
      (h.exec_srl insn q) := by
  unfold exec_srl
  with_reducible repeat first
    | (refine Sim.rel_bind_same _ _ _ _ ?_; intro _)
    | (refine Sim.rel_bind _ _ _ _ _ _ (trace_rel _ _) ?_; intro _ _ _)
    | exact Sim.rel_pure _ _ _ rfl
    | (dsimp only; split)

theorem exec_sra_arch (h : rv32i_hart) (insn : Nat) (p q si sr : Bool) :
    Sim.rel (fun a b => a.arch = b.arch)
      (({ h with show_instructions := si, show_registers := sr }).exec_sra insn p)
      (h.exec_sra insn q) := by
  unfold exec_sra
  with_reducible repeat first
    | (refine Sim.rel_bind_same _ _ _ _ ?_; intro _)
    | (refine Sim.rel_bind _ _ _ _ _ _ (trace_rel _ _) ?_; intro _ _ _)
    | exact Sim.rel_pure _ _ _ rfl
    | (dsimp only; split)

theorem exec_or_arch (h : rv32i_hart) (insn : Nat) (p q si sr : Bool) :
    Sim.rel (fun a b => a.arch = b.arch)
      (({ h with show_instructions := si, show_registers := sr }).exec_or insn p)
      (h.exec_or insn q) := by
  unfold exec_or
  with_reducible repeat first
    | (refine Sim.rel_bind_same _ _ _ _ ?_; intro _)
    | (refine Sim.rel_bind _ _ _ _ _ _ (trace_rel _ _) ?_; intro _ _ _)
    | exact Sim.rel_pure _ _ _ rfl
    | (dsimp only; split)

theorem exec_and_arch (h : rv32i_hart) (insn : Nat) (p q si sr : Bool) :
    Sim.rel (fun a b => a.arch = b.arch)
      (({ h with show_instructions := si, show_registers := sr }).exec_and insn p)
      (h.exec_and insn q) := by
  unfold exec_and
  with_reducible repeat first
    | (refine Sim.rel_bind_same _ _ _ _ ?_; intro _)
    | (refine Sim.rel_bind _ _ _ _ _ _ (trace_rel _ _) ?_; intro _ _ _)
    | exact Sim.rel_pure _ _ _ rfl
    | (dsimp only; split)

theorem exec_lbu_arch (h : rv32i_hart) (insn : Nat) (p q si sr : Bool) :
    Sim.rel (fun a b => a.arch = b.arch)
      (({ h with show_instructions := si, show_registers := sr }).exec_lbu insn p)
      (h.exec_lbu insn q) := by
  unfold exec_lbu
  with_reducible repeat first
    | (refine Sim.rel_bind_same _ _ _ _ ?_; intro _)
    | (refine Sim.rel_bind _ _ _ _ _ _ (trace_rel _ _) ?_; intro _ _ _)
    | exact Sim.rel_pure _ _ _ rfl
    | (dsimp only; split)

theorem exec_lhu_arch (h : rv32i_hart) (insn : Nat) (p q si sr : Bool) :
    Sim.rel (fun a b => a.arch = b.arch)
      (({ h with show_instructions := si, show_registers := sr }).exec_lhu insn p)
      (h.exec_lhu insn q) := by
  unfold exec_lhu
  with_reducible repeat first
    | (refine Sim.rel_bind_same _ _ _ _ ?_; intro _)
    | (refine Sim.rel_bind _ _ _ _ _ _ (trace_rel _ _) ?_; intro _ _ _)
    | exact Sim.rel_pure _ _ _ rfl
    | (dsimp only; split)

theorem exec_lb_arch (h : rv32i_hart) (insn : Nat) (p q si sr : Bool) :
    Sim.rel (fun a b => a.arch = b.arch)
      (({ h with show_instructions := si, show_registers := sr }).exec_lb insn p)
      (h.exec_lb insn q) := by
  unfold exec_lb
  with_reducible repeat first
    | (refine Sim.rel_bind_same _ _ _ _ ?_; intro _)
    | (refine Sim.rel_bind _ _ _ _ _ _ (trace_rel _ _) ?_; intro _ _ _)
    | exact Sim.rel_pure _ _ _ rfl
    | (dsimp only; split)

theorem exec_lh_arch (h : rv32i_hart) (insn : Nat) (p q si sr : Bool) :
    Sim.rel (fun a b => a.arch = b.arch)
      (({ h with show_instructions := si, show_registers := sr }).exec_lh insn p)
      (h.exec_lh insn q) := by
  unfold exec_lh
  with_reducible repeat first
    | (refine Sim.rel_bind_same _ _ _ _ ?_; intro _)
    | (refine Sim.rel_bind _ _ _ _ _ _ (trace_rel _ _) ?_; intro _ _ _)
    | exact Sim.rel_pure _ _ _ rfl
    | (dsimp only; split)

theorem exec_lw_arch (h : rv32i_hart) (insn : Nat) (p q si sr : Bool) :
    Sim.rel (fun a b => a.arch = b.arch)
      (({ h with show_instructions := si, show_registers := sr }).exec_lw insn p)
      (h.exec_lw insn q) := by
  unfold exec_lw
  with_reducible repeat first
    | (refine Sim.rel_bind_same _ _ _ _ ?_; intro _)
    | (refine Sim.rel_bind _ _ _ _ _ _ (trace_rel _ _) ?_; intro _ _ _)
    | exact Sim.rel_pure _ _ _ rfl
    | (dsimp only; split)

theorem exec_csrrs_arch (h : rv32i_hart) (insn : Nat) (p q si sr : Bool) :
    Sim.rel (fun a b => a.arch = b.arch)
      (({ h with show_instructions := si, show_registers := sr }).exec_csrrs insn p)
      (h.exec_csrrs insn q) := by
  unfold exec_csrrs
  dsimp only
  split
  all_goals
    with_reducible repeat first
      | (refine Sim.rel_bind_same _ _ _ _ ?_; intro _)
      | (refine Sim.rel_bind _ _ _ _ _ _ (trace_rel _ _) ?_; intro _ _ _)
      | exact Sim.rel_pure _ _ _ rfl

theorem exec_sb_arch (h : rv32i_hart) (insn : Nat) (p q si sr : Bool) :
    Sim.rel (fun a b => a.arch = b.arch)
      (({ h with show_instructions := si, show_registers := sr }).exec_sb insn p)
      (h.exec_sb insn q) := by
  unfold exec_sb
  with_reducible repeat first
    | (refine Sim.rel_bind_sat _ _ _ _ _ (Sim.wp_sat _ _ _ (memory.set8_wp _ _ _)) ?_; intro _ hm)
    | (refine Sim.rel_bind_same _ _ _ _ ?_; intro _)
    | (refine Sim.rel_bind _ _ _ _ _ _ (trace_rel _ _) ?_; intro _ _ _)
    | refine Sim.rel_ite_both _ _ _ _ _ _ _ ?_ ?_ ?_ ?_
    | (refine Sim.rel_skip_left _ _ _ _ (Sim.wp_imp _ _ _ _ _ (memory.get8_wp _ _)
          (fun e => absurd (hm.1 ▸ e) hm.2) (fun _ _ => trivial)) ?_; intro _)
    | (refine Sim.rel_skip_right _ _ _ _ (Sim.wp_imp _ _ _ _ _ (memory.get8_wp _ _)
          (fun e => absurd (hm.1 ▸ e) hm.2) (fun _ _ => trivial)) ?_; intro _)
    | exact Sim.rel_pure _ _ _ rfl

theorem exec_sh_arch (h : rv32i_hart) (insn : Nat) (p q si sr : Bool) :
    Sim.rel (fun a b => a.arch = b.arch)
      (({ h with show_instructions := si, show_registers := sr }).exec_sh insn p)
      (h.exec_sh insn q) := by
  unfold exec_sh
  with_reducible repeat first
    | (refine Sim.rel_bind_sat _ _ _ _ _ (Sim.wp_sat _ _ _ (memory.set16_wp _ _ _)) ?_; intro _ hm)
    | (refine Sim.rel_bind_same _ _ _ _ ?_; intro _)
    | (refine Sim.rel_bind _ _ _ _ _ _ (trace_rel _ _) ?_; intro _ _ _)
    | refine Sim.rel_ite_both _ _ _ _ _ _ _ ?_ ?_ ?_ ?_
    | (refine Sim.rel_skip_left _ _ _ _ (Sim.wp_imp _ _ _ _ _ (memory.get16_wp _ _)
          (fun e => absurd (hm.1 ▸ e) hm.2) (fun _ _ => trivial)) ?_; intro _)
    | (refine Sim.rel_skip_right _ _ _ _ (Sim.wp_imp _ _ _ _ _ (memory.get16_wp _ _)
          (fun e => absurd (hm.1 ▸ e) hm.2) (fun _ _ => trivial)) ?_; intro _)
    | exact Sim.rel_pure _ _ _ rfl

theorem exec_sw_arch (h : rv32i_hart) (insn : Nat) (p q si sr : Bool) :
    Sim.rel (fun a b => a.arch = b.arch)
      (({ h with show_instructions := si, show_registers := sr }).exec_sw insn p)
      (h.exec_sw insn q) := by
  unfold exec_sw
  with_reducible repeat first
    | (refine Sim.rel_bind_sat _ _ _ _ _ (Sim.wp_sat _ _ _ (memory.set32_wp _ _ _)) ?_; intro _ hm)
    | (refine Sim.rel_bind_same _ _ _ _ ?_; intro _)
    | (refine Sim.rel_bind _ _ _ _ _ _ (trace_rel _ _) ?_; intro _ _ _)
    | refine Sim.rel_ite_both _ _ _ _ _ _ _ ?_ ?_ ?_ ?_
    | (refine Sim.rel_skip_left _ _ _ _ (Sim.wp_imp _ _ _ _ _ (memory.get32_wp _ _)
          (fun e => absurd (hm.1 ▸ e) hm.2) (fun _ _ => trivial)) ?_; intro _)
    | (refine Sim.rel_skip_right _ _ _ _ (Sim.wp_imp _ _ _ _ _ (memory.get32_wp _ _)
          (fun e => absurd (hm.1 ▸ e) hm.2) (fun _ _ => trivial)) ?_; intro _)
    | exact Sim.rel_pure _ _ _ rfl

end rv32i_hart

namespace rv32i_hart

open rv32i_decode

set_option linter.unusedTactic false
set_option linter.unreachableTactic false

/-- Whatever the sink and the display switches, `exec` faults or returns alike, and returns
the same architectural state. -/
theorem exec_arch (h : rv32i_hart) (insn : Nat) (p q si sr : Bool) :
    Sim.rel (fun a b => a.arch = b.arch)
      (({ h with show_instructions := si, show_registers := sr }).exec insn p)
      (h.exec insn q) := by
  unfold exec
  dsimp only
  with_reducible repeat' first
    | refine Sim.rel_ite _ _ _ _ _ _ ?_ ?_
    | exact exec_illegal_insn_arch _ _ _ _ _
    | exact exec_ecall_arch _ _ _ _ _
    | exact exec_lui_arch _ _ _ _ _ _
    | exact exec_auipc_arch _ _ _ _ _ _
    | exact exec_jal_arch _ _ _ _ _ _
    | exact exec_jalr_arch _ _ _ _ _ _
    | exact exec_beq_arch _ _ _ _ _ _
    | exact exec_bne_arch _ _ _ _ _ _
    | exact exec_blt_arch _ _ _ _ _ _
    | exact exec_bge_arch _ _ _ _ _ _
    | exact exec_bltu_arch _ _ _ _ _ _
    | exact exec_bgeu_arch _ _ _ _ _ _
    | exact exec_addi_arch _ _ _ _ _ _
    | exact exec_slti_arch _ _ _ _ _ _
    | exact exec_sltiu_arch _ _ _ _ _ _
    | exact exec_xori_arch _ _ _ _ _ _
    | exact exec_ori_arch _ _ _ _ _ _
    | exact exec_andi_arch _ _ _ _ _ _
    | exact exec_slli_arch _ _ _ _ _ _
    | exact exec_srli_arch _ _ _ _ _ _
    | exact exec_srai_arch _ _ _ _ _ _
    | exact exec_add_arch _ _ _ _ _ _
    | exact exec_sub_arch _ _ _ _ _ _
    | exact exec_sll_arch _ _ _ _ _ _
    | exact exec_slt_arch _ _ _ _ _ _
    | exact exec_sltu_arch _ _ _ _ _ _
    | exact exec_xor_arch _ _ _ _ _ _
    | exact exec_srl_arch _ _ _ _ _ _
    | exact exec_sra_arch _ _ _ _ _ _
    | exact exec_or_arch _ _ _ _ _ _
    | exact exec_and_arch _ _ _ _ _ _
    | exact exec_csrrs_arch _ _ _ _ _ _
    | exact exec_lbu_arch _ _ _ _ _ _
    | exact exec_lhu_arch _ _ _ _ _ _
    | exact exec_lb_arch _ _ _ _ _ _
    | exact exec_lh_arch _ _ _ _ _ _
    | exact exec_lw_arch _ _ _ _ _ _
    | exact exec_sb_arch _ _ _ _ _ _
    | exact exec_sh_arch _ _ _ _ _ _
    | exact exec_sw_arch _ _ _ _ _ _
    | exact exec_ebreak_arch _ _ _ _ _ _

theorem Sim.rel_ite_left {α β : Type} (c : Prop) [Decidable c] (x₁ x₂ : Sim α) (y : Sim β)
    (R : α → β → Prop) (h₁ : Sim.rel R x₁ y) (h₂ : Sim.rel R x₂ y) :
    Sim.rel R (if c then x₁ else x₂) y := by
  split
  · exact h₁
  · exact h₂

theorem tick_tail_dump (a : rv32i_hart) (ha : a.regs.regVec.length = 32) :
    ∃ o, (do
      Sim.emit Out.endl
      if !a.halt then
        a.regs.dump
        Sim.emit (Out.pc_line a.pc)
      pure a : Sim rv32i_hart) = Except.ok (a, o) := by
  cases hh : a.halt <;>
    simp [Sim.bind_eq, Sim.emit, Sim.andThen, registerfile.dump, ha, Sim.pure_eq] <;>
    exact ⟨_, rfl⟩

theorem tick_tail_endl (a : rv32i_hart) :
    ∃ o, (do
      Sim.emit Out.endl
      pure a : Sim rv32i_hart) = Except.ok (a, o) :=
  ⟨_, rfl⟩

/-- Whatever the display switches, `tick` on a hart with 32 registers faults or returns like
the fetch followed by `exec` without a sink, with the same architectural state. -/
theorem tick_arch (h : rv32i_hart) (si sr : Bool) (hlen : h.regs.regVec.length = 32) :
    Sim.rel (fun a b => a.arch = b.arch)
      (({ h with show_instructions := si, show_registers := sr }).tick)
      (if h.pc % 4 != 0 then
        pure { h with halt := true, halt_reason := "PC alignment error" }
      else
        h.mem.get32 h.pc >>= fun w =>
          ({ h with insn_counter := (h.insn_counter + 1) % 18446744073709551616 }).exec w
            false) := by
  unfold tick
  dsimp only
  refine Sim.rel_ite _ _ _ _ _ _ (Sim.rel_pure _ _ _ rfl) ?_
  refine Sim.rel_bind_same _ _ _ _ ?_
  intro w
  refine Sim.rel_ite_left _ _ _ _ _ ?_ (Sim.rel_ite_left _ _ _ _ _ ?_ ?_)
  · exact Sim.rel_left _ _ _ _ (fun a => a.regs.regVec.length = 32)
      (exec_arch { h with insn_counter := (h.insn_counter + 1) % 18446744073709551616 }
        w true false si sr)
      (Sim.wp_sat _ _ _ (exec_wp _ w true hlen)) (fun a ha => tick_tail_dump a ha)
  · exact Sim.rel_left _ _ _ _ (fun _ => True)
      (exec_arch { h with insn_counter := (h.insn_counter + 1) % 18446744073709551616 }
        w true false si sr) (Sim.sat_true _) (fun a _ => tick_tail_endl a)
  · exact exec_arch { h with insn_counter := (h.insn_counter + 1) % 18446744073709551616 }
      w false false si sr

end rv32i_hart

/-- C33: `exec` with a trace sink and `exec` without one either both fault or both return,
with the same pc, registers, memory, instruction counter, halted flag and halt reason; and
on a hart with its 32 registers the same holds of `tick` under any two settings of
`show_instructions` and `show_registers`. -/
theorem rv32i_hart.trace_keeps_state (h : rv32i_hart) (insn : Nat) (si sr si' sr' : Bool)
    (hlen : h.regs.regVec.length = 32) :
    (h.exec insn true).value.map rv32i_hart.arch =
      (h.exec insn false).value.map rv32i_hart.arch ∧
    (({ h with show_instructions := si, show_registers := sr }).tick).value.map
        rv32i_hart.arch =
      (({ h with show_instructions := si', show_registers := sr' }).tick).value.map
        rv32i_hart.arch :=
  ⟨Sim.rel_value _ _ _ _
      (rv32i_hart.exec_arch h insn true false h.show_instructions h.show_registers),
    (Sim.rel_value _ _ _ _ (rv32i_hart.tick_arch h si sr hlen)).trans
      (Sim.rel_value _ _ _ _ (rv32i_hart.tick_arch h si' sr' hlen)).symm⟩

set_option maxRecDepth 100000 in
theorem rv32i_hart.trace_keeps_state_witness :
    scenario_addi.regs.regVec.length = 32 ∧
    (scenario_addi.exec 0x00500093 true).value.map rv32i_hart.arch =
      (scenario_addi.exec 0x00500093 false).value.map rv32i_hart.arch ∧
    (({ scenario_addi with show_instructions := true, show_registers := true }).tick).value.map
        rv32i_hart.arch =
      (({ scenario_addi with show_instructions := false,
                             show_registers := false }).tick).value.map rv32i_hart.arch :=
  ⟨by decide, rv32i_hart.trace_keeps_state scenario_addi 0x00500093 true true false false
    (by decide)⟩

/-! ## The run loop: what `run` prints when the budget is used up -/

namespace rv32i_hart

/-- A tick that leaves the hart running has counted one instruction. -/
theorem tick_counter (h : rv32i_hart) :
    Sim.sat h.tick (fun h' => h'.halt = false →
      h'.insn_counter = (h.insn_counter + 1) % 18446744073709551616) := by
  unfold tick
  split
  · exact Sim.sat_pure _ _ (fun c => Bool.noConfusion c)
  · dsimp only
    refine Sim.sat_bind _ _ _ _ (Sim.sat_true _) ?_
    intro getinsn _
    split
    · refine Sim.sat_bind _ _ _ _ (exec_kept _ _ _) ?_
      intro h₁ hk
      refine Sim.sat_bind _ _ _ _ (Sim.sat_true _) ?_
      intro _ _
      split
      · refine Sim.sat_bind _ _ _ _ (Sim.sat_true _) ?_
        intro _ _
        refine Sim.sat_bind _ _ _ _ (Sim.sat_true _) ?_
        intro _ _
        exact Sim.sat_pure _ _ (fun _ => hk.1)
      · refine Sim.sat_bind _ _ _ _ (Sim.sat_true _) ?_
        intro _ _
        exact Sim.sat_pure _ _ (fun _ => hk.1)
    · split
      · refine Sim.sat_bind _ _ _ _ (exec_kept _ _ _) ?_
        intro h₁ hk
        refine Sim.sat_bind _ _ _ _ (Sim.sat_true _) ?_
        intro _ _
        exact Sim.sat_pure _ _ (fun _ => hk.1)
      · exact Sim.sat_imp _ _ _ (exec_kept _ _ _) (fun h₁ hk _ => hk.1)

end rv32i_hart

namespace cpu_single_hart

theorem switch_off_fields (c : Prop) [Decidable c] (h : rv32i_hart) :
    (if c then h.set_show_registers false else h).insn_counter = h.insn_counter ∧
    (if c then h.set_show_registers false else h).halt = h.halt ∧
    (if c then h.set_show_registers false else h).halt_reason = h.halt_reason := by
  split <;> exact ⟨rfl, rfl, rfl⟩

/-- Ticks that leave the hart running have each counted one instruction. -/
theorem run_ticks_count (N : Nat) : ∀ (k lmt : Nat) (h s : rv32i_hart) (o : List Out),
    run_ticks N k lmt h = Except.ok (s, o) → s.halt = false →
    s.insn_counter = (h.insn_counter + k) % 18446744073709551616 ∨ k = 0 := by
  intro k
  induction k with
  | zero =>
    intro lmt h s o _ _
    exact Or.inr rfl
  | succ k ih =>
    intro lmt h s o hs hsf
    obtain ⟨_, hkeep⟩ := run_ticks_kept N (k + 1) lmt h s o hs
    have hf : h.halt = false := (hkeep hsf).2
    obtain ⟨h₁, o₁, o₂, ht, hr, _⟩ := run_ticks_step N k lmt h s o hf hs
    obtain ⟨e1, e2, _⟩ := switch_off_fields (lmt + 1 = N - 1) h₁
    obtain ⟨_, hkeep'⟩ := run_ticks_kept N k (lmt + 1) _ s o₂ hr
    have hf₁ : h₁.halt = false := by
      rw [← e2]
      exact (hkeep' hsf).2
    have hc₁ := rv32i_hart.tick_counter h h₁ o₁ ht hf₁
    left
    rcases ih (lmt + 1) _ s o₂ hr hsf with hc | hk0
    · rw [e1, hc₁] at hc
      rw [hc]
      omega
    · rw [hk0] at hr
      have e : (Except.ok (_, []) : Sim rv32i_hart) = Except.ok (s, o₂) := hr
      cases e
      rw [hk0, e1, hc₁]

theorem run_limited_loop_last_none (N fuel lmt : Nat) (h h₁ : rv32i_hart) (o₁ : List Out)
    (hN64 : N < 18446744073709551616) (hl : lmt + 1 = N)
    (hh : h.halt = false) (ht : h.tick = Except.ok (h₁, o₁))
    (hr : h₁.halt_reason = "none") :
    run_limited_loop N (fuel + 1) lmt h =
      Except.ok (some { h₁ with halt := true }, o₁ ++ [Out.executed h₁.insn_counter]) := by
  rw [run_limited_loop]
  have e1 : (lmt + 1) % 18446744073709551616 = N := by omega
  have e2 : (N == N - 1) = false := by
    have : N ≠ N - 1 := by omega
    simp [this]
  simp only [rv32i_hart.is_halted, hh, Bool.not_false, if_true, e1, e2, Bool.false_eq_true,
    if_false, beq_self_eq_true]
  refine Sim.bind_ok _ _ h₁ _ o₁ _ ht ?_
  simp [rv32i_hart.set_halt, rv32i_hart.get_halt_reason, rv32i_hart.get_insn_counter, hr,
    Sim.emit, Sim.bind_eq, Sim.andThen, Sim.pure_eq]

theorem run_limited_loop_of_ticks_none (N : Nat) (hN64 : N < 18446744073709551616) :
    ∀ (fuel lmt : Nat) (h s : rv32i_hart) (o : List Out), lmt + fuel + 1 = N →
    run_ticks N (fuel + 1) lmt h = Except.ok (s, o) → s.halt = false →
    s.halt_reason = "none" →
    run_limited_loop N (fuel + 1) lmt h =
      Except.ok (some { s with halt := true }, o ++ [Out.executed s.insn_counter]) := by
  intro fuel
  induction fuel with
  | zero =>
    intro lmt h s o hl hs hsf hsr
    obtain ⟨_, hkeep⟩ := run_ticks_kept N 1 lmt h s o hs
    have hf : h.halt = false := (hkeep hsf).2
    obtain ⟨h₁, o₁, o₂, ht, hr, ho⟩ := run_ticks_step N 0 lmt h s o hf hs
    have hne : ¬ (lmt + 1 = N - 1) := by omega
    rw [if_neg hne] at hr
    have e : (Except.ok (h₁, []) : Sim rv32i_hart) = Except.ok (s, o₂) := hr
    cases e
    rw [ho, List.append_nil]
    exact run_limited_loop_last_none N 0 lmt h _ o₁ hN64 (by omega) hf ht hsr
  | succ fuel ih =>
    intro lmt h s o hl hs hsf hsr
    obtain ⟨_, hkeep⟩ := run_ticks_kept N (fuel + 1 + 1) lmt h s o hs
    have hf : h.halt = false := (hkeep hsf).2
    obtain ⟨h₁, o₁, o₂, ht, hr, ho⟩ := run_ticks_step N (fuel + 1) lmt h s o hf hs
    have hloop := ih (lmt + 1) _ s o₂ (by omega) hr hsf hsr
    rw [ho, List.append_assoc]
    exact run_limited_loop_step N (fuel + 1) lmt h h₁ o₁ _ _ hN64 (by omega) hf ht hloop

end cpu_single_hart

/-- C35: for every budget `N` with `0 < N < 2^64` and every hart whose `N` ticks of the loop
of `run(N)` return with output `o` and leave the hart `s` not halted with halt reason
`"none"`: `run(N)` returns `s` with `halted = true`, and what it writes after the output
`o` of the ticks is the one line with the instruction count and nothing else (no
`Execution terminated` line); the count is the old count plus `N` (modulo `2^64`), so `N`
when the count was 0 as after `reset`. -/
theorem cpu_single_hart.run_budget_exhausted (h s : rv32i_hart) (N : Nat) (o : List Out)
    (hN : 0 < N) (hN64 : N < 18446744073709551616)
    (hs : cpu_single_hart.run_ticks N N 0 h = Except.ok (s, o))
    (hh : s.halt = false) (hr : s.halt_reason = "none") :
    cpu_single_hart.run h N N =
      Except.ok (some { s with halt := true }, o ++ [Out.executed s.insn_counter]) ∧
    s.insn_counter = (h.insn_counter + N) % 18446744073709551616 ∧
    (h.insn_counter = 0 → s.insn_counter = N) := by
  obtain ⟨fuel, rfl⟩ : ∃ fuel, N = fuel + 1 := ⟨N - 1, by omega⟩
  have hloop := cpu_single_hart.run_limited_loop_of_ticks_none (fuel + 1) hN64 fuel 0 h s o
    (by omega) hs hh hr
  have hrun : cpu_single_hart.run h (fuel + 1) (fuel + 1) =
      cpu_single_hart.run_limited_loop (fuel + 1) (fuel + 1) 0 h := by
    unfold cpu_single_hart.run
    have hne : (fuel + 1 == 0) = false := by simp
    simp only [hne, Bool.false_eq_true, if_false]
  have hc : s.insn_counter = (h.insn_counter + (fuel + 1)) % 18446744073709551616 := by
    rcases cpu_single_hart.run_ticks_count (fuel + 1) (fuel + 1) 0 h s o hs hh with hc | h0
    · exact hc
    · omega
  refine ⟨hrun.trans hloop, hc, fun h0 => ?_⟩
  rw [hc, h0]
  omega

set_option maxRecDepth 100000 in
theorem cpu_single_hart.run_budget_exhausted_witness :
    0 < 1 ∧ 1 < 18446744073709551616 ∧
    cpu_single_hart.run_ticks 1 1 0 scenario_addi = Except.ok (scenario_addi_after, []) ∧
    scenario_addi_after.halt = false ∧ scenario_addi_after.halt_reason = "none" ∧
    scenario_addi.insn_counter = 0 ∧
    cpu_single_hart.run scenario_addi 1 1 =
      Except.ok (some { scenario_addi_after with halt := true },
        [] ++ [Out.executed scenario_addi_after.insn_counter]) ∧
    scenario_addi_after.insn_counter = 1 :=
  ⟨by decide, by decide, scenario_addi_run_ticks, rfl, rfl, rfl,
    (cpu_single_hart.run_budget_exhausted scenario_addi scenario_addi_after 1 [] (by decide)
      (by decide) scenario_addi_run_ticks rfl rfl).1,
    (cpu_single_hart.run_budget_exhausted scenario_addi scenario_addi_after 1 [] (by decide)
      (by decide) scenario_addi_run_ticks rfl rfl).2.2 rfl⟩

/-! ## The run loop: a program that halts itself, and the budget 1 -/

set_option maxRecDepth 100000 in
theorem scenario_ecall_run_five :
    cpu_single_hart.run scenario_ecall 5 5 =
      Except.ok (some { scenario_ecall with insn_counter := 1, halt := true,
                                            halt_reason := "ECALL instruction" }, []) := by
  rfl

set_option maxRecDepth 100000 in
theorem scenario_ecall_run_unlimited :
    cpu_single_hart.run scenario_ecall 0 5 =
      Except.ok (some { scenario_ecall with insn_counter := 1, halt := true,
                                            halt_reason := "ECALL instruction" },
        [Out.terminated "ECALL instruction", Out.executed 1]) := by
  rfl

set_option maxRecDepth 100000 in
theorem scenario_ecall_run_one :
    cpu_single_hart.run scenario_ecall 1 5 =
      Except.ok (some { scenario_ecall with insn_counter := 1, halt := true,
                                            halt_reason := "ECALL instruction" },
        [Out.terminated "ECALL instruction", Out.executed 1]) := by
  rfl

/-- C31, the code at a failing input: the hart with `ecall` at pc 0 halts itself at its
first tick with reason `"ECALL instruction"`.  With the budget 5 `run` leaves its loop
through the loop condition and returns having written nothing, neither the
`Execution terminated` line nor the instruction count; with no budget (`run(0)`) and with
the budget 1, which the halting tick uses up, it writes both lines. -/
theorem cpu_single_hart.run_self_halt_silent :
    cpu_single_hart.run scenario_ecall 5 5 =
      Except.ok (some { scenario_ecall with insn_counter := 1, halt := true,
                                            halt_reason := "ECALL instruction" }, []) ∧
    cpu_single_hart.run scenario_ecall 0 5 =
      Except.ok (some { scenario_ecall with insn_counter := 1, halt := true,
                                            halt_reason := "ECALL instruction" },
        [Out.terminated "ECALL instruction", Out.executed 1]) ∧
    cpu_single_hart.run scenario_ecall 1 5 =
      Except.ok (some { scenario_ecall with insn_counter := 1, halt := true,
                                            halt_reason := "ECALL instruction" },
        [Out.terminated "ECALL instruction", Out.executed 1]) :=
  ⟨scenario_ecall_run_five, scenario_ecall_run_unlimited, scenario_ecall_run_one⟩

set_option maxRecDepth 100000 in
theorem scenario_show_run_one :
    ∃ s, cpu_single_hart.run scenario_show 1 1 =
      Except.ok (some s, [Out.trace, Out.endl,
        Out.register_dump ((scenario_show.regs.regVec).set 1 5), Out.pc_line 4,
        Out.executed 1]) ∧ s.show_registers = true :=
  ⟨_, rfl, rfl⟩

set_option maxRecDepth 100000 in
theorem scenario_show_run_two :
    ∃ s, cpu_single_hart.run scenario_show 2 2 =
      Except.ok (some s, [Out.trace, Out.endl,
        Out.register_dump ((scenario_show.regs.regVec).set 1 5), Out.pc_line 4,
        Out.trace, Out.endl, Out.executed 2]) ∧ s.show_registers = false :=
  ⟨_, rfl, rfl⟩

/-- C34, the code at a failing input: on the hart with two `addi` and both display switches
on, `run(1)` makes its only tick, the final one, with `show_registers` still on, and that
tick writes the register dump and the pc line; `show_registers` is not switched off at
all.  With the budget 2 the switch is turned off after the first tick and the final tick
writes no dump. -/
theorem cpu_single_hart.run_one_dumps :
    (∃ s, cpu_single_hart.run scenario_show 1 1 =
      Except.ok (some s, [Out.trace, Out.endl,
        Out.register_dump ((scenario_show.regs.regVec).set 1 5), Out.pc_line 4,
        Out.executed 1]) ∧ s.show_registers = true) ∧
    (∃ s, cpu_single_hart.run scenario_show 2 2 =
      Except.ok (some s, [Out.trace, Out.endl,
        Out.register_dump ((scenario_show.regs.regVec).set 1 5), Out.pc_line 4,
        Out.trace, Out.endl, Out.executed 2]) ∧ s.show_registers = false) :=
  ⟨scenario_show_run_one, scenario_show_run_two⟩

/-! ## Hart: the pc is a 32-bit word, and is not checked against the memory

Every executor stores a `uint32_t` in `pc`; none compares it with the size of the memory.
A pc above the memory is noticed by the fetch of the next tick, which reads 0. -/

theorem pc_jalr_word (z : Int) : u32 z &&& 0xfffffffe < 4294967296 :=
  Nat.lt_of_le_of_lt Nat.and_le_left (u32_lt z)

/-- A fetch above the memory: four warnings, and the word 0. -/
theorem memory.get32_above (m : memory) (a : Nat) (h : m.mem.length < a)
    (ha : a + 3 < 4294967296) :
    m.get32 a = Except.ok (0, [Out.warning a, Out.warning (a + 1), Out.warning (a + 2),
      Out.warning (a + 3)]) := by
  have e1 : (a + 1) % 4294967296 = a + 1 := Nat.mod_eq_of_lt (by omega)
  have e2 : (a + 2) % 4294967296 = a + 2 := Nat.mod_eq_of_lt (by omega)
  have e3 : (a + 2 + 1) % 4294967296 = a + 3 := Nat.mod_eq_of_lt (by omega)
  simp only [memory.get32, memory.get16, Sim.bind_eq, e1, e2, e3,
    memory.get8_above m a h, memory.get8_above m (a + 1) (by omega),
    memory.get8_above m (a + 2) (by omega), memory.get8_above m (a + 3) (by omega),
    Sim.andThen, Sim.pure_eq]
  rfl

namespace rv32i_hart

open rv32i_decode

set_option linter.unusedTactic false
set_option linter.unreachableTactic false

theorem exec_illegal_insn_word (h : rv32i_hart) (pos : Bool) (hp : h.pc < 4294967296) :
    Sim.sat (h.exec_illegal_insn pos) (fun h' => h'.pc < 4294967296) := by
  unfold exec_illegal_insn
  refine Sim.sat_bind _ _ _ _ (Sim.sat_true _) ?_
  intro _ _
  exact Sim.sat_pure _ _ hp

theorem exec_ebreak_word (h : rv32i_hart) (insn : Int) (pos : Bool) (hp : h.pc < 4294967296) :
    Sim.sat (h.exec_ebreak insn pos) (fun h' => h'.pc < 4294967296) := by
  unfold exec_ebreak
  refine Sim.sat_bind _ _ _ _ (Sim.sat_true _) ?_
  intro _ _
  exact Sim.sat_pure _ _ hp

theorem exec_ecall_word (h : rv32i_hart) (pos : Bool) (hp : h.pc < 4294967296) :
    Sim.sat (h.exec_ecall pos) (fun h' => h'.pc < 4294967296) := by
  unfold exec_ecall
  refine Sim.sat_bind _ _ _ _ (Sim.sat_true _) ?_
  intro _ _
  exact Sim.sat_pure _ _ hp

theorem exec_lui_word (h : rv32i_hart) (insn : Nat) (pos : Bool) (_hp : h.pc < 4294967296) :
    Sim.sat (h.exec_lui insn pos) (fun h' => h'.pc < 4294967296) := by
  unfold exec_lui
  with_reducible repeat first
    | (refine Sim.sat_bind _ _ _ _ (Sim.sat_true _) ?_; intro _ _)
    | exact Sim.sat_pure _ _ (u32_lt _)
    | exact Sim.sat_pure _ _ (pc_jalr_word _)
    | exact Sim.sat_pure _ _ (address_lt _)
    | (dsimp only; split)

theorem exec_auipc_word (h : rv32i_hart) (insn : Nat) (pos : Bool) (_hp : h.pc < 4294967296) :
    Sim.sat (h.exec_auipc insn pos) (fun h' => h'.pc < 4294967296) := by
  unfold exec_auipc
  with_reducible repeat first
    | (refine Sim.sat_bind _ _ _ _ (Sim.sat_true _) ?_; intro _ _)
    | exact Sim.sat_pure _ _ (u32_lt _)
    | exact Sim.sat_pure _ _ (pc_jalr_word _)
    | exact Sim.sat_pure _ _ (address_lt _)
    | (dsimp only; split)

theorem exec_jal_word (h : rv32i_hart) (insn : Nat) (pos : Bool) (_hp : h.pc < 4294967296) :
    Sim.sat (h.exec_jal insn pos) (fun h' => h'.pc < 4294967296) := by
  unfold exec_jal
  with_reducible repeat first
    | (refine Sim.sat_bind _ _ _ _ (Sim.sat_true _) ?_; intro _ _)
    | exact Sim.sat_pure _ _ (u32_lt _)
    | exact Sim.sat_pure _ _ (pc_jalr_word _)
    | exact Sim.sat_pure _ _ (address_lt _)
    | (dsimp only; split)

theorem exec_jalr_word (h : rv32i_hart) (insn : Nat) (pos : Bool) (_hp : h.pc < 4294967296) :
    Sim.sat (h.exec_jalr insn pos) (fun h' => h'.pc < 4294967296) := by
  unfold exec_jalr
  with_reducible repeat first
    | (refine Sim.sat_bind _ _ _ _ (Sim.sat_true _) ?_; intro _ _)
    | exact Sim.sat_pure _ _ (u32_lt _)
    | exact Sim.sat_pure _ _ (pc_jalr_word _)
    | exact Sim.sat_pure _ _ (address_lt _)
    | (dsimp only; split)

theorem exec_beq_word (h : rv32i_hart) (insn : Nat) (pos : Bool) (_hp : h.pc < 4294967296) :
    Sim.sat (h.exec_beq insn pos) (fun h' => h'.pc < 4294967296) := by
  unfold exec_beq
  with_reducible repeat first
    | (refine Sim.sat_bind _ _ _ _ (Sim.sat_true _) ?_; intro _ _)
    | exact Sim.sat_pure _ _ (u32_lt _)
    | exact Sim.sat_pure _ _ (pc_jalr_word _)
    | exact Sim.sat_pure _ _ (address_lt _)
    | (dsimp only; split)

theorem exec_bne_word (h : rv32i_hart) (insn : Nat) (pos : Bool) (_hp : h.pc < 4294967296) :
    Sim.sat (h.exec_bne insn pos) (fun h' => h'.pc < 4294967296) := by
  unfold exec_bne
  with_reducible repeat first
    | (refine Sim.sat_bind _ _ _ _ (Sim.sat_true _) ?_; intro _ _)
    | exact Sim.sat_pure _ _ (u32_lt _)
    | exact Sim.sat_pure _ _ (pc_jalr_word _)
    | exact Sim.sat_pure _ _ (address_lt _)
    | (dsimp only; split)

theorem exec_blt_word (h : rv32i_hart) (insn : Nat) (pos : Bool) (_hp : h.pc < 4294967296) :
    Sim.sat (h.exec_blt insn pos) (fun h' => h'.pc < 4294967296) := by
  unfold exec_blt
  with_reducible repeat first
    | (refine Sim.sat_bind _ _ _ _ (Sim.sat_true _) ?_; intro _ _)
    | exact Sim.sat_pure _ _ (u32_lt _)
    | exact Sim.sat_pure _ _ (pc_jalr_word _)
    | exact Sim.sat_pure _ _ (address_lt _)
    | (dsimp only; split)

theorem exec_bge_word (h : rv32i_hart) (insn : Nat) (pos : Bool) (_hp : h.pc < 4294967296) :
    Sim.sat (h.exec_bge insn pos) (fun h' => h'.pc < 4294967296) := by
  unfold exec_bge
  with_reducible repeat first
    | (refine Sim.sat_bind _ _ _ _ (Sim.sat_true _) ?_; intro _ _)
    | exact Sim.sat_pure _ _ (u32_lt _)
    | exact Sim.sat_pure _ _ (pc_jalr_word _)
    | exact Sim.sat_pure _ _ (address_lt _)
    | (dsimp only; split)

theorem exec_bltu_word (h : rv32i_hart) (insn : Nat) (pos : Bool) (_hp : h.pc < 4294967296) :
    Sim.sat (h.exec_bltu insn pos) (fun h' => h'.pc < 4294967296) := by
  unfold exec_bltu
  with_reducible repeat first
    | (refine Sim.sat_bind _ _ _ _ (Sim.sat_true _) ?_; intro _ _)
    | exact Sim.sat_pure _ _ (u32_lt _)
    | exact Sim.sat_pure _ _ (pc_jalr_word _)
    | exact Sim.sat_pure _ _ (address_lt _)
    | (dsimp only; split)

theorem exec_bgeu_word (h : rv32i_hart) (insn : Nat) (pos : Bool) (_hp : h.pc < 4294967296) :
    Sim.sat (h.exec_bgeu insn pos) (fun h' => h'.pc < 4294967296) := by
  unfold exec_bgeu
  with_reducible repeat first
    | (refine Sim.sat_bind _ _ _ _ (Sim.sat_true _) ?_; intro _ _)
    | exact Sim.sat_pure _ _ (u32_lt _)
    | exact Sim.sat_pure _ _ (pc_jalr_word _)
    | exact Sim.sat_pure _ _ (address_lt _)
    | (dsimp only; split)

theorem exec_addi_word (h : rv32i_hart) (insn : Nat) (pos : Bool) (_hp : h.pc < 4294967296) :
    Sim.sat (h.exec_addi insn pos) (fun h' => h'.pc < 4294967296) := by
  unfold exec_addi
  with_reducible repeat first
    | (refine Sim.sat_bind _ _ _ _ (Sim.sat_true _) ?_; intro _ _)
    | exact Sim.sat_pure _ _ (u32_lt _)
    | exact Sim.sat_pure _ _ (pc_jalr_word _)
    | exact Sim.sat_pure _ _ (address_lt _)
    | (dsimp only; split)

theorem exec_lbu_word (h : rv32i_hart) (insn : Nat) (pos : Bool) (_hp : h.pc < 4294967296) :
    Sim.sat (h.exec_lbu insn pos) (fun h' => h'.pc < 4294967296) := by
  unfold exec_lbu
  with_reducible repeat first
    | (refine Sim.sat_bind _ _ _ _ (Sim.sat_true _) ?_; intro _ _)
    | exact Sim.sat_pure _ _ (u32_lt _)
    | exact Sim.sat_pure _ _ (pc_jalr_word _)
    | exact Sim.sat_pure _ _ (address_lt _)
    | (dsimp only; split)

theorem exec_lhu_word (h : rv32i_hart) (insn : Nat) (pos : Bool) (_hp : h.pc < 4294967296) :
    Sim.sat (h.exec_lhu insn pos) (fun h' => h'.pc < 4294967296) := by
  unfold exec_lhu
  with_reducible repeat first
    | (refine Sim.sat_bind _ _ _ _ (Sim.sat_true _) ?_; intro _ _)
    | exact Sim.sat_pure _ _ (u32_lt _)
    | exact Sim.sat_pure _ _ (pc_jalr_word _)
    | exact Sim.sat_pure _ _ (address_lt _)
    | (dsimp only; split)

theorem exec_lb_word (h : rv32i_hart) (insn : Nat) (pos : Bool) (_hp : h.pc < 4294967296) :
    Sim.sat (h.exec_lb insn pos) (fun h' => h'.pc < 4294967296) := by
  unfold exec_lb
  with_reducible repeat first
    | (refine Sim.sat_bind _ _ _ _ (Sim.sat_true _) ?_; intro _ _)
    | exact Sim.sat_pure _ _ (u32_lt _)
    | exact Sim.sat_pure _ _ (pc_jalr_word _)
    | exact Sim.sat_pure _ _ (address_lt _)
    | (dsimp only; split)

theorem exec_lh_word (h : rv32i_hart) (insn : Nat) (pos : Bool) (_hp : h.pc < 4294967296) :
    Sim.sat (h.exec_lh insn pos) (fun h' => h'.pc < 4294967296) := by
  unfold exec_lh
  with_reducible repeat first
    | (refine Sim.sat_bind _ _ _ _ (Sim.sat_true _) ?_; intro _ _)
    | exact Sim.sat_pure _ _ (u32_lt _)
    | exact Sim.sat_pure _ _ (pc_jalr_word _)
    | exact Sim.sat_pure _ _ (address_lt _)
    | (dsimp only; split)

theorem exec_lw_word (h : rv32i_hart) (insn : Nat) (pos : Bool) (_hp : h.pc < 4294967296) :
    Sim.sat (h.exec_lw insn pos) (fun h' => h'.pc < 4294967296) := by
  unfold exec_lw
  with_reducible repeat first
    | (refine Sim.sat_bind _ _ _ _ (Sim.sat_true _) ?_; intro _ _)
    | exact Sim.sat_pure _ _ (u32_lt _)
    | exact Sim.sat_pure _ _ (pc_jalr_word _)
    | exact Sim.sat_pure _ _ (address_lt _)
    | (dsimp only; split)

theorem exec_sb_word (h : rv32i_hart) (insn : Nat) (pos : Bool) (_hp : h.pc < 4294967296) :
    Sim.sat (h.exec_sb insn pos) (fun h' => h'.pc < 4294967296) := by
  unfold exec_sb
  with_reducible repeat first
    | (refine Sim.sat_bind _ _ _ _ (Sim.sat_true _) ?_; intro _ _)
    | exact Sim.sat_pure _ _ (u32_lt _)
    | exact Sim.sat_pure _ _ (pc_jalr_word _)
    | exact Sim.sat_pure _ _ (address_lt _)
    | (dsimp only; split)

theorem exec_sh_word (h : rv32i_hart) (insn : Nat) (pos : Bool) (_hp : h.pc < 4294967296) :
    Sim.sat (h.exec_sh insn pos) (fun h' => h'.pc < 4294967296) := by
  unfold exec_sh
  with_reducible repeat first
    | (refine Sim.sat_bind _ _ _ _ (Sim.sat_true _) ?_; intro _ _)
    | exact Sim.sat_pure _ _ (u32_lt _)
    | exact Sim.sat_pure _ _ (pc_jalr_word _)
    | exact Sim.sat_pure _ _ (address_lt _)
    | (dsimp only; split)

theorem exec_sw_word (h : rv32i_hart) (insn : Nat) (pos : Bool) (_hp : h.pc < 4294967296) :
    Sim.sat (h.exec_sw insn pos) (fun h' => h'.pc < 4294967296) := by
  unfold exec_sw
  with_reducible repeat first
    | (refine Sim.sat_bind _ _ _ _ (Sim.sat_true _) ?_; intro _ _)
    | exact Sim.sat_pure _ _ (u32_lt _)
    | exact Sim.sat_pure _ _ (pc_jalr_word _)
    | exact Sim.sat_pure _ _ (address_lt _)
    | (dsimp only; split)

theorem exec_slti_word (h : rv32i_hart) (insn : Nat) (pos : Bool) (_hp : h.pc < 4294967296) :
    Sim.sat (h.exec_slti insn pos) (fun h' => h'.pc < 4294967296) := by
  unfold exec_slti
  with_reducible repeat first
    | (refine Sim.sat_bind _ _ _ _ (Sim.sat_true _) ?_; intro _ _)
    | exact Sim.sat_pure _ _ (u32_lt _)
    | exact Sim.sat_pure _ _ (pc_jalr_word _)
    | exact Sim.sat_pure _ _ (address_lt _)
    | (dsimp only; split)

theorem exec_sltiu_word (h : rv32i_hart) (insn : Nat) (pos : Bool) (_hp : h.pc < 4294967296) :
    Sim.sat (h.exec_sltiu insn pos) (fun h' => h'.pc < 4294967296) := by
  unfold exec_sltiu
  with_reducible repeat first
    | (refine Sim.sat_bind _ _ _ _ (Sim.sat_true _) ?_; intro _ _)
    | exact Sim.sat_pure _ _ (u32_lt _)
    | exact Sim.sat_pure _ _ (pc_jalr_word _)
    | exact Sim.sat_pure _ _ (address_lt _)
    | (dsimp only; split)

theorem exec_xori_word (h : rv32i_hart) (insn : Nat) (pos : Bool) (_hp : h.pc < 4294967296) :
    Sim.sat (h.exec_xori insn pos) (fun h' => h'.pc < 4294967296) := by
  unfold exec_xori
  with_reducible repeat first
    | (refine Sim.sat_bind _ _ _ _ (Sim.sat_true _) ?_; intro _ _)
    | exact Sim.sat_pure _ _ (u32_lt _)
    | exact Sim.sat_pure _ _ (pc_jalr_word _)
    | exact Sim.sat_pure _ _ (address_lt _)
    | (dsimp only; split)

theorem exec_ori_word (h : rv32i_hart) (insn : Nat) (pos : Bool) (_hp : h.pc < 4294967296) :
    Sim.sat (h.exec_ori insn pos) (fun h' => h'.pc < 4294967296) := by
  unfold exec_ori
  with_reducible repeat first
    | (refine Sim.sat_bind _ _ _ _ (Sim.sat_true _) ?_; intro _ _)
    | exact Sim.sat_pure _ _ (u32_lt _)
    | exact Sim.sat_pure _ _ (pc_jalr_word _)
    | exact Sim.sat_pure _ _ (address_lt _)
    | (dsimp only; split)

theorem exec_andi_word (h : rv32i_hart) (insn : Nat) (pos : Bool) (_hp : h.pc < 4294967296) :
    Sim.sat (h.exec_andi insn pos) (fun h' => h'.pc < 4294967296) := by
  unfold exec_andi
  with_reducible repeat first
    | (refine Sim.sat_bind _ _ _ _ (Sim.sat_true _) ?_; intro _ _)
    | exact Sim.sat_pure _ _ (u32_lt _)
    | exact Sim.sat_pure _ _ (pc_jalr_word _)
    | exact Sim.sat_pure _ _ (address_lt _)
    | (dsimp only; split)

theorem exec_slli_word (h : rv32i_hart) (insn : Nat) (pos : Bool) (_hp : h.pc < 4294967296) :
    Sim.sat (h.exec_slli insn pos) (fun h' => h'.pc < 4294967296) := by
  unfold exec_slli
  with_reducible repeat first
    | (refine Sim.sat_bind _ _ _ _ (Sim.sat_true _) ?_; intro _ _)
    | exact Sim.sat_pure _ _ (u32_lt _)
    | exact Sim.sat_pure _ _ (pc_jalr_word _)
    | exact Sim.sat_pure _ _ (address_lt _)
    | (dsimp only; split)

theorem exec_srli_word (h : rv32i_hart) (insn : Nat) (pos : Bool) (_hp : h.pc < 4294967296) :
    Sim.sat (h.exec_srli insn pos) (fun h' => h'.pc < 4294967296) := by
  unfold exec_srli
  with_reducible repeat first
    | (refine Sim.sat_bind _ _ _ _ (Sim.sat_true _) ?_; intro _ _)
    | exact Sim.sat_pure _ _ (u32_lt _)
    | exact Sim.sat_pure _ _ (pc_jalr_word _)
    | exact Sim.sat_pure _ _ (address_lt _)
    | (dsimp only; split)

theorem exec_srai_word (h : rv32i_hart) (insn : Nat) (pos : Bool) (_hp : h.pc < 4294967296) :
    Sim.sat (h.exec_srai insn pos) (fun h' => h'.pc < 4294967296) := by
  unfold exec_srai
  with_reducible repeat first
    | (refine Sim.sat_bind _ _ _ _ (Sim.sat_true _) ?_; intro _ _)
    | exact Sim.sat_pure _ _ (u32_lt _)
    | exact Sim.sat_pure _ _ (pc_jalr_word _)
    | exact Sim.sat_pure _ _ (address_lt _)
    | (dsimp only; split)

theorem exec_add_word (h : rv32i_hart) (insn : Nat) (pos : Bool) (_hp : h.pc < 4294967296) :
    Sim.sat (h.exec_add insn pos) (fun h' => h'.pc < 4294967296) := by
  unfold exec_add
  with_reducible repeat first
    | (refine Sim.sat_bind _ _ _ _ (Sim.sat_true _) ?_; intro _ _)
    | exact Sim.sat_pure _ _ (u32_lt _)
    | exact Sim.sat_pure _ _ (pc_jalr_word _)
    | exact Sim.sat_pure _ _ (address_lt _)
    | (dsimp only; split)

theorem exec_sub_word (h : rv32i_hart) (insn : Nat) (pos : Bool) (_hp : h.pc < 4294967296) :
    Sim.sat (h.exec_sub insn pos) (fun h' => h'.pc < 4294967296) := by
  unfold exec_sub
  with_reducible repeat first
    | (refine Sim.sat_bind _ _ _ _ (Sim.sat_true _) ?_; intro _ _)
    | exact Sim.sat_pure _ _ (u32_lt _)
    | exact Sim.sat_pure _ _ (pc_jalr_word _)
    | exact Sim.sat_pure _ _ (address_lt _)
    | (dsimp only; split)

theorem exec_sll_word (h : rv32i_hart) (insn : Nat) (pos : Bool) (_hp : h.pc < 4294967296) :
    Sim.sat (h.exec_sll insn pos) (fun h' => h'.pc < 4294967296) := by
  unfold exec_sll
  with_reducible repeat first
    | (refine Sim.sat_bind _ _ _ _ (Sim.sat_true _) ?_; intro _ _)
    | exact Sim.sat_pure _ _ (u32_lt _)
    | exact Sim.sat_pure _ _ (pc_jalr_word _)
    | exact Sim.sat_pure _ _ (address_lt _)
    | (dsimp only; split)

theorem exec_slt_word (h : rv32i_hart) (insn : Nat) (pos : Bool) (_hp : h.pc < 4294967296) :
    Sim.sat (h.exec_slt insn pos) (fun h' => h'.pc < 4294967296) := by
  unfold exec_slt
  with_reducible repeat first
    | (refine Sim.sat_bind _ _ _ _ (Sim.sat_true _) ?_; intro _ _)
    | exact Sim.sat_pure _ _ (u32_lt _)
    | exact Sim.sat_pure _ _ (pc_jalr_word _)
    | exact Sim.sat_pure _ _ (address_lt _)
    | (dsimp only; split)

theorem exec_sltu_word (h : rv32i_hart) (insn : Nat) (pos : Bool) (_hp : h.pc < 4294967296) :
    Sim.sat (h.exec_sltu insn pos) (fun h' => h'.pc < 4294967296) := by
  unfold exec_sltu
  with_reducible repeat first
    | (refine Sim.sat_bind _ _ _ _ (Sim.sat_true _) ?_; intro _ _)
    | exact Sim.sat_pure _ _ (u32_lt _)
    | exact Sim.sat_pure _ _ (pc_jalr_word _)
    | exact Sim.sat_pure _ _ (address_lt _)
    | (dsimp only; split)

theorem exec_xor_word (h : rv32i_hart) (insn : Nat) (pos : Bool) (_hp : h.pc < 4294967296) :
    Sim.sat (h.exec_xor insn pos) (fun h' => h'.pc < 4294967296) := by
  unfold exec_xor
  with_reducible repeat first
    | (refine Sim.sat_bind _ _ _ _ (Sim.sat_true _) ?_; intro _ _)
    | exact Sim.sat_pure _ _ (u32_lt _)
    | exact Sim.sat_pure _ _ (pc_jalr_word _)
    | exact Sim.sat_pure _ _ (address_lt _)
    | (dsimp only; split)

theorem exec_srl_word (h : rv32i_hart) (insn : Nat) (pos : Bool) (_hp : h.pc < 4294967296) :
    Sim.sat (h.exec_srl insn pos) (fun h' => h'.pc < 4294967296) := by
  unfold exec_srl
  with_reducible repeat first
    | (refine Sim.sat_bind _ _ _ _ (Sim.sat_true _) ?_; intro _ _)
    | exact Sim.sat_pure _ _ (u32_lt _)
    | exact Sim.sat_pure _ _ (pc_jalr_word _)
    | exact Sim.sat_pure _ _ (address_lt _)
    | (dsimp only; split)

theorem exec_sra_word (h : rv32i_hart) (insn : Nat) (pos : Bool) (_hp : h.pc < 4294967296) :
    Sim.sat (h.exec_sra insn pos) (fun h' => h'.pc < 4294967296) := by
  unfold exec_sra
  with_reducible repeat first
    | (refine Sim.sat_bind _ _ _ _ (Sim.sat_true _) ?_; intro _ _)
    | exact Sim.sat_pure _ _ (u32_lt _)
    | exact Sim.sat_pure _ _ (pc_jalr_word _)
    | exact Sim.sat_pure _ _ (address_lt _)
    | (dsimp only; split)

theorem exec_or_word (h : rv32i_hart) (insn : Nat) (pos : Bool) (_hp : h.pc < 4294967296) :
    Sim.sat (h.exec_or insn pos) (fun h' => h'.pc < 4294967296) := by
  unfold exec_or
  with_reducible repeat first
    | (refine Sim.sat_bind _ _ _ _ (Sim.sat_true _) ?_; intro _ _)
    | exact Sim.sat_pure _ _ (u32_lt _)
    | exact Sim.sat_pure _ _ (pc_jalr_word _)
    | exact Sim.sat_pure _ _ (address_lt _)
    | (dsimp only; split)

theorem exec_and_word (h : rv32i_hart) (insn : Nat) (pos : Bool) (_hp : h.pc < 4294967296) :
    Sim.sat (h.exec_and insn pos) (fun h' => h'.pc < 4294967296) := by
  unfold exec_and
  with_reducible repeat first
    | (refine Sim.sat_bind _ _ _ _ (Sim.sat_true _) ?_; intro _ _)
    | exact Sim.sat_pure _ _ (u32_lt _)
    | exact Sim.sat_pure _ _ (pc_jalr_word _)
    | exact Sim.sat_pure _ _ (address_lt _)
    | (dsimp only; split)

theorem exec_csrrs_word (h : rv32i_hart) (insn : Nat) (pos : Bool) (_hp : h.pc < 4294967296) :
    Sim.sat (h.exec_csrrs insn pos) (fun h' => h'.pc < 4294967296) := by
  unfold exec_csrrs
  dsimp only
  split
  all_goals
    with_reducible repeat first
      | (refine Sim.sat_bind _ _ _ _ (Sim.sat_true _) ?_; intro _ _)
      | exact Sim.sat_pure _ _ (address_lt _)

theorem exec_word (h : rv32i_hart) (insn : Nat) (pos : Bool) (hp : h.pc < 4294967296) :
    Sim.sat (h.exec insn pos) (fun h' => h'.pc < 4294967296) := by
  unfold exec
  dsimp only
  with_reducible repeat' first
    | refine Sim.sat_ite _ _ _ _ ?_ ?_
    | exact exec_illegal_insn_word _ _ hp
    | exact exec_ebreak_word _ _ _ hp
    | exact exec_ecall_word _ _ hp
    | exact exec_lui_word _ _ _ hp
    | exact exec_auipc_word _ _ _ hp
    | exact exec_jal_word _ _ _ hp
    | exact exec_jalr_word _ _ _ hp
    | exact exec_beq_word _ _ _ hp
    | exact exec_bne_word _ _ _ hp
    | exact exec_blt_word _ _ _ hp
    | exact exec_bge_word _ _ _ hp
    | exact exec_bltu_word _ _ _ hp
    | exact exec_bgeu_word _ _ _ hp
    | exact exec_addi_word _ _ _ hp
    | exact exec_lbu_word _ _ _ hp
    | exact exec_lhu_word _ _ _ hp
    | exact exec_lb_word _ _ _ hp
    | exact exec_lh_word _ _ _ hp
    | exact exec_lw_word _ _ _ hp
    | exact exec_sb_word _ _ _ hp
    | exact exec_sh_word _ _ _ hp
    | exact exec_sw_word _ _ _ hp
    | exact exec_slti_word _ _ _ hp
    | exact exec_sltiu_word _ _ _ hp
    | exact exec_xori_word _ _ _ hp
    | exact exec_ori_word _ _ _ hp
    | exact exec_andi_word _ _ _ hp
    | exact exec_slli_word _ _ _ hp
    | exact exec_srli_word _ _ _ hp
    | exact exec_srai_word _ _ _ hp
    | exact exec_add_word _ _ _ hp
    | exact exec_sub_word _ _ _ hp
    | exact exec_sll_word _ _ _ hp
    | exact exec_slt_word _ _ _ hp
    | exact exec_sltu_word _ _ _ hp
    | exact exec_xor_word _ _ _ hp
    | exact exec_srl_word _ _ _ hp
    | exact exec_sra_word _ _ _ hp
    | exact exec_or_word _ _ _ hp
    | exact exec_and_word _ _ _ hp
    | exact exec_csrrs_word _ _ _ hp

theorem tick_word (h : rv32i_hart) (hp : h.pc < 4294967296) :
    Sim.sat h.tick (fun h' => h'.pc < 4294967296) := by
  unfold tick
  split
  · exact Sim.sat_pure _ _ hp
  · dsimp only
    refine Sim.sat_bind _ _ _ _ (Sim.sat_true _) ?_
    intro getinsn _
    split
    · refine Sim.sat_bind _ _ _ _ (exec_word _ _ _ hp) ?_
      intro h₁ hh₁
      refine Sim.sat_bind _ _ _ _ (Sim.sat_true _) ?_
      intro _ _
      split
      · refine Sim.sat_bind _ _ _ _ (Sim.sat_true _) ?_
        intro _ _
        refine Sim.sat_bind _ _ _ _ (Sim.sat_true _) ?_
        intro _ _
        exact Sim.sat_pure _ _ hh₁
      · refine Sim.sat_bind _ _ _ _ (Sim.sat_true _) ?_
        intro _ _
        exact Sim.sat_pure _ _ hh₁
    · split
      · refine Sim.sat_bind _ _ _ _ (exec_word _ _ _ hp) ?_
        intro h₁ hh₁
        refine Sim.sat_bind _ _ _ _ (Sim.sat_true _) ?_
        intro _ _
        exact Sim.sat_pure _ _ hh₁
      · exact exec_word _ _ _ hp


end rv32i_hart

set_option maxRecDepth 100000 in
theorem scenario_jal_reset : scenario_jal.reset = Except.ok (scenario_jal, []) := by
  rfl

set_option maxRecDepth 100000 in
theorem scenario_jal_tick :
    scenario_jal.ticks 1 =
      Except.ok ({ scenario_jal with pc := 0x200, insn_counter := 1 }, []) := by
  rfl

set_option maxRecDepth 100000 in
theorem scenario_jal_size : scenario_jal.mem.get_size = 0x100 := by
  rfl

set_option maxRecDepth 100000 in
theorem scenario_jal_length : scenario_jal.mem.mem.length = 0x100 := by
  rfl

theorem scenario_jal_outside : ¬ ((0x200 : Nat) + 3 < scenario_jal.mem.get_size) := by
  rw [scenario_jal_size]
  decide

theorem scenario_jal_above : scenario_jal.mem.mem.length < 0x200 := by
  rw [scenario_jal_length]
  decide

/-- C32, a counterexample: the hart that `reset` returns with `jal x0, 0x200` at address 0
and a memory of `0x100` bytes is, after one tick, not halted and has `pc = 0x200`, for
which `pc + 3 < size` fails. -/
theorem rv32i_hart.pc_out_of_range_running :
    ∃ s, scenario_jal.reset = Except.ok (scenario_jal, []) ∧
      scenario_jal.ticks 1 = Except.ok (s, []) ∧ s.halt = false ∧ s.pc = 0x200 ∧
      s.mem.get_size = 0x100 ∧ ¬ (s.pc + 3 < s.mem.get_size) :=
  ⟨_, scenario_jal_reset, scenario_jal_tick, rfl, rfl, scenario_jal_size, scenario_jal_outside⟩

/-- C32, amended: in every state `s` reached from a state `reset` returns by any number of
ticks the pc is a 32-bit word, and nothing more is checked; when it is a multiple of 4
above the size of the memory, the fetch of the next tick reads the word 0 with four
warnings and that tick halts the hart with `"Illegal instruction"`, the pc unchanged. -/
theorem rv32i_hart.pc_unchecked (h₀ r s : rv32i_hart) (n : Nat) (o o' : List Out)
    (hr : h₀.reset = Except.ok (r, o)) (ht : r.ticks n = Except.ok (s, o')) :
    s.pc < 4294967296 ∧
    (s.pc % 4 = 0 → s.mem.mem.length < s.pc →
      s.mem.get32 s.pc = Except.ok (0, [Out.warning s.pc, Out.warning (s.pc + 1),
        Out.warning (s.pc + 2), Out.warning (s.pc + 3)]) ∧
      ∃ out, s.tick = Except.ok
        ({ s with insn_counter := (s.insn_counter + 1) % 18446744073709551616, halt := true,
                  halt_reason := "Illegal instruction" }, out)) := by
  obtain ⟨hp, _⟩ := rv32i_hart.reset_sat h₀ r o hr
  have h0 : r.pc < 4294967296 := by
    rw [hp]
    decide
  have hw := rv32i_hart.ticks_sat _ rv32i_hart.tick_word n r h0 s o' ht
  refine ⟨hw, fun hpc hout => ?_⟩
  have hfetch := memory.get32_above s.mem s.pc hout (by omega)
  refine ⟨hfetch, ?_⟩
  have hrej : rv32i_hart.exec_rejects 0 = true := by decide
  exact rv32i_hart.tick_of_exec s _ 0 _ hpc hfetch
    (fun pos => ⟨_, by rw [rv32i_hart.exec_of_rejects _ 0 pos hrej,
      rv32i_hart.exec_illegal_insn_eq]⟩)
    (fun hf => Bool.noConfusion hf)

set_option maxRecDepth 100000 in
theorem rv32i_hart.pc_unchecked_witness :
    scenario_jal.reset = Except.ok (scenario_jal, []) ∧
    scenario_jal.ticks 1 =
      Except.ok ({ scenario_jal with pc := 0x200, insn_counter := 1 }, []) ∧
    ∃ out, ({ scenario_jal with pc := 0x200, insn_counter := 1 } : rv32i_hart).tick =
      Except.ok ({ scenario_jal with pc := 0x200, insn_counter := 2, halt := true,
                                     halt_reason := "Illegal instruction" }, out) :=
  ⟨scenario_jal_reset, scenario_jal_tick,
    ((rv32i_hart.pc_unchecked scenario_jal scenario_jal
      { scenario_jal with pc := 0x200, insn_counter := 1 } 1 [] []
      scenario_jal_reset scenario_jal_tick).2 (by decide) scenario_jal_above).2⟩

namespace cpu_single_hart

/-- For a budget `N ≥ 2`: when the first `N - 1` ticks of the loop of `run(N)` leave the hart
running, `show_registers` is off in the state on which the final tick is made. -/
theorem run_ticks_switch_off (N : Nat) : ∀ (k lmt : Nat) (h s : rv32i_hart) (o : List Out),
    lmt + (k + 1) = N - 1 → run_ticks N (k + 1) lmt h = Except.ok (s, o) → s.halt = false →
    s.show_registers = false := by
  intro k
  induction k with
  | zero =>
    intro lmt h s o hl hs hsf
    obtain ⟨_, hkeep⟩ := run_ticks_kept N 1 lmt h s o hs
    have hf : h.halt = false := (hkeep hsf).2
    obtain ⟨h₁, o₁, o₂, _, hr, _⟩ := run_ticks_step N 0 lmt h s o hf hs
    have he : lmt + 1 = N - 1 := by omega
    rw [if_pos he] at hr
    have e : (Except.ok (h₁.set_show_registers false, []) : Sim rv32i_hart) =
        Except.ok (s, o₂) := hr
    cases e
    rfl
  | succ k ih =>
    intro lmt h s o hl hs hsf
    obtain ⟨_, hkeep⟩ := run_ticks_kept N (k + 1 + 1) lmt h s o hs
    have hf : h.halt = false := (hkeep hsf).2
    obtain ⟨h₁, o₁, o₂, _, hr, _⟩ := run_ticks_step N (k + 1) lmt h s o hf hs
    exact ih (lmt + 1) _ s o₂ (by omega) hr hsf

end cpu_single_hart

/-- With `show_registers` off, `tick` does not reach the register dump: it is the fetch
followed by `exec`, and the end of line when `show_instructions` is on. -/
theorem rv32i_hart.tick_without_dump (h : rv32i_hart) (hsr : h.show_registers = false) :
    h.tick =
      (if h.pc % 4 != 0 then
        pure { h with halt := true, halt_reason := "PC alignment error" }
      else do
        let w ← h.mem.get32 h.pc
        if h.show_instructions == true then
          let h' ←
            ({ h with insn_counter := (h.insn_counter + 1) % 18446744073709551616 }).exec w true
          Sim.emit Out.endl
          pure h'
        else
          ({ h with insn_counter := (h.insn_counter + 1) % 18446744073709551616 }).exec w
            false) := by
  unfold rv32i_hart.tick
  simp [hsr]

/-! ## Disassembly: the shift amount shown

`decode` shows `imm_i % XLEN`; the executors shift by `imm_i & 0x1f`.  The two are the same
number when `imm_i ≥ 0`, whichever way `XLEN` is declared, and for every `imm_i` when `XLEN`
is a `uint32_t`; for a negative `imm_i` and a signed `XLEN` the remainder is not positive. -/

/-- For a word with `imm_i ≥ 0` the amount shown, `imm_i % XLEN`, is the amount the
executors shift by, `imm_i & 0x1f`, under either declaration of `XLEN`. -/
theorem shown_shamt_of_nonneg (sg : Bool) (insn : Nat) (h : 0 ≤ get_imm_i insn) :
    shown_shamt sg (get_imm_i insn) = ↑(u32 (get_imm_i insn) &&& 0x0000001f) := by
  have e : u32 (get_imm_i insn) &&& 0x0000001f = u32 (get_imm_i insn) % 32 :=
    Nat.and_pow_two_sub_one_eq_mod _ 5
  rw [e]
  cases sg
  · simp only [shown_shamt, Bool.false_eq_true, if_false]
    unfold i32 XLEN
    omega
  · simp only [shown_shamt, if_true]
    rw [Int.tmod_eq_emod h (by decide)]
    unfold u32 XLEN
    omega

/-- With `XLEN` a `uint32_t` the amount shown is `imm_i & 0x1f` for every word. -/
theorem shown_shamt_unsigned (insn : Nat) :
    shown_shamt false (get_imm_i insn) = ↑(u32 (get_imm_i insn) &&& 0x0000001f) := by
  have e : u32 (get_imm_i insn) &&& 0x0000001f = u32 (get_imm_i insn) % 32 :=
    Nat.and_pow_two_sub_one_eq_mod _ 5
  rw [e]
  simp only [shown_shamt, Bool.false_eq_true, if_false]
  unfold i32 XLEN
  omega

/-- The word `0xfff11093` (opcode `0x13`, funct3 1, `imm_i = -1`): with a signed `XLEN` the
amount shown is `-1`, with a `uint32_t` `XLEN` it is 31, which is `imm_i & 0x1f`. -/
theorem shown_shamt_minus_one :
    get_opcode 0xfff11093 = 0x13 ∧ get_funct3 0xfff11093 = 1 ∧ get_imm_i 0xfff11093 = -1 ∧
    shown_shamt true (get_imm_i 0xfff11093) = -1 ∧
    shown_shamt false (get_imm_i 0xfff11093) = 31 ∧
    u32 (get_imm_i 0xfff11093) &&& 0x0000001f = 31 :=
  ⟨by decide, by decide, by decide, by decide, by decide, by decide⟩

set_option maxRecDepth 100000 in
/-- The executor shifts the word `0xfff11093` by 31: with `x2 = 1` the tick leaves
`x1 = 1 << 31`. -/
theorem scenario_slli_tick :
    ∃ s o, scenario_slli.tick = Except.ok (s, o) ∧
      s.regs.get 1 = Except.ok (i32 (1 * 2 ^ 31), []) := by
  exact ⟨_, _, rfl, rfl⟩

/-- A word with funct7 `0x00` or `0x20` (every `srli` and `srai` word) has `imm_i ≥ 0`. -/
theorem imm_i_nonneg_of_funct7 (insn : Nat)
    (h : get_funct7 insn = 0x00 ∨ get_funct7 insn = 0x20) : 0 ≤ get_imm_i insn := by
  rw [get_funct7_arith] at h
  rw [get_imm_i_arith]
  have hv : insn / 1048576 % 4096 < 2048 := by omega
  unfold spec_sx
  rw [if_pos (by norm_num; exact hv)]
  exact Int.ofNat_nonneg _

/-- For every `srli` and `srai` word the amount shown is `imm_i & 0x1f`, under either
declaration of `XLEN`. -/
theorem shown_shamt_srx (sg : Bool) (insn : Nat)
    (h : get_funct7 insn = 0x00 ∨ get_funct7 insn = 0x20) :
    shown_shamt sg (get_imm_i insn) = ↑(u32 (get_imm_i insn) &&& 0x0000001f) :=
  shown_shamt_of_nonneg sg insn (imm_i_nonneg_of_funct7 insn h)

namespace rv32i_hart

open rv32i_decode

theorem exec_of_slli (h : rv32i_hart) (insn : Nat) (pos : Bool) (hop : get_opcode insn = 0x13)
    (hf3 : get_funct3 insn = 1) : h.exec insn pos = h.exec_slli insn pos := by
  simp [exec, hop, hf3, opcode_lui, opcode_auipc, opcode_jal, opcode_jalr, opcode_rtype,
    opcode_btype, opcode_system, opcode_stype, opcode_alu_imm, funct3_add, funct3_sll]

theorem exec_slli_eq (h : rv32i_hart) (insn : Nat) (pos : Bool) (x : Int)
    (hlen : h.regs.regVec.length = 32)
    (hx : h.regs.get (get_rs1 insn) = Except.ok (x, [])) :
    h.exec_slli insn pos = Except.ok
      ({ h with
          regs := h.regs.write (get_rd insn)
            (i32 ↑(u32 (i32 (x * 2 ^ (u32 (get_imm_i insn) &&& 0x0000001f)))))
          pc := (h.pc + 4) % 4294967296 },
        trace_out pos) := by
  have hrd := get_rd_lt insn
  simp only [exec_slli, u32_i32_reg _ (get_rs1_lt insn), Sim.bind_eq, trace_eq, hx,
    registerfile.set_eq_write h.regs (get_rd insn) _ (by omega), Sim.andThen, Sim.pure_eq,
    List.append_nil, List.nil_append]

end rv32i_hart

/-- What `decode` returns for the three shift words. -/
theorem decode_of_shift (addr insn : Nat) (hop : get_opcode insn = 0x13) :
    (get_funct3 insn = 1 → decode addr insn =
      render_itype_alu insn "slli" (shown_shamt XLEN_signed (get_imm_i insn))) ∧
    (get_funct3 insn = 5 → get_funct7 insn = 0x00 → decode addr insn =
      render_itype_alu insn "srli" (shown_shamt XLEN_signed (get_imm_i insn))) ∧
    (get_funct3 insn = 5 → get_funct7 insn = 0x20 → decode addr insn =
      render_itype_alu insn "srai" (shown_shamt XLEN_signed (get_imm_i insn))) := by
  refine ⟨?_, ?_, ?_⟩
  · intro e
    simp [decode, hop, e, opcode_lui, opcode_auipc, opcode_jal, opcode_jalr, opcode_rtype,
      opcode_btype, opcode_system, opcode_stype, opcode_alu_imm, opcode_load_imm, funct3_add,
      funct3_sll]
  · intro e e7
    simp [decode, hop, e, e7, opcode_lui, opcode_auipc, opcode_jal, opcode_jalr, opcode_rtype,
      opcode_btype, opcode_system, opcode_stype, opcode_alu_imm, opcode_load_imm, funct3_add,
      funct3_sll, funct3_slt, funct3_sltu, funct3_xor, funct3_or, funct3_and, funct3_srx,
      funct7_sra, funct7_srl]
  · intro e e7
    simp [decode, hop, e, e7, opcode_lui, opcode_auipc, opcode_jal, opcode_jalr, opcode_rtype,
      opcode_btype, opcode_system, opcode_stype, opcode_alu_imm, opcode_load_imm, funct3_add,
      funct3_sll, funct3_slt, funct3_sltu, funct3_xor, funct3_or, funct3_and, funct3_srx,
      funct7_sra, funct7_srl]

theorem shamt_lt_32 (insn : Nat) : u32 (get_imm_i insn) &&& 0x0000001f < 32 := by
  have e : u32 (get_imm_i insn) &&& 0x0000001f = u32 (get_imm_i insn) % 32 :=
    Nat.and_pow_two_sub_one_eq_mod _ 5
  rw [e]
  omega

/-- For every ALU-imm shift word with `imm_i ≥ 0` (opcode `0x13` with funct3 1 and bit 31
clear, or funct3 5 with funct7 `0x00` or `0x20`) and every address, the last operand
`decode` renders is the decimal value of `imm_i & 0x1F`, a number in 0..31, and it is the
amount the executor shifts by: `slli` writes `x << s`, `srli` the logical and `srai` the
arithmetic shift `x >> s` of the value `x` of `rs1`, with `s = imm_i & 0x1F`.  The proof
does not use the declaration of `XLEN`. -/
theorem decode_shift_amount (h : rv32i_hart) (a w : Nat) (pos : Bool) (x : Int)
    (hop : get_opcode w = 0x13)
    (hw : (get_funct3 w = 1 ∧ 0 ≤ get_imm_i w) ∨
      (get_funct3 w = 5 ∧ (get_funct7 w = 0x00 ∨ get_funct7 w = 0x20)))
    (hlen : h.regs.regVec.length = 32)
    (hx : h.regs.get (get_rs1 w) = Except.ok (x, [])) :
    (∃ m, m ∈ ["slli", "srli", "srai"] ∧
      decode a w = render_mnemonic m ++ render_reg (i32 ↑(get_rd w)) ++ "," ++
        render_reg (i32 ↑(get_rs1 w)) ++ "," ++
        toString ((↑(u32 (get_imm_i w) &&& 0x0000001f) : Int))) ∧
    u32 (get_imm_i w) &&& 0x0000001f < 32 ∧
    h.exec w pos = Except.ok
      ({ h with
          regs := h.regs.write (get_rd w)
            (if get_funct3 w = 1 then
              i32 ↑(u32 (i32 (x * 2 ^ (u32 (get_imm_i w) &&& 0x0000001f))))
            else if get_funct7 w = 0x00 then
              i32 ↑(u32 x >>> (u32 (get_imm_i w) &&& 0x0000001f))
            else i32 ↑(u32 (x >>> (u32 (get_imm_i w) &&& 0x0000001f))))
          pc := (h.pc + 4) % 4294967296 },
        rv32i_hart.trace_out pos) := by
  obtain ⟨d1, d2, d3⟩ := decode_of_shift a w hop
  refine ⟨?_, shamt_lt_32 w, ?_⟩
  · rcases hw with ⟨hf3, hnn⟩ | ⟨hf3, hf7 | hf7⟩
    · refine ⟨"slli", by decide, ?_⟩
      rw [d1 hf3, shown_shamt_of_nonneg _ w hnn]
      rfl
    · refine ⟨"srli", by decide, ?_⟩
      rw [d2 hf3 hf7, shown_shamt_srx _ w (Or.inl hf7)]
      rfl
    · refine ⟨"srai", by decide, ?_⟩
      rw [d3 hf3 hf7, shown_shamt_srx _ w (Or.inr hf7)]
      rfl
  · rcases hw with ⟨hf3, _⟩ | ⟨hf3, hf7 | hf7⟩
    · rw [rv32i_hart.exec_of_slli h w pos hop hf3, rv32i_hart.exec_slli_eq h w pos x hlen hx,
        if_pos hf3]
    · have h1 : ¬ get_funct3 w = 1 := by omega
      rw [rv32i_hart.exec_of_srli h w pos hop hf3 hf7,
        rv32i_hart.exec_srli_eq h w pos x hlen hx, if_neg h1, if_pos hf7]
    · have h1 : ¬ get_funct3 w = 1 := by omega
      have h7 : ¬ get_funct7 w = 0x00 := by omega
      rw [rv32i_hart.exec_of_srai h w pos hop hf3 hf7,
        rv32i_hart.exec_srai_eq h w pos x hlen hx, if_neg h1, if_neg h7]

set_option maxRecDepth 100000 in
theorem decode_shift_amount_example :
    get_opcode 0x00311093 = 0x13 ∧ get_funct3 0x00311093 = 1 ∧ 0 ≤ get_imm_i 0x00311093 ∧
    decode 0 0x00311093 = "slli    x1,x2,3" ∧
    u32 (get_imm_i 0x00311093) &&& 0x0000001f = 3 :=
  ⟨by decide, by decide, by decide, by decide, by decide⟩

/-! ## The run loop: a store at the address `size` -/

set_option maxRecDepth 100000 in
theorem scenario_sw_reset : scenario_sw.reset = Except.ok (scenario_sw, []) := by
  rfl

set_option maxRecDepth 100000 in
theorem scenario_sw_fetch :
    scenario_sw.mem.get32 scenario_sw.pc = Except.ok (0x00012023, []) ∧
    scenario_sw.regs.get 2 = Except.ok (0x100, []) ∧ scenario_sw.mem.get_size = 0x100 := by
  exact ⟨rfl, rfl, rfl⟩

set_option maxRecDepth 100000 in
theorem scenario_sw_tick : scenario_sw.tick = Except.error Fault.out_of_range := by
  rfl

/-- When the first tick faults, `run(N)` has no result, whatever the budget `N > 0` and the
fuel. -/
theorem cpu_single_hart.run_of_tick_fault (h : rv32i_hart) (e : Fault) (N fuel : Nat)
    (hN : 0 < N) (hh : h.halt = false) (ht : h.tick = Except.error e) :
    cpu_single_hart.run h N (fuel + 1) = Except.error e := by
  have hne : (N == 0) = false := by
    have : N ≠ 0 := by omega
    simp [this]
  unfold cpu_single_hart.run
  simp only [hne, Bool.false_eq_true, if_false]
  rw [cpu_single_hart.run_limited_loop]
  simp only [rv32i_hart.is_halted, hh, Bool.not_false, if_true, Sim.bind_eq, ht, Sim.andThen]

/-- C30, the code at a failing input: the hart that `reset` returns with `sw x0, 0(x2)` at
address 0 is not halted, and `x2` holds the size `0x100` of its memory.  Its first tick
stores at the address `size`, where `memory::set8` passes `check_illegal` and `mem.at`
throws: the tick has no result, and neither has `run(1)` or `run(5)`, which therefore do
not return a halted hart. -/
theorem cpu_single_hart.run_store_at_size :
    scenario_sw.reset = Except.ok (scenario_sw, []) ∧ scenario_sw.halt = false ∧
    scenario_sw.mem.get32 scenario_sw.pc = Except.ok (0x00012023, []) ∧
    scenario_sw.regs.get 2 = Except.ok (0x100, []) ∧ scenario_sw.mem.get_size = 0x100 ∧
    scenario_sw.tick = Except.error Fault.out_of_range ∧
    cpu_single_hart.run scenario_sw 1 1 = Except.error Fault.out_of_range ∧
    cpu_single_hart.run scenario_sw 5 5 = Except.error Fault.out_of_range :=
  ⟨scenario_sw_reset, rfl, scenario_sw_fetch.1, scenario_sw_fetch.2.1, scenario_sw_fetch.2.2,
    scenario_sw_tick,
    cpu_single_hart.run_of_tick_fault scenario_sw _ 1 0 (by decide) rfl scenario_sw_tick,
    cpu_single_hart.run_of_tick_fault scenario_sw _ 5 4 (by decide) rfl scenario_sw_tick⟩

end RV32I
